import Mathlib

/-! go-ipmi: DCMI and PEF wire records and aggregation protocols.

A shallow embedding of the DCMI / PEF part of the go-ipmi client.

* Octets are natural numbers, octet sequences are lists; a Go `uint8` / `uint16`
  operation that can overflow carries an explicit `% 256` / `% 65536`.
* A Go method with a pointer receiver takes the receiver's state before the
  call and returns the state after the call together with the returned error
  (`none` is Go's `nil` error).
* `Run` is the outcome of running Go code: it returned, it panicked (index out
  of range, nil dereference), or the fuel given to a loop ran out while the
  loop was still running.
-/

namespace Ipmi

/-! ## Outcomes and errors -/

/-- Outcome of running a piece of Go code. -/
inductive Run (α : Type) where
  /-- The code returned a value. -/
  | ret : α → Run α
  /-- The run-time stopped the code: a panic (index or slice out of range, nil
  pointer dereference) or a fatal error (stack overflow). -/
  | panic : Run α
  /-- The fuel ran out while a loop was still iterating. -/
  | timeout : Run α
  deriving DecidableEq, Repr

/-- Sequencing of Go statements: a panic or an exhausted fuel ends the run. -/
def Run.bind {α β : Type} (x : Run α) (f : α → Run β) : Run β :=
  match x with
  | .ret a => f a
  | .panic => .panic
  | .timeout => .timeout

instance : Monad Run where
  pure := Run.ret
  bind := Run.bind

/-- The errors built in `errors.go`, and errors wrapped with `fmt.Errorf`. -/
inductive IpmiError where
  /-- The sentinel `ErrUnpackedDataTooShort`, carrying no lengths. -/
  | unpackedDataTooShort : IpmiError
  /-- The error of `ErrUnpackedDataTooShortWith(actual, expected)`. -/
  | unpackedDataTooShortWith (actual expected : Nat) : IpmiError
  /-- The error of `ErrNotEnoughDataWith(msg, actual, expected)`. -/
  | notEnoughDataWith (msg : String) (actual expected : Nat) : IpmiError
  /-- The error of `ErrDCMIGroupExtensionIdentificationMismatch(expected, actual)`. -/
  | dcmiGroupExtensionMismatch (expected actual : Nat) : IpmiError
  /-- An error made by `errors.New(msg)`. -/
  | new (msg : String) : IpmiError
  /-- An error made by `fmt.Errorf(msg + ", err: %s", err)`. -/
  | wrap (msg : String) (err : IpmiError) : IpmiError
  /-- A failure reported by the transport or by the controller's completion code. -/
  | exchange (code : Nat) : IpmiError
  deriving DecidableEq, Repr

/-- Go `ErrUnpackedDataTooShort` (errors.go). -/
def ErrUnpackedDataTooShort : IpmiError := .unpackedDataTooShort

/-- Go `ErrUnpackedDataTooShortWith` (errors.go). -/
def ErrUnpackedDataTooShortWith (actual expected : Nat) : IpmiError :=
  .unpackedDataTooShortWith actual expected

/-- Go `ErrNotEnoughDataWith` (errors.go). -/
def ErrNotEnoughDataWith (msg : String) (actual expected : Nat) : IpmiError :=
  .notEnoughDataWith msg actual expected

/-- Go `ErrDCMIGroupExtensionIdentificationMismatch` (errors.go). -/
def ErrDCMIGroupExtensionIdentificationMismatch (expected actual : Nat) : IpmiError :=
  .dcmiGroupExtensionMismatch expected actual

/-- Modelled from the spec: the constant `GroupExtensionDCMI`, declared outside the
given sources; the spec fixes the DCMI group extension marker to the octet 0xDC. -/
def GroupExtensionDCMI : Nat := 0xDC

/-- Go `CheckDCMIGroupExenstionMatch` (errors.go). -/
def CheckDCMIGroupExenstionMatch (grpExt : Nat) : Option IpmiError :=
  if grpExt ≠ GroupExtensionDCMI then
    some (ErrDCMIGroupExtensionIdentificationMismatch GroupExtensionDCMI grpExt)
  else
    none

/-- An octet sequence (Go `[]byte`). -/
abbrev Bytes := List Nat

/-- Go `data[i]`: panics when `i` is out of range. -/
def idx (data : Bytes) (i : Nat) : Run Nat :=
  match data[i]? with
  | some v => .ret v
  | none => .panic

/-- Go `data[lo:hi]`: panics unless `lo ≤ hi ≤ len(data)`. -/
def slice (data : Bytes) (lo hi : Nat) : Run Bytes :=
  if lo ≤ hi ∧ hi ≤ data.length then .ret ((data.drop lo).take (hi - lo)) else .panic

/-- Go `make([]byte, n)`: `n` zero octets. -/
def make (n : Nat) : Bytes := List.replicate n 0

/-! ## Bit and byte codec primitives

The helpers of this section are declared outside the given sources; they follow
section 4.1 of the specification. -/

/-- Modelled from the spec: `isBit0Set`, the single-bit test helper for bit 0. -/
def isBit0Set (b : Nat) : Bool := b &&& 0x01 == 0x01
/-- Modelled from the spec: `isBit1Set`, the single-bit test helper for bit 1. -/
def isBit1Set (b : Nat) : Bool := b &&& 0x02 == 0x02
/-- Modelled from the spec: `isBit2Set`, the single-bit test helper for bit 2. -/
def isBit2Set (b : Nat) : Bool := b &&& 0x04 == 0x04
/-- Modelled from the spec: `isBit3Set`, the single-bit test helper for bit 3. -/
def isBit3Set (b : Nat) : Bool := b &&& 0x08 == 0x08
/-- Modelled from the spec: `isBit4Set`, the single-bit test helper for bit 4. -/
def isBit4Set (b : Nat) : Bool := b &&& 0x10 == 0x10
/-- Modelled from the spec: `isBit5Set`, the single-bit test helper for bit 5. -/
def isBit5Set (b : Nat) : Bool := b &&& 0x20 == 0x20
/-- Modelled from the spec: `isBit6Set`, the single-bit test helper for bit 6. -/
def isBit6Set (b : Nat) : Bool := b &&& 0x40 == 0x40
/-- Modelled from the spec: `isBit7Set`, the single-bit test helper for bit 7. -/
def isBit7Set (b : Nat) : Bool := b &&& 0x80 == 0x80

/-- Modelled from the spec: `setBit0`, which sets bit 0 of an octet. -/
def setBit0 (b : Nat) : Nat := b ||| 0x01
/-- Modelled from the spec: `setBit1`, which sets bit 1 of an octet. -/
def setBit1 (b : Nat) : Nat := b ||| 0x02
/-- Modelled from the spec: `setBit2`, which sets bit 2 of an octet. -/
def setBit2 (b : Nat) : Nat := b ||| 0x04
/-- Modelled from the spec: `setBit3`, which sets bit 3 of an octet. -/
def setBit3 (b : Nat) : Nat := b ||| 0x08
/-- Modelled from the spec: `setBit4`, which sets bit 4 of an octet. -/
def setBit4 (b : Nat) : Nat := b ||| 0x10
/-- Modelled from the spec: `setBit5`, which sets bit 5 of an octet. -/
def setBit5 (b : Nat) : Nat := b ||| 0x20
/-- Modelled from the spec: `setBit6`, which sets bit 6 of an octet. -/
def setBit6 (b : Nat) : Nat := b ||| 0x40
/-- Modelled from the spec: `setBit7`, which sets bit 7 of an octet. -/
def setBit7 (b : Nat) : Nat := b ||| 0x80

/-- Modelled from the spec: `clearBit0`, which clears bit 0 of an octet. -/
def clearBit0 (b : Nat) : Nat := b &&& 0xFE
/-- Modelled from the spec: `clearBit1`, which clears bit 1 of an octet. -/
def clearBit1 (b : Nat) : Nat := b &&& 0xFD
/-- Modelled from the spec: `clearBit2`, which clears bit 2 of an octet. -/
def clearBit2 (b : Nat) : Nat := b &&& 0xFB
/-- Modelled from the spec: `clearBit3`, which clears bit 3 of an octet. -/
def clearBit3 (b : Nat) : Nat := b &&& 0xF7
/-- Modelled from the spec: `clearBit4`, which clears bit 4 of an octet. -/
def clearBit4 (b : Nat) : Nat := b &&& 0xEF
/-- Modelled from the spec: `clearBit5`, which clears bit 5 of an octet. -/
def clearBit5 (b : Nat) : Nat := b &&& 0xDF
/-- Modelled from the spec: `clearBit6`, which clears bit 6 of an octet. -/
def clearBit6 (b : Nat) : Nat := b &&& 0xBF
/-- Modelled from the spec: `clearBit7`, which clears bit 7 of an octet. -/
def clearBit7 (b : Nat) : Nat := b &&& 0x7F

/-- Modelled from the spec: `setOrClearBit0`, set bit 0 when `cond`, else clear it. -/
def setOrClearBit0 (b : Nat) (cond : Bool) : Nat := if cond then setBit0 b else clearBit0 b
/-- Modelled from the spec: `setOrClearBit1`, set bit 1 when `cond`, else clear it. -/
def setOrClearBit1 (b : Nat) (cond : Bool) : Nat := if cond then setBit1 b else clearBit1 b
/-- Modelled from the spec: `setOrClearBit2`, set bit 2 when `cond`, else clear it. -/
def setOrClearBit2 (b : Nat) (cond : Bool) : Nat := if cond then setBit2 b else clearBit2 b
/-- Modelled from the spec: `setOrClearBit3`, set bit 3 when `cond`, else clear it. -/
def setOrClearBit3 (b : Nat) (cond : Bool) : Nat := if cond then setBit3 b else clearBit3 b
/-- Modelled from the spec: `setOrClearBit4`, set bit 4 when `cond`, else clear it. -/
def setOrClearBit4 (b : Nat) (cond : Bool) : Nat := if cond then setBit4 b else clearBit4 b
/-- Modelled from the spec: `setOrClearBit5`, set bit 5 when `cond`, else clear it. -/
def setOrClearBit5 (b : Nat) (cond : Bool) : Nat := if cond then setBit5 b else clearBit5 b
/-- Modelled from the spec: `setOrClearBit6`, set bit 6 when `cond`, else clear it. -/
def setOrClearBit6 (b : Nat) (cond : Bool) : Nat := if cond then setBit6 b else clearBit6 b
/-- Modelled from the spec: `setOrClearBit7`, set bit 7 when `cond`, else clear it. -/
def setOrClearBit7 (b : Nat) (cond : Bool) : Nat := if cond then setBit7 b else clearBit7 b

/-- Modelled from the spec: `unpackUint8` (readU8), which returns the octet at
`off`, the next offset and no error, or fails when `off + 1 > len(msg)`; the
callers in the given sources discard the offset and the error. -/
def unpackUint8 (msg : Bytes) (off : Nat) : Nat × Nat × Option IpmiError :=
  if off + 1 > msg.length then (0, msg.length, some ErrUnpackedDataTooShort)
  else (msg.getD off 0, off + 1, none)

/-- Modelled from the spec: `unpackUint16L` (readU16LE), the little-endian 16-bit
value at `off`, failing when `off + 2 > len(msg)`. -/
def unpackUint16L (msg : Bytes) (off : Nat) : Nat × Nat × Option IpmiError :=
  if off + 2 > msg.length then (0, msg.length, some ErrUnpackedDataTooShort)
  else (msg.getD off 0 + 256 * msg.getD (off + 1) 0, off + 2, none)

/-- Modelled from the spec: `unpackUint32L` (readU32LE), the little-endian 32-bit
value at `off`, failing when `off + 4 > len(msg)`. -/
def unpackUint32L (msg : Bytes) (off : Nat) : Nat × Nat × Option IpmiError :=
  if off + 4 > msg.length then (0, msg.length, some ErrUnpackedDataTooShort)
  else (msg.getD off 0 + 256 * msg.getD (off + 1) 0 + 65536 * msg.getD (off + 2) 0
          + 16777216 * msg.getD (off + 3) 0, off + 4, none)

/-- Modelled from the spec: `unpackBytes` (readBytes), a copy of the `length`
octets at `off`, failing (with an empty result) when `off + length > len(msg)`. -/
def unpackBytes (msg : Bytes) (off length : Nat) : Bytes × Nat × Option IpmiError :=
  if off + length > msg.length then ([], off, some ErrUnpackedDataTooShort)
  else ((msg.drop off).take length, off + length, none)

/-- Overwrite the octets of `msg` from `off` on with `v` (Go `copy(msg[off:], v)`
when `v` fits). -/
def overwrite (msg : Bytes) (off : Nat) (v : Bytes) : Bytes :=
  msg.take off ++ v ++ msg.drop (off + v.length)

/-- Modelled from the spec: `packUint8` (writeU8), which writes one octet at `off`;
the only bounds check is against the capacity of the destination, and a write
that does not fit leaves the destination as it was. -/
def packUint8 (i : Nat) (msg : Bytes) (off : Nat) : Bytes :=
  if off + 1 > msg.length then msg else msg.set off i

/-- Modelled from the spec: `packUint16L` (writeU16LE), which writes a 16-bit value
little-endian at `off` when it fits in the destination. -/
def packUint16L (i : Nat) (msg : Bytes) (off : Nat) : Bytes :=
  if off + 2 > msg.length then msg
  else (msg.set off (i % 256)).set (off + 1) (i / 256 % 256)

/-- Modelled from the spec: `packUint32L` (writeU32LE), which writes a 32-bit value
little-endian at `off` when it fits in the destination. -/
def packUint32L (i : Nat) (msg : Bytes) (off : Nat) : Bytes :=
  if off + 4 > msg.length then msg
  else (((msg.set off (i % 256)).set (off + 1) (i / 256 % 256)).set (off + 2)
          (i / 65536 % 256)).set (off + 3) (i / 16777216 % 256)

/-- Modelled from the spec: `packBytes` (writeBytes), which copies `v` into the
destination at `off` when it fits in the destination. -/
def packBytes (v : Bytes) (msg : Bytes) (off : Nat) : Bytes :=
  if off + v.length > msg.length then msg else overwrite msg off v

/-! ## PEF records (types_pef.go) -/

/-- Go `PEFEventFilterType_Configurable`. -/
def PEFEventFilterType_Configurable : Nat := 0x00

/-- Go `PEFEventFilterType_PreConfigured`. -/
def PEFEventFilterType_PreConfigured : Nat := 0x10

/-- Go `PEFEventFilter` (17.7 Event Filter Table). The fields of type `uint8`
hold values below 256, those of type `uint16` values below 65536. -/
structure PEFEventFilter where
  FilterEnabled : Bool := false
  FilterType : Nat := 0
  ActionGroupControlOperation : Bool := false
  ActionDiagnosticInterrupt : Bool := false
  ActionOEM : Bool := false
  ActionPowerCycle : Bool := false
  ActionReset : Bool := false
  ActionPowerOff : Bool := false
  ActionAlert : Bool := false
  GroupControlSelector : Nat := 0
  AlertPolicyNumber : Nat := 0
  EventSeverity : Nat := 0
  GeneratorID : Nat := 0
  SensorType : Nat := 0
  SensorNumber : Nat := 0
  EventReadingType : Nat := 0
  EventData1EventOffsetMask : Nat := 0
  EventData1ANDMask : Nat := 0
  EventData1Compare1 : Nat := 0
  EventData1Compare2 : Nat := 0
  EventData2ANDMask : Nat := 0
  EventData2Compare1 : Nat := 0
  EventData2Compare2 : Nat := 0
  EventData3ANDMask : Nat := 0
  EventData3Compare1 : Nat := 0
  EventData3Compare2 : Nat := 0
  deriving DecidableEq, Repr

/-- Go `(*PEFEventFilter).Unpack`. Every field of the receiver is assigned
after the length check; the assignments are collected in one record. -/
def PEFEventFilter.Unpack (entry : PEFEventFilter) (data : Bytes) :
    Run (PEFEventFilter × Option IpmiError) :=
  if data.length < 20 then
    pure (entry, some (ErrUnpackedDataTooShortWith data.length 20))
  else do
    let b0 ← idx data 0
    let b1 ← idx data 1
    let b2 ← idx data 2
    let d3 ← idx data 3
    let generatorID := (unpackUint16L data 4).1
    let d6 ← idx data 6
    let d7 ← idx data 7
    let d8 ← idx data 8
    let eventData1 := (unpackUint16L data 9).1
    let d11 ← idx data 11
    let d12 ← idx data 12
    let d13 ← idx data 13
    let d14 ← idx data 14
    let d15 ← idx data 15
    let d16 ← idx data 16
    let d17 ← idx data 17
    let d18 ← idx data 18
    let d19 ← idx data 19
    pure ({ FilterEnabled := isBit7Set b0
            FilterType := (b0 >>> 5) &&& 0x03
            ActionGroupControlOperation := isBit6Set b1
            ActionDiagnosticInterrupt := isBit5Set b1
            ActionOEM := isBit4Set b1
            ActionPowerCycle := isBit3Set b1
            ActionReset := isBit2Set b1
            ActionPowerOff := isBit1Set b1
            ActionAlert := isBit0Set b1
            GroupControlSelector := (b2 >>> 4) &&& 0x07
            AlertPolicyNumber := b2 &&& 0x0f
            EventSeverity := d3
            GeneratorID := generatorID
            SensorType := d6
            SensorNumber := d7
            EventReadingType := d8
            EventData1EventOffsetMask := eventData1
            EventData1ANDMask := d11
            EventData1Compare1 := d12
            EventData1Compare2 := d13
            EventData2ANDMask := d14
            EventData2Compare1 := d15
            EventData2Compare2 := d16
            EventData3ANDMask := d17
            EventData3Compare1 := d18
            EventData3Compare2 := d19 }, none)

/-- Go `(*PEFEventFilter).Pack`. -/
def PEFEventFilter.Pack (entry : PEFEventFilter) : Bytes :=
  let out := make 20
  let b := (entry.FilterType <<< 5) % 256
  let b := setOrClearBit7 b entry.FilterEnabled
  let out := out.set 0 b
  let b := 0
  let b := setOrClearBit6 b entry.ActionGroupControlOperation
  let b := setOrClearBit5 b entry.ActionDiagnosticInterrupt
  let b := setOrClearBit4 b entry.ActionOEM
  let b := setOrClearBit3 b entry.ActionPowerCycle
  let b := setOrClearBit2 b entry.ActionReset
  let b := setOrClearBit1 b entry.ActionPowerOff
  let b := setOrClearBit0 b entry.ActionAlert
  let out := out.set 1 b
  let b := (entry.GroupControlSelector <<< 4) % 256
  let b := b ||| (entry.AlertPolicyNumber &&& 0x0f)
  let out := out.set 2 b
  let out := out.set 3 entry.EventSeverity
  let out := packUint16L entry.GeneratorID out 4
  let out := out.set 6 entry.SensorType
  let out := out.set 7 entry.SensorNumber
  let out := out.set 8 entry.EventReadingType
  let out := packUint16L entry.EventData1EventOffsetMask out 9
  let out := out.set 11 entry.EventData1ANDMask
  let out := out.set 12 entry.EventData1Compare1
  let out := out.set 13 entry.EventData1Compare2
  let out := out.set 14 entry.EventData2ANDMask
  let out := out.set 15 entry.EventData2Compare1
  let out := out.set 16 entry.EventData2Compare2
  let out := out.set 17 entry.EventData3ANDMask
  let out := out.set 18 entry.EventData3Compare1
  let out := out.set 19 entry.EventData3Compare2
  out

/-- Go `PEFAlertPolicy` (17.11 Alert Policy Table). -/
structure PEFAlertPolicy where
  PolicyNumber : Nat := 0
  PolicyEnabled : Bool := false
  PolicyAction : Nat := 0
  Channel : Nat := 0
  Destination : Nat := 0
  IsEventSpecific : Bool := false
  AlertStringKey : Nat := 0
  deriving DecidableEq, Repr

/-- Go `(*PEFAlertPolicy).Pack`. -/
def PEFAlertPolicy.Pack (entry : PEFAlertPolicy) : Bytes :=
  let out := make 3
  let b := entry.PolicyAction &&& 0x07
  let b := setOrClearBit3 b entry.PolicyEnabled
  let b := b ||| ((entry.PolicyNumber <<< 4) % 256)
  let out := out.set 0 b
  let b := entry.Destination &&& 0x0F
  let b := b ||| ((entry.Channel <<< 4) % 256)
  let out := out.set 1 b
  let b := entry.AlertStringKey &&& 0x7F
  let b := setOrClearBit7 b entry.IsEventSpecific
  let out := out.set 2 b
  out

/-- Go `(*PEFAlertPolicy).Unpack`. -/
def PEFAlertPolicy.Unpack (entry : PEFAlertPolicy) (data : Bytes) :
    Run (PEFAlertPolicy × Option IpmiError) :=
  if data.length < 3 then
    pure (entry, some (ErrUnpackedDataTooShortWith data.length 3))
  else do
    let d0 ← idx data 0
    let d1 ← idx data 1
    let d2 ← idx data 2
    pure ({ PolicyNumber := d0 >>> 4
            PolicyEnabled := isBit3Set d0
            PolicyAction := d0 &&& 0x07
            Channel := d1 >>> 4
            Destination := d1 &&& 0x0F
            IsEventSpecific := isBit7Set d2
            AlertStringKey := d2 &&& 0x7F }, none)

/-- Go `PEFEventFilterType`, a named `uint8` type. -/
abbrev PEFEventFilterType := Nat

/-- Go `fmt.Sprintf("%#02x", v)` for an operand that has a `String` method, given
the text `s` that method returned: with the verb `x` the text is written in
hexadecimal, `0x` followed by two lowercase digits for each octet. -/
def sprintfHex02 (s : String) : String :=
  "0x" ++ String.join (s.toUTF8.toList.map fun b =>
    (if b.toNat < 16 then "0" else "") ++ String.mk (Nat.toDigits 16 b.toNat))

/-- The nesting of calls that a goroutine stack has room for: the Go run-time
limits the stack to 1000000000 octets and every call takes at least one; a call
nested deeper ends the program with `fatal error: stack overflow`. -/
def maxCallDepth : Nat := 1000000000

/-- Go `(PEFEventFilterType).String` with room for `depth` nested calls on the
stack. The operand of `fmt.Sprintf("%#02x", filterType)` in the fallback has a
`String` method, and `x` is one of the verbs for which `fmt` calls that method:
the fallback calls `String` again, on the same value. -/
def PEFEventFilterType.String_nested : Nat → PEFEventFilterType → Run String
  | 0, _ => .panic
  | depth + 1, filterType =>
    if filterType = PEFEventFilterType_Configurable then .ret "Configurable"
    else if filterType = PEFEventFilterType_PreConfigured then .ret "Pre-Configured"
    else do
      let s ← PEFEventFilterType.String_nested depth filterType
      pure (sprintfHex02 s)

/-- Go `(PEFEventFilterType).String`: the name of a declared constant, else
`fmt.Sprintf("%#02x", filterType)`. -/
def PEFEventFilterType.String (filterType : PEFEventFilterType) : Run String :=
  PEFEventFilterType.String_nested maxCallDepth filterType

/-- Go `(PEFEventSeverity).String`: the name of a declared severity, else the
empty text. -/
def PEFEventSeverity.String (severity : Nat) : String :=
  if severity = 0x00 then "Unspecified"
  else if severity = 0x01 then "Monitor"
  else if severity = 0x02 then "Information"
  else if severity = 0x04 then "OK"
  else if severity = 0x08 then "Non-Critical"
  else if severity = 0x10 then "Critical"
  else if severity = 0x20 then "Non-Recoverable"
  else ""

/-- Go `(*PEFEventFilter).Format`: a `fmt.Sprintf` of the fields with the verb
`v`, which calls the `String` method of the operands that have one, the filter
type first. The text goes to the debug log only and is not modelled; what is
kept is whether the call returns. `PEFEventSeverity.String` returns for every
value; the `String` methods of `GeneratorID`, `SensorType`, `SensorNumber` and
`EventReadingType` are declared outside the given sources and taken to return. -/
def PEFEventFilter.Format (entry : PEFEventFilter) : Run Unit := do
  let _ ← PEFEventFilterType.String entry.FilterType
  let _ := PEFEventSeverity.String entry.EventSeverity
  pure ()

/-- Go `(PEFAlertPolicyAction).String`: the description of a declared action,
else "Unknown". -/
def PEFAlertPolicyAction.String (action : Nat) : String :=
  if action = 0 then "Always send alert to this destination"
  else if action = 1 then "If previous successful, skip this and continue (if configured)"
  else if action = 2 then "If previous successful, stop alerting further"
  else if action = 3 then
    "If previous successful, switch to another channel (if configured)"
  else if action = 4 then
    "If previous successful, switch to another destination (if configured)"
  else "Unknown"

/-- Go `(*PEFAlertPolicy).Format`: a `fmt.Sprintf` of the fields; the one operand
with a `String` method is the policy action, whose `String` returns for every
value. The text is not modelled. -/
def PEFAlertPolicy.Format (entry : PEFAlertPolicy) : Run Unit :=
  let _ := PEFAlertPolicyAction.String entry.PolicyAction
  pure ()

/-! ## PEF configuration parameters (types_pef_params.go) -/

/-- Go `out[i] = v` on a slice whose length is not fixed by the code: panics when
`i` is out of range. -/
def setIdx (out : Bytes) (i : Nat) (v : Nat) : Run Bytes :=
  if i < out.length then .ret (out.set i v) else .panic

/-- Go interface `PEFConfigParameter`: the selector, the decoder and the
formatter of a parameter record (the methods the aggregation uses). -/
class PEFConfigParameter (P : Type) where
  /-- Go method `PEFConfigParamSelector()`. -/
  PEFConfigParamSelector : Nat
  /-- Go method `Unpack(data []byte) error`. -/
  Unpack : P → Bytes → Run (P × Option IpmiError)
  /-- Go method `Format() string`; the text is not modelled, only whether the
  call returns. -/
  Format : P → Run Unit

/-- Go `PEFConfigParam_Control`. -/
structure PEFConfigParam_Control where
  EnablePEFAlertStartupDelay : Bool := false
  EnablePEFStartupDelay : Bool := false
  EnableEventMessage : Bool := false
  EnablePEF : Bool := false
  deriving DecidableEq, Repr

/-- Go `(*PEFConfigParam_Control).Unpack`. -/
def PEFConfigParam_Control.Unpack (param : PEFConfigParam_Control) (data : Bytes) :
    Run (PEFConfigParam_Control × Option IpmiError) :=
  if data.length < 1 then
    pure (param, some (ErrUnpackedDataTooShortWith data.length 1))
  else do
    let d0 ← idx data 0
    pure ({ EnablePEFAlertStartupDelay := isBit3Set d0
            EnablePEFStartupDelay := isBit2Set d0
            EnableEventMessage := isBit1Set d0
            EnablePEF := isBit0Set d0 }, none)

/-- Go `(*PEFConfigParam_Control).Pack`. -/
def PEFConfigParam_Control.Pack (param : PEFConfigParam_Control) : Bytes :=
  let b := 0x00
  let b := setOrClearBit3 b param.EnablePEFAlertStartupDelay
  let b := setOrClearBit2 b param.EnablePEFStartupDelay
  let b := setOrClearBit1 b param.EnableEventMessage
  let b := setOrClearBit0 b param.EnablePEF
  [b]

/-- Go `PEFConfigParam_ActionGlobalControl`. -/
structure PEFConfigParam_ActionGlobalControl where
  DiagnosticInterruptEnabled : Bool := false
  OEMActionEnabled : Bool := false
  PowerCycleActionEnabled : Bool := false
  ResetActionEnabled : Bool := false
  PowerDownActionEnabled : Bool := false
  AlertActionEnabled : Bool := false
  deriving DecidableEq, Repr

/-- Go `(*PEFConfigParam_ActionGlobalControl).Unpack`. -/
def PEFConfigParam_ActionGlobalControl.Unpack (param : PEFConfigParam_ActionGlobalControl)
    (data : Bytes) : Run (PEFConfigParam_ActionGlobalControl × Option IpmiError) :=
  if data.length < 1 then
    pure (param, some (ErrUnpackedDataTooShortWith data.length 1))
  else do
    let d0 ← idx data 0
    pure ({ DiagnosticInterruptEnabled := isBit5Set d0
            OEMActionEnabled := isBit4Set d0
            PowerCycleActionEnabled := isBit3Set d0
            ResetActionEnabled := isBit2Set d0
            PowerDownActionEnabled := isBit1Set d0
            AlertActionEnabled := isBit0Set d0 }, none)

/-- Go `(*PEFConfigParam_ActionGlobalControl).Pack`. -/
def PEFConfigParam_ActionGlobalControl.Pack (param : PEFConfigParam_ActionGlobalControl) :
    Bytes :=
  let b := 0x00
  let b := setOrClearBit5 b param.DiagnosticInterruptEnabled
  let b := setOrClearBit4 b param.OEMActionEnabled
  let b := setOrClearBit3 b param.PowerCycleActionEnabled
  let b := setOrClearBit2 b param.ResetActionEnabled
  let b := setOrClearBit1 b param.PowerDownActionEnabled
  let b := setOrClearBit0 b param.AlertActionEnabled
  [b]

/-- Go `PEFConfigParam_StartupDelay`. -/
structure PEFConfigParam_StartupDelay where
  DelaySec : Nat := 0
  deriving DecidableEq, Repr

/-- Go `(*PEFConfigParam_StartupDelay).Unpack`. -/
def PEFConfigParam_StartupDelay.Unpack (param : PEFConfigParam_StartupDelay) (data : Bytes) :
    Run (PEFConfigParam_StartupDelay × Option IpmiError) :=
  if data.length < 1 then
    pure (param, some (ErrUnpackedDataTooShortWith data.length 1))
  else do
    let d0 ← idx data 0
    pure ({ DelaySec := d0 }, none)

/-- Go `(*PEFConfigParam_StartupDelay).Pack`. -/
def PEFConfigParam_StartupDelay.Pack (param : PEFConfigParam_StartupDelay) : Bytes :=
  [param.DelaySec]

/-- Go `PEFConfigParam_AlertStartupDelay`. -/
structure PEFConfigParam_AlertStartupDelay where
  DelaySec : Nat := 0
  deriving DecidableEq, Repr

/-- Go `(*PEFConfigParam_AlertStartupDelay).Unpack`. -/
def PEFConfigParam_AlertStartupDelay.Unpack (param : PEFConfigParam_AlertStartupDelay)
    (data : Bytes) : Run (PEFConfigParam_AlertStartupDelay × Option IpmiError) :=
  if data.length < 1 then
    pure (param, some (ErrUnpackedDataTooShortWith data.length 1))
  else do
    let d0 ← idx data 0
    pure ({ DelaySec := d0 }, none)

/-- Go `(*PEFConfigParam_AlertStartupDelay).Pack`. -/
def PEFConfigParam_AlertStartupDelay.Pack (param : PEFConfigParam_AlertStartupDelay) : Bytes :=
  [param.DelaySec]

/-- Go `PEFConfigParam_NumberOfEventFilters`. -/
structure PEFConfigParam_NumberOfEventFilters where
  Value : Nat := 0
  deriving DecidableEq, Repr

/-- Go `(*PEFConfigParam_NumberOfEventFilters).Unpack`. -/
def PEFConfigParam_NumberOfEventFilters.Unpack (param : PEFConfigParam_NumberOfEventFilters)
    (data : Bytes) : Run (PEFConfigParam_NumberOfEventFilters × Option IpmiError) :=
  if data.length < 1 then
    pure (param, some (ErrUnpackedDataTooShortWith data.length 1))
  else do
    let d0 ← idx data 0
    pure ({ Value := d0 }, none)

/-- Go `(*PEFConfigParam_NumberOfEventFilters).Pack`. -/
def PEFConfigParam_NumberOfEventFilters.Pack (param : PEFConfigParam_NumberOfEventFilters) :
    Bytes :=
  [param.Value]

/-- Go `PEFConfigParam_EventFilter`; `Entry` is a pointer and may be nil. -/
structure PEFConfigParam_EventFilter where
  EntryNumber : Nat := 0
  Entry : Option PEFEventFilter := none
  deriving DecidableEq, Repr

/-- Go `(*PEFConfigParam_EventFilter).Unpack`. -/
def PEFConfigParam_EventFilter.Unpack (param : PEFConfigParam_EventFilter) (data : Bytes) :
    Run (PEFConfigParam_EventFilter × Option IpmiError) :=
  if data.length < 21 then
    pure (param, some (ErrUnpackedDataTooShortWith data.length 21))
  else do
    let d0 ← idx data 0
    let param := { param with EntryNumber := d0 }
    let sub ← slice data 1 21
    let (entry, err) ← PEFEventFilter.Unpack {} sub
    match err with
    | some e => pure (param, some (.wrap "unpack entry failed" e))
    | none => pure ({ param with Entry := some entry }, none)

/-- Go `(*PEFConfigParam_EventFilter).Pack`; a nil `Entry` is dereferenced by
`param.Entry.Pack()`. -/
def PEFConfigParam_EventFilter.Pack (param : PEFConfigParam_EventFilter) : Run Bytes :=
  match param.Entry with
  | none => .panic
  | some entry => do
    let entryData := entry.Pack
    let out := make entryData.length
    let out ← setIdx out 0 param.EntryNumber
    let out := packBytes entryData out 1
    pure out

/-- Go `PEFConfigParam_EventFilterData1`. -/
structure PEFConfigParam_EventFilterData1 where
  FilterNumber : Nat := 0
  Data1 : Nat := 0
  deriving DecidableEq, Repr

/-- Go `(*PEFConfigParam_EventFilterData1).Unpack`. -/
def PEFConfigParam_EventFilterData1.Unpack (param : PEFConfigParam_EventFilterData1)
    (data : Bytes) : Run (PEFConfigParam_EventFilterData1 × Option IpmiError) :=
  if data.length < 2 then
    pure (param, some (ErrUnpackedDataTooShortWith data.length 21))
  else do
    let d0 ← idx data 0
    let d1 ← idx data 1
    pure ({ FilterNumber := d0, Data1 := d1 }, none)

/-- Go `(*PEFConfigParam_EventFilterData1).Pack`. -/
def PEFConfigParam_EventFilterData1.Pack (param : PEFConfigParam_EventFilterData1) : Bytes :=
  let out := make 21
  let out := out.set 0 param.FilterNumber
  let out := out.set 1 param.Data1
  out

/-- Go `PEFConfigParam_NumberOfAlertPolicies`. -/
structure PEFConfigParam_NumberOfAlertPolicies where
  Value : Nat := 0
  deriving DecidableEq, Repr

/-- Go `(*PEFConfigParam_NumberOfAlertPolicies).Unpack`. -/
def PEFConfigParam_NumberOfAlertPolicies.Unpack (param : PEFConfigParam_NumberOfAlertPolicies)
    (data : Bytes) : Run (PEFConfigParam_NumberOfAlertPolicies × Option IpmiError) :=
  if data.length < 1 then
    pure (param, some (ErrUnpackedDataTooShortWith data.length 1))
  else do
    let d0 ← idx data 0
    pure ({ Value := d0 }, none)

/-- Go `(*PEFConfigParam_NumberOfAlertPolicies).Pack`. -/
def PEFConfigParam_NumberOfAlertPolicies.Pack (param : PEFConfigParam_NumberOfAlertPolicies) :
    Bytes :=
  [param.Value]

/-- Go `PEFConfigParam_AlertPolicy`; `Entry` is a pointer and may be nil. -/
structure PEFConfigParam_AlertPolicy where
  EntryNumber : Nat := 0
  Entry : Option PEFAlertPolicy := none
  deriving DecidableEq, Repr

/-- Go `(*PEFConfigParam_AlertPolicy).Unpack`. -/
def PEFConfigParam_AlertPolicy.Unpack (param : PEFConfigParam_AlertPolicy) (data : Bytes) :
    Run (PEFConfigParam_AlertPolicy × Option IpmiError) :=
  if data.length < 4 then
    pure (param, some (ErrUnpackedDataTooShortWith data.length 4))
  else do
    let d0 ← idx data 0
    let param := { param with EntryNumber := d0 }
    let sub ← slice data 1 data.length
    let (b, err) ← PEFAlertPolicy.Unpack {} sub
    match err with
    | some e => pure (param, some e)
    | none => pure ({ param with Entry := some b }, none)

/-- Go `(*PEFConfigParam_AlertPolicy).Pack`; a nil `Entry` is dereferenced by
`param.Entry.Pack()`. -/
def PEFConfigParam_AlertPolicy.Pack (param : PEFConfigParam_AlertPolicy) : Run Bytes :=
  match param.Entry with
  | none => .panic
  | some entry => do
    let entryData := entry.Pack
    let out := make (1 + entryData.length)
    let out ← setIdx out 0 param.EntryNumber
    let out := packBytes entryData out 1
    pure out

/-- Modelled from the spec: the helper `array16`, declared outside the given
sources, which turns a 16-octet slice into a 16-octet array (the GUID is carried
as "16 raw octets"). -/
def array16 (s : Bytes) : Bytes := (s ++ List.replicate 16 0).take 16

/-- Go `PEFConfigParam_SystemGUID`; `GUID` is a `[16]byte`. -/
structure PEFConfigParam_SystemGUID where
  UseGUID : Bool := false
  GUID : Bytes := List.replicate 16 0
  deriving DecidableEq, Repr

/-- Go `(*PEFConfigParam_SystemGUID).Unpack`. -/
def PEFConfigParam_SystemGUID.Unpack (param : PEFConfigParam_SystemGUID) (configData : Bytes) :
    Run (PEFConfigParam_SystemGUID × Option IpmiError) :=
  if configData.length < 17 then
    pure (param, some (ErrUnpackedDataTooShortWith configData.length 17))
  else do
    let d0 ← idx configData 0
    let sub ← slice configData 1 17
    pure ({ UseGUID := isBit0Set d0, GUID := array16 sub }, none)

/-- Go `(*PEFConfigParam_SystemGUID).Pack`. -/
def PEFConfigParam_SystemGUID.Pack (param : PEFConfigParam_SystemGUID) : Bytes :=
  let out := make 17
  let out := out.set 0 (setOrClearBit0 0x00 param.UseGUID)
  let out := overwrite out 1 (param.GUID.take 16)
  out

/-- Go `PEFConfigParam_NumberOfAlertStrings`. -/
structure PEFConfigParam_NumberOfAlertStrings where
  Value : Nat := 0
  deriving DecidableEq, Repr

/-- Go `(*PEFConfigParam_NumberOfAlertStrings).Unpack`. -/
def PEFConfigParam_NumberOfAlertStrings.Unpack (param : PEFConfigParam_NumberOfAlertStrings)
    (data : Bytes) : Run (PEFConfigParam_NumberOfAlertStrings × Option IpmiError) :=
  if data.length < 1 then
    pure (param, some (ErrUnpackedDataTooShortWith data.length 1))
  else do
    let d0 ← idx data 0
    pure ({ Value := d0 }, none)

/-- Go `(*PEFConfigParam_NumberOfAlertStrings).Pack`. -/
def PEFConfigParam_NumberOfAlertStrings.Pack (param : PEFConfigParam_NumberOfAlertStrings) :
    Bytes :=
  [param.Value]

/-- Go `PEFConfigParam_AlertStringKeys`. -/
structure PEFConfigParam_AlertStringKeys where
  AlertStringSelector : Nat := 0
  EventFilterNumber : Nat := 0
  AlertStringSet : Nat := 0
  deriving DecidableEq, Repr

/-- Go `(*PEFConfigParam_AlertStringKeys).Unpack`. -/
def PEFConfigParam_AlertStringKeys.Unpack (param : PEFConfigParam_AlertStringKeys)
    (data : Bytes) : Run (PEFConfigParam_AlertStringKeys × Option IpmiError) :=
  if data.length < 3 then
    pure (param, some (ErrUnpackedDataTooShortWith data.length 3))
  else do
    let d0 ← idx data 0
    let d1 ← idx data 1
    let d2 ← idx data 2
    pure ({ AlertStringSelector := d0, EventFilterNumber := d1, AlertStringSet := d2 }, none)

/-- Go `(*PEFConfigParam_AlertStringKeys).Pack`. -/
def PEFConfigParam_AlertStringKeys.Pack (param : PEFConfigParam_AlertStringKeys) : Bytes :=
  [param.AlertStringSelector, param.EventFilterNumber, param.AlertStringSet]

/-- Go `PEFConfigParam_AlertStrings`. -/
structure PEFConfigParam_AlertStrings where
  StringSelector : Nat := 0
  BlockSelector : Nat := 0
  StringData : Bytes := []
  deriving DecidableEq, Repr

/-- Go `(*PEFConfigParam_AlertStrings).Unpack`. -/
def PEFConfigParam_AlertStrings.Unpack (param : PEFConfigParam_AlertStrings) (data : Bytes) :
    Run (PEFConfigParam_AlertStrings × Option IpmiError) :=
  if data.length < 3 then
    pure (param, some (ErrUnpackedDataTooShortWith data.length 3))
  else do
    let d0 ← idx data 0
    let d1 ← idx data 1
    pure ({ StringSelector := d0
            BlockSelector := d1
            StringData := (unpackBytes data 2 (data.length - 2)).1 }, none)

/-- Go `(*PEFConfigParam_AlertStrings).Pack`. -/
def PEFConfigParam_AlertStrings.Pack (param : PEFConfigParam_AlertStrings) : Run Bytes := do
  let out := make (2 + param.StringData.length)
  let out ← setIdx out 0 param.StringSelector
  let out ← setIdx out 1 param.BlockSelector
  let out := packBytes param.StringData out 2
  pure out

/-- Go `PEFConfigParam_SetInProgress`, a named `uint8` type. -/
abbrev PEFConfigParam_SetInProgress := Nat

/-- Go `(*PEFConfigParam_SetInProgress).Unpack`. -/
def PEFConfigParam_SetInProgress.Unpack (param : PEFConfigParam_SetInProgress) (data : Bytes) :
    Run (PEFConfigParam_SetInProgress × Option IpmiError) :=
  if data.length < 1 then
    pure (param, some (ErrUnpackedDataTooShortWith data.length 1))
  else do
    let d0 ← idx data 0
    pure (d0, none)

/-- Go `(*PEFConfigParam_SetInProgress).Pack`. -/
def PEFConfigParam_SetInProgress.Pack (param : PEFConfigParam_SetInProgress) : Bytes :=
  [param]

/-- Go `PEFConfigParam_NumberOfGroupControlTableEntries`. -/
structure PEFConfigParam_NumberOfGroupControlTableEntries where
  Value : Nat := 0
  deriving DecidableEq, Repr

/-- Go `(*PEFConfigParam_NumberOfGroupControlTableEntries).Unpack`. -/
def PEFConfigParam_NumberOfGroupControlTableEntries.Unpack
    (param : PEFConfigParam_NumberOfGroupControlTableEntries) (data : Bytes) :
    Run (PEFConfigParam_NumberOfGroupControlTableEntries × Option IpmiError) :=
  if data.length < 1 then
    pure (param, some (ErrUnpackedDataTooShortWith data.length 1))
  else do
    let d0 ← idx data 0
    pure ({ Value := d0 }, none)

/-- Go `(*PEFConfigParam_NumberOfGroupControlTableEntries).Pack`. -/
def PEFConfigParam_NumberOfGroupControlTableEntries.Pack
    (param : PEFConfigParam_NumberOfGroupControlTableEntries) : Bytes :=
  [param.Value]

/-- Go `PEFConfigParam_GroupControlTable`; every numeric field is a `uint8`. -/
structure PEFConfigParam_GroupControlTable where
  EntrySelector : Nat := 0
  ForceControlOperation : Bool := false
  DelayedControl : Bool := false
  ChannelNumber : Nat := 0
  GroupID0 : Nat := 0
  MemberID0 : Nat := 0
  DisableMemberID0Check : Bool := false
  GroupID1 : Nat := 0
  MemberID1 : Nat := 0
  DisableMemberID1Check : Bool := false
  GroupID2 : Nat := 0
  MemberID2 : Nat := 0
  DisableMemberID2Check : Bool := false
  GroupID3 : Nat := 0
  MemberID3 : Nat := 0
  DisableMemberID3Check : Bool := false
  RetryCount : Nat := 0
  Operation : Nat := 0
  deriving DecidableEq, Repr

/-- Go `(*PEFConfigParam_GroupControlTable).Unpack`. -/
def PEFConfigParam_GroupControlTable.Unpack (param : PEFConfigParam_GroupControlTable)
    (data : Bytes) : Run (PEFConfigParam_GroupControlTable × Option IpmiError) :=
  if data.length < 11 then
    pure (param, some (ErrUnpackedDataTooShortWith data.length 11))
  else do
    let d0 ← idx data 0
    let d1 ← idx data 1
    let d2 ← idx data 2
    let d3 ← idx data 3
    let d4 ← idx data 4
    let d5 ← idx data 5
    let d6 ← idx data 6
    let d7 ← idx data 7
    let d8 ← idx data 8
    let d9 ← idx data 9
    let d10 ← idx data 10
    pure ({ EntrySelector := d0
            ForceControlOperation := isBit5Set d1
            DelayedControl := isBit4Set d1
            ChannelNumber := d1 &&& 0x0F
            GroupID0 := d2
            MemberID0 := d3 &&& 0x0F
            DisableMemberID0Check := isBit4Set d3
            GroupID1 := d4
            MemberID1 := d5 &&& 0x0F
            DisableMemberID1Check := isBit4Set d5
            GroupID2 := d6
            MemberID2 := d7 &&& 0x0F
            DisableMemberID2Check := isBit4Set d7
            GroupID3 := d8
            MemberID3 := d9 &&& 0x0F
            DisableMemberID3Check := isBit4Set d9
            RetryCount := (d10 &&& 0x7F) >>> 4
            Operation := d10 &&& 0x0F }, none)

/-- Go `(*PEFConfigParam_GroupControlTable).Pack`. -/
def PEFConfigParam_GroupControlTable.Pack (param : PEFConfigParam_GroupControlTable) : Bytes :=
  let out := make 11
  let out := out.set 0 param.EntrySelector
  let b := param.ChannelNumber &&& 0x0F
  let b := setOrClearBit5 b param.ForceControlOperation
  let b := setOrClearBit4 b param.DelayedControl
  let out := out.set 1 b
  let out := out.set 2 param.GroupID0
  let b := param.MemberID0 &&& 0x0F
  let b := setOrClearBit4 b param.DisableMemberID0Check
  let out := out.set 3 b
  let out := out.set 4 param.GroupID1
  let b := param.MemberID1 &&& 0x0F
  let b := setOrClearBit4 b param.DisableMemberID1Check
  let out := out.set 5 b
  let out := out.set 6 param.GroupID2
  let b := param.MemberID2 &&& 0x0F
  let b := setOrClearBit4 b param.DisableMemberID2Check
  let out := out.set 7 b
  let out := out.set 8 param.GroupID3
  let b := param.MemberID3 &&& 0x0F
  let b := setOrClearBit4 b param.DisableMemberID3Check
  let out := out.set 9 b
  let b := (param.RetryCount <<< 4) % 256
  let b := b ||| param.Operation
  let out := out.set 10 b
  out

/-- Go `PEFConfigParamSelector_SetInProgress`. -/
def PEFConfigParamSelector_SetInProgress : Nat := 0x00
/-- Go `PEFConfigParamSelector_NumberOfGroupControlTableEntries`. -/
def PEFConfigParamSelector_NumberOfGroupControlTableEntries : Nat := 0x0e
/-- Go `PEFConfigParamSelector_GroupControlTable`. -/
def PEFConfigParamSelector_GroupControlTable : Nat := 0x0f

/-- Go `PEFConfigParamSelector_Control`. -/
def PEFConfigParamSelector_Control : Nat := 0x01
/-- Go `PEFConfigParamSelector_ActionGlobalControl`. -/
def PEFConfigParamSelector_ActionGlobalControl : Nat := 0x02
/-- Go `PEFConfigParamSelector_StartupDelay`. -/
def PEFConfigParamSelector_StartupDelay : Nat := 0x03
/-- Go `PEFConfigParamSelector_AlertStartDelay`. -/
def PEFConfigParamSelector_AlertStartDelay : Nat := 0x04
/-- Go `PEFConfigParamSelector_NumberOfEventFilter`. -/
def PEFConfigParamSelector_NumberOfEventFilter : Nat := 0x05
/-- Go `PEFConfigParamSelector_EventFilter`. -/
def PEFConfigParamSelector_EventFilter : Nat := 0x06
/-- Go `PEFConfigParamSelector_EventFilterData1`. -/
def PEFConfigParamSelector_EventFilterData1 : Nat := 0x07
/-- Go `PEFConfigParamSelector_NumberOfAlertPolicyEntries`. -/
def PEFConfigParamSelector_NumberOfAlertPolicyEntries : Nat := 0x08
/-- Go `PEFConfigParamSelector_AlertPolicy`. -/
def PEFConfigParamSelector_AlertPolicy : Nat := 0x09
/-- Go `PEFConfigParamSelector_SystemGUID`. -/
def PEFConfigParamSelector_SystemGUID : Nat := 0x0a
/-- Go `PEFConfigParamSelector_NumberOfAlertStrings`. -/
def PEFConfigParamSelector_NumberOfAlertStrings : Nat := 0x0b
/-- Go `PEFConfigParamSelector_AlertStringKeys`. -/
def PEFConfigParamSelector_AlertStringKeys : Nat := 0x0c
/-- Go `PEFConfigParamSelector_AlertStrings`. -/
def PEFConfigParamSelector_AlertStrings : Nat := 0x0d

/-! ### The `Format` methods of the parameters `GetPEFConfig` reads

The text is not modelled, only whether the call returns. -/

/-- Go `(*PEFConfigParam_Control).Format`: a `fmt.Sprintf` of the four flags, each rendered
by `formatBool`; no operand has a `String` method. -/
def PEFConfigParam_Control.Format (_param : PEFConfigParam_Control) : Run Unit :=
  pure ()

/-- Go `(*PEFConfigParam_ActionGlobalControl).Format`: a `fmt.Sprintf` of the six flags,
each rendered by `formatBool`; no operand has a `String` method. -/
def PEFConfigParam_ActionGlobalControl.Format (_param : PEFConfigParam_ActionGlobalControl) : Run Unit :=
  pure ()

/-- Go `(*PEFConfigParam_StartupDelay).Format`: a `fmt.Sprintf` of the delay; no operand has
a `String` method. -/
def PEFConfigParam_StartupDelay.Format (_param : PEFConfigParam_StartupDelay) : Run Unit :=
  pure ()

/-- Go `(*PEFConfigParam_AlertStartupDelay).Format`: a `fmt.Sprintf` of the delay; no
operand has a `String` method. -/
def PEFConfigParam_AlertStartupDelay.Format (_param : PEFConfigParam_AlertStartupDelay) : Run Unit :=
  pure ()

/-- Go `(*PEFConfigParam_NumberOfEventFilters).Format`: a `fmt.Sprintf` of the count; no
operand has a `String` method. -/
def PEFConfigParam_NumberOfEventFilters.Format (_param : PEFConfigParam_NumberOfEventFilters) : Run Unit :=
  pure ()

/-- Go `(*PEFConfigParam_EventFilter).Format`: a `fmt.Sprintf` of the entry number and of
`param.Entry.Format()`, which is evaluated first and dereferences `Entry`. -/
def PEFConfigParam_EventFilter.Format (param : PEFConfigParam_EventFilter) : Run Unit :=
  match param.Entry with
  | none => .panic
  | some entry => do
    let _ ← PEFEventFilter.Format entry
    pure ()

/-- Go `(*PEFConfigParam_EventFilterData1).Format`: a `fmt.Sprintf` of the filter number and
the data octet; no operand has a `String` method. -/
def PEFConfigParam_EventFilterData1.Format (_param : PEFConfigParam_EventFilterData1) : Run Unit :=
  pure ()

/-- Go `(*PEFConfigParam_NumberOfAlertPolicies).Format`: a `fmt.Sprintf` of the count; no
operand has a `String` method. -/
def PEFConfigParam_NumberOfAlertPolicies.Format (_param : PEFConfigParam_NumberOfAlertPolicies) : Run Unit :=
  pure ()

/-- Go `(*PEFConfigParam_AlertPolicy).Format`: a `fmt.Sprintf` of the entry number and of
`param.Entry.Format()`, which is evaluated first and dereferences `Entry`. -/
def PEFConfigParam_AlertPolicy.Format (param : PEFConfigParam_AlertPolicy) : Run Unit :=
  match param.Entry with
  | none => .panic
  | some entry => do
    let _ ← PEFAlertPolicy.Format entry
    pure ()

/-- Go `(*PEFConfigParam_SystemGUID).Format`: a `fmt.Sprintf` of the flag and of the GUID
parsed by `ParseGUID`, or of the error of `ParseGUID`, which is declared outside the
given sources and taken to return; no operand has a `String` method. -/
def PEFConfigParam_SystemGUID.Format (_param : PEFConfigParam_SystemGUID) : Run Unit :=
  pure ()

/-- Go `(*PEFConfigParam_NumberOfAlertStrings).Format`: a `fmt.Sprintf` of the record; no
operand has a `String` method. -/
def PEFConfigParam_NumberOfAlertStrings.Format (_param : PEFConfigParam_NumberOfAlertStrings) : Run Unit :=
  pure ()

/-- Go `(*PEFConfigParam_AlertStringKeys).Format`: a `fmt.Sprintf` of the three numbers; no
operand has a `String` method. -/
def PEFConfigParam_AlertStringKeys.Format (_param : PEFConfigParam_AlertStringKeys) : Run Unit :=
  pure ()

/-- Go `(*PEFConfigParam_AlertStrings).Format`: a `fmt.Sprintf` of the two selectors and the
string data; no operand has a `String` method. -/
def PEFConfigParam_AlertStrings.Format (_param : PEFConfigParam_AlertStrings) : Run Unit :=
  pure ()

instance : PEFConfigParameter PEFConfigParam_Control :=
  ⟨PEFConfigParamSelector_Control, PEFConfigParam_Control.Unpack,
    PEFConfigParam_Control.Format⟩
instance : PEFConfigParameter PEFConfigParam_ActionGlobalControl :=
  ⟨PEFConfigParamSelector_ActionGlobalControl, PEFConfigParam_ActionGlobalControl.Unpack,
    PEFConfigParam_ActionGlobalControl.Format⟩
instance : PEFConfigParameter PEFConfigParam_StartupDelay :=
  ⟨PEFConfigParamSelector_StartupDelay, PEFConfigParam_StartupDelay.Unpack,
    PEFConfigParam_StartupDelay.Format⟩
instance : PEFConfigParameter PEFConfigParam_AlertStartupDelay :=
  ⟨PEFConfigParamSelector_AlertStartDelay, PEFConfigParam_AlertStartupDelay.Unpack,
    PEFConfigParam_AlertStartupDelay.Format⟩
instance : PEFConfigParameter PEFConfigParam_NumberOfEventFilters :=
  ⟨PEFConfigParamSelector_NumberOfEventFilter, PEFConfigParam_NumberOfEventFilters.Unpack,
    PEFConfigParam_NumberOfEventFilters.Format⟩
instance : PEFConfigParameter PEFConfigParam_EventFilter :=
  ⟨PEFConfigParamSelector_EventFilter, PEFConfigParam_EventFilter.Unpack,
    PEFConfigParam_EventFilter.Format⟩
instance : PEFConfigParameter PEFConfigParam_EventFilterData1 :=
  ⟨PEFConfigParamSelector_EventFilterData1, PEFConfigParam_EventFilterData1.Unpack,
    PEFConfigParam_EventFilterData1.Format⟩
instance : PEFConfigParameter PEFConfigParam_NumberOfAlertPolicies :=
  ⟨PEFConfigParamSelector_NumberOfAlertPolicyEntries, PEFConfigParam_NumberOfAlertPolicies.Unpack,
    PEFConfigParam_NumberOfAlertPolicies.Format⟩
instance : PEFConfigParameter PEFConfigParam_AlertPolicy :=
  ⟨PEFConfigParamSelector_AlertPolicy, PEFConfigParam_AlertPolicy.Unpack,
    PEFConfigParam_AlertPolicy.Format⟩
instance : PEFConfigParameter PEFConfigParam_SystemGUID :=
  ⟨PEFConfigParamSelector_SystemGUID, PEFConfigParam_SystemGUID.Unpack,
    PEFConfigParam_SystemGUID.Format⟩
instance : PEFConfigParameter PEFConfigParam_NumberOfAlertStrings :=
  ⟨PEFConfigParamSelector_NumberOfAlertStrings, PEFConfigParam_NumberOfAlertStrings.Unpack,
    PEFConfigParam_NumberOfAlertStrings.Format⟩
instance : PEFConfigParameter PEFConfigParam_AlertStringKeys :=
  ⟨PEFConfigParamSelector_AlertStringKeys, PEFConfigParam_AlertStringKeys.Unpack,
    PEFConfigParam_AlertStringKeys.Format⟩
instance : PEFConfigParameter PEFConfigParam_AlertStrings :=
  ⟨PEFConfigParamSelector_AlertStrings, PEFConfigParam_AlertStrings.Unpack,
    PEFConfigParam_AlertStrings.Format⟩

/-! ## The Exchange collaborator -/

/-- The command identifiers returned by the `Command()` methods of the given
sources; their numeric values are declared outside these sources. -/
inductive Command where
  | CommandGetPEFConfigParameters
  | CommandGetDCMICapabilitiesInfo
  | CommandGetDCMIConfigurationParams
  | CommandSetDCMIConfigurationParams
  | CommandGetDCMIPowerLimit
  | CommandSetDCMIPowerLimit
  | CommandGetDCMIThermalLimit
  | CommandSetDCMIThermalLimit
  deriving DecidableEq, Repr

/-- One request handed to the transport: the command and the packed octets. -/
abbrev Sent := Command × Bytes

/-- A controller together with the transport: given the requests sent before and
the request sent now, either the reply payload (the octets after a successful
completion code) or the failure of the exchange. -/
abbrev Controller := List Sent → Sent → Except IpmiError Bytes

/-- The client, reduced to what the aggregation protocols can observe: the
requests it has handed to the transport, oldest first. -/
structure Client where
  sent : List Sent := []
  deriving DecidableEq, Repr

/-- Modelled from the spec: `Client.Exchange`, the transport collaborator declared
outside the given sources (section 6): it packs the request, transmits it,
returns the failure of the transport or of the completion code, and on success
invokes the `Unpack` of the response shell on the reply payload. -/
def Client.Exchange {R : Type} (bmc : Controller) (c : Client) (command : Command)
    (packed : Bytes) (response : R) (unpack : R → Bytes → Run (R × Option IpmiError)) :
    Run (Client × R × Option IpmiError) :=
  let c1 : Client := { sent := c.sent ++ [(command, packed)] }
  match bmc c.sent (command, packed) with
  | .error e => pure (c1, response, some e)
  | .ok payload => do
    let (response, err) ← unpack response payload
    pure (c1, response, err)

/-! ## Get PEF Configuration Parameters (cmd_get_pef_config_parameters.go) -/

/-- Go `GetPEFConfigParametersRequest`. -/
structure GetPEFConfigParametersRequest where
  GetRevisionOnly : Bool := false
  ParamSelector : Nat := 0
  SetSelector : Nat := 0
  BlockSelector : Nat := 0
  deriving DecidableEq, Repr

/-- Go `GetPEFConfigParametersResponse`; a nil `ConfigData` is the empty list. -/
structure GetPEFConfigParametersResponse where
  Revision : Nat := 0
  ConfigData : Bytes := []
  deriving DecidableEq, Repr

/-- Go `(*GetPEFConfigParametersRequest).Command`. -/
def GetPEFConfigParametersRequest.Command (_req : GetPEFConfigParametersRequest) : Command :=
  .CommandGetPEFConfigParameters

/-- Go `(*GetPEFConfigParametersRequest).Pack`. -/
def GetPEFConfigParametersRequest.Pack (req : GetPEFConfigParametersRequest) : Bytes :=
  let out := make 3
  let b0 := req.ParamSelector &&& 0x3f
  let b0 := if req.GetRevisionOnly then setBit7 b0 else b0
  let out := packUint8 b0 out 0
  let out := packUint8 req.SetSelector out 1
  let out := packUint8 req.BlockSelector out 2
  out

/-- Go `(*GetPEFConfigParametersResponse).Unpack`. -/
def GetPEFConfigParametersResponse.Unpack (res : GetPEFConfigParametersResponse)
    (msg : Bytes) : Run (GetPEFConfigParametersResponse × Option IpmiError) :=
  if msg.length < 1 then
    pure (res, some ErrUnpackedDataTooShort)
  else do
    let m0 ← idx msg 0
    let res := { res with Revision := m0 }
    let res :=
      if msg.length > 1 then { res with ConfigData := (unpackBytes msg 1 (msg.length - 1)).1 }
      else res
    pure (res, none)

/-- Go `(*Client).GetPEFConfigParameters`. -/
def Client.GetPEFConfigParameters (bmc : Controller) (c : Client) (getRevisionOnly : Bool)
    (paramSelector setSelector blockSelector : Nat) :
    Run (Client × GetPEFConfigParametersResponse × Option IpmiError) :=
  let request : GetPEFConfigParametersRequest :=
    { GetRevisionOnly := getRevisionOnly
      ParamSelector := paramSelector
      SetSelector := setSelector
      BlockSelector := blockSelector }
  let response : GetPEFConfigParametersResponse := {}
  Client.Exchange bmc c request.Command request.Pack response GetPEFConfigParametersResponse.Unpack

/-- Go `PEFConfig`; the pointer fields may be nil. -/
structure PEFConfig where
  SetInProgress : Option PEFConfigParam_SetInProgress := none
  Control : Option PEFConfigParam_Control := none
  ActionGlobalControl : Option PEFConfigParam_ActionGlobalControl := none
  StartupDelay : Option PEFConfigParam_StartupDelay := none
  AlertStartupDelay : Option PEFConfigParam_AlertStartupDelay := none
  NumberOfEventFilters : Option PEFConfigParam_NumberOfEventFilters := none
  EventFilters : List PEFConfigParam_EventFilter := []
  EventFiltersData1 : List PEFConfigParam_EventFilterData1 := []
  NumberOfAlertPolicies : Option PEFConfigParam_NumberOfAlertPolicies := none
  AlertPolicies : List PEFConfigParam_AlertPolicy := []
  SystemGUID : Option PEFConfigParam_SystemGUID := none
  NumberOfAlertStrings : Option PEFConfigParam_NumberOfAlertStrings := none
  AlertStringKeys : List PEFConfigParam_AlertStringKeys := []
  AlertStrings : List PEFConfigParam_AlertStrings := []
  NumberOfGroupControlTableEntries : Option PEFConfigParam_NumberOfGroupControlTableEntries := none
  GroupControlTable : Option PEFConfigParam_GroupControlTable := none
  deriving DecidableEq, Repr

/-- Go `(*Client).GetPEFConfigForParameter`. The operands of the closing `Debugf`
call are evaluated before the call, so `param.Format()` runs whether or not the
debug log is on; the line written to the log is not modelled. -/
def Client.GetPEFConfigForParameter {P : Type} [PEFConfigParameter P] (bmc : Controller)
    (c : Client) (param : P) (setSelector blockSelector : Nat) :
    Run (Client × P × Option IpmiError) := do
  let paramSelector := PEFConfigParameter.PEFConfigParamSelector P
  let (c, res, err) ← Client.GetPEFConfigParameters bmc c false paramSelector setSelector
    blockSelector
  match err with
  | some e => pure (c, param, some (.wrap "GetPEFConfigParameters for param failed" e))
  | none => do
    let (param, err) ← PEFConfigParameter.Unpack param res.ConfigData
    match err with
    | some e => pure (c, param, some (.wrap "unpack failed for param" e))
    | none => do
      let _ ← PEFConfigParameter.Format param
      pure (c, param, none)

/-- Go `for i := uint8(start); cond(i); i++ { body }`: the counter is an 8-bit
value, so the increment wraps from 255 to 0; the body may leave the enclosing
function with an error. Every test of the loop condition uses one unit of fuel. -/
def forUint8 {σ : Type} (cond : Nat → Bool) (body : Nat → σ → Run (σ × Option IpmiError)) :
    Nat → Nat → σ → Run (σ × Option IpmiError)
  | 0, _, _ => .timeout
  | fuel + 1, i, s =>
    if cond i then
      match body i s with
      | .ret (s1, none) => forUint8 cond body fuel ((i + 1) % 256) s1
      | .ret (s1, some e) => .ret (s1, some e)
      | .panic => .panic
      | .timeout => .timeout
    else .ret (s, none)

/-- Sequencing of two blocks of a Go function that returns at the first error:
the second block runs only when the first one fell through. -/
def Run.andThen {σ : Type} (x : Run (σ × Option IpmiError))
    (f : σ → Run (σ × Option IpmiError)) : Run (σ × Option IpmiError) :=
  match x with
  | .ret (s, none) => f s
  | .ret (s, some e) => .ret (s, some e)
  | .panic => .panic
  | .timeout => .timeout

/-! ## The PEF aggregation `GetPEFConfig` -/

/-- The block of Go `(*Client).GetPEFConfig` that fetches `Control`. -/
def GetPEFConfig_Control (bmc : Controller) (s : Client × PEFConfig) :
    Run ((Client × PEFConfig) × Option IpmiError) := do
  let (c, param, err) ← Client.GetPEFConfigForParameter bmc s.1 ({} : PEFConfigParam_Control) 0 0
  match err with
  | some e => pure ((c, s.2), some e)
  | none => pure ((c, { s.2 with Control := some param }), none)

/-- The block of Go `(*Client).GetPEFConfig` that fetches `ActionGlobalControl`. -/
def GetPEFConfig_ActionGlobalControl (bmc : Controller) (s : Client × PEFConfig) :
    Run ((Client × PEFConfig) × Option IpmiError) := do
  let (c, param, err) ← Client.GetPEFConfigForParameter bmc s.1 ({} : PEFConfigParam_ActionGlobalControl) 0 0
  match err with
  | some e => pure ((c, s.2), some e)
  | none => pure ((c, { s.2 with ActionGlobalControl := some param }), none)

/-- The block of Go `(*Client).GetPEFConfig` that fetches `StartupDelay`. -/
def GetPEFConfig_StartupDelay (bmc : Controller) (s : Client × PEFConfig) :
    Run ((Client × PEFConfig) × Option IpmiError) := do
  let (c, param, err) ← Client.GetPEFConfigForParameter bmc s.1 ({} : PEFConfigParam_StartupDelay) 0 0
  match err with
  | some e => pure ((c, s.2), some e)
  | none => pure ((c, { s.2 with StartupDelay := some param }), none)

/-- The block of Go `(*Client).GetPEFConfig` that fetches `AlertStartupDelay`. -/
def GetPEFConfig_AlertStartupDelay (bmc : Controller) (s : Client × PEFConfig) :
    Run ((Client × PEFConfig) × Option IpmiError) := do
  let (c, param, err) ← Client.GetPEFConfigForParameter bmc s.1 ({} : PEFConfigParam_AlertStartupDelay) 0 0
  match err with
  | some e => pure ((c, s.2), some e)
  | none => pure ((c, { s.2 with AlertStartupDelay := some param }), none)

/-- The block of Go `(*Client).GetPEFConfig` that fetches `NumberOfEventFilters`. -/
def GetPEFConfig_NumberOfEventFilters (bmc : Controller) (s : Client × PEFConfig) :
    Run ((Client × PEFConfig) × Option IpmiError) := do
  let (c, param, err) ← Client.GetPEFConfigForParameter bmc s.1 ({} : PEFConfigParam_NumberOfEventFilters) 0 0
  match err with
  | some e => pure ((c, s.2), some e)
  | none => pure ((c, { s.2 with NumberOfEventFilters := some param }), none)

/-- The body of the `EventFilters` loop of Go `(*Client).GetPEFConfig`. -/
def GetPEFConfig_EventFilters_body (bmc : Controller) (i : Nat) (s : Client × PEFConfig) :
    Run ((Client × PEFConfig) × Option IpmiError) := do
  let (c, param, err) ← Client.GetPEFConfigForParameter bmc s.1 ({} : PEFConfigParam_EventFilter) i 0
  match err with
  | some e => pure ((c, s.2), some (.wrap "get event filter number failed" e))
  | none => pure ((c, { s.2 with EventFilters := s.2.EventFilters ++ [param] }), none)

/-- The loop `for i := uint8(1); i <= pefConfig.NumberOfEventFilters.Value; i++` of Go
`(*Client).GetPEFConfig`; the count is read through a pointer the loop does not
assign. -/
def GetPEFConfig_EventFilters (bmc : Controller) (fuel : Nat) (s : Client × PEFConfig) :
    Run ((Client × PEFConfig) × Option IpmiError) :=
  match s.2.NumberOfEventFilters with
  | none => .panic
  | some n => forUint8 (fun i => decide (i ≤ n.Value)) (GetPEFConfig_EventFilters_body bmc) fuel 1 s

/-- The body of the `EventFiltersData1` loop of Go `(*Client).GetPEFConfig`. -/
def GetPEFConfig_EventFiltersData1_body (bmc : Controller) (i : Nat) (s : Client × PEFConfig) :
    Run ((Client × PEFConfig) × Option IpmiError) := do
  let (c, param, err) ← Client.GetPEFConfigForParameter bmc s.1 ({} : PEFConfigParam_EventFilterData1) i 0
  match err with
  | some e => pure ((c, s.2), some (.wrap "get event filter number failed" e))
  | none => pure ((c, { s.2 with EventFiltersData1 := s.2.EventFiltersData1 ++ [param] }), none)

/-- The loop `for i := uint8(1); i <= pefConfig.NumberOfEventFilters.Value; i++` of Go
`(*Client).GetPEFConfig`; the count is read through a pointer the loop does not
assign. -/
def GetPEFConfig_EventFiltersData1 (bmc : Controller) (fuel : Nat) (s : Client × PEFConfig) :
    Run ((Client × PEFConfig) × Option IpmiError) :=
  match s.2.NumberOfEventFilters with
  | none => .panic
  | some n => forUint8 (fun i => decide (i ≤ n.Value)) (GetPEFConfig_EventFiltersData1_body bmc) fuel 1 s

/-- The block of Go `(*Client).GetPEFConfig` that fetches `NumberOfAlertPolicies`. -/
def GetPEFConfig_NumberOfAlertPolicies (bmc : Controller) (s : Client × PEFConfig) :
    Run ((Client × PEFConfig) × Option IpmiError) := do
  let (c, param, err) ← Client.GetPEFConfigForParameter bmc s.1 ({} : PEFConfigParam_NumberOfAlertPolicies) 0 0
  match err with
  | some e => pure ((c, s.2), some e)
  | none => pure ((c, { s.2 with NumberOfAlertPolicies := some param }), none)

/-- The body of the `AlertPolicies` loop of Go `(*Client).GetPEFConfig`. -/
def GetPEFConfig_AlertPolicies_body (bmc : Controller) (i : Nat) (s : Client × PEFConfig) :
    Run ((Client × PEFConfig) × Option IpmiError) := do
  let (c, param, err) ← Client.GetPEFConfigForParameter bmc s.1 ({} : PEFConfigParam_AlertPolicy) i 0
  match err with
  | some e => pure ((c, s.2), some (.wrap "get event filter number failed" e))
  | none => pure ((c, { s.2 with AlertPolicies := s.2.AlertPolicies ++ [param] }), none)

/-- The loop `for i := uint8(1); i < pefConfig.NumberOfAlertPolicies.Value; i++` of Go
`(*Client).GetPEFConfig`; the count is read through a pointer the loop does not
assign. -/
def GetPEFConfig_AlertPolicies (bmc : Controller) (fuel : Nat) (s : Client × PEFConfig) :
    Run ((Client × PEFConfig) × Option IpmiError) :=
  match s.2.NumberOfAlertPolicies with
  | none => .panic
  | some n => forUint8 (fun i => decide (i < n.Value)) (GetPEFConfig_AlertPolicies_body bmc) fuel 1 s

/-- The block of Go `(*Client).GetPEFConfig` that fetches `SystemGUID`. -/
def GetPEFConfig_SystemGUID (bmc : Controller) (s : Client × PEFConfig) :
    Run ((Client × PEFConfig) × Option IpmiError) := do
  let (c, param, err) ← Client.GetPEFConfigForParameter bmc s.1 ({} : PEFConfigParam_SystemGUID) 0 0
  match err with
  | some e => pure ((c, s.2), some e)
  | none => pure ((c, { s.2 with SystemGUID := some param }), none)

/-- The block of Go `(*Client).GetPEFConfig` that fetches `NumberOfAlertStrings`. -/
def GetPEFConfig_NumberOfAlertStrings (bmc : Controller) (s : Client × PEFConfig) :
    Run ((Client × PEFConfig) × Option IpmiError) := do
  let (c, param, err) ← Client.GetPEFConfigForParameter bmc s.1 ({} : PEFConfigParam_NumberOfAlertStrings) 0 0
  match err with
  | some e => pure ((c, s.2), some e)
  | none => pure ((c, { s.2 with NumberOfAlertStrings := some param }), none)

/-- The body of the `AlertStringKeys` loop of Go `(*Client).GetPEFConfig`. -/
def GetPEFConfig_AlertStringKeys_body (bmc : Controller) (i : Nat) (s : Client × PEFConfig) :
    Run ((Client × PEFConfig) × Option IpmiError) := do
  let (c, param, err) ← Client.GetPEFConfigForParameter bmc s.1 ({} : PEFConfigParam_AlertStringKeys) i 0
  match err with
  | some e => pure ((c, s.2), some (.wrap "get alert strings number failed" e))
  | none => pure ((c, { s.2 with AlertStringKeys := s.2.AlertStringKeys ++ [param] }), none)

/-- The loop `for i := uint8(1); i <= pefConfig.NumberOfAlertStrings.Value; i++` of Go
`(*Client).GetPEFConfig`; the count is read through a pointer the loop does not
assign. -/
def GetPEFConfig_AlertStringKeys (bmc : Controller) (fuel : Nat) (s : Client × PEFConfig) :
    Run ((Client × PEFConfig) × Option IpmiError) :=
  match s.2.NumberOfAlertStrings with
  | none => .panic
  | some n => forUint8 (fun i => decide (i ≤ n.Value)) (GetPEFConfig_AlertStringKeys_body bmc) fuel 1 s

/-- The body of the `AlertStrings` loop of Go `(*Client).GetPEFConfig`. -/
def GetPEFConfig_AlertStrings_body (bmc : Controller) (i : Nat) (s : Client × PEFConfig) :
    Run ((Client × PEFConfig) × Option IpmiError) := do
  let (c, param, err) ← Client.GetPEFConfigForParameter bmc s.1 ({} : PEFConfigParam_AlertStrings) i 1
  match err with
  | some e => pure ((c, s.2), some (.wrap "get alert strings number failed" e))
  | none => pure ((c, { s.2 with AlertStrings := s.2.AlertStrings ++ [param] }), none)

/-- The loop `for i := uint8(1); i < pefConfig.NumberOfAlertStrings.Value; i++` of Go
`(*Client).GetPEFConfig`; the count is read through a pointer the loop does not
assign. -/
def GetPEFConfig_AlertStrings (bmc : Controller) (fuel : Nat) (s : Client × PEFConfig) :
    Run ((Client × PEFConfig) × Option IpmiError) :=
  match s.2.NumberOfAlertStrings with
  | none => .panic
  | some n => forUint8 (fun i => decide (i < n.Value)) (GetPEFConfig_AlertStrings_body bmc) fuel 1 s

/-- Go `(*Client).GetPEFConfig`: the blocks in source order, each left at its first
error with a nil `PEFConfig`. -/
def Client.GetPEFConfig (bmc : Controller) (fuel : Nat) (c : Client) :
    Run (Client × Option PEFConfig × Option IpmiError) :=
  let r := (GetPEFConfig_Control bmc (c, {}))
    |>.andThen (GetPEFConfig_ActionGlobalControl bmc)
    |>.andThen (GetPEFConfig_StartupDelay bmc)
    |>.andThen (GetPEFConfig_AlertStartupDelay bmc)
    |>.andThen (GetPEFConfig_NumberOfEventFilters bmc)
    |>.andThen (GetPEFConfig_EventFilters bmc fuel)
    |>.andThen (GetPEFConfig_EventFiltersData1 bmc fuel)
    |>.andThen (GetPEFConfig_NumberOfAlertPolicies bmc)
    |>.andThen (GetPEFConfig_AlertPolicies bmc fuel)
    |>.andThen (GetPEFConfig_SystemGUID bmc)
    |>.andThen (GetPEFConfig_NumberOfAlertStrings bmc)
    |>.andThen (GetPEFConfig_AlertStringKeys bmc fuel)
    |>.andThen (GetPEFConfig_AlertStrings bmc fuel)
  match r with
  | .ret ((c, pefConfig), none) => .ret (c, some pefConfig, none)
  | .ret ((c, _), some e) => .ret (c, none, some e)
  | .panic => .panic
  | .timeout => .timeout

/-! ## DCMI command responses -/

/-- Go `GetDCMICapabilitiesInfoResponse`. -/
structure GetDCMICapabilitiesInfoResponse where
  MajorVersion : Nat := 0
  MinorVersion : Nat := 0
  ParamRevision : Nat := 0
  ParamData : Bytes := []
  deriving DecidableEq, Repr

/-- Go `(*GetDCMICapabilitiesInfoResponse).Unpack`. -/
def GetDCMICapabilitiesInfoResponse.Unpack (res : GetDCMICapabilitiesInfoResponse)
    (msg : Bytes) : Run (GetDCMICapabilitiesInfoResponse × Option IpmiError) :=
  if msg.length < 5 then
    pure (res, some (ErrUnpackedDataTooShortWith msg.length 5))
  else
    let grpExt := (unpackUint8 msg 0).1
    if grpExt ≠ GroupExtensionDCMI then
      pure (res, some (ErrDCMIGroupExtensionIdentificationMismatch GroupExtensionDCMI grpExt))
    else
      pure ({ MajorVersion := (unpackUint8 msg 1).1
              MinorVersion := (unpackUint8 msg 2).1
              ParamRevision := (unpackUint8 msg 3).1
              ParamData := (unpackBytes msg 4 (msg.length - 4)).1 }, none)

/-- Go `GetDCMIConfigurationParamsResponse`. -/
structure GetDCMIConfigurationParamsResponse where
  MajorVersion : Nat := 0
  MinorVersion : Nat := 0
  ParamRevision : Nat := 0
  ParamData : Bytes := []
  deriving DecidableEq, Repr

/-- Go `(*GetDCMIConfigurationParamsResponse).Unpack`. -/
def GetDCMIConfigurationParamsResponse.Unpack (res : GetDCMIConfigurationParamsResponse)
    (msg : Bytes) : Run (GetDCMIConfigurationParamsResponse × Option IpmiError) :=
  if msg.length < 5 then
    pure (res, some (ErrUnpackedDataTooShortWith msg.length 5))
  else
    let grpExt := (unpackUint8 msg 0).1
    if grpExt ≠ GroupExtensionDCMI then
      pure (res, some (ErrDCMIGroupExtensionIdentificationMismatch GroupExtensionDCMI grpExt))
    else
      pure ({ MajorVersion := (unpackUint8 msg 1).1
              MinorVersion := (unpackUint8 msg 2).1
              ParamRevision := (unpackUint8 msg 3).1
              ParamData := (unpackBytes msg 4 (msg.length - 4)).1 }, none)

/-- Go `SetDCMIConfigurationParamsResponse` (no fields). -/
structure SetDCMIConfigurationParamsResponse where
  deriving DecidableEq, Repr

/-- Go `(*SetDCMIConfigurationParamsResponse).Unpack`. -/
def SetDCMIConfigurationParamsResponse.Unpack (res : SetDCMIConfigurationParamsResponse)
    (msg : Bytes) : Run (SetDCMIConfigurationParamsResponse × Option IpmiError) :=
  if msg.length < 1 then
    pure (res, some (ErrUnpackedDataTooShortWith msg.length 2))
  else
    let grpExt := (unpackUint8 msg 0).1
    if grpExt ≠ GroupExtensionDCMI then
      pure (res, some (ErrDCMIGroupExtensionIdentificationMismatch GroupExtensionDCMI grpExt))
    else
      pure (res, none)

/-- Go `GetDCMIPowerLimitResponse`. -/
structure GetDCMIPowerLimitResponse where
  ExceptionAction : Nat := 0
  PowerLimitRequested : Nat := 0
  CorrectionTimeLimitMilliSec : Nat := 0
  StatisticsSamplingPeriodSec : Nat := 0
  deriving DecidableEq, Repr

/-- Go `(*GetDCMIPowerLimitResponse).Unpack`. -/
def GetDCMIPowerLimitResponse.Unpack (res : GetDCMIPowerLimitResponse) (msg : Bytes) :
    Run (GetDCMIPowerLimitResponse × Option IpmiError) :=
  if msg.length < 14 then
    pure (res, some (ErrUnpackedDataTooShortWith msg.length 14))
  else do
    let m0 ← idx msg 0
    if (CheckDCMIGroupExenstionMatch m0).isSome then
      pure (res, some (ErrDCMIGroupExtensionIdentificationMismatch GroupExtensionDCMI m0))
    else
      pure ({ ExceptionAction := (unpackUint8 msg 3).1
              PowerLimitRequested := (unpackUint16L msg 4).1
              CorrectionTimeLimitMilliSec := (unpackUint32L msg 6).1
              StatisticsSamplingPeriodSec := (unpackUint16L msg 12).1 }, none)

/-- Go `SetDCMIPowerLimitResponse` (no fields). -/
structure SetDCMIPowerLimitResponse where
  deriving DecidableEq, Repr

/-- Go `(*SetDCMIPowerLimitResponse).Unpack`. -/
def SetDCMIPowerLimitResponse.Unpack (res : SetDCMIPowerLimitResponse) (msg : Bytes) :
    Run (SetDCMIPowerLimitResponse × Option IpmiError) :=
  if msg.length < 1 then
    pure (res, some (ErrUnpackedDataTooShortWith msg.length 1))
  else do
    let m0 ← idx msg 0
    match CheckDCMIGroupExenstionMatch m0 with
    | some err => pure (res, some err)
    | none => pure (res, none)

/-- Go `GetDCMIThermalLimitRequest`. -/
structure GetDCMIThermalLimitRequest where
  EntityID : Nat := 0
  EntityInstance : Nat := 0
  deriving DecidableEq, Repr

/-- Go `GetDCMIThermalLimitResponse`. -/
structure GetDCMIThermalLimitResponse where
  ExceptionAction_PowerOffAndLogSEL : Bool := false
  ExceptionAction_LogSELOnly : Bool := false
  TemperatureLimit : Nat := 0
  ExceptionTimeSec : Nat := 0
  deriving DecidableEq, Repr

/-- Go `(*GetDCMIThermalLimitRequest).Pack`. -/
def GetDCMIThermalLimitRequest.Pack (req : GetDCMIThermalLimitRequest) : Bytes :=
  [GroupExtensionDCMI, req.EntityID, req.EntityInstance]

/-- Go `(*GetDCMIThermalLimitRequest).Command`. -/
def GetDCMIThermalLimitRequest.Command (_req : GetDCMIThermalLimitRequest) : Command :=
  .CommandGetDCMIThermalLimit

/-- Go `(*GetDCMIThermalLimitResponse).Unpack`. -/
def GetDCMIThermalLimitResponse.Unpack (res : GetDCMIThermalLimitResponse) (msg : Bytes) :
    Run (GetDCMIThermalLimitResponse × Option IpmiError) :=
  if msg.length < 5 then
    pure (res, some (ErrUnpackedDataTooShortWith msg.length 5))
  else do
    let m0 ← idx msg 0
    if (CheckDCMIGroupExenstionMatch m0).isSome then
      pure (res, some (ErrDCMIGroupExtensionIdentificationMismatch GroupExtensionDCMI m0))
    else
      let b1 := (unpackUint8 msg 1).1
      pure ({ ExceptionAction_PowerOffAndLogSEL := isBit6Set b1
              ExceptionAction_LogSELOnly := isBit5Set b1
              TemperatureLimit := (unpackUint8 msg 2).1
              ExceptionTimeSec := (unpackUint16L msg 3).1 }, none)

/-- Go `(*Client).GetDCMIThermalLimit`. -/
def Client.GetDCMIThermalLimit (bmc : Controller) (c : Client) (entityID entityInstance : Nat) :
    Run (Client × Option GetDCMIThermalLimitResponse × Option IpmiError) :=
  if entityID ≠ 0x37 ∧ entityID ≠ 0x40 then
    pure (c, none,
      some (.new "only Inlet Temperature entityID (0x37 or 0x40) is supported"))
  else do
    let request : GetDCMIThermalLimitRequest :=
      { EntityID := entityID, EntityInstance := entityInstance }
    let response : GetDCMIThermalLimitResponse := {}
    let (c, response, err) ← Client.Exchange bmc c request.Command request.Pack response
      GetDCMIThermalLimitResponse.Unpack
    pure (c, some response, err)

/-- Go `SetDCMIThermalLimitRequest`. -/
structure SetDCMIThermalLimitRequest where
  EntityID : Nat := 0
  EntityInstance : Nat := 0
  ExceptionAction_PowerOffAndLogSEL : Bool := false
  ExceptionAction_LogSELOnly : Bool := false
  TemperatureLimit : Nat := 0
  ExceptionTimeSec : Nat := 0
  deriving DecidableEq, Repr

/-- Go `SetDCMIThermalLimitResponse` (no fields). -/
structure SetDCMIThermalLimitResponse where
  deriving DecidableEq, Repr

/-- Go `(*SetDCMIThermalLimitRequest).Pack`. -/
def SetDCMIThermalLimitRequest.Pack (req : SetDCMIThermalLimitRequest) : Bytes :=
  let out := make 7
  let out := out.set 0 GroupExtensionDCMI
  let out := out.set 1 req.EntityID
  let out := out.set 2 req.EntityInstance
  let exceptionAction := 0
  let exceptionAction :=
    if req.ExceptionAction_PowerOffAndLogSEL then setBit6 exceptionAction else exceptionAction
  let exceptionAction :=
    if req.ExceptionAction_LogSELOnly then setBit5 exceptionAction else exceptionAction
  let out := out.set 3 exceptionAction
  let out := out.set 4 req.TemperatureLimit
  let out := packUint16L req.ExceptionTimeSec out 5
  out

/-- Go `(*SetDCMIThermalLimitRequest).Command`. -/
def SetDCMIThermalLimitRequest.Command (_req : SetDCMIThermalLimitRequest) : Command :=
  .CommandSetDCMIThermalLimit

/-- Go `(*SetDCMIThermalLimitResponse).Unpack`. -/
def SetDCMIThermalLimitResponse.Unpack (res : SetDCMIThermalLimitResponse) (msg : Bytes) :
    Run (SetDCMIThermalLimitResponse × Option IpmiError) :=
  if msg.length < 1 then
    pure (res, some (ErrUnpackedDataTooShortWith msg.length 1))
  else do
    let m0 ← idx msg 0
    if (CheckDCMIGroupExenstionMatch m0).isSome then
      pure (res, some (ErrDCMIGroupExtensionIdentificationMismatch GroupExtensionDCMI m0))
    else
      pure (res, none)

/-- Go `(*Client).SetDCMIThermalLimit`; a nil `request` is dereferenced by the
transport when it packs the request. -/
def Client.SetDCMIThermalLimit (bmc : Controller) (c : Client)
    (request : Option SetDCMIThermalLimitRequest) :
    Run (Client × Option SetDCMIThermalLimitResponse × Option IpmiError) :=
  match request with
  | none => .panic
  | some request => do
    let response : SetDCMIThermalLimitResponse := {}
    let (c, response, err) ← Client.Exchange bmc c request.Command request.Pack response
      SetDCMIThermalLimitResponse.Unpack
    pure (c, some response, err)

/-- Go `GetDCMIConfigurationParamsRequest`. -/
structure GetDCMIConfigurationParamsRequest where
  ParamSelector : Nat := 0
  SetSelector : Nat := 0
  deriving DecidableEq, Repr

/-- Go `(*GetDCMIConfigurationParamsRequest).Pack`. -/
def GetDCMIConfigurationParamsRequest.Pack (req : GetDCMIConfigurationParamsRequest) : Bytes :=
  let out := make 3
  let out := packUint8 GroupExtensionDCMI out 0
  let out := packUint8 req.ParamSelector out 1
  let out := packUint8 req.SetSelector out 2
  out

/-- Go `(*GetDCMIConfigurationParamsRequest).Command`. -/
def GetDCMIConfigurationParamsRequest.Command (_req : GetDCMIConfigurationParamsRequest) :
    Command :=
  .CommandGetDCMIConfigurationParams

/-- Go `SetDCMIConfigurationParamsRequest`. -/
structure SetDCMIConfigurationParamsRequest where
  ParamSelector : Nat := 0
  SetSelector : Nat := 0
  ParamData : Bytes := []
  deriving DecidableEq, Repr

/-- Go `(*SetDCMIConfigurationParamsRequest).Pack`. -/
def SetDCMIConfigurationParamsRequest.Pack (req : SetDCMIConfigurationParamsRequest) : Bytes :=
  let out := make (3 + req.ParamData.length)
  let out := packUint8 GroupExtensionDCMI out 0
  let out := packUint8 req.ParamSelector out 1
  let out := packUint8 req.SetSelector out 2
  let out := packBytes req.ParamData out 3
  out

/-- Go `(*SetDCMIConfigurationParamsRequest).Command`. -/
def SetDCMIConfigurationParamsRequest.Command (_req : SetDCMIConfigurationParamsRequest) :
    Command :=
  .CommandSetDCMIConfigurationParams

/-- Go `GetDCMIPowerLimitRequest`, a struct without fields. -/
structure GetDCMIPowerLimitRequest where
  deriving DecidableEq, Repr

/-- Go `(*GetDCMIPowerLimitRequest).Pack`. -/
def GetDCMIPowerLimitRequest.Pack (_req : GetDCMIPowerLimitRequest) : Bytes :=
  [GroupExtensionDCMI, 0x00, 0x00]

/-- Go `(*GetDCMIPowerLimitRequest).Command`. -/
def GetDCMIPowerLimitRequest.Command (_req : GetDCMIPowerLimitRequest) : Command :=
  .CommandGetDCMIPowerLimit

/-- Go `SetDCMIPowerLimitRequest`; `PowerLimitRequested` and
`StatisticsSamplingPeriodSec` are `uint16`, `CorrectionTimeLimitMilliSec` is a
`uint32`. -/
structure SetDCMIPowerLimitRequest where
  ExceptionAction : Nat := 0
  PowerLimitRequested : Nat := 0
  CorrectionTimeLimitMilliSec : Nat := 0
  StatisticsSamplingPeriodSec : Nat := 0
  deriving DecidableEq, Repr

/-- Go `(*SetDCMIPowerLimitRequest).Pack`. -/
def SetDCMIPowerLimitRequest.Pack (req : SetDCMIPowerLimitRequest) : Bytes :=
  let out := make 15
  let out := packUint8 GroupExtensionDCMI out 0
  let out := packUint8 req.ExceptionAction out 4
  let out := packUint16L req.PowerLimitRequested out 5
  let out := packUint32L req.CorrectionTimeLimitMilliSec out 7
  let out := packUint16L req.StatisticsSamplingPeriodSec out 13
  out

/-- Go `(*SetDCMIPowerLimitRequest).Command`. -/
def SetDCMIPowerLimitRequest.Command (_req : SetDCMIPowerLimitRequest) : Command :=
  .CommandSetDCMIPowerLimit

/-! ## DCMI capability parameters (types_dcmi_params.go) -/

/-- Go `DCMICapParam_OptionalPlatformAttributes`. -/
structure DCMICapParam_OptionalPlatformAttributes where
  PowerMgmtDeviceSlaveAddr : Nat := 0
  PewerMgmtControllerChannelNumber : Nat := 0
  DeviceRevision : Nat := 0
  deriving DecidableEq, Repr

/-- Go `(*DCMICapParam_OptionalPlatformAttributes).Unpack`. -/
def DCMICapParam_OptionalPlatformAttributes.Unpack
    (param : DCMICapParam_OptionalPlatformAttributes) (paramData : Bytes) :
    Run (DCMICapParam_OptionalPlatformAttributes × Option IpmiError) :=
  if paramData.length < 2 then
    pure (param, some (ErrUnpackedDataTooShortWith paramData.length 3))
  else do
    let p0 ← idx paramData 0
    let p1 ← idx paramData 1
    pure ({ PowerMgmtDeviceSlaveAddr := p0
            PewerMgmtControllerChannelNumber := p1 &&& 0xF0
            DeviceRevision := p1 &&& 0x0F }, none)

/-- Go `DCMICapParam_SupportedDCMICapabilities`. -/
structure DCMICapParam_SupportedDCMICapabilities where
  SupportPowerManagement : Bool := false
  SupportInBandKCS : Bool := false
  SupportOutOfBandSerial : Bool := false
  SupportOutOfBandLAN : Bool := false
  deriving DecidableEq, Repr

/-- Go `(*DCMICapParam_SupportedDCMICapabilities).Pack`. -/
def DCMICapParam_SupportedDCMICapabilities.Pack
    (_dcmiCap : DCMICapParam_SupportedDCMICapabilities) : Bytes := []

/-- Go `(*DCMICapParam_SupportedDCMICapabilities).Unpack`. -/
def DCMICapParam_SupportedDCMICapabilities.Unpack
    (dcmiCap : DCMICapParam_SupportedDCMICapabilities) (paramData : Bytes) :
    Run (DCMICapParam_SupportedDCMICapabilities × Option IpmiError) :=
  if paramData.length < 3 then
    pure (dcmiCap, some (ErrUnpackedDataTooShortWith paramData.length 3))
  else do
    let p1 ← idx paramData 1
    let p2 ← idx paramData 2
    pure ({ SupportPowerManagement := isBit0Set p1
            SupportInBandKCS := isBit0Set p2
            SupportOutOfBandSerial := isBit1Set p2
            SupportOutOfBandLAN := isBit2Set p2 }, none)

/-- Go `DCMICapParam_MandatoryPlatformAttributes`; `SELEntriesCount` is a
`uint16`. -/
structure DCMICapParam_MandatoryPlatformAttributes where
  SELAutoRolloverEnabled : Bool := false
  EntireSELFlushUponRollOver : Bool := false
  RecordLevelSELFlushUponRollOver : Bool := false
  SELEntriesCount : Nat := 0
  TemperatrureSamplingFrequencySec : Nat := 0
  deriving DecidableEq, Repr

/-- Go `(*DCMICapParam_MandatoryPlatformAttributes).Pack`. -/
def DCMICapParam_MandatoryPlatformAttributes.Pack
    (_dcmiCap : DCMICapParam_MandatoryPlatformAttributes) : Bytes := []

/-- Go `(*DCMICapParam_MandatoryPlatformAttributes).Unpack`. -/
def DCMICapParam_MandatoryPlatformAttributes.Unpack
    (dcmiCap : DCMICapParam_MandatoryPlatformAttributes) (paramData : Bytes) :
    Run (DCMICapParam_MandatoryPlatformAttributes × Option IpmiError) :=
  if paramData.length < 5 then
    pure (dcmiCap, some (ErrUnpackedDataTooShortWith paramData.length 5))
  else do
    let b1 ← idx paramData 1
    let b_0_1 := (unpackUint16L paramData 0).1
    let p4 ← idx paramData 4
    pure ({ SELAutoRolloverEnabled := isBit7Set b1
            EntireSELFlushUponRollOver := isBit6Set b1
            RecordLevelSELFlushUponRollOver := isBit5Set b1
            SELEntriesCount := b_0_1 &&& 0x0FFF
            TemperatrureSamplingFrequencySec := p4 }, none)

/-- Go `(*DCMICapParam_OptionalPlatformAttributes).Pack`. -/
def DCMICapParam_OptionalPlatformAttributes.Pack
    (_param : DCMICapParam_OptionalPlatformAttributes) : Bytes := []

/-- Go `DCMICapParam_ManageabilityAccessAttributes`. -/
structure DCMICapParam_ManageabilityAccessAttributes where
  PrimaryLANChannelNumber : Nat := 0
  SecondaryLANChannelNumber : Nat := 0
  SerialChannelNumber : Nat := 0
  deriving DecidableEq, Repr

/-- Go `(*DCMICapParam_ManageabilityAccessAttributes).Pack`. -/
def DCMICapParam_ManageabilityAccessAttributes.Pack
    (_param : DCMICapParam_ManageabilityAccessAttributes) : Bytes := []

/-- Go `(*DCMICapParam_ManageabilityAccessAttributes).Unpack`. -/
def DCMICapParam_ManageabilityAccessAttributes.Unpack
    (param : DCMICapParam_ManageabilityAccessAttributes) (paramData : Bytes) :
    Run (DCMICapParam_ManageabilityAccessAttributes × Option IpmiError) :=
  if paramData.length < 3 then
    pure (param, some (ErrUnpackedDataTooShortWith paramData.length 3))
  else do
    let p0 ← idx paramData 0
    let p1 ← idx paramData 1
    let p2 ← idx paramData 2
    pure ({ PrimaryLANChannelNumber := p0
            SecondaryLANChannelNumber := p1
            SerialChannelNumber := p2 }, none)

/-- Go `DCMICapParam_EnhancedSystemPowerStatisticsAttributes`; the periods are Go
`int`s. -/
structure DCMICapParam_EnhancedSystemPowerStatisticsAttributes where
  RollingAverageTimePeriodsSec : List Nat := []
  deriving DecidableEq, Repr

/-- Go `(*DCMICapParam_EnhancedSystemPowerStatisticsAttributes).Pack`. -/
def DCMICapParam_EnhancedSystemPowerStatisticsAttributes.Pack
    (_param : DCMICapParam_EnhancedSystemPowerStatisticsAttributes) : Bytes := []

/-- The body of the `for ... range periodsData` loop of Go
`(*DCMICapParam_EnhancedSystemPowerStatisticsAttributes).Unpack`: the duration in
seconds that one period octet encodes; a `switch` with no matching case leaves
`durationSec` at 0. -/
def rollingAveragePeriodSec (periodData : Nat) : Nat :=
  let durationUnit := periodData >>> 6
  let durationNumber := periodData &&& 0x3F
  match durationUnit with
  | 0b00 => durationNumber
  | 0b01 => durationNumber * 60
  | 0b10 => durationNumber * 60 * 60
  | 0b11 => durationNumber * 60 * 60 * 24
  | _ => 0

/-- Go `(*DCMICapParam_EnhancedSystemPowerStatisticsAttributes).Unpack`; the loop
appends one duration per period octet to the list the receiver holds. -/
def DCMICapParam_EnhancedSystemPowerStatisticsAttributes.Unpack
    (param : DCMICapParam_EnhancedSystemPowerStatisticsAttributes) (paramData : Bytes) :
    Run (DCMICapParam_EnhancedSystemPowerStatisticsAttributes × Option IpmiError) :=
  if paramData.length < 2 then
    pure (param, some (ErrUnpackedDataTooShortWith paramData.length 2))
  else do
    let p0 ← idx paramData 0
    let periodsCount := p0
    if paramData.length < 1 + periodsCount then
      pure (param, some (ErrNotEnoughDataWith "rolling average time periods" paramData.length
        (1 + periodsCount)))
    else
      let periodsData := (unpackBytes paramData 1 periodsCount).1
      pure ({ RollingAverageTimePeriodsSec :=
                periodsData.foldl (fun acc periodData => acc ++ [rollingAveragePeriodSec periodData])
                  param.RollingAverageTimePeriodsSec }, none)

/-- Go `DCMICapabilities`. -/
structure DCMICapabilities where
  SupportedDCMICapabilities : DCMICapParam_SupportedDCMICapabilities := {}
  MandatoryPlatformAttributes : DCMICapParam_MandatoryPlatformAttributes := {}
  OptionalPlatformAttributes : DCMICapParam_OptionalPlatformAttributes := {}
  ManageabilityAccessAttributes : DCMICapParam_ManageabilityAccessAttributes := {}
  EnhancedSystemPowerStatisticsAttributes :
    DCMICapParam_EnhancedSystemPowerStatisticsAttributes := {}
  deriving DecidableEq, Repr

/-! ## DCMI configuration parameters (types_dcmi_params.go) -/

/-- Go `DCMIConfigParam_ActivateDHCP`. -/
structure DCMIConfigParam_ActivateDHCP where
  Activate : Bool := false
  deriving DecidableEq, Repr

/-- Go `(*DCMIConfigParam_ActivateDHCP).Pack`. -/
def DCMIConfigParam_ActivateDHCP.Pack (param : DCMIConfigParam_ActivateDHCP) : Bytes :=
  let b := 0
  let b := if param.Activate then 1 else b
  [b]

/-- Go `(*DCMIConfigParam_ActivateDHCP).Unpack`. -/
def DCMIConfigParam_ActivateDHCP.Unpack (param : DCMIConfigParam_ActivateDHCP)
    (paramData : Bytes) : Run (DCMIConfigParam_ActivateDHCP × Option IpmiError) :=
  if paramData.length < 1 then
    pure (param, some (ErrUnpackedDataTooShortWith paramData.length 1))
  else do
    let p0 ← idx paramData 0
    pure ({ Activate := p0 == 1 }, none)

/-- Go `DCMIConfigParam_DiscoveryConfiguration`. -/
structure DCMIConfigParam_DiscoveryConfiguration where
  RandomBackoffEnabled : Bool := false
  IncludeDHCPOption60And43 : Bool := false
  IncludeDHCPOption12 : Bool := false
  deriving DecidableEq, Repr

/-- Go `(*DCMIConfigParam_DiscoveryConfiguration).Pack`. -/
def DCMIConfigParam_DiscoveryConfiguration.Pack
    (param : DCMIConfigParam_DiscoveryConfiguration) : Bytes :=
  let b := 0
  let b := if param.RandomBackoffEnabled then setBit7 b else b
  let b := if param.IncludeDHCPOption60And43 then setBit1 b else b
  let b := if param.IncludeDHCPOption12 then setBit0 b else b
  [b]

/-- Go `(*DCMIConfigParam_DiscoveryConfiguration).Unpack`. -/
def DCMIConfigParam_DiscoveryConfiguration.Unpack
    (param : DCMIConfigParam_DiscoveryConfiguration) (paramData : Bytes) :
    Run (DCMIConfigParam_DiscoveryConfiguration × Option IpmiError) :=
  if paramData.length < 1 then
    pure (param, some (ErrUnpackedDataTooShortWith paramData.length 1))
  else do
    let p0 ← idx paramData 0
    pure ({ RandomBackoffEnabled := isBit7Set p0
            IncludeDHCPOption60And43 := isBit1Set p0
            IncludeDHCPOption12 := isBit0Set p0 }, none)

/-- Go `DCMIConfigParam_DHCPTiming1`. -/
structure DCMIConfigParam_DHCPTiming1 where
  InitialTimeoutIntervalSec : Nat := 0
  deriving DecidableEq, Repr

/-- Go `(*DCMIConfigParam_DHCPTiming1).Pack`. -/
def DCMIConfigParam_DHCPTiming1.Pack (param : DCMIConfigParam_DHCPTiming1) : Bytes :=
  [param.InitialTimeoutIntervalSec]

/-- Go `(*DCMIConfigParam_DHCPTiming1).Unpack`. -/
def DCMIConfigParam_DHCPTiming1.Unpack (param : DCMIConfigParam_DHCPTiming1)
    (paramData : Bytes) : Run (DCMIConfigParam_DHCPTiming1 × Option IpmiError) :=
  if paramData.length < 1 then
    pure (param, some (ErrUnpackedDataTooShortWith paramData.length 1))
  else do
    let p0 ← idx paramData 0
    pure ({ InitialTimeoutIntervalSec := p0 }, none)

/-- Go `DCMIConfigParam_DHCPTiming2`. -/
structure DCMIConfigParam_DHCPTiming2 where
  ServerContactTimeoutIntervalSec : Nat := 0
  deriving DecidableEq, Repr

/-- Go `(*DCMIConfigParam_DHCPTiming2).Pack`. -/
def DCMIConfigParam_DHCPTiming2.Pack (param : DCMIConfigParam_DHCPTiming2) : Bytes :=
  [param.ServerContactTimeoutIntervalSec]

/-- Go `(*DCMIConfigParam_DHCPTiming2).Unpack`. -/
def DCMIConfigParam_DHCPTiming2.Unpack (param : DCMIConfigParam_DHCPTiming2)
    (paramData : Bytes) : Run (DCMIConfigParam_DHCPTiming2 × Option IpmiError) :=
  if paramData.length < 1 then
    pure (param, some (ErrUnpackedDataTooShortWith paramData.length 1))
  else do
    let p0 ← idx paramData 0
    pure ({ ServerContactTimeoutIntervalSec := p0 }, none)

/-- Go `DCMIConfigParam_DHCPTiming3`. -/
structure DCMIConfigParam_DHCPTiming3 where
  ServerContactRetryIntervalSec : Nat := 0
  deriving DecidableEq, Repr

/-- Go `(*DCMIConfigParam_DHCPTiming3).Pack`. -/
def DCMIConfigParam_DHCPTiming3.Pack (param : DCMIConfigParam_DHCPTiming3) : Bytes :=
  [param.ServerContactRetryIntervalSec]

/-- Go `(*DCMIConfigParam_DHCPTiming3).Unpack`. -/
def DCMIConfigParam_DHCPTiming3.Unpack (param : DCMIConfigParam_DHCPTiming3)
    (paramData : Bytes) : Run (DCMIConfigParam_DHCPTiming3 × Option IpmiError) :=
  if paramData.length < 1 then
    pure (param, some (ErrUnpackedDataTooShortWith paramData.length 1))
  else do
    let p0 ← idx paramData 0
    pure ({ ServerContactRetryIntervalSec := p0 }, none)

/-! ## Get DCMI Capabilities Info and the capability discovery
(cmd_get_dcmi_capabilities_info.go) -/

/-- Go `DCMICapParamSelector_SupportedDCMICapabilities`. -/
def DCMICapParamSelector_SupportedDCMICapabilities : Nat := 0x01
/-- Go `DCMICapParamSelector_MandatoryPlatformAttributes`. -/
def DCMICapParamSelector_MandatoryPlatformAttributes : Nat := 0x02
/-- Go `DCMICapParamSelector_OptionalPlatformAttributes`. -/
def DCMICapParamSelector_OptionalPlatformAttributes : Nat := 0x03
/-- Go `DCMICapParamSelector_ManageabilityAccessAttributes`. -/
def DCMICapParamSelector_ManageabilityAccessAttributes : Nat := 0x04
/-- Go `DCMICapParamSelector_EnhancedSystemPowerStatisticsAttributes`. -/
def DCMICapParamSelector_EnhancedSystemPowerStatisticsAttributes : Nat := 0x05

/-- Go `GetDCMICapabilitiesInfoRequest`. -/
structure GetDCMICapabilitiesInfoRequest where
  ParamSelector : Nat := 0
  deriving DecidableEq, Repr

/-- Go `(*GetDCMICapabilitiesInfoRequest).Pack`. -/
def GetDCMICapabilitiesInfoRequest.Pack (req : GetDCMICapabilitiesInfoRequest) : Bytes :=
  [GroupExtensionDCMI, req.ParamSelector]

/-- Go `(*GetDCMICapabilitiesInfoRequest).Command`. -/
def GetDCMICapabilitiesInfoRequest.Command (_req : GetDCMICapabilitiesInfoRequest) : Command :=
  .CommandGetDCMICapabilitiesInfo

/-- Go `(*Client).GetDCMICapabilitiesInfo`. -/
def Client.GetDCMICapabilitiesInfo (bmc : Controller) (c : Client) (paramSelector : Nat) :
    Run (Client × GetDCMICapabilitiesInfoResponse × Option IpmiError) :=
  let request : GetDCMICapabilitiesInfoRequest := { ParamSelector := paramSelector }
  let response : GetDCMICapabilitiesInfoResponse := {}
  Client.Exchange bmc c request.Command request.Pack response
    GetDCMICapabilitiesInfoResponse.Unpack

/-- The block of Go `(*Client).DiscoveryDCMICapabilities` that fetches
`SupportedDCMICapabilities`. -/
def DiscoveryDCMICapabilities_SupportedDCMICapabilities (bmc : Controller)
    (s : Client × DCMICapabilities) : Run ((Client × DCMICapabilities) × Option IpmiError) := do
  let request : GetDCMICapabilitiesInfoRequest :=
    { ParamSelector := DCMICapParamSelector_SupportedDCMICapabilities }
  let response : GetDCMICapabilitiesInfoResponse := {}
  let (c, response, err) ← Client.Exchange bmc s.1 request.Command request.Pack response
    GetDCMICapabilitiesInfoResponse.Unpack
  match err with
  | some e => pure ((c, s.2), some (.wrap "failed to get DCMI SupportedDCMICapabilities" e))
  | none => do
    let param : DCMICapParam_SupportedDCMICapabilities := {}
    let (param, err) ← param.Unpack response.ParamData
    match err with
    | some e => pure ((c, s.2), some (.wrap "failed to unpack DCMI SupportedDCMICapabilities" e))
    | none => pure ((c, { s.2 with SupportedDCMICapabilities := param }), none)

/-- The block of Go `(*Client).DiscoveryDCMICapabilities` that fetches
`MandatoryPlatformAttributes`. -/
def DiscoveryDCMICapabilities_MandatoryPlatformAttributes (bmc : Controller)
    (s : Client × DCMICapabilities) : Run ((Client × DCMICapabilities) × Option IpmiError) := do
  let request : GetDCMICapabilitiesInfoRequest :=
    { ParamSelector := DCMICapParamSelector_MandatoryPlatformAttributes }
  let response : GetDCMICapabilitiesInfoResponse := {}
  let (c, response, err) ← Client.Exchange bmc s.1 request.Command request.Pack response
    GetDCMICapabilitiesInfoResponse.Unpack
  match err with
  | some e => pure ((c, s.2), some (.wrap "failed to get DCMI MandatoryPlatformAttributes" e))
  | none => do
    let param : DCMICapParam_MandatoryPlatformAttributes := {}
    let (param, err) ← param.Unpack response.ParamData
    match err with
    | some e => pure ((c, s.2), some (.wrap "failed to unpack DCMI MandatoryPlatformAttributes" e))
    | none => pure ((c, { s.2 with MandatoryPlatformAttributes := param }), none)

/-- The block of Go `(*Client).DiscoveryDCMICapabilities` that fetches
`OptionalPlatformAttributes`. -/
def DiscoveryDCMICapabilities_OptionalPlatformAttributes (bmc : Controller)
    (s : Client × DCMICapabilities) : Run ((Client × DCMICapabilities) × Option IpmiError) := do
  let request : GetDCMICapabilitiesInfoRequest :=
    { ParamSelector := DCMICapParamSelector_OptionalPlatformAttributes }
  let response : GetDCMICapabilitiesInfoResponse := {}
  let (c, response, err) ← Client.Exchange bmc s.1 request.Command request.Pack response
    GetDCMICapabilitiesInfoResponse.Unpack
  match err with
  | some e => pure ((c, s.2), some (.wrap "failed to get DCMI OptionalPlatformAttributes" e))
  | none => do
    let param : DCMICapParam_OptionalPlatformAttributes := {}
    let (param, err) ← param.Unpack response.ParamData
    match err with
    | some e => pure ((c, s.2), some (.wrap "failed to unpack DCMI OptionalPlatformAttributes" e))
    | none => pure ((c, { s.2 with OptionalPlatformAttributes := param }), none)

/-- The block of Go `(*Client).DiscoveryDCMICapabilities` that fetches
`ManageabilityAccessAttributes`. -/
def DiscoveryDCMICapabilities_ManageabilityAccessAttributes (bmc : Controller)
    (s : Client × DCMICapabilities) : Run ((Client × DCMICapabilities) × Option IpmiError) := do
  let request : GetDCMICapabilitiesInfoRequest :=
    { ParamSelector := DCMICapParamSelector_ManageabilityAccessAttributes }
  let response : GetDCMICapabilitiesInfoResponse := {}
  let (c, response, err) ← Client.Exchange bmc s.1 request.Command request.Pack response
    GetDCMICapabilitiesInfoResponse.Unpack
  match err with
  | some e => pure ((c, s.2), some (.wrap "failed to get DCMI ManageabilityAccessAttributes" e))
  | none => do
    let param : DCMICapParam_ManageabilityAccessAttributes := {}
    let (param, err) ← param.Unpack response.ParamData
    match err with
    | some e => pure ((c, s.2), some (.wrap "failed to unpack DCMI ManageabilityAccessAttributes" e))
    | none => pure ((c, { s.2 with ManageabilityAccessAttributes := param }), none)

/-- The block of Go `(*Client).DiscoveryDCMICapabilities` that fetches
`EnhancedSystemPowerStatisticsAttributes`. -/
def DiscoveryDCMICapabilities_EnhancedSystemPowerStatisticsAttributes (bmc : Controller)
    (s : Client × DCMICapabilities) : Run ((Client × DCMICapabilities) × Option IpmiError) := do
  let request : GetDCMICapabilitiesInfoRequest :=
    { ParamSelector := DCMICapParamSelector_EnhancedSystemPowerStatisticsAttributes }
  let response : GetDCMICapabilitiesInfoResponse := {}
  let (c, response, err) ← Client.Exchange bmc s.1 request.Command request.Pack response
    GetDCMICapabilitiesInfoResponse.Unpack
  match err with
  | some e => pure ((c, s.2), some (.wrap "failed to get DCMI EnhancedSystemPowerStatisticsAttributes" e))
  | none => do
    let param : DCMICapParam_EnhancedSystemPowerStatisticsAttributes := {}
    let (param, err) ← param.Unpack response.ParamData
    match err with
    | some e => pure ((c, s.2), some (.wrap "failed to unpack DCMI EnhancedSystemPowerStatisticsAttributes" e))
    | none => pure ((c, { s.2 with EnhancedSystemPowerStatisticsAttributes := param }), none)

/-- Go `(*Client).DiscoveryDCMICapabilities`: the five blocks in source order, each
left at its first error with a nil result. -/
def Client.DiscoveryDCMICapabilities (bmc : Controller) (c : Client) :
    Run (Client × Option DCMICapabilities × Option IpmiError) :=
  let r := (DiscoveryDCMICapabilities_SupportedDCMICapabilities bmc (c, {}))
    |>.andThen (DiscoveryDCMICapabilities_MandatoryPlatformAttributes bmc)
    |>.andThen (DiscoveryDCMICapabilities_OptionalPlatformAttributes bmc)
    |>.andThen (DiscoveryDCMICapabilities_ManageabilityAccessAttributes bmc)
    |>.andThen (DiscoveryDCMICapabilities_EnhancedSystemPowerStatisticsAttributes bmc)
  match r with
  | .ret ((c, out), none) => .ret (c, some out, none)
  | .ret ((c, _), some e) => .ret (c, none, some e)
  | .panic => .panic
  | .timeout => .timeout

/-! ## Get DCMI Configuration Parameters and the configuration aggregate
(cmd_get_dcmi_config_param.go, types_dcmi_params.go) -/

/-- Go `DCMIConfigParamSelector_ActivateDHCP`. -/
def DCMIConfigParamSelector_ActivateDHCP : Nat := 0x01
/-- Go `DCMIConfigParamSelector_DiscoveryConfiguration`. -/
def DCMIConfigParamSelector_DiscoveryConfiguration : Nat := 0x02
/-- Go `DCMIConfigParamSelector_DHCPTiming1`. -/
def DCMIConfigParamSelector_DHCPTiming1 : Nat := 0x03
/-- Go `DCMIConfigParamSelector_DHCPTiming2`. -/
def DCMIConfigParamSelector_DHCPTiming2 : Nat := 0x04
/-- Go `DCMIConfigParamSelector_DHCPTiming3`. -/
def DCMIConfigParamSelector_DHCPTiming3 : Nat := 0x05

/-- Go `DCMIConfig`. -/
structure DCMIConfig where
  ActivateDHCP : DCMIConfigParam_ActivateDHCP := {}
  DiscoveryConfiguration : DCMIConfigParam_DiscoveryConfiguration := {}
  DHCPTiming1 : DCMIConfigParam_DHCPTiming1 := {}
  DHCPTiming2 : DCMIConfigParam_DHCPTiming2 := {}
  DHCPTiming3 : DCMIConfigParam_DHCPTiming3 := {}
  deriving DecidableEq, Repr

/-- Go `(*Client).GetDCMIConfigurationParams`. -/
def Client.GetDCMIConfigurationParams (bmc : Controller) (c : Client)
    (paramSelector setSelector : Nat) :
    Run (Client × GetDCMIConfigurationParamsResponse × Option IpmiError) :=
  let request : GetDCMIConfigurationParamsRequest :=
    { ParamSelector := paramSelector, SetSelector := setSelector }
  let response : GetDCMIConfigurationParamsResponse := {}
  Client.Exchange bmc c request.Command request.Pack response
    GetDCMIConfigurationParamsResponse.Unpack

/-- The block of Go `(*Client).GetDCMIConfigurations` that fetches `ActivateDHCP`. -/
def GetDCMIConfigurations_ActivateDHCP (bmc : Controller) (s : Client × DCMIConfig) :
    Run ((Client × DCMIConfig) × Option IpmiError) := do
  let request : GetDCMIConfigurationParamsRequest :=
    { ParamSelector := DCMIConfigParamSelector_ActivateDHCP }
  let response : GetDCMIConfigurationParamsResponse := {}
  let (c, response, err) ← Client.Exchange bmc s.1 request.Command request.Pack response
    GetDCMIConfigurationParamsResponse.Unpack
  match err with
  | some e => pure ((c, s.2), some (.wrap "failed to get DCMI Config ActivateDHCP" e))
  | none => do
    let param : DCMIConfigParam_ActivateDHCP := {}
    let (param, err) ← param.Unpack response.ParamData
    match err with
    | some e => pure ((c, s.2), some (.wrap "failed to unpack DCMI Config ActivateDHCP" e))
    | none => pure ((c, { s.2 with ActivateDHCP := param }), none)

/-- The block of Go `(*Client).GetDCMIConfigurations` that fetches `DiscoveryConfiguration`. -/
def GetDCMIConfigurations_DiscoveryConfiguration (bmc : Controller) (s : Client × DCMIConfig) :
    Run ((Client × DCMIConfig) × Option IpmiError) := do
  let request : GetDCMIConfigurationParamsRequest :=
    { ParamSelector := DCMIConfigParamSelector_DiscoveryConfiguration }
  let response : GetDCMIConfigurationParamsResponse := {}
  let (c, response, err) ← Client.Exchange bmc s.1 request.Command request.Pack response
    GetDCMIConfigurationParamsResponse.Unpack
  match err with
  | some e => pure ((c, s.2), some (.wrap "failed to get DCMI Config DiscoveryConfiguration" e))
  | none => do
    let param : DCMIConfigParam_DiscoveryConfiguration := {}
    let (param, err) ← param.Unpack response.ParamData
    match err with
    | some e => pure ((c, s.2), some (.wrap "failed to unpack DCMI Config DiscoveryConfiguration" e))
    | none => pure ((c, { s.2 with DiscoveryConfiguration := param }), none)

/-- The block of Go `(*Client).GetDCMIConfigurations` that fetches `DHCPTiming1`. -/
def GetDCMIConfigurations_DHCPTiming1 (bmc : Controller) (s : Client × DCMIConfig) :
    Run ((Client × DCMIConfig) × Option IpmiError) := do
  let request : GetDCMIConfigurationParamsRequest :=
    { ParamSelector := DCMIConfigParamSelector_DHCPTiming1 }
  let response : GetDCMIConfigurationParamsResponse := {}
  let (c, response, err) ← Client.Exchange bmc s.1 request.Command request.Pack response
    GetDCMIConfigurationParamsResponse.Unpack
  match err with
  | some e => pure ((c, s.2), some (.wrap "failed to get DCMI Config DHCPTiming1" e))
  | none => do
    let param : DCMIConfigParam_DHCPTiming1 := {}
    let (param, err) ← param.Unpack response.ParamData
    match err with
    | some e => pure ((c, s.2), some (.wrap "failed to unpack DCMI Config DHCPTiming1" e))
    | none => pure ((c, { s.2 with DHCPTiming1 := param }), none)

/-- The block of Go `(*Client).GetDCMIConfigurations` that fetches `DHCPTiming2`. -/
def GetDCMIConfigurations_DHCPTiming2 (bmc : Controller) (s : Client × DCMIConfig) :
    Run ((Client × DCMIConfig) × Option IpmiError) := do
  let request : GetDCMIConfigurationParamsRequest :=
    { ParamSelector := DCMIConfigParamSelector_DHCPTiming2 }
  let response : GetDCMIConfigurationParamsResponse := {}
  let (c, response, err) ← Client.Exchange bmc s.1 request.Command request.Pack response
    GetDCMIConfigurationParamsResponse.Unpack
  match err with
  | some e => pure ((c, s.2), some (.wrap "failed to get DCMI Config DHCPTiming2" e))
  | none => do
    let param : DCMIConfigParam_DHCPTiming2 := {}
    let (param, err) ← param.Unpack response.ParamData
    match err with
    | some e => pure ((c, s.2), some (.wrap "failed to unpack DCMI Config DHCPTiming2" e))
    | none => pure ((c, { s.2 with DHCPTiming2 := param }), none)

/-- The block of Go `(*Client).GetDCMIConfigurations` that fetches `DHCPTiming3`. -/
def GetDCMIConfigurations_DHCPTiming3 (bmc : Controller) (s : Client × DCMIConfig) :
    Run ((Client × DCMIConfig) × Option IpmiError) := do
  let request : GetDCMIConfigurationParamsRequest :=
    { ParamSelector := DCMIConfigParamSelector_DHCPTiming3 }
  let response : GetDCMIConfigurationParamsResponse := {}
  let (c, response, err) ← Client.Exchange bmc s.1 request.Command request.Pack response
    GetDCMIConfigurationParamsResponse.Unpack
  match err with
  | some e => pure ((c, s.2), some (.wrap "failed to get DCMI Config DHCPTiming3" e))
  | none => do
    let param : DCMIConfigParam_DHCPTiming3 := {}
    let (param, err) ← param.Unpack response.ParamData
    match err with
    | some e => pure ((c, s.2), some (.wrap "failed to unpack DCMI Config DHCPTiming3" e))
    | none => pure ((c, { s.2 with DHCPTiming3 := param }), none)

/-- Go `(*Client).GetDCMIConfigurations`: the five blocks in source order, each
left at its first error with a nil result. -/
def Client.GetDCMIConfigurations (bmc : Controller) (c : Client) :
    Run (Client × Option DCMIConfig × Option IpmiError) :=
  let r := (GetDCMIConfigurations_ActivateDHCP bmc (c, {}))
    |>.andThen (GetDCMIConfigurations_DiscoveryConfiguration bmc)
    |>.andThen (GetDCMIConfigurations_DHCPTiming1 bmc)
    |>.andThen (GetDCMIConfigurations_DHCPTiming2 bmc)
    |>.andThen (GetDCMIConfigurations_DHCPTiming3 bmc)
  match r with
  | .ret ((c, out), none) => .ret (c, some out, none)
  | .ret ((c, _), some e) => .ret (c, none, some e)
  | .panic => .panic
  | .timeout => .timeout

/-! ## The exception action and the set power limit operation
(types_dcmi.go, cmd_set_dcmi_power_limit.go) -/

/-- Go `DCMIExceptionAction`, a named `uint8` type. -/
abbrev DCMIExceptionAction := Nat

/-- Go `DCMIExceptionAction_NoAction`. -/
def DCMIExceptionAction_NoAction : DCMIExceptionAction := 0x00
/-- Go `DCMIExceptionAction_PowerOffAndLogSEL`. -/
def DCMIExceptionAction_PowerOffAndLogSEL : DCMIExceptionAction := 0x01
/-- Go `DCMIExceptionAction_LogSELOnly`. -/
def DCMIExceptionAction_LogSELOnly : DCMIExceptionAction := 0x11

/-- Go `(DCMIExceptionAction).String`: a lookup in a map with the keys 0x00, 0x01
and 0x11, and `unknown` for a value that is not a key. -/
def DCMIExceptionAction.String (a : DCMIExceptionAction) : String :=
  if a = 0x00 then "No Action"
  else if a = 0x01 then "Hard Power Off system and log events to SEL"
  else if a = 0x11 then "Log event to SEL only"
  else "unknown"

/-- Go `(*Client).SetDCMIPowerLimit`: the request is a zero-valued
`SetDCMIPowerLimitRequest`. -/
def Client.SetDCMIPowerLimit (bmc : Controller) (c : Client) :
    Run (Client × SetDCMIPowerLimitResponse × Option IpmiError) :=
  let request : SetDCMIPowerLimitRequest := {}
  let response : SetDCMIPowerLimitResponse := {}
  Client.Exchange bmc c request.Command request.Pack response SetDCMIPowerLimitResponse.Unpack

/-! ## The asset tag read loop (cmd/goipmi/commands/dcmi.go) -/

/-- The response of `GetDCMIAssetTag` as far as the read loop uses it: the total
length of the tag and the chunk returned. -/
structure GetDCMIAssetTagResponse where
  TotalLength : Nat := 0
  AssetTag : Bytes := []
  deriving DecidableEq, Repr

/-- The method `(*Client).GetDCMIAssetTag` is declared outside the given sources
and is a parameter of the loop: given the offsets requested before and the offset
requested now, it returns the response or fails. -/
abbrev AssetTagSource := List Nat → Nat → Except IpmiError GetDCMIAssetTagResponse

/-- The variables of the closure of `NewCmdDCMIAssetTag`, and the offsets of the
calls of `GetDCMIAssetTag` made so far. -/
structure AssetTagRead where
  assetTag : Bytes := []
  offset : Nat := 0
  requested : List Nat := []
  deriving DecidableEq, Repr

/-- The `for` loop of the closure of Go `NewCmdDCMIAssetTag`. `offset` is a
`uint8`, so is `uint8(len(resp.AssetTag))`, and their sum wraps at 256. A failed
call ends the command (`CheckErr`). Every call uses one unit of fuel. -/
def NewCmdDCMIAssetTag_loop (src : AssetTagSource) : Nat → AssetTagRead →
    Run (AssetTagRead × Option IpmiError)
  | 0, _ => .timeout
  | fuel + 1, s =>
    let s1 := { s with requested := s.requested ++ [s.offset] }
    match src s.requested s.offset with
    | .error e => .ret (s1, some (.wrap "GetDCMIAssetTag failed" e))
    | .ok resp =>
      let s2 := { s1 with assetTag := s1.assetTag ++ resp.AssetTag }
      if resp.TotalLength ≤ (s.offset + resp.AssetTag.length % 256) % 256 then
        .ret (s2, none)
      else
        NewCmdDCMIAssetTag_loop src fuel
          { s2 with offset := (s.offset + resp.AssetTag.length % 256) % 256 }

/-- The closure of Go `NewCmdDCMIAssetTag`: the loop started with an empty tag at
offset 0. -/
def NewCmdDCMIAssetTag (src : AssetTagSource) (fuel : Nat) :
    Run (AssetTagRead × Option IpmiError) :=
  NewCmdDCMIAssetTag_loop src fuel {}

/-- The simulated asset tag source of the specification: a tag `tag`, served in
chunks of at most `c` octets; a request at offset `o` is answered with the octets
from `o` up to `min (o + c) L` and with `TotalLength = L`. -/
def simulatedAssetTag (tag : Bytes) (c : Nat) : AssetTagSource :=
  fun _ o => .ok { TotalLength := tag.length, AssetTag := (tag.drop o).take c }

/-! ## The thermal policy set subcommand (cmd/goipmi/commands/dcmi.go) -/

/-- The `switch powerParam` of the closure of Go `newCmdDCMIThermalPolicySet`: the
value of `powerOff` after the switch, or the error handed to `CheckErr`. The
helper `CheckErr` is declared outside the given sources; it ends the command
with the error it is given. The last case of the switch is the string case
`case "default":`; a string that matches no case leaves `powerOff` at its zero
value. -/
def newCmdDCMIThermalPolicySet_powerOff (powerParam : String) : Except IpmiError Bool :=
  if powerParam = "poweroff" then .ok true
  else if powerParam = "nopoweroff" ∨ powerParam = "disabled" then .ok false
  else if powerParam = "default" then
    .error (.new ("invalid poweroff parameter: " ++ powerParam))
  else .ok false

/-- The `switch selParam` of the closure of Go `newCmdDCMIThermalPolicySet`: the
value of `sel` after the switch, or the error handed to `CheckErr`. -/
def newCmdDCMIThermalPolicySet_sel (selParam : String) : Except IpmiError Bool :=
  if selParam = "sel" then .ok true
  else if selParam = "nosel" ∨ selParam = "disabled" then .ok false
  else if selParam = "default" then .error (.new ("invalid sel parameter: " ++ selParam))
  else .ok false

/-- The closure of Go `newCmdDCMIThermalPolicySet` for seven or more arguments, up
to the request it hands to `SetDCMIThermalLimit`. The four numbers are the
results of `parseStringToInt64` (declared outside the given sources) on the
arguments 0, 1, 5 and 6; the conversions to `uint8` and `uint16` truncate. The
third argument, the volatile parameter, is not read. -/
def newCmdDCMIThermalPolicySet (entityID entityInstance : Int) (powerParam selParam : String)
    (temperatureLimit exceptionTime : Int) : Except IpmiError SetDCMIThermalLimitRequest := do
  let powerOff ← newCmdDCMIThermalPolicySet_powerOff powerParam
  let sel ← newCmdDCMIThermalPolicySet_sel selParam
  pure { EntityID := (entityID % 256).toNat
         EntityInstance := (entityInstance % 256).toNat
         ExceptionAction_PowerOffAndLogSEL := powerOff
         ExceptionAction_LogSELOnly := sel
         TemperatureLimit := (temperatureLimit % 256).toNat
         ExceptionTimeSec := (exceptionTime % 65536).toNat }

/-! ## Statements about single exchanges -/

/-- The statement that one step of the capability discovery succeeds: the
controller answers the Get DCMI Capabilities Info request for the selector `sel`,
issued after the requests `before`, the reply unpacks as a response, and `unpack`
decodes the `ParamData` of that response into `x` without error. -/
def capabilityFetched {P : Type} (bmc : Controller) (before : List Sent) (sel : Nat)
    (unpack : Bytes → Run (P × Option IpmiError)) (x : P) : Prop :=
  ∃ payload res,
    bmc before (Command.CommandGetDCMICapabilitiesInfo, [GroupExtensionDCMI, sel]) = .ok payload ∧
    GetDCMICapabilitiesInfoResponse.Unpack {} payload = .ret (res, none) ∧
    unpack res.ParamData = .ret (x, none)

/-- The first `n` requests of the capability discovery: Get DCMI Capabilities Info
for the selectors 1, 2, ..., `n`, in that order. -/
def capabilityRequests (n : Nat) : List Sent :=
  (List.range' 1 n).map fun sel =>
    (Command.CommandGetDCMICapabilitiesInfo, [GroupExtensionDCMI, sel])

/-! ## Statements about the PEF aggregation -/

/-- Whether a decode returned, and returned no error. -/
def Run.succeeded {α : Type} : Run (α × Option IpmiError) → Bool
  | .ret (_, none) => true
  | _ => false

/-- Whether configuration data decodes, without an error, into the parameter that
`GetPEFConfig` reads with the selector `sel`; the receiver is the fresh value
`GetPEFConfig` passes. -/
def pefConfigDataDecodes (sel : Nat) (data : Bytes) : Bool :=
  if sel = PEFConfigParamSelector_Control then
    (PEFConfigParam_Control.Unpack {} data).succeeded
  else if sel = PEFConfigParamSelector_ActionGlobalControl then
    (PEFConfigParam_ActionGlobalControl.Unpack {} data).succeeded
  else if sel = PEFConfigParamSelector_StartupDelay then
    (PEFConfigParam_StartupDelay.Unpack {} data).succeeded
  else if sel = PEFConfigParamSelector_AlertStartDelay then
    (PEFConfigParam_AlertStartupDelay.Unpack {} data).succeeded
  else if sel = PEFConfigParamSelector_NumberOfEventFilter then
    (PEFConfigParam_NumberOfEventFilters.Unpack {} data).succeeded
  else if sel = PEFConfigParamSelector_EventFilter then
    (PEFConfigParam_EventFilter.Unpack {} data).succeeded
  else if sel = PEFConfigParamSelector_EventFilterData1 then
    (PEFConfigParam_EventFilterData1.Unpack {} data).succeeded
  else if sel = PEFConfigParamSelector_NumberOfAlertPolicyEntries then
    (PEFConfigParam_NumberOfAlertPolicies.Unpack {} data).succeeded
  else if sel = PEFConfigParamSelector_AlertPolicy then
    (PEFConfigParam_AlertPolicy.Unpack {} data).succeeded
  else if sel = PEFConfigParamSelector_SystemGUID then
    (PEFConfigParam_SystemGUID.Unpack {} data).succeeded
  else if sel = PEFConfigParamSelector_NumberOfAlertStrings then
    (PEFConfigParam_NumberOfAlertStrings.Unpack {} data).succeeded
  else if sel = PEFConfigParamSelector_AlertStringKeys then
    (PEFConfigParam_AlertStringKeys.Unpack {} data).succeeded
  else if sel = PEFConfigParamSelector_AlertStrings then
    (PEFConfigParam_AlertStrings.Unpack {} data).succeeded
  else false

/-- Whether one exchange of `GetPEFConfig` succeeds: the controller answers the
request `req` sent after the requests `before`, the reply unpacks as a Get PEF
Configuration Parameters response, and its configuration data decodes into the
parameter named by the first octet of the request. -/
def pefExchangeSucceeds (bmc : Controller) (before : List Sent) (req : Sent) : Bool :=
  match bmc before req with
  | .error _ => false
  | .ok payload =>
    match GetPEFConfigParametersResponse.Unpack {} payload with
    | .ret (res, none) => pefConfigDataDecodes (req.2.headD 0) res.ConfigData
    | _ => false

/-- Whether the `Format` call that follows one exchange of `GetPEFConfig`
returns. Only the `Format` of an event filter can fail to: this is false when
the request `req`, sent after the requests `before`, selects the event filter
parameter, the reply decodes into an event filter, and `Format` of that filter
does not return. -/
def pefFormatReturns (bmc : Controller) (before : List Sent) (req : Sent) : Bool :=
  if req.2.headD 0 = PEFConfigParamSelector_EventFilter then
    match bmc before req with
    | .error _ => true
    | .ok payload =>
      match GetPEFConfigParametersResponse.Unpack {} payload with
      | .ret (res, none) =>
        match PEFConfigParam_EventFilter.Unpack {} res.ConfigData with
        | .ret (p, none) => decide (PEFConfigParam_EventFilter.Format p = .ret ())
        | _ => true
      | _ => true
  else true

/-- A controller none of whose event filters stops `Format`. -/
def pefFormatsReturn (bmc : Controller) : Prop :=
  ∀ before req, pefFormatReturns bmc before req = true

/-- Whether every request of a list succeeds when the list is sent, in order,
after the requests `before`. -/
def pefExchangesSucceed (bmc : Controller) (before : List Sent) : List Sent → Bool
  | [] => true
  | req :: rest =>
    pefExchangeSucceeds bmc before req && pefExchangesSucceed bmc (before ++ [req]) rest

/-- The count fields of the aggregate that the first `n` count blocks have set. -/
def pefCounted (n : Nat) (cfg : PEFConfig) : Prop :=
  (1 ≤ n → cfg.NumberOfEventFilters ≠ none) ∧
  (2 ≤ n → cfg.NumberOfAlertPolicies ≠ none) ∧
  (3 ≤ n → cfg.NumberOfAlertStrings ≠ none)

/-- One step of the aggregation from the state `s`: a single request is issued;
either the exchange succeeded and the step fell through with an aggregate that
satisfies `Q`, or the exchange failed and the step left with an error, or the
exchange succeeded and the run was stopped in the `Format` call that follows
it. -/
def pefStep (bmc : Controller) (Q : PEFConfig → Prop) (s : Client × PEFConfig)
    (r : Run ((Client × PEFConfig) × Option IpmiError)) : Prop :=
  ∃ req,
    (∃ cfg, r = .ret (({ sent := s.1.sent ++ [req] }, cfg), none) ∧ Q cfg ∧
      pefExchangeSucceeds bmc s.1.sent req = true) ∨
    (∃ cfg e, r = .ret (({ sent := s.1.sent ++ [req] }, cfg), some e) ∧
      pefExchangeSucceeds bmc s.1.sent req = false) ∨
    (r = .panic ∧ pefExchangeSucceeds bmc s.1.sent req = true ∧
      pefFormatReturns bmc s.1.sent req = false)

/-- A stretch of the aggregation started after the requests `before`: it is
stopped by the run-time only in the `Format` call that follows an exchange, after
exchanges that all succeeded; when it falls through, every exchange it issued
succeeded and the aggregate satisfies `Q`; when it leaves with an error, the last
exchange it issued failed and every earlier one succeeded; it runs out of fuel
only when `T` holds. -/
def pefTraced (bmc : Controller) (before : List Sent) (Q : PEFConfig → Prop) (T : Prop)
    (r : Run ((Client × PEFConfig) × Option IpmiError)) : Prop :=
  match r with
  | .panic =>
    ∃ done req, pefExchangesSucceed bmc before done = true ∧
      pefExchangeSucceeds bmc (before ++ done) req = true ∧
      pefFormatReturns bmc (before ++ done) req = false
  | .timeout => T
  | .ret (s, none) =>
    Q s.2 ∧ ∃ issued, s.1.sent = before ++ issued ∧ pefExchangesSucceed bmc before issued = true
  | .ret (s, some _) =>
    ∃ done req, s.1.sent = before ++ done ++ [req] ∧
      pefExchangesSucceed bmc before done = true ∧
      pefExchangeSucceeds bmc (before ++ done) req = false

/-- The condition under which a loop started after the requests `before` may not
run out of fuel: either running out is allowed (`T`), or some exchange within
reach of the fuel is bound to fail. -/
def pefFuelSuffices (bmc : Controller) (T : Prop) (fuel : Nat) (before : List Sent) : Prop :=
  T ∨ ∃ L, (∀ b req, b.length = L → pefExchangeSucceeds bmc b req = false) ∧
    before.length ≤ L ∧ L < before.length + fuel

/-! ## Statements about decoders -/

/-- The least input length `n` that a decoder accepts: every input shorter than
`n` is answered with an error, every input of `n` or more octets is decoded
without an error, whatever the receiver holds. -/
def leastAccepted {R : Type} (unpack : R → Bytes → Run (R × Option IpmiError)) (n : Nat) :
    Prop :=
  ∀ (r : R) (data : Bytes),
    (data.length < n → ∃ e, unpack r data = .ret (r, some e)) ∧
    (n ≤ data.length → ∃ r1, unpack r data = .ret (r1, none))

/-- Whether the Get DCMI Configuration Parameters exchange for the selector `sel`
with set selector 0, sent after the requests `before`, succeeds and its parameter
data decodes to `x`. -/
def configFetched {P : Type} (bmc : Controller) (before : List Sent) (sel : Nat)
    (unpack : Bytes → Run (P × Option IpmiError)) (x : P) : Prop :=
  ∃ payload res,
    bmc before (Command.CommandGetDCMIConfigurationParams, [GroupExtensionDCMI, sel, 0])
      = .ok payload ∧
    GetDCMIConfigurationParamsResponse.Unpack {} payload = .ret (res, none) ∧
    unpack res.ParamData = .ret (x, none)

/-- The first `n` requests of `GetDCMIConfigurations`: Get DCMI Configuration
Parameters for the selectors 1, 2, ..., `n`, in that order, each with set
selector 0. -/
def configRequests (n : Nat) : List Sent :=
  (List.range' 1 n).map fun sel =>
    (Command.CommandGetDCMIConfigurationParams, [GroupExtensionDCMI, sel, 0])

/-- A request of `GetPEFConfig`: Get PEF Configuration Parameters with the
revision-only bit clear, for a parameter selector, a set selector and a block
selector. -/
def pefRequest (sel set block : Nat) : Sent :=
  (Command.CommandGetPEFConfigParameters, [sel, set, block])

/-- A controller on which every exchange of `GetPEFConfig` succeeds: whatever was
sent before, a request for one of the selectors 0x01..0x0d is answered, and the
answer decodes. -/
def pefAllSucceed (bmc : Controller) : Prop :=
  ∀ before sel set block, 1 ≤ sel → sel ≤ 0x0d →
    pefExchangeSucceeds bmc before (pefRequest sel set block) = true

/-- A controller that reports the count `n` for the count parameter `sel`: the
configuration data of its answer starts with the octet `n`. -/
def pefReportsCount (bmc : Controller) (sel n : Nat) : Prop :=
  ∀ before, ∃ payload res,
    bmc before (pefRequest sel 0 0) = .ok payload ∧
    GetPEFConfigParametersResponse.Unpack {} payload = .ret (res, none) ∧
    res.ConfigData.head? = some n

/-- The requests of a complete run of `GetPEFConfig` on a controller that reports
`f` event filters, `p` alert policies and `s` alert strings. -/
def pefTrace (f p s : Nat) : List Sent :=
  [pefRequest 0x01 0 0, pefRequest 0x02 0 0, pefRequest 0x03 0 0, pefRequest 0x04 0 0,
    pefRequest 0x05 0 0]
  ++ (List.range' 1 f).map (fun i => pefRequest 0x06 i 0)
  ++ (List.range' 1 f).map (fun i => pefRequest 0x07 i 0)
  ++ [pefRequest 0x08 0 0]
  ++ (List.range' 1 (p - 1)).map (fun i => pefRequest 0x09 i 0)
  ++ [pefRequest 0x0a 0 0, pefRequest 0x0b 0 0]
  ++ (List.range' 1 s).map (fun i => pefRequest 0x0c i 0)
  ++ (List.range' 1 (s - 1)).map (fun i => pefRequest 0x0d i 1)

/-- What the aggregate holds at a point of a run on which every exchange
succeeded: the three fields `GetPEFConfig` never fetches are nil, the counts are
the ones fetched so far, and the lists have the given lengths. -/
def pefShape (f p s : Option Nat) (nf nd np nk ns : Nat) (cfg : PEFConfig) : Prop :=
  cfg.SetInProgress = none ∧ cfg.NumberOfGroupControlTableEntries = none ∧
  cfg.GroupControlTable = none ∧
  cfg.NumberOfEventFilters = f.map (fun n => { Value := n }) ∧
  cfg.NumberOfAlertPolicies = p.map (fun n => { Value := n }) ∧
  cfg.NumberOfAlertStrings = s.map (fun n => { Value := n }) ∧
  cfg.EventFilters.length = nf ∧ cfg.EventFiltersData1.length = nd ∧
  cfg.AlertPolicies.length = np ∧ cfg.AlertStringKeys.length = nk ∧
  cfg.AlertStrings.length = ns

/-- A stretch of the aggregation on which no exchange fails: it falls through
having sent exactly `sent`, with an aggregate that satisfies `Q`; it runs out of
fuel only when `T` holds. -/
def pefExact (T : Prop) (sent : List Sent) (Q : PEFConfig → Prop)
    (r : Run ((Client × PEFConfig) × Option IpmiError)) : Prop :=
  match r with
  | .ret (s, none) => s.1.sent = sent ∧ Q s.2
  | .timeout => T
  | _ => False

/-! ## Concrete controllers and sources used as test inputs -/

/-- A controller on which every exchange of `GetPEFConfig` succeeds: it reports
`f` event filters, `p` alert policies and `s` alert strings and answers every
other parameter with revision 0x11 followed by 21 zero octets. -/
def countingBmc (f p s : Nat) : Controller := fun _ req =>
  match req.2 with
  | 0x05 :: _ => .ok [0x11, f]
  | 0x08 :: _ => .ok [0x11, p]
  | 0x0b :: _ => .ok [0x11, s]
  | _ => .ok (0x11 :: List.replicate 21 0)

/-- A controller on which every exchange of `GetPEFConfig` succeeds and which
reports one event filter, no alert policy and no alert string. Its event filter
is the entry number 1 followed by the octet 0x40 and 19 zero octets, a filter
with the type bits 10b; it answers every other parameter with revision 0x11
followed by 21 zero octets. -/
def preconfBmc : Controller := fun _ req =>
  match req.2 with
  | 0x05 :: _ => .ok [0x11, 1]
  | 0x06 :: _ => .ok (0x11 :: 1 :: 0x40 :: List.replicate 19 0)
  | 0x08 :: _ => .ok [0x11, 0]
  | 0x0b :: _ => .ok [0x11, 0]
  | _ => .ok (0x11 :: List.replicate 21 0)

/-- A controller that accepts every DCMI request: it answers with the group
extension marker alone. -/
def acceptingBmc : Controller := fun _ _ => .ok [GroupExtensionDCMI]

/-- An asset tag source that always reports a one-octet tag and returns a
zero-length chunk. -/
def emptyChunkSource : AssetTagSource :=
  fun _ _ => .ok { TotalLength := 1, AssetTag := [] }

/-- A controller that refuses every request with the completion code 0xC1. -/
def refusingBmc : Controller := fun _ _ => .error (.exchange 0xC1)

/-- A controller that answers every Get DCMI Capabilities Info request: version
1.5, revision 2, and the parameter data 0, 1, 7, 0, 10, or two rolling average
periods for the selector 0x05. -/
def capabilityBmc : Controller := fun _ req =>
  match req.2 with
  | [_, 0x05] => .ok [0xDC, 1, 5, 2, 2, 0b01000010, 0b00000101]
  | _ => .ok [0xDC, 1, 5, 2, 0, 1, 7, 0, 10]

/-- A controller that refuses the request sent after exactly `k` earlier ones with
the completion code 0xC1, and answers every other request with a revision octet
and 21 zero octets. -/
def refusingAtBmc (k : Nat) : Controller := fun before _ =>
  if before.length = k then .error (.exchange 0xC1) else .ok (0x11 :: List.replicate 21 0)

/-- A controller that answers every Get DCMI Configuration Parameters request:
version 1.5, revision 2 and the parameter octet 4. -/
def configBmc : Controller := fun _ _ => .ok [0xDC, 1, 5, 2, 4]

/-! ## Basic facts about `Run` -/

@[simp] theorem Run.pure_eq {α : Type} (a : α) : (pure a : Run α) = Run.ret a := rfl

@[simp] theorem Run.ret_bind {α β : Type} (a : α) (f : α → Run β) :
    (Run.ret a >>= f) = f a := rfl

@[simp] theorem Run.panic_bind {α β : Type} (f : α → Run β) :
    ((Run.panic : Run α) >>= f) = Run.panic := rfl

@[simp] theorem Run.timeout_bind {α β : Type} (f : α → Run β) :
    ((Run.timeout : Run α) >>= f) = Run.timeout := rfl

@[simp] theorem idx_cons_zero (a : Nat) (l : Bytes) : idx (a :: l) 0 = Run.ret a := by
  simp [idx]

@[simp] theorem idx_cons_succ (a : Nat) (l : Bytes) (i : Nat) :
    idx (a :: l) (i + 1) = idx l i := by
  simp [idx]

theorem PEFEventFilter_Pack_length (entry : PEFEventFilter) : entry.Pack.length = 20 := by
  simp [PEFEventFilter.Pack, packUint16L, make]

/-! ## The `String` and `Format` methods -/

theorem PEFEventFilterType_String_nested_fatal (filterType : PEFEventFilterType)
    (h0 : filterType ≠ PEFEventFilterType_Configurable)
    (h1 : filterType ≠ PEFEventFilterType_PreConfigured) :
    ∀ depth, PEFEventFilterType.String_nested depth filterType = .panic := by
  intro depth
  induction depth with
  | zero => rfl
  | succ depth ih =>
    unfold PEFEventFilterType.String_nested
    rw [if_neg h0, if_neg h1, ih]
    rfl

/-- The outcome of `(PEFEventFilterType).String`: the two declared constants are
named; for every other value the fallback calls `String` again without end and
the run-time stops the program. -/
theorem PEFEventFilterType_String_eq (filterType : PEFEventFilterType) :
    PEFEventFilterType.String filterType
      = if filterType = PEFEventFilterType_Configurable then .ret "Configurable"
        else if filterType = PEFEventFilterType_PreConfigured then .ret "Pre-Configured"
        else .panic := by
  by_cases h0 : filterType = PEFEventFilterType_Configurable
  · rw [if_pos h0, h0]; rfl
  · by_cases h1 : filterType = PEFEventFilterType_PreConfigured
    · rw [if_neg h0, if_pos h1, h1]; rfl
    · rw [if_neg h0, if_neg h1]
      exact PEFEventFilterType_String_nested_fatal filterType h0 h1 _

theorem PEFEventFilter_Format_eq (entry : PEFEventFilter) :
    PEFEventFilter.Format entry
      = if entry.FilterType = PEFEventFilterType_Configurable
          ∨ entry.FilterType = PEFEventFilterType_PreConfigured then .ret () else .panic := by
  unfold PEFEventFilter.Format
  rw [PEFEventFilterType_String_eq]
  by_cases h0 : entry.FilterType = PEFEventFilterType_Configurable
  · rw [if_pos h0, if_pos (Or.inl h0)]; rfl
  · by_cases h1 : entry.FilterType = PEFEventFilterType_PreConfigured
    · rw [if_neg h0, if_pos h1, if_pos (Or.inr h1)]; rfl
    · rw [if_neg h0, if_neg h1, if_neg (by rintro (h | h) <;> contradiction)]; rfl

theorem PEFConfigParam_EventFilter_Format_outcome (param : PEFConfigParam_EventFilter) :
    PEFConfigParam_EventFilter.Format param = .ret () ∨
    PEFConfigParam_EventFilter.Format param = .panic := by
  unfold PEFConfigParam_EventFilter.Format
  cases param.Entry with
  | none => exact Or.inr rfl
  | some entry =>
    dsimp only
    rw [PEFEventFilter_Format_eq]
    split
    · exact Or.inl rfl
    · exact Or.inr rfl

/-- The `Format` of an event filter parameter returns exactly when the parameter
holds an entry whose filter type is one of the two declared constants. -/
theorem PEFConfigParam_EventFilter_Format_returns (param : PEFConfigParam_EventFilter) :
    PEFConfigParam_EventFilter.Format param = .ret () ↔
      ∃ entry, param.Entry = some entry ∧
        (entry.FilterType = PEFEventFilterType_Configurable
          ∨ entry.FilterType = PEFEventFilterType_PreConfigured) := by
  unfold PEFConfigParam_EventFilter.Format
  cases param.Entry with
  | none =>
    constructor
    · intro h; cases h
    · rintro ⟨entry, h, _⟩; cases h
  | some entry =>
    dsimp only
    rw [PEFEventFilter_Format_eq]
    constructor
    · intro h
      refine ⟨entry, rfl, ?_⟩
      by_contra hne
      rw [if_neg hne] at h
      cases h
    · rintro ⟨e1, h, ht⟩
      cases h
      rw [if_pos ht]
      rfl

/-! ## The event filter record and its constants -/

/-- Claim C1: the round trip of the 20-octet event filter record fails for the
declared constant `PEFEventFilterType_PreConfigured` (0x10). `Pack` does produce
20 octets, but `uint8(0x10) << 5` is 0, so octet 0 carries filter type 00b and
`Unpack` of the packed record yields `PEFEventFilterType_Configurable`, a record
different from the one packed. -/
theorem PEFEventFilter.roundtrip_loses_PreConfigured :
    PEFEventFilterType_PreConfigured = 0x10 ∧
    (PEFEventFilter.Pack { FilterType := PEFEventFilterType_PreConfigured }).length = 20 ∧
    (PEFEventFilter.Pack { FilterType := PEFEventFilterType_PreConfigured })[0]? = some 0 ∧
    PEFEventFilter.Unpack {} (PEFEventFilter.Pack { FilterType := PEFEventFilterType_PreConfigured })
      = .ret ({ FilterType := PEFEventFilterType_Configurable }, none) ∧
    ({ FilterType := PEFEventFilterType_Configurable } : PEFEventFilter)
      ≠ { FilterType := PEFEventFilterType_PreConfigured } := by
  decide

theorem filterType_octet_roundtrip : ∀ t < 4, ∀ e : Bool,
    isBit7Set (setOrClearBit7 ((t <<< 5) % 256) e) = e ∧
    ((setOrClearBit7 ((t <<< 5) % 256) e) >>> 5) &&& 0x03 = t := by
  decide

theorem action_octet_roundtrip : ∀ a6 a5 a4 a3 a2 a1 a0 : Bool,
    let b := setOrClearBit0 (setOrClearBit1 (setOrClearBit2 (setOrClearBit3 (setOrClearBit4
      (setOrClearBit5 (setOrClearBit6 0 a6) a5) a4) a3) a2) a1) a0
    isBit6Set b = a6 ∧ isBit5Set b = a5 ∧ isBit4Set b = a4 ∧ isBit3Set b = a3 ∧
    isBit2Set b = a2 ∧ isBit1Set b = a1 ∧ isBit0Set b = a0 := by
  decide

theorem policy_octet_roundtrip : ∀ g < 8, ∀ a < 16,
    ((((g <<< 4) % 256) ||| (a &&& 0x0f)) >>> 4) &&& 0x07 = g ∧
    (((g <<< 4) % 256) ||| (a &&& 0x0f)) &&& 0x0f = a := by
  decide

/-- Round trip of the event filter record on the values its wire layout can
carry: for every record whose filter type fits the two bits [6:5], whose group
control selector fits three bits, whose policy number fits four bits and whose
16-bit fields are below 65536, `Pack` is 20 octets long and `Unpack` of it gives
the record back, whatever the receiver held. -/
theorem PEFEventFilter_roundtrip (x r : PEFEventFilter) (hT : x.FilterType < 4)
    (hG : x.GroupControlSelector < 8) (hA : x.AlertPolicyNumber < 16)
    (hGen : x.GeneratorID < 65536) (hE : x.EventData1EventOffsetMask < 65536) :
    x.Pack.length = 20 ∧ PEFEventFilter.Unpack r x.Pack = .ret (x, none) := by
  refine ⟨PEFEventFilter_Pack_length x, ?_⟩
  obtain ⟨fe, ft, a6, a5, a4, a3, a2, a1, a0, g, a, sev, gen, st, sn, ert, ed1, m1, c11, c12,
    m2, c21, c22, m3, c31, c32⟩ := x
  simp only at hT hG hA hGen hE
  have h0 := filterType_octet_roundtrip ft hT fe
  have h1 := action_octet_roundtrip a6 a5 a4 a3 a2 a1 a0
  have h2 := policy_octet_roundtrip g hG a hA
  simp only at h1
  have h3 : gen % 256 + 256 * (gen / 256 % 256) = gen := by omega
  have h4 : ed1 % 256 + 256 * (ed1 / 256 % 256) = ed1 := by omega
  simp [PEFEventFilter.Unpack, PEFEventFilter.Pack, make, packUint16L, unpackUint16L, h0, h1, h2,
    h3, h4]

/-- The round trip at a record with filter type 10b, every flag set and the
largest selector and policy number. -/
theorem PEFEventFilter_roundtrip_witness :
    PEFEventFilter.Unpack {}
      (PEFEventFilter.Pack
        { FilterEnabled := true, FilterType := 2, ActionGroupControlOperation := true,
          ActionDiagnosticInterrupt := true, ActionOEM := true, ActionPowerCycle := true,
          ActionReset := true, ActionPowerOff := true, ActionAlert := true,
          GroupControlSelector := 7, AlertPolicyNumber := 15, EventSeverity := 0x20,
          GeneratorID := 0x1234, EventData1EventOffsetMask := 0xFFFF })
      = .ret ({ FilterEnabled := true, FilterType := 2, ActionGroupControlOperation := true,
                ActionDiagnosticInterrupt := true, ActionOEM := true, ActionPowerCycle := true,
                ActionReset := true, ActionPowerOff := true, ActionAlert := true,
                GroupControlSelector := 7, AlertPolicyNumber := 15, EventSeverity := 0x20,
                GeneratorID := 0x1234, EventData1EventOffsetMask := 0xFFFF }, none) :=
  (PEFEventFilter_roundtrip _ {} (by decide) (by decide) (by decide) (by decide)
    (by decide)).2


/-! ## The group extension marker guard -/

/-- Claim C2, as stated, fails: a non-empty payload whose first octet is not 0xDC
but which is shorter than the 14 octets of the power limit response is answered
with the too-short error, not with the group extension mismatch. -/
theorem GetDCMIPowerLimitResponse.Unpack_short_wrong_marker :
    GetDCMIPowerLimitResponse.Unpack {} [0x00]
        = .ret ({}, some (ErrUnpackedDataTooShortWith 1 14)) ∧
    ErrUnpackedDataTooShortWith 1 14 ≠ ErrDCMIGroupExtensionIdentificationMismatch 0xDC 0x00 := by
  decide

/-- Claim C2, amended: every DCMI response `Unpack` checks the length first and
the marker second. For a payload `b :: rest` with `b ≠ 0xDC`, each of the seven
response types returns the group extension mismatch (expected 0xDC, actual `b`)
and leaves the receiver as it was, whatever `rest` holds, as soon as the payload
has the least length of that type (5, 5, 1, 14, 1, 5, 1); a shorter payload is
answered with the too-short error of the length check instead. -/
theorem dcmi_group_marker_guard (b : Nat) (rest : Bytes) (hb : b ≠ 0xDC) :
    (∀ r, GetDCMICapabilitiesInfoResponse.Unpack r (b :: rest) = .ret (r, some
        (if (b :: rest).length < 5 then ErrUnpackedDataTooShortWith (b :: rest).length 5
         else ErrDCMIGroupExtensionIdentificationMismatch 0xDC b))) ∧
    (∀ r, GetDCMIConfigurationParamsResponse.Unpack r (b :: rest) = .ret (r, some
        (if (b :: rest).length < 5 then ErrUnpackedDataTooShortWith (b :: rest).length 5
         else ErrDCMIGroupExtensionIdentificationMismatch 0xDC b))) ∧
    (∀ r, SetDCMIConfigurationParamsResponse.Unpack r (b :: rest)
        = .ret (r, some (ErrDCMIGroupExtensionIdentificationMismatch 0xDC b))) ∧
    (∀ r, GetDCMIPowerLimitResponse.Unpack r (b :: rest) = .ret (r, some
        (if (b :: rest).length < 14 then ErrUnpackedDataTooShortWith (b :: rest).length 14
         else ErrDCMIGroupExtensionIdentificationMismatch 0xDC b))) ∧
    (∀ r, SetDCMIPowerLimitResponse.Unpack r (b :: rest)
        = .ret (r, some (ErrDCMIGroupExtensionIdentificationMismatch 0xDC b))) ∧
    (∀ r, GetDCMIThermalLimitResponse.Unpack r (b :: rest) = .ret (r, some
        (if (b :: rest).length < 5 then ErrUnpackedDataTooShortWith (b :: rest).length 5
         else ErrDCMIGroupExtensionIdentificationMismatch 0xDC b))) ∧
    (∀ r, SetDCMIThermalLimitResponse.Unpack r (b :: rest)
        = .ret (r, some (ErrDCMIGroupExtensionIdentificationMismatch 0xDC b))) := by
  refine ⟨?_, ?_, ?_, ?_, ?_, ?_, ?_⟩
  · intro r
    unfold GetDCMICapabilitiesInfoResponse.Unpack
    by_cases h : (b :: rest).length < 5
    · rw [if_pos h, if_pos h]; rfl
    · rw [if_neg h, if_neg h]
      simp [unpackUint8, GroupExtensionDCMI, hb]
  · intro r
    unfold GetDCMIConfigurationParamsResponse.Unpack
    by_cases h : (b :: rest).length < 5
    · rw [if_pos h, if_pos h]; rfl
    · rw [if_neg h, if_neg h]
      simp [unpackUint8, GroupExtensionDCMI, hb]
  · intro r
    simp [SetDCMIConfigurationParamsResponse.Unpack, unpackUint8, GroupExtensionDCMI, hb]
  · intro r
    unfold GetDCMIPowerLimitResponse.Unpack
    by_cases h : (b :: rest).length < 14
    · rw [if_pos h, if_pos h]; rfl
    · rw [if_neg h, if_neg h]
      simp [CheckDCMIGroupExenstionMatch, GroupExtensionDCMI, hb]
  · intro r
    simp [SetDCMIPowerLimitResponse.Unpack, CheckDCMIGroupExenstionMatch, GroupExtensionDCMI, hb]
  · intro r
    unfold GetDCMIThermalLimitResponse.Unpack
    by_cases h : (b :: rest).length < 5
    · rw [if_pos h, if_pos h]; rfl
    · rw [if_neg h, if_neg h]
      simp [CheckDCMIGroupExenstionMatch, GroupExtensionDCMI, hb]
  · intro r
    simp [SetDCMIThermalLimitResponse.Unpack, CheckDCMIGroupExenstionMatch, GroupExtensionDCMI,
      hb]

/-- Claim C2, amended, at a concrete payload: fourteen octets that would decode
as a power limit response but for the first octet 0x00. -/
theorem dcmi_group_marker_guard_witness :
    (0x00 : Nat) ≠ 0xDC ∧
    GetDCMIPowerLimitResponse.Unpack {} [0x00, 0, 0, 1, 0x2c, 1, 0xe8, 3, 0, 0, 0, 0, 5, 0]
      = .ret ({}, some (ErrDCMIGroupExtensionIdentificationMismatch 0xDC 0x00)) :=
  ⟨by decide,
   by
    have h := (dcmi_group_marker_guard 0x00 [0, 0, 1, 0x2c, 1, 0xe8, 3, 0, 0, 0, 0, 5, 0]
      (by decide)).2.2.2.1 {}
    simpa using h⟩

/-! ## The length guards -/

/-- Claim C3 fails at four decoders, which report something else than the least
accepted length: `DCMICapParam_OptionalPlatformAttributes.Unpack` accepts 2 octets
and reports 3 as expected, `PEFConfigParam_EventFilterData1.Unpack` accepts 2 and
reports 21, `SetDCMIConfigurationParamsResponse.Unpack` accepts 1 and reports 2,
and `GetPEFConfigParametersResponse.Unpack` accepts 1 and returns the bare
sentinel with no lengths. -/
theorem unpack_too_short_reports_other_length :
    (DCMICapParam_OptionalPlatformAttributes.Unpack {} [0x20]
        = .ret ({}, some (ErrUnpackedDataTooShortWith 1 3)) ∧
     DCMICapParam_OptionalPlatformAttributes.Unpack {} [0x20, 0x01]
        = .ret ({ PowerMgmtDeviceSlaveAddr := 0x20, PewerMgmtControllerChannelNumber := 0,
                  DeviceRevision := 1 }, none)) ∧
    (PEFConfigParam_EventFilterData1.Unpack {} [0x01]
        = .ret ({}, some (ErrUnpackedDataTooShortWith 1 21)) ∧
     PEFConfigParam_EventFilterData1.Unpack {} [0x01, 0x02]
        = .ret ({ FilterNumber := 1, Data1 := 2 }, none)) ∧
    (SetDCMIConfigurationParamsResponse.Unpack {} []
        = .ret ({}, some (ErrUnpackedDataTooShortWith 0 2)) ∧
     SetDCMIConfigurationParamsResponse.Unpack {} [0xDC] = .ret ({}, none)) ∧
    (GetPEFConfigParametersResponse.Unpack {} []
        = .ret ({}, some ErrUnpackedDataTooShort) ∧
     GetPEFConfigParametersResponse.Unpack {} [0x11]
        = .ret ({ Revision := 0x11, ConfigData := [] }, none)) := by
  decide

/-! ## The event filter parameter -/

/-- Claim C4 fails for every parameter with an entry: `Pack` allocates
`len(entryData)` = 20 octets instead of 21, so the result is 20 octets long,
begins with the entry number, and is rejected by `Unpack` as too short (20 of
21), whatever the receiver. -/
theorem PEFConfigParam_EventFilter.Pack_is_20_octets (n : Nat) (entry : PEFEventFilter) :
    ∃ out, PEFConfigParam_EventFilter.Pack { EntryNumber := n, Entry := some entry }
        = .ret out ∧
      out.length = 20 ∧ out[0]? = some n ∧
      ∀ r, PEFConfigParam_EventFilter.Unpack r out
        = .ret (r, some (ErrUnpackedDataTooShortWith 20 21)) := by
  have hlen := PEFEventFilter_Pack_length entry
  refine ⟨(make 20).set 0 n, ?_, ?_, ?_, ?_⟩
  · simp [PEFConfigParam_EventFilter.Pack, hlen, setIdx, make, packBytes]
  · simp [make]
  · simp [make]
  · intro r
    simp [PEFConfigParam_EventFilter.Unpack, make]


/-! ## The thermal limit precondition -/

theorem SetDCMIThermalLimitResponse_Unpack_returns (r : SetDCMIThermalLimitResponse)
    (msg : Bytes) : ∃ e, SetDCMIThermalLimitResponse.Unpack r msg = .ret (r, e) := by
  unfold SetDCMIThermalLimitResponse.Unpack
  cases msg with
  | nil => exact ⟨_, rfl⟩
  | cons b rest =>
    rw [if_neg (by simp)]
    simp only [idx_cons_zero, Run.ret_bind]
    split <;> exact ⟨_, rfl⟩

theorem GetDCMIThermalLimitResponse_Unpack_returns (r : GetDCMIThermalLimitResponse)
    (msg : Bytes) : ∃ x, GetDCMIThermalLimitResponse.Unpack r msg = .ret x := by
  unfold GetDCMIThermalLimitResponse.Unpack
  cases msg with
  | nil => exact ⟨_, rfl⟩
  | cons b rest =>
    by_cases h : (b :: rest).length < 5
    · rw [if_pos h]; exact ⟨_, rfl⟩
    · rw [if_neg h]
      simp only [idx_cons_zero, Run.ret_bind]
      split <;> exact ⟨_, rfl⟩

/-- Claim C9 fails: `Client.SetDCMIThermalLimit` has no check of `EntityID`. For
every request, also one whose `EntityID` is neither 0x37 nor 0x40, it performs
exactly one Exchange, carrying the packed request, and returns what the exchange
returned; at `EntityID = 0x41` with an accepting controller it returns no error. -/
theorem Client.SetDCMIThermalLimit_always_exchanges (bmc : Controller) (c : Client)
    (request : SetDCMIThermalLimitRequest) :
    (∃ response err, Client.SetDCMIThermalLimit bmc c (some request)
        = .ret ({ sent := c.sent ++ [(.CommandSetDCMIThermalLimit, request.Pack)] },
            some response, err)) ∧
    Client.SetDCMIThermalLimit acceptingBmc {} (some { EntityID := 0x41 })
      = .ret ({ sent := [(.CommandSetDCMIThermalLimit, [0xDC, 0x41, 0, 0, 0, 0, 0])] },
          some {}, none) := by
  constructor
  · unfold Client.SetDCMIThermalLimit Client.Exchange
    simp only [SetDCMIThermalLimitRequest.Command]
    cases hb : bmc c.sent (Command.CommandSetDCMIThermalLimit, request.Pack) with
    | error e => exact ⟨_, _, rfl⟩
    | ok payload =>
      obtain ⟨e, he⟩ := SetDCMIThermalLimitResponse_Unpack_returns {} payload
      simp only [he, Run.ret_bind, Run.pure_eq]
      exact ⟨_, _, rfl⟩
  · decide

/-- Claim C10: `Client.GetDCMIThermalLimit` rejects every `EntityID` other than
0x37 and 0x40 (0x41 for one) with an error and a nil response without handing
anything to the transport, for every `EntityInstance`; for `EntityID` 0x37 or
0x40 it performs exactly one Exchange, whose request packs to the three octets
0xDC, `EntityID`, `EntityInstance`. -/
theorem Client.GetDCMIThermalLimit_precondition (bmc : Controller) (c : Client)
    (entityID entityInstance : Nat) :
    ((entityID ≠ 0x37 ∧ entityID ≠ 0x40) →
      ∃ err, Client.GetDCMIThermalLimit bmc c entityID entityInstance
        = .ret (c, none, some err)) ∧
    ((entityID = 0x37 ∨ entityID = 0x40) →
      ∃ response err, Client.GetDCMIThermalLimit bmc c entityID entityInstance
        = .ret ({ sent := c.sent ++
                    [(.CommandGetDCMIThermalLimit, [0xDC, entityID, entityInstance])] },
            some response, err)) := by
  constructor
  · intro h
    unfold Client.GetDCMIThermalLimit
    rw [if_pos h]
    exact ⟨_, rfl⟩
  · intro h
    unfold Client.GetDCMIThermalLimit
    rw [if_neg (by omega)]
    unfold Client.Exchange
    simp only [GetDCMIThermalLimitRequest.Command, GetDCMIThermalLimitRequest.Pack,
      GroupExtensionDCMI]
    cases hb : bmc c.sent (Command.CommandGetDCMIThermalLimit, [0xDC, entityID, entityInstance])
      with
    | error e => exact ⟨_, _, rfl⟩
    | ok payload =>
      obtain ⟨x, hx⟩ := GetDCMIThermalLimitResponse_Unpack_returns {} payload
      simp only [hx, Run.ret_bind, Run.pure_eq]
      exact ⟨_, _, rfl⟩


/-- Claim C10 at `EntityID = 0x41` (rejected, nothing sent) and at `EntityID = 0x40`
with instance 1 (one exchange, packed as 0xDC, 0x40, 0x01). -/
theorem Client.GetDCMIThermalLimit_precondition_witness :
    ((0x41 : Nat) ≠ 0x37 ∧ (0x41 : Nat) ≠ 0x40) ∧
    (∃ err, Client.GetDCMIThermalLimit acceptingBmc {} 0x41 1 = .ret ({}, none, some err)) ∧
    (∃ response err, Client.GetDCMIThermalLimit acceptingBmc {} 0x40 1
        = .ret ({ sent := [(.CommandGetDCMIThermalLimit, [0xDC, 0x40, 1])] },
            some response, err)) :=
  ⟨by decide,
   (Client.GetDCMIThermalLimit_precondition acceptingBmc {} 0x41 1).1 (by decide),
   (Client.GetDCMIThermalLimit_precondition acceptingBmc {} 0x40 1).2 (Or.inr rfl)⟩

/-! ## The counting loops of `GetPEFConfig` -/

@[simp] theorem Run.timeout_andThen {σ : Type} (f : σ → Run (σ × Option IpmiError)) :
    (Run.timeout : Run (σ × Option IpmiError)).andThen f = Run.timeout := rfl

@[simp] theorem Run.panic_andThen {σ : Type} (f : σ → Run (σ × Option IpmiError)) :
    (Run.panic : Run (σ × Option IpmiError)).andThen f = Run.panic := rfl

/-- A loop whose first iteration is stopped by the run-time is stopped. -/
theorem forUint8_first_panics {σ : Type} (cond : Nat → Bool)
    (body : Nat → σ → Run (σ × Option IpmiError)) (fuel i : Nat) (s : σ)
    (hc : cond i = true) (hb : body i s = .panic) :
    forUint8 cond body (fuel + 1) i s = .panic := by
  unfold forUint8
  rw [if_pos hc, hb]

@[simp] theorem Run.ret_none_andThen {σ : Type} (s : σ) (f : σ → Run (σ × Option IpmiError)) :
    (Run.ret (s, none) : Run (σ × Option IpmiError)).andThen f = f s := rfl

/-- A loop `for i := uint8(1); i <= 255; i++` whose body always falls through
never leaves: whatever the fuel, it is still running when the fuel is used up. -/
theorem forUint8_le_255_timeout {σ : Type} (body : Nat → σ → Run (σ × Option IpmiError))
    (hbody : ∀ i s, ∃ s1, body i s = .ret (s1, none)) :
    ∀ (fuel i : Nat) (s : σ), i ≤ 255 →
      forUint8 (fun i => decide (i ≤ 255)) body fuel i s = .timeout := by
  intro fuel
  induction fuel with
  | zero => intro i s _; rfl
  | succ fuel ih =>
    intro i s hi
    obtain ⟨s1, hs1⟩ := hbody i s
    simp only [forUint8, hi, decide_True, if_true, hs1]
    exact ih _ _ (by omega)

theorem GetPEFConfig_EventFilters_body_countingBmc (f p n i : Nat) (s : Client × PEFConfig) :
    ∃ s1, GetPEFConfig_EventFilters_body (countingBmc f p n) i s = .ret (s1, none) := by
  simp [GetPEFConfig_EventFilters_body, Client.GetPEFConfigForParameter,
    Client.GetPEFConfigParameters, Client.Exchange, GetPEFConfigParametersRequest.Pack,
    GetPEFConfigParametersRequest.Command, packUint8, make, countingBmc,
    PEFConfigParameter.PEFConfigParamSelector, PEFConfigParameter.Unpack,
    PEFConfigParamSelector_EventFilter, GetPEFConfigParametersResponse.Unpack, unpackBytes,
    PEFConfigParam_EventFilter.Unpack, slice, PEFEventFilter.Unpack, unpackUint16L,
    PEFConfigParameter.Format, PEFConfigParam_EventFilter.Format, PEFEventFilter_Format_eq,
    PEFEventFilterType_Configurable]


theorem GetPEFConfig_AlertStringKeys_body_countingBmc (f p n i : Nat)
    (s : Client × PEFConfig) :
    ∃ s1, GetPEFConfig_AlertStringKeys_body (countingBmc f p n) i s = .ret (s1, none) := by
  simp [GetPEFConfig_AlertStringKeys_body, Client.GetPEFConfigForParameter,
    Client.GetPEFConfigParameters, Client.Exchange, GetPEFConfigParametersRequest.Pack,
    GetPEFConfigParametersRequest.Command, packUint8, make, countingBmc,
    PEFConfigParameter.PEFConfigParamSelector, PEFConfigParameter.Unpack,
    PEFConfigParamSelector_AlertStringKeys, GetPEFConfigParametersResponse.Unpack,
    unpackBytes, PEFConfigParam_AlertStringKeys.Unpack, PEFConfigParameter.Format,
    PEFConfigParam_AlertStringKeys.Format]

/-- Claim C5 fails at `NumberOfEventFilters = 255`: the loop counter is a `uint8`,
so `i <= 255` always holds and `i++` wraps from 255 to 0. With a controller on
which every exchange succeeds and which reports 255 event filters,
`GetPEFConfig` is still in the event filter loop whatever fuel it is given: it
never returns a sequence of 255 event filters. -/
theorem Client.GetPEFConfig_255_eventFilters_never_returns (fuel : Nat) :
    Client.GetPEFConfig (countingBmc 255 0 0) fuel {} = .timeout := by
  have h5 : ∃ c5 cfg5, ((((GetPEFConfig_Control (countingBmc 255 0 0) (({} : Client), {})).andThen
      (GetPEFConfig_ActionGlobalControl (countingBmc 255 0 0))).andThen
      (GetPEFConfig_StartupDelay (countingBmc 255 0 0))).andThen
      (GetPEFConfig_AlertStartupDelay (countingBmc 255 0 0))).andThen
      (GetPEFConfig_NumberOfEventFilters (countingBmc 255 0 0)) = .ret ((c5, cfg5), none) ∧
      cfg5.NumberOfEventFilters = some { Value := 255 } :=
    ⟨_, _, rfl, rfl⟩
  obtain ⟨c5, cfg5, h5, hn⟩ := h5
  have hloop : GetPEFConfig_EventFilters (countingBmc 255 0 0) fuel (c5, cfg5) = .timeout := by
    unfold GetPEFConfig_EventFilters
    simp only [hn]
    exact forUint8_le_255_timeout _
      (GetPEFConfig_EventFilters_body_countingBmc 255 0 0) fuel 1 _ (by omega)
  unfold Client.GetPEFConfig
  simp only [h5, Run.ret_none_andThen, hloop, Run.timeout_andThen]


/-- Claim C6 fails at `NumberOfAlertStrings = 255`: the `AlertStringKeys` loop
that runs before the `AlertStrings` loop has the inclusive bound `i <= 255` on a
`uint8` counter and never ends. With a controller on which every exchange
succeeds and which reports 255 alert strings, `GetPEFConfig` never reaches the
`AlertStrings` loop and never returns, whatever fuel it is given. -/
theorem Client.GetPEFConfig_255_alertStrings_never_returns (fuel : Nat) :
    Client.GetPEFConfig (countingBmc 0 0 255) fuel {} = .timeout := by
  cases fuel with
  | zero => rfl
  | succ fuel =>
    have h11 : ∃ c11 cfg11,
        ((((((((((GetPEFConfig_Control (countingBmc 0 0 255) (({} : Client), {})).andThen
          (GetPEFConfig_ActionGlobalControl (countingBmc 0 0 255))).andThen
          (GetPEFConfig_StartupDelay (countingBmc 0 0 255))).andThen
          (GetPEFConfig_AlertStartupDelay (countingBmc 0 0 255))).andThen
          (GetPEFConfig_NumberOfEventFilters (countingBmc 0 0 255))).andThen
          (GetPEFConfig_EventFilters (countingBmc 0 0 255) (fuel + 1))).andThen
          (GetPEFConfig_EventFiltersData1 (countingBmc 0 0 255) (fuel + 1))).andThen
          (GetPEFConfig_NumberOfAlertPolicies (countingBmc 0 0 255))).andThen
          (GetPEFConfig_AlertPolicies (countingBmc 0 0 255) (fuel + 1))).andThen
          (GetPEFConfig_SystemGUID (countingBmc 0 0 255))).andThen
          (GetPEFConfig_NumberOfAlertStrings (countingBmc 0 0 255))
          = .ret ((c11, cfg11), none) ∧
        cfg11.NumberOfAlertStrings = some { Value := 255 } ∧ cfg11.AlertStrings = [] :=
      ⟨_, _, rfl, rfl, rfl⟩
    obtain ⟨c11, cfg11, h11, hn, _⟩ := h11
    have hloop : GetPEFConfig_AlertStringKeys (countingBmc 0 0 255) (fuel + 1) (c11, cfg11)
        = .timeout := by
      unfold GetPEFConfig_AlertStringKeys
      simp only [hn]
      exact forUint8_le_255_timeout _
        (GetPEFConfig_AlertStringKeys_body_countingBmc 0 0 255) (fuel + 1) 1 _ (by omega)
    unfold Client.GetPEFConfig
    simp only [h11, Run.ret_none_andThen, hloop, Run.timeout_andThen]


/-! ## The asset tag read loop -/

theorem ceilDiv_eq_of_stop (L c k : Nat) (hc : 1 ≤ c) (hk : k = 0 ∨ k * c < L)
    (hstop : L ≤ k * c + c) : max 1 ((L + c - 1) / c) = k + 1 := by
  rcases Nat.eq_zero_or_pos L with hL | hL
  · subst hL
    have hk0 : k = 0 := by
      rcases hk with h | h
      · exact h
      · omega
    subst hk0
    have : (0 + c - 1) / c = 0 := Nat.div_eq_of_lt (by omega)
    rw [this]; rfl
  · have hlt : k * c < L := by
      rcases hk with h | h
      · subst h; simpa using hL
      · exact h
    have h1 : (L + c - 1) / c = k + 1 := by
      apply Nat.div_eq_of_lt_le
      · have : (k + 1) * c = k * c + c := by ring
        omega
      · have : (k + 1 + 1) * c = k * c + c + c := by ring
        omega
    rw [h1]; omega

theorem lt_ceilDiv_of_not_stop (L c k : Nat) (hc : 1 ≤ c) (hgo : k * c + c < L) :
    k + 2 ≤ max 1 ((L + c - 1) / c) := by
  have h1 : k + 2 ≤ (L + c - 1) / c := by
    rw [Nat.le_div_iff_mul_le (by omega)]
    have : (k + 2) * c = k * c + c + c := by ring
    omega
  omega

theorem assetTag_loop_simulated (tag : Bytes) (c : Nat) (hL : tag.length ≤ 255) (hc : 1 ≤ c) :
    ∀ (fuel k : Nat), (k = 0 ∨ k * c < tag.length) →
      max 1 ((tag.length + c - 1) / c) ≤ k + fuel →
      NewCmdDCMIAssetTag_loop (simulatedAssetTag tag c) fuel
        { assetTag := tag.take (k * c), offset := k * c,
          requested := (List.range k).map (· * c) }
      = .ret ({ assetTag := tag, offset := (max 1 ((tag.length + c - 1) / c) - 1) * c,
                requested := (List.range (max 1 ((tag.length + c - 1) / c))).map (· * c) },
              none) := by
  intro fuel
  induction fuel with
  | zero =>
    intro k hk hN
    exfalso
    by_cases hstop : tag.length ≤ k * c + c
    · have := ceilDiv_eq_of_stop tag.length c k hc hk hstop
      omega
    · have := lt_ceilDiv_of_not_stop tag.length c k hc (by omega)
      omega
  | succ fuel ih =>
    intro k hk hN
    have hm : k * c = 0 ∨ k * c < tag.length := by
      rcases hk with h | h
      · left; subst h; simp
      · right; exact h
    have hlen : ((tag.drop (k * c)).take c).length = min c (tag.length - k * c) := by
      simp [List.length_take, List.length_drop]
    by_cases hstop : tag.length ≤ k * c + c
    · have hN1 := ceilDiv_eq_of_stop tag.length c k hc hk hstop
      have hcond : tag.length ≤ (k * c + ((tag.drop (k * c)).take c).length % 256) % 256 := by
        rw [hlen]; omega
      simp only [NewCmdDCMIAssetTag_loop, simulatedAssetTag, hcond, if_true]
      rw [hN1]
      have h1 : tag.take (k * c) ++ (tag.drop (k * c)).take c = tag := by
        rw [← List.take_add, List.take_of_length_le hstop]
      simp [h1, List.range_succ]
    · have hN2 := lt_ceilDiv_of_not_stop tag.length c k hc (by omega)
      have hcond : ¬ tag.length ≤ (k * c + ((tag.drop (k * c)).take c).length % 256) % 256 := by
        rw [hlen]; omega
      have hoff : (k * c + ((tag.drop (k * c)).take c).length % 256) % 256 = (k + 1) * c := by
        rw [hlen]
        have : (k + 1) * c = k * c + c := by ring
        omega
      have hcond2 : ¬ tag.length ≤ (k + 1) * c := by
        have : (k + 1) * c = k * c + c := by ring
        omega
      simp only [NewCmdDCMIAssetTag_loop, simulatedAssetTag, hoff, hcond2, if_false]
      have h1 : tag.take (k * c) ++ (tag.drop (k * c)).take c = tag.take ((k + 1) * c) := by
        rw [← List.take_add]
        congr 1
        ring
      have h2 : (List.range k).map (· * c) ++ [k * c] = (List.range (k + 1)).map (· * c) := by
        simp [List.range_succ]
      rw [h1, h2]
      apply ih (k + 1)
      · right
        have : (k + 1) * c = k * c + c := by ring
        omega
      · omega

/-- Claim C7: the asset tag read loop over the simulated source. For a tag of
`L ≤ 255` octets served in chunks of `c ≥ 1` octets the loop returns without
error after exactly `max 1 ⌈L / c⌉` exchanges, at the offsets `0, c, 2c, ...`;
every exchange but the last has `offset + chunk length < TotalLength`, the last
one has `offset + chunk length ≥ TotalLength`, and the concatenated chunks are
the tag. -/
theorem NewCmdDCMIAssetTag_simulated (tag : Bytes) (c fuel : Nat) (hL : tag.length ≤ 255)
    (hc : 1 ≤ c) (hfuel : max 1 ((tag.length + c - 1) / c) ≤ fuel) :
    ∃ s, NewCmdDCMIAssetTag (simulatedAssetTag tag c) fuel = .ret (s, none) ∧
      s.assetTag = tag ∧
      s.requested = (List.range (max 1 ((tag.length + c - 1) / c))).map (· * c) ∧
      s.requested.length = max 1 ((tag.length + c - 1) / c) ∧
      (∀ j, j + 1 < max 1 ((tag.length + c - 1) / c) →
        j * c + ((tag.drop (j * c)).take c).length < tag.length) ∧
      s.offset = (max 1 ((tag.length + c - 1) / c) - 1) * c ∧
      tag.length ≤ s.offset + ((tag.drop s.offset).take c).length := by
  have h := assetTag_loop_simulated tag c hL hc fuel 0 (Or.inl rfl) (by omega)
  have h0 : (AssetTagRead.mk (tag.take (0 * c)) (0 * c) ((List.range 0).map (· * c))) = {} := by
    simp
  rw [h0] at h
  refine ⟨_, h, rfl, rfl, by simp, ?_, rfl, ?_⟩
  · intro j hj
    have h1 : j + 2 ≤ (tag.length + c - 1) / c := by omega
    rw [Nat.le_div_iff_mul_le (by omega)] at h1
    have h2 : (j + 2) * c = j * c + c + c := by ring
    simp only [List.length_take, List.length_drop]
    omega
  · simp only [List.length_take, List.length_drop]
    have hq : (tag.length + c - 1) / c < (tag.length + c - 1) / c + 1 := by omega
    rw [Nat.div_lt_iff_lt_mul (by omega)] at hq
    have h2 : ((tag.length + c - 1) / c + 1) * c = (tag.length + c - 1) / c * c + c := by ring
    rcases Nat.eq_zero_or_pos ((tag.length + c - 1) / c) with h3 | h3
    · rw [h3] at hq h2 ⊢
      simp only [Nat.zero_mul] at h2
      have h4 : (max 1 0 - 1) * c = 0 := by simp
      rw [h4]
      omega
    · have h4 : max 1 ((tag.length + c - 1) / c) - 1 + 1 = (tag.length + c - 1) / c := by omega
      have h5 : (max 1 ((tag.length + c - 1) / c) - 1 + 1) * c
          = (max 1 ((tag.length + c - 1) / c) - 1) * c + c := by ring
      rw [h4] at h5
      omega

/-- Claim C7 at the tag of 37 octets served in chunks of 16: three exchanges, at
the offsets 0, 16 and 32, and a result of 37 octets. -/
theorem NewCmdDCMIAssetTag_simulated_witness :
    (List.range 37).length ≤ 255 ∧ 1 ≤ 16 ∧
    ∃ s, NewCmdDCMIAssetTag (simulatedAssetTag (List.range 37) 16) 3 = .ret (s, none) ∧
      s.assetTag = List.range 37 ∧ s.assetTag.length = 37 ∧ s.requested = [0, 16, 32] := by
  have hN : max 1 (((List.range 37).length + 16 - 1) / 16) = 3 := by decide
  obtain ⟨s, h1, h2, h3, _⟩ := NewCmdDCMIAssetTag_simulated (List.range 37) 16 3 (by decide)
    (by decide) (by rw [hN])
  refine ⟨by decide, by decide, s, h1, h2, by rw [h2]; rfl, ?_⟩
  rw [h3, hN]
  rfl

theorem assetTag_loop_emptyChunk : ∀ (fuel : Nat) (s : AssetTagRead), s.offset = 0 →
    NewCmdDCMIAssetTag_loop emptyChunkSource fuel s = .timeout := by
  intro fuel
  induction fuel with
  | zero => intro s _; rfl
  | succ fuel ih =>
    intro s hs
    simp only [NewCmdDCMIAssetTag_loop, emptyChunkSource, hs]
    exact ih _ rfl

/-- Claim C8, as stated, fails: the loop has no guard against zero-length chunks.
A controller that always answers with a zero-length chunk and `TotalLength = 1`
leaves the offset at 0 and the stop condition false, and the loop asks again
without end: with no amount of fuel does it return. -/
theorem NewCmdDCMIAssetTag_emptyChunk_never_stops :
    ¬ ∃ fuel r, NewCmdDCMIAssetTag emptyChunkSource fuel = .ret r := by
  rintro ⟨fuel, r, h⟩
  rw [NewCmdDCMIAssetTag, assetTag_loop_emptyChunk fuel _ rfl] at h
  cases h

theorem assetTag_loop_progress (src : AssetTagSource)
    (hsrc : ∀ h o resp, o ≤ 255 → src h o = .ok resp →
      resp.TotalLength ≤ (o + resp.AssetTag.length % 256) % 256 ∨
      (1 ≤ resp.AssetTag.length ∧ o + resp.AssetTag.length ≤ 255)) :
    ∀ (fuel : Nat) (s : AssetTagRead), s.offset ≤ 255 → 256 ≤ s.offset + fuel →
      ∃ s1 err, NewCmdDCMIAssetTag_loop src fuel s = .ret (s1, err) ∧
        s1.requested.length ≤ s.requested.length + (256 - s.offset) := by
  intro fuel
  induction fuel with
  | zero => intro s h1 h2; omega
  | succ fuel ih =>
    intro s h1 h2
    unfold NewCmdDCMIAssetTag_loop
    cases hr : src s.requested s.offset with
    | error e =>
      refine ⟨_, _, rfl, ?_⟩
      simp
      omega
    | ok resp =>
      simp only
      by_cases hcond : resp.TotalLength ≤ (s.offset + resp.AssetTag.length % 256) % 256
      · rw [if_pos hcond]
        refine ⟨_, _, rfl, ?_⟩
        simp
        omega
      · rw [if_neg hcond]
        rcases hsrc _ _ _ h1 hr with h | ⟨h3, h4⟩
        · exact absurd h hcond
        · have hoff : (s.offset + resp.AssetTag.length % 256) % 256
              = s.offset + resp.AssetTag.length := by omega
          rw [hoff]
          obtain ⟨s1, err, h5, h6⟩ := ih
            { assetTag := s.assetTag ++ resp.AssetTag
              offset := s.offset + resp.AssetTag.length
              requested := s.requested ++ [s.offset] } (by simpa using h4) (by simp; omega)
          refine ⟨s1, err, h5, ?_⟩
          simp at h6
          omega

/-- Claim C8, amended: the loop stops after at most 256 exchanges for every
controller behaviour in which each reply that does not meet the stop condition
carries at least one octet and keeps `offset + chunk length` within 255; the
loop itself has no guard against zero-length chunks. -/
theorem NewCmdDCMIAssetTag_stops (src : AssetTagSource) (fuel : Nat)
    (hsrc : ∀ h o resp, o ≤ 255 → src h o = .ok resp →
      resp.TotalLength ≤ (o + resp.AssetTag.length % 256) % 256 ∨
      (1 ≤ resp.AssetTag.length ∧ o + resp.AssetTag.length ≤ 255))
    (hfuel : 256 ≤ fuel) :
    ∃ s err, NewCmdDCMIAssetTag src fuel = .ret (s, err) ∧ s.requested.length ≤ 256 := by
  obtain ⟨s, err, h1, h2⟩ := assetTag_loop_progress src hsrc fuel {} (by simp) (by simpa using hfuel)
  exact ⟨s, err, h1, by simpa using h2⟩

/-- Claim C8, amended, at the simulated source of a 37-octet tag served in chunks
of 16 octets. -/
theorem NewCmdDCMIAssetTag_stops_witness :
    ∃ s err, NewCmdDCMIAssetTag (simulatedAssetTag (List.range 37) 16) 256 = .ret (s, err) ∧
      s.requested.length ≤ 256 :=
  NewCmdDCMIAssetTag_stops (simulatedAssetTag (List.range 37) 16) 256
    (by
      intro h o resp ho hs
      simp only [simulatedAssetTag, Except.ok.injEq] at hs
      subst hs
      simp only [List.length_take, List.length_drop, List.length_range]
      omega)
    (by decide)

/-! ## The PEF get-parameter request -/

/-- Claim C11 fails for the selectors 64..127: `Pack` masks the selector with 0x3f,
six bits, not seven. `Pack` is three octets, octet 1 is `SetSelector`, octet 2 is
`BlockSelector` and bit 7 of octet 0 is the revision-only flag, but bits 0..6 of
octet 0 hold `ParamSelector AND 0x3f`: the first OEM selector 0x60 is packed as
0x20, the same octets as for selector 0x20. -/
theorem GetPEFConfigParametersRequest.Pack_masks_selector_to_6_bits :
    GetPEFConfigParametersRequest.Pack { ParamSelector := 0x60 } = [0x20, 0, 0] ∧
    GetPEFConfigParametersRequest.Pack { ParamSelector := 0x60 }
      = GetPEFConfigParametersRequest.Pack { ParamSelector := 0x20 } ∧
    (0x20 : Nat) &&& 0x7f ≠ 0x60 ∧
    ∀ req : GetPEFConfigParametersRequest, req.Pack =
      [if req.GetRevisionOnly then (req.ParamSelector &&& 0x3f) ||| 0x80
        else req.ParamSelector &&& 0x3f,
       req.SetSelector, req.BlockSelector] := by
  refine ⟨by decide, by decide, by decide, ?_⟩
  intro req
  cases h : req.GetRevisionOnly <;>
    simp [GetPEFConfigParametersRequest.Pack, packUint8, make, setBit7, h]

/-! ## Sub-byte fields and flags -/

/-- Claim C16 fails where `Pack` shifts or ors a field without masking it. In
octet 10 of `PEFConfigParam_GroupControlTable.Pack` the `Operation` value 0x10
sets bit 4, the lowest bit of `RetryCount` (the octet is the same as for
`RetryCount = 1`), and the `RetryCount` value 8 sets the reserved bit 7; in octet
2 of `PEFEventFilter.Pack` the `GroupControlSelector` value 8 sets the reserved
bit 7, outside its range [6:4]. -/
theorem Pack_unmasked_fields_leave_their_range :
    ((PEFConfigParam_GroupControlTable.Pack {})[10]? = some 0x00 ∧
     (PEFConfigParam_GroupControlTable.Pack { Operation := 0x10 })[10]? = some 0x10 ∧
     (PEFConfigParam_GroupControlTable.Pack { RetryCount := 1 })[10]? = some 0x10 ∧
     (PEFConfigParam_GroupControlTable.Pack { RetryCount := 8 })[10]? = some 0x80) ∧
    ((PEFEventFilter.Pack {})[2]? = some 0x00 ∧
     (PEFEventFilter.Pack { GroupControlSelector := 8 })[2]? = some 0x80) := by
  decide

/-- Claim C17: every boolean flag of the bit-packed records lands on its own
bit. The flag octet of `Pack` is the sum of the masks of the flags that are set:
bits 3..0 for `PEFConfigParam_Control`, bits 5..0 for
`PEFConfigParam_ActionGlobalControl`, bit 7 of octet 0 and bits 6..0 of octet 1
for `PEFEventFilter`, bits 7, 1, 0 for `DCMIConfigParam_DiscoveryConfiguration`
and bits 6, 5 of octet 3 for `SetDCMIThermalLimitRequest`. So one flag alone
gives exactly its mask, no flag gives 0, and the masks of one octet are
pairwise different powers of two. -/
theorem flag_octets_are_sums_of_masks :
    (∀ a3 a2 a1 a0 : Bool,
      PEFConfigParam_Control.Pack
        { EnablePEFAlertStartupDelay := a3, EnablePEFStartupDelay := a2,
          EnableEventMessage := a1, EnablePEF := a0 }
      = [0x08 * a3.toNat + 0x04 * a2.toNat + 0x02 * a1.toNat + 0x01 * a0.toNat]) ∧
    (∀ a5 a4 a3 a2 a1 a0 : Bool,
      PEFConfigParam_ActionGlobalControl.Pack
        { DiagnosticInterruptEnabled := a5, OEMActionEnabled := a4,
          PowerCycleActionEnabled := a3, ResetActionEnabled := a2,
          PowerDownActionEnabled := a1, AlertActionEnabled := a0 }
      = [0x20 * a5.toNat + 0x10 * a4.toNat + 0x08 * a3.toNat + 0x04 * a2.toNat
          + 0x02 * a1.toNat + 0x01 * a0.toNat]) ∧
    (∀ e a6 a5 a4 a3 a2 a1 a0 : Bool,
      (PEFEventFilter.Pack
        { FilterEnabled := e, ActionGroupControlOperation := a6,
          ActionDiagnosticInterrupt := a5, ActionOEM := a4, ActionPowerCycle := a3,
          ActionReset := a2, ActionPowerOff := a1, ActionAlert := a0 }).take 2
      = [0x80 * e.toNat,
         0x40 * a6.toNat + 0x20 * a5.toNat + 0x10 * a4.toNat + 0x08 * a3.toNat
          + 0x04 * a2.toNat + 0x02 * a1.toNat + 0x01 * a0.toNat]) ∧
    (∀ a7 a1 a0 : Bool,
      DCMIConfigParam_DiscoveryConfiguration.Pack
        { RandomBackoffEnabled := a7, IncludeDHCPOption60And43 := a1,
          IncludeDHCPOption12 := a0 }
      = [0x80 * a7.toNat + 0x02 * a1.toNat + 0x01 * a0.toNat]) ∧
    (∀ a6 a5 : Bool,
      (SetDCMIThermalLimitRequest.Pack
        { ExceptionAction_PowerOffAndLogSEL := a6, ExceptionAction_LogSELOnly := a5 })[3]?
      = some (0x40 * a6.toNat + 0x20 * a5.toNat)) := by
  decide

/-! ## DCMI decoders -/

theorem foldl_append_singleton {α β : Type} (f : α → β) (l : List α) (init : List β) :
    l.foldl (fun acc x => acc ++ [f x]) init = init ++ l.map f := by
  induction l generalizing init with
  | nil => simp
  | cons a l ih => simp [ih]

set_option maxRecDepth 100000 in
theorem rollingAveragePeriodSec_octet : ∀ b < 256,
    rollingAveragePeriodSec b =
      (b &&& 0x3F) * (if b >>> 6 = 0 then 1 else if b >>> 6 = 1 then 60
        else if b >>> 6 = 2 then 3600 else 86400) ∧
    b >>> 6 < 4 ∧ rollingAveragePeriodSec b ≤ 5443200 := by
  decide

/-- Claim C18: the rolling-average decode. For every payload `p` of octets with at
least 2 octets and at least `1 + p[0]` octets, `Unpack` on a fresh record
succeeds and yields exactly `p[0]` periods, the `i`-th being `p[1+i] AND 0x3F`
times 1, 60, 3600 or 86400 as `p[1+i] >> 6` is 0, 1, 2 or 3 (no other value
occurs); every period is at most 5443200 seconds; the octet 0b01000010 decodes
to 120 and 0b00000101 to 5. -/
theorem DCMICapParam_EnhancedSystemPowerStatisticsAttributes.Unpack_periods (p : Bytes)
    (h2 : 2 ≤ p.length) (hcount : 1 + p.getD 0 0 ≤ p.length) (hoct : ∀ b ∈ p, b < 256) :
    (∃ periods : List Nat,
      DCMICapParam_EnhancedSystemPowerStatisticsAttributes.Unpack {} p
        = .ret ({ RollingAverageTimePeriodsSec := periods }, none) ∧
      periods.length = p.getD 0 0 ∧
      (∀ i, i < p.getD 0 0 →
        p.getD (1 + i) 0 >>> 6 < 4 ∧
        periods[i]? = some ((p.getD (1 + i) 0 &&& 0x3F) *
          (if p.getD (1 + i) 0 >>> 6 = 0 then 1 else if p.getD (1 + i) 0 >>> 6 = 1 then 60
            else if p.getD (1 + i) 0 >>> 6 = 2 then 3600 else 86400))) ∧
      (∀ x ∈ periods, 0 ≤ x ∧ x ≤ 5443200)) ∧
    rollingAveragePeriodSec 0b01000010 = 120 ∧ rollingAveragePeriodSec 0b00000101 = 5 := by
  refine ⟨?_, by decide, by decide⟩
  obtain ⟨p0, rest, rfl⟩ : ∃ p0 rest, p = p0 :: rest := by
    cases p with
    | nil => simp at h2
    | cons a l => exact ⟨a, l, rfl⟩
  simp only [List.getD_cons_zero, List.length_cons] at hcount h2
  have hrest : p0 ≤ rest.length := by omega
  refine ⟨(rest.take p0).map rollingAveragePeriodSec, ?_, ?_, ?_, ?_⟩
  · unfold DCMICapParam_EnhancedSystemPowerStatisticsAttributes.Unpack
    rw [if_neg (by simp; omega)]
    simp only [idx_cons_zero, Run.ret_bind]
    rw [if_neg (by simp; omega)]
    have hub : (unpackBytes (p0 :: rest) 1 p0).1 = rest.take p0 := by
      unfold unpackBytes
      rw [if_neg (by simp; omega)]
      simp
    simp [hub, foldl_append_singleton]
  · simp [hrest]
  · intro i hi
    simp only [List.getD_cons_zero] at hi
    have hget : (p0 :: rest).getD (1 + i) 0 = rest.getD i 0 := by
      rw [Nat.add_comm]; simp
    have hi2 : i < rest.length := by omega
    have hmem : rest.getD i 0 ∈ p0 :: rest := by
      rw [List.getD_eq_getElem _ _ hi2]
      exact List.mem_cons_of_mem _ (List.getElem_mem hi2)
    have hb := rollingAveragePeriodSec_octet _ (hoct _ hmem)
    rw [hget]
    refine ⟨hb.2.1, ?_⟩
    rw [← hb.1]
    simp [List.getElem?_map, List.getElem?_take, hi, hi2, List.getD_eq_getElem _ _ hi2]
  · intro x hx
    simp only [List.mem_map] at hx
    obtain ⟨b, hb, rfl⟩ := hx
    have hmem : b ∈ p0 :: rest := List.mem_cons_of_mem _ (List.mem_of_mem_take hb)
    exact ⟨Nat.zero_le _, (rollingAveragePeriodSec_octet _ (hoct _ hmem)).2.2⟩

/-- Claim C18 at the payload of two periods, 0b01000010 (2 minutes) and
0b00000101 (5 seconds). -/
theorem DCMICapParam_EnhancedSystemPowerStatisticsAttributes.Unpack_periods_witness :
    ∃ periods : List Nat,
      DCMICapParam_EnhancedSystemPowerStatisticsAttributes.Unpack {} [2, 0b01000010, 0b00000101]
        = .ret ({ RollingAverageTimePeriodsSec := periods }, none) ∧
      periods.length = 2 ∧ periods[0]? = some 120 ∧ periods[1]? = some 5 :=
  let ⟨periods, h1, h2, h3, _⟩ :=
    (DCMICapParam_EnhancedSystemPowerStatisticsAttributes.Unpack_periods
      [2, 0b01000010, 0b00000101] (by decide) (by decide) (by decide)).1
  ⟨periods, h1, h2, (h3 0 (by decide)).2, (h3 1 (by decide)).2⟩

theorem unpackUint8_in_range (msg : Bytes) (off : Nat) (h : off + 1 ≤ msg.length) :
    unpackUint8 msg off = (msg.getD off 0, off + 1, none) := by
  unfold unpackUint8
  rw [if_neg (by omega)]

theorem unpackUint16L_in_range (msg : Bytes) (off : Nat) (h : off + 2 ≤ msg.length) :
    unpackUint16L msg off = (msg.getD off 0 + 256 * msg.getD (off + 1) 0, off + 2, none) := by
  unfold unpackUint16L
  rw [if_neg (by omega)]

theorem unpackUint32L_in_range (msg : Bytes) (off : Nat) (h : off + 4 ≤ msg.length) :
    unpackUint32L msg off = (msg.getD off 0 + 256 * msg.getD (off + 1) 0
      + 65536 * msg.getD (off + 2) 0 + 16777216 * msg.getD (off + 3) 0, off + 4, none) := by
  unfold unpackUint32L
  rw [if_neg (by omega)]

theorem unpackBytes_in_range (msg : Bytes) (off length : Nat) (h : off + length ≤ msg.length) :
    unpackBytes msg off length = ((msg.drop off).take length, off + length, none) := by
  unfold unpackBytes
  rw [if_neg (by omega)]

theorem idx_in_range (data : Bytes) (i : Nat) (h : i < data.length) :
    idx data i = .ret (data.getD i 0) := by
  simp [idx, List.getD_eq_getElem _ _ h, List.getElem?_eq_getElem h]

/-- Claim C19: the power limit decode. For every payload `m` of at least 14
octets with `m[0] = 0xDC`, `Unpack` succeeds with the exception action `m[3]`,
the power limit `m[4] + 256 m[5]`, the correction time
`m[6] + 256 m[7] + 65536 m[8] + 16777216 m[9]` and the sampling period
`m[12] + 256 m[13]`, whatever the receiver held; a second payload that agrees
with `m` on the octets 0, 3..9, 12 and 13 (whatever its octets 1, 2, 10, 11 and
those after index 13 are) decodes to the same record; and every payload shorter
than 14 octets is rejected as too short. -/
theorem GetDCMIPowerLimitResponse.Unpack_layout (m : Bytes) (r : GetDCMIPowerLimitResponse)
    (h14 : 14 ≤ m.length) (h0 : m.getD 0 0 = 0xDC) :
    GetDCMIPowerLimitResponse.Unpack r m
      = .ret ({ ExceptionAction := m.getD 3 0
                PowerLimitRequested := m.getD 4 0 + 256 * m.getD 5 0
                CorrectionTimeLimitMilliSec := m.getD 6 0 + 256 * m.getD 7 0
                  + 65536 * m.getD 8 0 + 16777216 * m.getD 9 0
                StatisticsSamplingPeriodSec := m.getD 12 0 + 256 * m.getD 13 0 }, none) ∧
    (∀ (m2 : Bytes) (r2 : GetDCMIPowerLimitResponse), 14 ≤ m2.length →
      (∀ i ∈ [0, 3, 4, 5, 6, 7, 8, 9, 12, 13], m2.getD i 0 = m.getD i 0) →
      GetDCMIPowerLimitResponse.Unpack r2 m2 = GetDCMIPowerLimitResponse.Unpack r m) ∧
    (∀ (s : Bytes) (r2 : GetDCMIPowerLimitResponse), s.length < 14 →
      GetDCMIPowerLimitResponse.Unpack r2 s
        = .ret (r2, some (ErrUnpackedDataTooShortWith s.length 14))) := by
  have key : ∀ (m : Bytes) (r : GetDCMIPowerLimitResponse), 14 ≤ m.length →
      m.getD 0 0 = 0xDC →
      GetDCMIPowerLimitResponse.Unpack r m
        = .ret ({ ExceptionAction := m.getD 3 0
                  PowerLimitRequested := m.getD 4 0 + 256 * m.getD 5 0
                  CorrectionTimeLimitMilliSec := m.getD 6 0 + 256 * m.getD 7 0
                    + 65536 * m.getD 8 0 + 16777216 * m.getD 9 0
                  StatisticsSamplingPeriodSec := m.getD 12 0 + 256 * m.getD 13 0 }, none) := by
    intro m r h14 h0
    unfold GetDCMIPowerLimitResponse.Unpack
    rw [if_neg (by omega), idx_in_range m 0 (by omega), unpackUint8_in_range m 3 (by omega),
      unpackUint16L_in_range m 4 (by omega), unpackUint32L_in_range m 6 (by omega),
      unpackUint16L_in_range m 12 (by omega), h0]
    simp [CheckDCMIGroupExenstionMatch, GroupExtensionDCMI]
  refine ⟨key m r h14 h0, ?_, ?_⟩
  · intro m2 r2 h h2
    have e0 := h2 0 (by simp)
    have e3 := h2 3 (by simp)
    have e4 := h2 4 (by simp)
    have e5 := h2 5 (by simp)
    have e6 := h2 6 (by simp)
    have e7 := h2 7 (by simp)
    have e8 := h2 8 (by simp)
    have e9 := h2 9 (by simp)
    have e12 := h2 12 (by simp)
    have e13 := h2 13 (by simp)
    rw [key m r h14 h0, key m2 r2 h (by rw [e0, h0]), e3, e4, e5, e6, e7, e8, e9, e12, e13]
  · intro s r2 hs
    unfold GetDCMIPowerLimitResponse.Unpack
    rw [if_pos hs]
    rfl

/-- Claim C19 at a reply with exception action 0x01, 300 W, 1000 ms and 5 s, whose
reserved octets are not zero. -/
theorem GetDCMIPowerLimitResponse.Unpack_layout_witness :
    GetDCMIPowerLimitResponse.Unpack {}
        [0xDC, 0xAA, 0xBB, 0x01, 0x2c, 0x01, 0xe8, 0x03, 0, 0, 0xCC, 0xDD, 5, 0, 0xEE]
      = .ret ({ ExceptionAction := 1, PowerLimitRequested := 300,
                CorrectionTimeLimitMilliSec := 1000, StatisticsSamplingPeriodSec := 5 }, none) :=
  (GetDCMIPowerLimitResponse.Unpack_layout
    [0xDC, 0xAA, 0xBB, 0x01, 0x2c, 0x01, 0xe8, 0x03, 0, 0, 0xCC, 0xDD, 5, 0, 0xEE] {}
    (by decide) (by decide)).1

/-- Claim C20: the thermal limit wire layout. For every request `r` (with
`ExceptionTimeSec` a 16-bit value) `Pack r` is the seven octets 0xDC, `EntityID`,
`EntityInstance`, `a`, `TemperatureLimit`, `ExceptionTimeSec mod 256`,
`ExceptionTimeSec div 256`, where `a` is 0x40 for power-off-and-log plus 0x20 for
log-only; and `GetDCMIThermalLimitResponse.Unpack` of the five octets 0xDC, `a`,
`TemperatureLimit`, low octet, high octet succeeds and gives back the two
booleans, the temperature limit and the exception time. -/
theorem SetDCMIThermalLimitRequest.Pack_layout (r : SetDCMIThermalLimitRequest)
    (res : GetDCMIThermalLimitResponse) (h16 : r.ExceptionTimeSec < 65536) :
    r.Pack = [0xDC, r.EntityID, r.EntityInstance,
      (if r.ExceptionAction_PowerOffAndLogSEL then 0x40 else 0)
        + (if r.ExceptionAction_LogSELOnly then 0x20 else 0),
      r.TemperatureLimit, r.ExceptionTimeSec % 256, r.ExceptionTimeSec / 256] ∧
    GetDCMIThermalLimitResponse.Unpack res
        [0xDC, (if r.ExceptionAction_PowerOffAndLogSEL then 0x40 else 0)
            + (if r.ExceptionAction_LogSELOnly then 0x20 else 0),
          r.TemperatureLimit, r.ExceptionTimeSec % 256, r.ExceptionTimeSec / 256]
      = .ret ({ ExceptionAction_PowerOffAndLogSEL := r.ExceptionAction_PowerOffAndLogSEL
                ExceptionAction_LogSELOnly := r.ExceptionAction_LogSELOnly
                TemperatureLimit := r.TemperatureLimit
                ExceptionTimeSec := r.ExceptionTimeSec }, none) := by
  have hdiv : r.ExceptionTimeSec / 256 % 256 = r.ExceptionTimeSec / 256 := by omega
  have hle : r.ExceptionTimeSec % 256 + 256 * (r.ExceptionTimeSec / 256) = r.ExceptionTimeSec := by
    omega
  constructor
  · cases h1 : r.ExceptionAction_PowerOffAndLogSEL <;> cases h2 : r.ExceptionAction_LogSELOnly <;>
      simp [SetDCMIThermalLimitRequest.Pack, make, packUint16L, GroupExtensionDCMI, setBit6,
        setBit5, h1, h2, hdiv]
  · cases h1 : r.ExceptionAction_PowerOffAndLogSEL <;> cases h2 : r.ExceptionAction_LogSELOnly <;>
      (simp [GetDCMIThermalLimitResponse.Unpack, CheckDCMIGroupExenstionMatch,
        GroupExtensionDCMI, unpackUint8, unpackUint16L, isBit6Set, isBit5Set, hle]
       try decide)

/-- Claim C20 at power-off-and-log with limit 45 and exception time 300 s. -/
theorem SetDCMIThermalLimitRequest.Pack_layout_witness :
    SetDCMIThermalLimitRequest.Pack
        { EntityID := 0x40, EntityInstance := 1, ExceptionAction_PowerOffAndLogSEL := true,
          TemperatureLimit := 45, ExceptionTimeSec := 300 }
      = [0xDC, 0x40, 1, 0x40, 45, 0x2c, 0x01] ∧
    GetDCMIThermalLimitResponse.Unpack {} [0xDC, 0x40, 45, 0x2c, 0x01]
      = .ret ({ ExceptionAction_PowerOffAndLogSEL := true, ExceptionAction_LogSELOnly := false,
                TemperatureLimit := 45, ExceptionTimeSec := 300 }, none) :=
  SetDCMIThermalLimitRequest.Pack_layout
    { EntityID := 0x40, EntityInstance := 1, ExceptionAction_PowerOffAndLogSEL := true,
      TemperatureLimit := 45, ExceptionTimeSec := 300 } {} (by decide)

/-! ## Outcomes of the decoders

Every `Unpack` either returns an error and the receiver as it was, or returns no
error; it never panics. -/

theorem PEFEventFilter_Unpack_outcome (r : PEFEventFilter) (data : Bytes) :
    (∃ e, PEFEventFilter.Unpack r data = .ret (r, some e)) ∨
    (∃ r1, PEFEventFilter.Unpack r data = .ret (r1, none)) := by
  unfold PEFEventFilter.Unpack
  by_cases h : data.length < 20
  · rw [if_pos h]; exact Or.inl ⟨_, rfl⟩
  · rw [if_neg h]
    rw [idx_in_range data 0 (by omega), idx_in_range data 1 (by omega), idx_in_range data 2 (by omega), idx_in_range data 3 (by omega), idx_in_range data 6 (by omega), idx_in_range data 7 (by omega), idx_in_range data 8 (by omega), idx_in_range data 11 (by omega), idx_in_range data 12 (by omega), idx_in_range data 13 (by omega), idx_in_range data 14 (by omega), idx_in_range data 15 (by omega), idx_in_range data 16 (by omega), idx_in_range data 17 (by omega), idx_in_range data 18 (by omega), idx_in_range data 19 (by omega)]
    exact Or.inr ⟨_, rfl⟩

theorem PEFAlertPolicy_Unpack_outcome (r : PEFAlertPolicy) (data : Bytes) :
    (∃ e, PEFAlertPolicy.Unpack r data = .ret (r, some e)) ∨
    (∃ r1, PEFAlertPolicy.Unpack r data = .ret (r1, none)) := by
  unfold PEFAlertPolicy.Unpack
  by_cases h : data.length < 3
  · rw [if_pos h]; exact Or.inl ⟨_, rfl⟩
  · rw [if_neg h]
    rw [idx_in_range data 0 (by omega), idx_in_range data 1 (by omega), idx_in_range data 2 (by omega)]
    exact Or.inr ⟨_, rfl⟩

theorem PEFConfigParam_SetInProgress_Unpack_outcome (r : PEFConfigParam_SetInProgress) (data : Bytes) :
    (∃ e, PEFConfigParam_SetInProgress.Unpack r data = .ret (r, some e)) ∨
    (∃ r1, PEFConfigParam_SetInProgress.Unpack r data = .ret (r1, none)) := by
  unfold PEFConfigParam_SetInProgress.Unpack
  by_cases h : data.length < 1
  · rw [if_pos h]; exact Or.inl ⟨_, rfl⟩
  · rw [if_neg h]
    rw [idx_in_range data 0 (by omega)]
    exact Or.inr ⟨_, rfl⟩

theorem PEFConfigParam_Control_Unpack_outcome (r : PEFConfigParam_Control) (data : Bytes) :
    (∃ e, PEFConfigParam_Control.Unpack r data = .ret (r, some e)) ∨
    (∃ r1, PEFConfigParam_Control.Unpack r data = .ret (r1, none)) := by
  unfold PEFConfigParam_Control.Unpack
  by_cases h : data.length < 1
  · rw [if_pos h]; exact Or.inl ⟨_, rfl⟩
  · rw [if_neg h]
    rw [idx_in_range data 0 (by omega)]
    exact Or.inr ⟨_, rfl⟩

theorem PEFConfigParam_ActionGlobalControl_Unpack_outcome (r : PEFConfigParam_ActionGlobalControl) (data : Bytes) :
    (∃ e, PEFConfigParam_ActionGlobalControl.Unpack r data = .ret (r, some e)) ∨
    (∃ r1, PEFConfigParam_ActionGlobalControl.Unpack r data = .ret (r1, none)) := by
  unfold PEFConfigParam_ActionGlobalControl.Unpack
  by_cases h : data.length < 1
  · rw [if_pos h]; exact Or.inl ⟨_, rfl⟩
  · rw [if_neg h]
    rw [idx_in_range data 0 (by omega)]
    exact Or.inr ⟨_, rfl⟩

theorem PEFConfigParam_StartupDelay_Unpack_outcome (r : PEFConfigParam_StartupDelay) (data : Bytes) :
    (∃ e, PEFConfigParam_StartupDelay.Unpack r data = .ret (r, some e)) ∨
    (∃ r1, PEFConfigParam_StartupDelay.Unpack r data = .ret (r1, none)) := by
  unfold PEFConfigParam_StartupDelay.Unpack
  by_cases h : data.length < 1
  · rw [if_pos h]; exact Or.inl ⟨_, rfl⟩
  · rw [if_neg h]
    rw [idx_in_range data 0 (by omega)]
    exact Or.inr ⟨_, rfl⟩

theorem PEFConfigParam_AlertStartupDelay_Unpack_outcome (r : PEFConfigParam_AlertStartupDelay) (data : Bytes) :
    (∃ e, PEFConfigParam_AlertStartupDelay.Unpack r data = .ret (r, some e)) ∨
    (∃ r1, PEFConfigParam_AlertStartupDelay.Unpack r data = .ret (r1, none)) := by
  unfold PEFConfigParam_AlertStartupDelay.Unpack
  by_cases h : data.length < 1
  · rw [if_pos h]; exact Or.inl ⟨_, rfl⟩
  · rw [if_neg h]
    rw [idx_in_range data 0 (by omega)]
    exact Or.inr ⟨_, rfl⟩

theorem PEFConfigParam_NumberOfEventFilters_Unpack_outcome (r : PEFConfigParam_NumberOfEventFilters) (data : Bytes) :
    (∃ e, PEFConfigParam_NumberOfEventFilters.Unpack r data = .ret (r, some e)) ∨
    (∃ r1, PEFConfigParam_NumberOfEventFilters.Unpack r data = .ret (r1, none)) := by
  unfold PEFConfigParam_NumberOfEventFilters.Unpack
  by_cases h : data.length < 1
  · rw [if_pos h]; exact Or.inl ⟨_, rfl⟩
  · rw [if_neg h]
    rw [idx_in_range data 0 (by omega)]
    exact Or.inr ⟨_, rfl⟩

theorem PEFConfigParam_EventFilterData1_Unpack_outcome (r : PEFConfigParam_EventFilterData1) (data : Bytes) :
    (∃ e, PEFConfigParam_EventFilterData1.Unpack r data = .ret (r, some e)) ∨
    (∃ r1, PEFConfigParam_EventFilterData1.Unpack r data = .ret (r1, none)) := by
  unfold PEFConfigParam_EventFilterData1.Unpack
  by_cases h : data.length < 2
  · rw [if_pos h]; exact Or.inl ⟨_, rfl⟩
  · rw [if_neg h]
    rw [idx_in_range data 0 (by omega), idx_in_range data 1 (by omega)]
    exact Or.inr ⟨_, rfl⟩

theorem PEFConfigParam_NumberOfAlertPolicies_Unpack_outcome (r : PEFConfigParam_NumberOfAlertPolicies) (data : Bytes) :
    (∃ e, PEFConfigParam_NumberOfAlertPolicies.Unpack r data = .ret (r, some e)) ∨
    (∃ r1, PEFConfigParam_NumberOfAlertPolicies.Unpack r data = .ret (r1, none)) := by
  unfold PEFConfigParam_NumberOfAlertPolicies.Unpack
  by_cases h : data.length < 1
  · rw [if_pos h]; exact Or.inl ⟨_, rfl⟩
  · rw [if_neg h]
    rw [idx_in_range data 0 (by omega)]
    exact Or.inr ⟨_, rfl⟩

theorem PEFConfigParam_NumberOfAlertStrings_Unpack_outcome (r : PEFConfigParam_NumberOfAlertStrings) (data : Bytes) :
    (∃ e, PEFConfigParam_NumberOfAlertStrings.Unpack r data = .ret (r, some e)) ∨
    (∃ r1, PEFConfigParam_NumberOfAlertStrings.Unpack r data = .ret (r1, none)) := by
  unfold PEFConfigParam_NumberOfAlertStrings.Unpack
  by_cases h : data.length < 1
  · rw [if_pos h]; exact Or.inl ⟨_, rfl⟩
  · rw [if_neg h]
    rw [idx_in_range data 0 (by omega)]
    exact Or.inr ⟨_, rfl⟩

theorem PEFConfigParam_AlertStringKeys_Unpack_outcome (r : PEFConfigParam_AlertStringKeys) (data : Bytes) :
    (∃ e, PEFConfigParam_AlertStringKeys.Unpack r data = .ret (r, some e)) ∨
    (∃ r1, PEFConfigParam_AlertStringKeys.Unpack r data = .ret (r1, none)) := by
  unfold PEFConfigParam_AlertStringKeys.Unpack
  by_cases h : data.length < 3
  · rw [if_pos h]; exact Or.inl ⟨_, rfl⟩
  · rw [if_neg h]
    rw [idx_in_range data 0 (by omega), idx_in_range data 1 (by omega), idx_in_range data 2 (by omega)]
    exact Or.inr ⟨_, rfl⟩

theorem PEFConfigParam_AlertStrings_Unpack_outcome (r : PEFConfigParam_AlertStrings) (data : Bytes) :
    (∃ e, PEFConfigParam_AlertStrings.Unpack r data = .ret (r, some e)) ∨
    (∃ r1, PEFConfigParam_AlertStrings.Unpack r data = .ret (r1, none)) := by
  unfold PEFConfigParam_AlertStrings.Unpack
  by_cases h : data.length < 3
  · rw [if_pos h]; exact Or.inl ⟨_, rfl⟩
  · rw [if_neg h]
    rw [idx_in_range data 0 (by omega), idx_in_range data 1 (by omega)]
    exact Or.inr ⟨_, rfl⟩

theorem PEFConfigParam_NumberOfGroupControlTableEntries_Unpack_outcome (r : PEFConfigParam_NumberOfGroupControlTableEntries) (data : Bytes) :
    (∃ e, PEFConfigParam_NumberOfGroupControlTableEntries.Unpack r data = .ret (r, some e)) ∨
    (∃ r1, PEFConfigParam_NumberOfGroupControlTableEntries.Unpack r data = .ret (r1, none)) := by
  unfold PEFConfigParam_NumberOfGroupControlTableEntries.Unpack
  by_cases h : data.length < 1
  · rw [if_pos h]; exact Or.inl ⟨_, rfl⟩
  · rw [if_neg h]
    rw [idx_in_range data 0 (by omega)]
    exact Or.inr ⟨_, rfl⟩

theorem PEFConfigParam_GroupControlTable_Unpack_outcome (r : PEFConfigParam_GroupControlTable) (data : Bytes) :
    (∃ e, PEFConfigParam_GroupControlTable.Unpack r data = .ret (r, some e)) ∨
    (∃ r1, PEFConfigParam_GroupControlTable.Unpack r data = .ret (r1, none)) := by
  unfold PEFConfigParam_GroupControlTable.Unpack
  by_cases h : data.length < 11
  · rw [if_pos h]; exact Or.inl ⟨_, rfl⟩
  · rw [if_neg h]
    rw [idx_in_range data 0 (by omega), idx_in_range data 1 (by omega), idx_in_range data 2 (by omega), idx_in_range data 3 (by omega), idx_in_range data 4 (by omega), idx_in_range data 5 (by omega), idx_in_range data 6 (by omega), idx_in_range data 7 (by omega), idx_in_range data 8 (by omega), idx_in_range data 9 (by omega), idx_in_range data 10 (by omega)]
    exact Or.inr ⟨_, rfl⟩

theorem GetPEFConfigParametersResponse_Unpack_outcome (r : GetPEFConfigParametersResponse) (data : Bytes) :
    (∃ e, GetPEFConfigParametersResponse.Unpack r data = .ret (r, some e)) ∨
    (∃ r1, GetPEFConfigParametersResponse.Unpack r data = .ret (r1, none)) := by
  unfold GetPEFConfigParametersResponse.Unpack
  by_cases h : data.length < 1
  · rw [if_pos h]; exact Or.inl ⟨_, rfl⟩
  · rw [if_neg h]
    rw [idx_in_range data 0 (by omega)]
    exact Or.inr ⟨_, rfl⟩

theorem DCMICapParam_SupportedDCMICapabilities_Unpack_outcome (r : DCMICapParam_SupportedDCMICapabilities) (data : Bytes) :
    (∃ e, DCMICapParam_SupportedDCMICapabilities.Unpack r data = .ret (r, some e)) ∨
    (∃ r1, DCMICapParam_SupportedDCMICapabilities.Unpack r data = .ret (r1, none)) := by
  unfold DCMICapParam_SupportedDCMICapabilities.Unpack
  by_cases h : data.length < 3
  · rw [if_pos h]; exact Or.inl ⟨_, rfl⟩
  · rw [if_neg h]
    rw [idx_in_range data 1 (by omega), idx_in_range data 2 (by omega)]
    exact Or.inr ⟨_, rfl⟩

theorem DCMICapParam_MandatoryPlatformAttributes_Unpack_outcome (r : DCMICapParam_MandatoryPlatformAttributes) (data : Bytes) :
    (∃ e, DCMICapParam_MandatoryPlatformAttributes.Unpack r data = .ret (r, some e)) ∨
    (∃ r1, DCMICapParam_MandatoryPlatformAttributes.Unpack r data = .ret (r1, none)) := by
  unfold DCMICapParam_MandatoryPlatformAttributes.Unpack
  by_cases h : data.length < 5
  · rw [if_pos h]; exact Or.inl ⟨_, rfl⟩
  · rw [if_neg h]
    rw [idx_in_range data 1 (by omega), idx_in_range data 4 (by omega)]
    exact Or.inr ⟨_, rfl⟩

theorem DCMICapParam_OptionalPlatformAttributes_Unpack_outcome (r : DCMICapParam_OptionalPlatformAttributes) (data : Bytes) :
    (∃ e, DCMICapParam_OptionalPlatformAttributes.Unpack r data = .ret (r, some e)) ∨
    (∃ r1, DCMICapParam_OptionalPlatformAttributes.Unpack r data = .ret (r1, none)) := by
  unfold DCMICapParam_OptionalPlatformAttributes.Unpack
  by_cases h : data.length < 2
  · rw [if_pos h]; exact Or.inl ⟨_, rfl⟩
  · rw [if_neg h]
    rw [idx_in_range data 0 (by omega), idx_in_range data 1 (by omega)]
    exact Or.inr ⟨_, rfl⟩

theorem DCMICapParam_ManageabilityAccessAttributes_Unpack_outcome (r : DCMICapParam_ManageabilityAccessAttributes) (data : Bytes) :
    (∃ e, DCMICapParam_ManageabilityAccessAttributes.Unpack r data = .ret (r, some e)) ∨
    (∃ r1, DCMICapParam_ManageabilityAccessAttributes.Unpack r data = .ret (r1, none)) := by
  unfold DCMICapParam_ManageabilityAccessAttributes.Unpack
  by_cases h : data.length < 3
  · rw [if_pos h]; exact Or.inl ⟨_, rfl⟩
  · rw [if_neg h]
    rw [idx_in_range data 0 (by omega), idx_in_range data 1 (by omega), idx_in_range data 2 (by omega)]
    exact Or.inr ⟨_, rfl⟩

theorem DCMIConfigParam_ActivateDHCP_Unpack_outcome (r : DCMIConfigParam_ActivateDHCP) (data : Bytes) :
    (∃ e, DCMIConfigParam_ActivateDHCP.Unpack r data = .ret (r, some e)) ∨
    (∃ r1, DCMIConfigParam_ActivateDHCP.Unpack r data = .ret (r1, none)) := by
  unfold DCMIConfigParam_ActivateDHCP.Unpack
  by_cases h : data.length < 1
  · rw [if_pos h]; exact Or.inl ⟨_, rfl⟩
  · rw [if_neg h]
    rw [idx_in_range data 0 (by omega)]
    exact Or.inr ⟨_, rfl⟩

theorem DCMIConfigParam_DiscoveryConfiguration_Unpack_outcome (r : DCMIConfigParam_DiscoveryConfiguration) (data : Bytes) :
    (∃ e, DCMIConfigParam_DiscoveryConfiguration.Unpack r data = .ret (r, some e)) ∨
    (∃ r1, DCMIConfigParam_DiscoveryConfiguration.Unpack r data = .ret (r1, none)) := by
  unfold DCMIConfigParam_DiscoveryConfiguration.Unpack
  by_cases h : data.length < 1
  · rw [if_pos h]; exact Or.inl ⟨_, rfl⟩
  · rw [if_neg h]
    rw [idx_in_range data 0 (by omega)]
    exact Or.inr ⟨_, rfl⟩

theorem DCMIConfigParam_DHCPTiming1_Unpack_outcome (r : DCMIConfigParam_DHCPTiming1) (data : Bytes) :
    (∃ e, DCMIConfigParam_DHCPTiming1.Unpack r data = .ret (r, some e)) ∨
    (∃ r1, DCMIConfigParam_DHCPTiming1.Unpack r data = .ret (r1, none)) := by
  unfold DCMIConfigParam_DHCPTiming1.Unpack
  by_cases h : data.length < 1
  · rw [if_pos h]; exact Or.inl ⟨_, rfl⟩
  · rw [if_neg h]
    rw [idx_in_range data 0 (by omega)]
    exact Or.inr ⟨_, rfl⟩

theorem DCMIConfigParam_DHCPTiming2_Unpack_outcome (r : DCMIConfigParam_DHCPTiming2) (data : Bytes) :
    (∃ e, DCMIConfigParam_DHCPTiming2.Unpack r data = .ret (r, some e)) ∨
    (∃ r1, DCMIConfigParam_DHCPTiming2.Unpack r data = .ret (r1, none)) := by
  unfold DCMIConfigParam_DHCPTiming2.Unpack
  by_cases h : data.length < 1
  · rw [if_pos h]; exact Or.inl ⟨_, rfl⟩
  · rw [if_neg h]
    rw [idx_in_range data 0 (by omega)]
    exact Or.inr ⟨_, rfl⟩

theorem DCMIConfigParam_DHCPTiming3_Unpack_outcome (r : DCMIConfigParam_DHCPTiming3) (data : Bytes) :
    (∃ e, DCMIConfigParam_DHCPTiming3.Unpack r data = .ret (r, some e)) ∨
    (∃ r1, DCMIConfigParam_DHCPTiming3.Unpack r data = .ret (r1, none)) := by
  unfold DCMIConfigParam_DHCPTiming3.Unpack
  by_cases h : data.length < 1
  · rw [if_pos h]; exact Or.inl ⟨_, rfl⟩
  · rw [if_neg h]
    rw [idx_in_range data 0 (by omega)]
    exact Or.inr ⟨_, rfl⟩

theorem PEFEventFilter_Unpack_succeeds (r : PEFEventFilter) (data : Bytes) (h : 20 ≤ data.length) :
    ∃ r1, PEFEventFilter.Unpack r data = .ret (r1, none) := by
  unfold PEFEventFilter.Unpack
  rw [if_neg (by omega)]
  rw [idx_in_range data 0 (by omega), idx_in_range data 1 (by omega), idx_in_range data 2 (by omega), idx_in_range data 3 (by omega), idx_in_range data 6 (by omega), idx_in_range data 7 (by omega), idx_in_range data 8 (by omega), idx_in_range data 11 (by omega), idx_in_range data 12 (by omega), idx_in_range data 13 (by omega), idx_in_range data 14 (by omega), idx_in_range data 15 (by omega), idx_in_range data 16 (by omega), idx_in_range data 17 (by omega), idx_in_range data 18 (by omega), idx_in_range data 19 (by omega)]
  exact ⟨_, rfl⟩

theorem PEFAlertPolicy_Unpack_succeeds (r : PEFAlertPolicy) (data : Bytes) (h : 3 ≤ data.length) :
    ∃ r1, PEFAlertPolicy.Unpack r data = .ret (r1, none) := by
  unfold PEFAlertPolicy.Unpack
  rw [if_neg (by omega)]
  rw [idx_in_range data 0 (by omega), idx_in_range data 1 (by omega), idx_in_range data 2 (by omega)]
  exact ⟨_, rfl⟩

theorem slice_in_range (data : Bytes) (lo hi : Nat) (h : lo ≤ hi ∧ hi ≤ data.length) :
    slice data lo hi = .ret ((data.drop lo).take (hi - lo)) := by
  unfold slice
  rw [if_pos h]

theorem PEFConfigParam_EventFilter_Unpack_outcome (r : PEFConfigParam_EventFilter)
    (data : Bytes) :
    (∃ e, PEFConfigParam_EventFilter.Unpack r data = .ret (r, some e)) ∨
    (∃ r1, PEFConfigParam_EventFilter.Unpack r data = .ret (r1, none)) := by
  unfold PEFConfigParam_EventFilter.Unpack
  by_cases h : data.length < 21
  · rw [if_pos h]; exact Or.inl ⟨_, rfl⟩
  · rw [if_neg h]
    rw [idx_in_range data 0 (by omega), slice_in_range data 1 21 (by omega)]
    obtain ⟨e1, he1⟩ := PEFEventFilter_Unpack_succeeds {} ((data.drop 1).take (21 - 1))
      (by simp [List.length_take, List.length_drop]; omega)
    simp only [Run.ret_bind, he1, Run.pure_eq]
    exact Or.inr ⟨_, rfl⟩

theorem PEFConfigParam_AlertPolicy_Unpack_outcome (r : PEFConfigParam_AlertPolicy)
    (data : Bytes) :
    (∃ e, PEFConfigParam_AlertPolicy.Unpack r data = .ret (r, some e)) ∨
    (∃ r1, PEFConfigParam_AlertPolicy.Unpack r data = .ret (r1, none)) := by
  unfold PEFConfigParam_AlertPolicy.Unpack
  by_cases h : data.length < 4
  · rw [if_pos h]; exact Or.inl ⟨_, rfl⟩
  · rw [if_neg h]
    rw [idx_in_range data 0 (by omega), slice_in_range data 1 data.length (by omega)]
    obtain ⟨e1, he1⟩ := PEFAlertPolicy_Unpack_succeeds {}
      ((data.drop 1).take (data.length - 1))
      (by simp [List.length_take, List.length_drop]; omega)
    simp only [Run.ret_bind, he1, Run.pure_eq]
    exact Or.inr ⟨_, rfl⟩

theorem PEFConfigParam_SystemGUID_Unpack_outcome (r : PEFConfigParam_SystemGUID)
    (data : Bytes) :
    (∃ e, PEFConfigParam_SystemGUID.Unpack r data = .ret (r, some e)) ∨
    (∃ r1, PEFConfigParam_SystemGUID.Unpack r data = .ret (r1, none)) := by
  unfold PEFConfigParam_SystemGUID.Unpack
  by_cases h : data.length < 17
  · rw [if_pos h]; exact Or.inl ⟨_, rfl⟩
  · rw [if_neg h]
    rw [idx_in_range data 0 (by omega), slice_in_range data 1 17 (by omega)]
    exact Or.inr ⟨_, rfl⟩

theorem DCMICapParam_EnhancedSystemPowerStatisticsAttributes_Unpack_outcome
    (r : DCMICapParam_EnhancedSystemPowerStatisticsAttributes) (data : Bytes) :
    (∃ e, DCMICapParam_EnhancedSystemPowerStatisticsAttributes.Unpack r data
        = .ret (r, some e)) ∨
    (∃ r1, DCMICapParam_EnhancedSystemPowerStatisticsAttributes.Unpack r data
        = .ret (r1, none)) := by
  unfold DCMICapParam_EnhancedSystemPowerStatisticsAttributes.Unpack
  by_cases h : data.length < 2
  · rw [if_pos h]; exact Or.inl ⟨_, rfl⟩
  · rw [if_neg h]
    rw [idx_in_range data 0 (by omega)]
    simp only [Run.ret_bind]
    by_cases h2 : data.length < 1 + data.getD 0 0
    · rw [if_pos h2]; exact Or.inl ⟨_, rfl⟩
    · rw [if_neg h2]; exact Or.inr ⟨_, rfl⟩

theorem GetDCMICapabilitiesInfoResponse_Unpack_outcome (r : GetDCMICapabilitiesInfoResponse)
    (data : Bytes) :
    (∃ e, GetDCMICapabilitiesInfoResponse.Unpack r data = .ret (r, some e)) ∨
    (∃ r1, GetDCMICapabilitiesInfoResponse.Unpack r data = .ret (r1, none)) := by
  unfold GetDCMICapabilitiesInfoResponse.Unpack
  by_cases h : data.length < 5
  · rw [if_pos h]; exact Or.inl ⟨_, rfl⟩
  · rw [if_neg h]
    simp only
    split
    · exact Or.inl ⟨_, rfl⟩
    · exact Or.inr ⟨_, rfl⟩

theorem GetDCMIConfigurationParamsResponse_Unpack_outcome
    (r : GetDCMIConfigurationParamsResponse) (data : Bytes) :
    (∃ e, GetDCMIConfigurationParamsResponse.Unpack r data = .ret (r, some e)) ∨
    (∃ r1, GetDCMIConfigurationParamsResponse.Unpack r data = .ret (r1, none)) := by
  unfold GetDCMIConfigurationParamsResponse.Unpack
  by_cases h : data.length < 5
  · rw [if_pos h]; exact Or.inl ⟨_, rfl⟩
  · rw [if_neg h]
    simp only
    split
    · exact Or.inl ⟨_, rfl⟩
    · exact Or.inr ⟨_, rfl⟩

theorem SetDCMIConfigurationParamsResponse_Unpack_outcome
    (r : SetDCMIConfigurationParamsResponse) (data : Bytes) :
    (∃ e, SetDCMIConfigurationParamsResponse.Unpack r data = .ret (r, some e)) ∨
    (∃ r1, SetDCMIConfigurationParamsResponse.Unpack r data = .ret (r1, none)) := by
  unfold SetDCMIConfigurationParamsResponse.Unpack
  by_cases h : data.length < 1
  · rw [if_pos h]; exact Or.inl ⟨_, rfl⟩
  · rw [if_neg h]
    simp only
    split
    · exact Or.inl ⟨_, rfl⟩
    · exact Or.inr ⟨_, rfl⟩

theorem GetDCMIPowerLimitResponse_Unpack_outcome (r : GetDCMIPowerLimitResponse)
    (data : Bytes) :
    (∃ e, GetDCMIPowerLimitResponse.Unpack r data = .ret (r, some e)) ∨
    (∃ r1, GetDCMIPowerLimitResponse.Unpack r data = .ret (r1, none)) := by
  unfold GetDCMIPowerLimitResponse.Unpack
  by_cases h : data.length < 14
  · rw [if_pos h]; exact Or.inl ⟨_, rfl⟩
  · rw [if_neg h]
    rw [idx_in_range data 0 (by omega)]
    simp only [Run.ret_bind]
    split
    · exact Or.inl ⟨_, rfl⟩
    · exact Or.inr ⟨_, rfl⟩

theorem SetDCMIPowerLimitResponse_Unpack_outcome (r : SetDCMIPowerLimitResponse)
    (data : Bytes) :
    (∃ e, SetDCMIPowerLimitResponse.Unpack r data = .ret (r, some e)) ∨
    (∃ r1, SetDCMIPowerLimitResponse.Unpack r data = .ret (r1, none)) := by
  unfold SetDCMIPowerLimitResponse.Unpack
  by_cases h : data.length < 1
  · rw [if_pos h]; exact Or.inl ⟨_, rfl⟩
  · rw [if_neg h]
    rw [idx_in_range data 0 (by omega)]
    simp only [Run.ret_bind]
    split
    · exact Or.inl ⟨_, rfl⟩
    · exact Or.inr ⟨_, rfl⟩

theorem GetDCMIThermalLimitResponse_Unpack_outcome (r : GetDCMIThermalLimitResponse)
    (data : Bytes) :
    (∃ e, GetDCMIThermalLimitResponse.Unpack r data = .ret (r, some e)) ∨
    (∃ r1, GetDCMIThermalLimitResponse.Unpack r data = .ret (r1, none)) := by
  unfold GetDCMIThermalLimitResponse.Unpack
  by_cases h : data.length < 5
  · rw [if_pos h]; exact Or.inl ⟨_, rfl⟩
  · rw [if_neg h]
    rw [idx_in_range data 0 (by omega)]
    simp only [Run.ret_bind]
    split
    · exact Or.inl ⟨_, rfl⟩
    · exact Or.inr ⟨_, rfl⟩

theorem SetDCMIThermalLimitResponse_Unpack_outcome (r : SetDCMIThermalLimitResponse)
    (data : Bytes) :
    (∃ e, SetDCMIThermalLimitResponse.Unpack r data = .ret (r, some e)) ∨
    (∃ r1, SetDCMIThermalLimitResponse.Unpack r data = .ret (r1, none)) := by
  unfold SetDCMIThermalLimitResponse.Unpack
  by_cases h : data.length < 1
  · rw [if_pos h]; exact Or.inl ⟨_, rfl⟩
  · rw [if_neg h]
    rw [idx_in_range data 0 (by omega)]
    simp only [Run.ret_bind]
    split
    · exact Or.inl ⟨_, rfl⟩
    · exact Or.inr ⟨_, rfl⟩

theorem atomic_of_outcome {α : Type} {x : Run (α × Option IpmiError)} {r : α}
    (h : (∃ e, x = .ret (r, some e)) ∨ (∃ r1, x = .ret (r1, none))) :
    ∀ r1 e, x = .ret (r1, some e) → r1 = r := by
  intro r1 e hx
  rcases h with ⟨e2, h2⟩ | ⟨r2, h2⟩
  · rw [h2] at hx
    injection hx with hx
    injection hx with h3 _
    exact h3.symm
  · rw [h2] at hx
    injection hx with hx
    injection hx with _ h4
    cases h4

theorem returns_of_outcome {α : Type} {x : Run (α × Option IpmiError)} {r : α}
    (h : (∃ e, x = .ret (r, some e)) ∨ (∃ r1, x = .ret (r1, none))) :
    ∃ r1 e, x = .ret (r1, e) := by
  rcases h with ⟨e2, h2⟩ | ⟨r2, h2⟩
  · exact ⟨_, _, h2⟩
  · exact ⟨_, _, h2⟩

/-- Claim C14: decode atomicity. For every `Unpack` of the DCMI and PEF families
(the seven DCMI command responses, the five capability and the five
configuration parameters, the PEF get-parameter response, the sixteen PEF
configuration parameters, `PEFEventFilter` and `PEFAlertPolicy`), every receiver
and every input: if `Unpack` returns an error, the receiver is returned as it
was before the call. The nested decodes of `PEFConfigParam_EventFilter` and
`PEFConfigParam_AlertPolicy`, which run after the entry number is assigned,
cannot fail once the length check has passed. -/
theorem Unpack_error_leaves_receiver :
    (∀ (r r1 : GetDCMICapabilitiesInfoResponse) (data : Bytes) (e : IpmiError),
      GetDCMICapabilitiesInfoResponse.Unpack r data = .ret (r1, some e) → r1 = r) ∧
    (∀ (r r1 : GetDCMIConfigurationParamsResponse) (data : Bytes) (e : IpmiError),
      GetDCMIConfigurationParamsResponse.Unpack r data = .ret (r1, some e) → r1 = r) ∧
    (∀ (r r1 : SetDCMIConfigurationParamsResponse) (data : Bytes) (e : IpmiError),
      SetDCMIConfigurationParamsResponse.Unpack r data = .ret (r1, some e) → r1 = r) ∧
    (∀ (r r1 : GetDCMIPowerLimitResponse) (data : Bytes) (e : IpmiError),
      GetDCMIPowerLimitResponse.Unpack r data = .ret (r1, some e) → r1 = r) ∧
    (∀ (r r1 : SetDCMIPowerLimitResponse) (data : Bytes) (e : IpmiError),
      SetDCMIPowerLimitResponse.Unpack r data = .ret (r1, some e) → r1 = r) ∧
    (∀ (r r1 : GetDCMIThermalLimitResponse) (data : Bytes) (e : IpmiError),
      GetDCMIThermalLimitResponse.Unpack r data = .ret (r1, some e) → r1 = r) ∧
    (∀ (r r1 : SetDCMIThermalLimitResponse) (data : Bytes) (e : IpmiError),
      SetDCMIThermalLimitResponse.Unpack r data = .ret (r1, some e) → r1 = r) ∧
    (∀ (r r1 : DCMICapParam_SupportedDCMICapabilities) (data : Bytes) (e : IpmiError),
      DCMICapParam_SupportedDCMICapabilities.Unpack r data = .ret (r1, some e) → r1 = r) ∧
    (∀ (r r1 : DCMICapParam_MandatoryPlatformAttributes) (data : Bytes) (e : IpmiError),
      DCMICapParam_MandatoryPlatformAttributes.Unpack r data = .ret (r1, some e) → r1 = r) ∧
    (∀ (r r1 : DCMICapParam_OptionalPlatformAttributes) (data : Bytes) (e : IpmiError),
      DCMICapParam_OptionalPlatformAttributes.Unpack r data = .ret (r1, some e) → r1 = r) ∧
    (∀ (r r1 : DCMICapParam_ManageabilityAccessAttributes) (data : Bytes) (e : IpmiError),
      DCMICapParam_ManageabilityAccessAttributes.Unpack r data = .ret (r1, some e) → r1 = r) ∧
    (∀ (r r1 : DCMICapParam_EnhancedSystemPowerStatisticsAttributes) (data : Bytes) (e : IpmiError),
      DCMICapParam_EnhancedSystemPowerStatisticsAttributes.Unpack r data = .ret (r1, some e) → r1 = r) ∧
    (∀ (r r1 : DCMIConfigParam_ActivateDHCP) (data : Bytes) (e : IpmiError),
      DCMIConfigParam_ActivateDHCP.Unpack r data = .ret (r1, some e) → r1 = r) ∧
    (∀ (r r1 : DCMIConfigParam_DiscoveryConfiguration) (data : Bytes) (e : IpmiError),
      DCMIConfigParam_DiscoveryConfiguration.Unpack r data = .ret (r1, some e) → r1 = r) ∧
    (∀ (r r1 : DCMIConfigParam_DHCPTiming1) (data : Bytes) (e : IpmiError),
      DCMIConfigParam_DHCPTiming1.Unpack r data = .ret (r1, some e) → r1 = r) ∧
    (∀ (r r1 : DCMIConfigParam_DHCPTiming2) (data : Bytes) (e : IpmiError),
      DCMIConfigParam_DHCPTiming2.Unpack r data = .ret (r1, some e) → r1 = r) ∧
    (∀ (r r1 : DCMIConfigParam_DHCPTiming3) (data : Bytes) (e : IpmiError),
      DCMIConfigParam_DHCPTiming3.Unpack r data = .ret (r1, some e) → r1 = r) ∧
    (∀ (r r1 : GetPEFConfigParametersResponse) (data : Bytes) (e : IpmiError),
      GetPEFConfigParametersResponse.Unpack r data = .ret (r1, some e) → r1 = r) ∧
    (∀ (r r1 : PEFConfigParam_SetInProgress) (data : Bytes) (e : IpmiError),
      PEFConfigParam_SetInProgress.Unpack r data = .ret (r1, some e) → r1 = r) ∧
    (∀ (r r1 : PEFConfigParam_Control) (data : Bytes) (e : IpmiError),
      PEFConfigParam_Control.Unpack r data = .ret (r1, some e) → r1 = r) ∧
    (∀ (r r1 : PEFConfigParam_ActionGlobalControl) (data : Bytes) (e : IpmiError),
      PEFConfigParam_ActionGlobalControl.Unpack r data = .ret (r1, some e) → r1 = r) ∧
    (∀ (r r1 : PEFConfigParam_StartupDelay) (data : Bytes) (e : IpmiError),
      PEFConfigParam_StartupDelay.Unpack r data = .ret (r1, some e) → r1 = r) ∧
    (∀ (r r1 : PEFConfigParam_AlertStartupDelay) (data : Bytes) (e : IpmiError),
      PEFConfigParam_AlertStartupDelay.Unpack r data = .ret (r1, some e) → r1 = r) ∧
    (∀ (r r1 : PEFConfigParam_NumberOfEventFilters) (data : Bytes) (e : IpmiError),
      PEFConfigParam_NumberOfEventFilters.Unpack r data = .ret (r1, some e) → r1 = r) ∧
    (∀ (r r1 : PEFConfigParam_EventFilter) (data : Bytes) (e : IpmiError),
      PEFConfigParam_EventFilter.Unpack r data = .ret (r1, some e) → r1 = r) ∧
    (∀ (r r1 : PEFConfigParam_EventFilterData1) (data : Bytes) (e : IpmiError),
      PEFConfigParam_EventFilterData1.Unpack r data = .ret (r1, some e) → r1 = r) ∧
    (∀ (r r1 : PEFConfigParam_NumberOfAlertPolicies) (data : Bytes) (e : IpmiError),
      PEFConfigParam_NumberOfAlertPolicies.Unpack r data = .ret (r1, some e) → r1 = r) ∧
    (∀ (r r1 : PEFConfigParam_AlertPolicy) (data : Bytes) (e : IpmiError),
      PEFConfigParam_AlertPolicy.Unpack r data = .ret (r1, some e) → r1 = r) ∧
    (∀ (r r1 : PEFConfigParam_SystemGUID) (data : Bytes) (e : IpmiError),
      PEFConfigParam_SystemGUID.Unpack r data = .ret (r1, some e) → r1 = r) ∧
    (∀ (r r1 : PEFConfigParam_NumberOfAlertStrings) (data : Bytes) (e : IpmiError),
      PEFConfigParam_NumberOfAlertStrings.Unpack r data = .ret (r1, some e) → r1 = r) ∧
    (∀ (r r1 : PEFConfigParam_AlertStringKeys) (data : Bytes) (e : IpmiError),
      PEFConfigParam_AlertStringKeys.Unpack r data = .ret (r1, some e) → r1 = r) ∧
    (∀ (r r1 : PEFConfigParam_AlertStrings) (data : Bytes) (e : IpmiError),
      PEFConfigParam_AlertStrings.Unpack r data = .ret (r1, some e) → r1 = r) ∧
    (∀ (r r1 : PEFConfigParam_NumberOfGroupControlTableEntries) (data : Bytes) (e : IpmiError),
      PEFConfigParam_NumberOfGroupControlTableEntries.Unpack r data = .ret (r1, some e) → r1 = r) ∧
    (∀ (r r1 : PEFConfigParam_GroupControlTable) (data : Bytes) (e : IpmiError),
      PEFConfigParam_GroupControlTable.Unpack r data = .ret (r1, some e) → r1 = r) ∧
    (∀ (r r1 : PEFEventFilter) (data : Bytes) (e : IpmiError),
      PEFEventFilter.Unpack r data = .ret (r1, some e) → r1 = r) ∧
    (∀ (r r1 : PEFAlertPolicy) (data : Bytes) (e : IpmiError),
      PEFAlertPolicy.Unpack r data = .ret (r1, some e) → r1 = r) :=
  ⟨fun r r1 data e => atomic_of_outcome (GetDCMICapabilitiesInfoResponse_Unpack_outcome r data) r1 e,
   fun r r1 data e => atomic_of_outcome (GetDCMIConfigurationParamsResponse_Unpack_outcome r data) r1 e,
   fun r r1 data e => atomic_of_outcome (SetDCMIConfigurationParamsResponse_Unpack_outcome r data) r1 e,
   fun r r1 data e => atomic_of_outcome (GetDCMIPowerLimitResponse_Unpack_outcome r data) r1 e,
   fun r r1 data e => atomic_of_outcome (SetDCMIPowerLimitResponse_Unpack_outcome r data) r1 e,
   fun r r1 data e => atomic_of_outcome (GetDCMIThermalLimitResponse_Unpack_outcome r data) r1 e,
   fun r r1 data e => atomic_of_outcome (SetDCMIThermalLimitResponse_Unpack_outcome r data) r1 e,
   fun r r1 data e => atomic_of_outcome (DCMICapParam_SupportedDCMICapabilities_Unpack_outcome r data) r1 e,
   fun r r1 data e => atomic_of_outcome (DCMICapParam_MandatoryPlatformAttributes_Unpack_outcome r data) r1 e,
   fun r r1 data e => atomic_of_outcome (DCMICapParam_OptionalPlatformAttributes_Unpack_outcome r data) r1 e,
   fun r r1 data e => atomic_of_outcome (DCMICapParam_ManageabilityAccessAttributes_Unpack_outcome r data) r1 e,
   fun r r1 data e => atomic_of_outcome (DCMICapParam_EnhancedSystemPowerStatisticsAttributes_Unpack_outcome r data) r1 e,
   fun r r1 data e => atomic_of_outcome (DCMIConfigParam_ActivateDHCP_Unpack_outcome r data) r1 e,
   fun r r1 data e => atomic_of_outcome (DCMIConfigParam_DiscoveryConfiguration_Unpack_outcome r data) r1 e,
   fun r r1 data e => atomic_of_outcome (DCMIConfigParam_DHCPTiming1_Unpack_outcome r data) r1 e,
   fun r r1 data e => atomic_of_outcome (DCMIConfigParam_DHCPTiming2_Unpack_outcome r data) r1 e,
   fun r r1 data e => atomic_of_outcome (DCMIConfigParam_DHCPTiming3_Unpack_outcome r data) r1 e,
   fun r r1 data e => atomic_of_outcome (GetPEFConfigParametersResponse_Unpack_outcome r data) r1 e,
   fun r r1 data e => atomic_of_outcome (PEFConfigParam_SetInProgress_Unpack_outcome r data) r1 e,
   fun r r1 data e => atomic_of_outcome (PEFConfigParam_Control_Unpack_outcome r data) r1 e,
   fun r r1 data e => atomic_of_outcome (PEFConfigParam_ActionGlobalControl_Unpack_outcome r data) r1 e,
   fun r r1 data e => atomic_of_outcome (PEFConfigParam_StartupDelay_Unpack_outcome r data) r1 e,
   fun r r1 data e => atomic_of_outcome (PEFConfigParam_AlertStartupDelay_Unpack_outcome r data) r1 e,
   fun r r1 data e => atomic_of_outcome (PEFConfigParam_NumberOfEventFilters_Unpack_outcome r data) r1 e,
   fun r r1 data e => atomic_of_outcome (PEFConfigParam_EventFilter_Unpack_outcome r data) r1 e,
   fun r r1 data e => atomic_of_outcome (PEFConfigParam_EventFilterData1_Unpack_outcome r data) r1 e,
   fun r r1 data e => atomic_of_outcome (PEFConfigParam_NumberOfAlertPolicies_Unpack_outcome r data) r1 e,
   fun r r1 data e => atomic_of_outcome (PEFConfigParam_AlertPolicy_Unpack_outcome r data) r1 e,
   fun r r1 data e => atomic_of_outcome (PEFConfigParam_SystemGUID_Unpack_outcome r data) r1 e,
   fun r r1 data e => atomic_of_outcome (PEFConfigParam_NumberOfAlertStrings_Unpack_outcome r data) r1 e,
   fun r r1 data e => atomic_of_outcome (PEFConfigParam_AlertStringKeys_Unpack_outcome r data) r1 e,
   fun r r1 data e => atomic_of_outcome (PEFConfigParam_AlertStrings_Unpack_outcome r data) r1 e,
   fun r r1 data e => atomic_of_outcome (PEFConfigParam_NumberOfGroupControlTableEntries_Unpack_outcome r data) r1 e,
   fun r r1 data e => atomic_of_outcome (PEFConfigParam_GroupControlTable_Unpack_outcome r data) r1 e,
   fun r r1 data e => atomic_of_outcome (PEFEventFilter_Unpack_outcome r data) r1 e,
   fun r r1 data e => atomic_of_outcome (PEFAlertPolicy_Unpack_outcome r data) r1 e⟩

/-- Claim C15: decode safety. Every `Unpack` of the DCMI and PEF families returns,
with success or with an error, on every octet sequence of any length and with
every receiver: no index and no slice is out of range. The reads made through
the helpers after a length check lie inside the input as well: the helper
reports no overflow at any of them, and in the enhanced power statistics decoder
the slice from 1 to `1 + count` is within the payload whenever the second check
has passed. -/
theorem Unpack_never_panics :
    (∀ (r : GetDCMICapabilitiesInfoResponse) (data : Bytes), ∃ r1 e, GetDCMICapabilitiesInfoResponse.Unpack r data = .ret (r1, e)) ∧
    (∀ (r : GetDCMIConfigurationParamsResponse) (data : Bytes), ∃ r1 e, GetDCMIConfigurationParamsResponse.Unpack r data = .ret (r1, e)) ∧
    (∀ (r : SetDCMIConfigurationParamsResponse) (data : Bytes), ∃ r1 e, SetDCMIConfigurationParamsResponse.Unpack r data = .ret (r1, e)) ∧
    (∀ (r : GetDCMIPowerLimitResponse) (data : Bytes), ∃ r1 e, GetDCMIPowerLimitResponse.Unpack r data = .ret (r1, e)) ∧
    (∀ (r : SetDCMIPowerLimitResponse) (data : Bytes), ∃ r1 e, SetDCMIPowerLimitResponse.Unpack r data = .ret (r1, e)) ∧
    (∀ (r : GetDCMIThermalLimitResponse) (data : Bytes), ∃ r1 e, GetDCMIThermalLimitResponse.Unpack r data = .ret (r1, e)) ∧
    (∀ (r : SetDCMIThermalLimitResponse) (data : Bytes), ∃ r1 e, SetDCMIThermalLimitResponse.Unpack r data = .ret (r1, e)) ∧
    (∀ (r : DCMICapParam_SupportedDCMICapabilities) (data : Bytes), ∃ r1 e, DCMICapParam_SupportedDCMICapabilities.Unpack r data = .ret (r1, e)) ∧
    (∀ (r : DCMICapParam_MandatoryPlatformAttributes) (data : Bytes), ∃ r1 e, DCMICapParam_MandatoryPlatformAttributes.Unpack r data = .ret (r1, e)) ∧
    (∀ (r : DCMICapParam_OptionalPlatformAttributes) (data : Bytes), ∃ r1 e, DCMICapParam_OptionalPlatformAttributes.Unpack r data = .ret (r1, e)) ∧
    (∀ (r : DCMICapParam_ManageabilityAccessAttributes) (data : Bytes), ∃ r1 e, DCMICapParam_ManageabilityAccessAttributes.Unpack r data = .ret (r1, e)) ∧
    (∀ (r : DCMICapParam_EnhancedSystemPowerStatisticsAttributes) (data : Bytes), ∃ r1 e, DCMICapParam_EnhancedSystemPowerStatisticsAttributes.Unpack r data = .ret (r1, e)) ∧
    (∀ (r : DCMIConfigParam_ActivateDHCP) (data : Bytes), ∃ r1 e, DCMIConfigParam_ActivateDHCP.Unpack r data = .ret (r1, e)) ∧
    (∀ (r : DCMIConfigParam_DiscoveryConfiguration) (data : Bytes), ∃ r1 e, DCMIConfigParam_DiscoveryConfiguration.Unpack r data = .ret (r1, e)) ∧
    (∀ (r : DCMIConfigParam_DHCPTiming1) (data : Bytes), ∃ r1 e, DCMIConfigParam_DHCPTiming1.Unpack r data = .ret (r1, e)) ∧
    (∀ (r : DCMIConfigParam_DHCPTiming2) (data : Bytes), ∃ r1 e, DCMIConfigParam_DHCPTiming2.Unpack r data = .ret (r1, e)) ∧
    (∀ (r : DCMIConfigParam_DHCPTiming3) (data : Bytes), ∃ r1 e, DCMIConfigParam_DHCPTiming3.Unpack r data = .ret (r1, e)) ∧
    (∀ (r : GetPEFConfigParametersResponse) (data : Bytes), ∃ r1 e, GetPEFConfigParametersResponse.Unpack r data = .ret (r1, e)) ∧
    (∀ (r : PEFConfigParam_SetInProgress) (data : Bytes), ∃ r1 e, PEFConfigParam_SetInProgress.Unpack r data = .ret (r1, e)) ∧
    (∀ (r : PEFConfigParam_Control) (data : Bytes), ∃ r1 e, PEFConfigParam_Control.Unpack r data = .ret (r1, e)) ∧
    (∀ (r : PEFConfigParam_ActionGlobalControl) (data : Bytes), ∃ r1 e, PEFConfigParam_ActionGlobalControl.Unpack r data = .ret (r1, e)) ∧
    (∀ (r : PEFConfigParam_StartupDelay) (data : Bytes), ∃ r1 e, PEFConfigParam_StartupDelay.Unpack r data = .ret (r1, e)) ∧
    (∀ (r : PEFConfigParam_AlertStartupDelay) (data : Bytes), ∃ r1 e, PEFConfigParam_AlertStartupDelay.Unpack r data = .ret (r1, e)) ∧
    (∀ (r : PEFConfigParam_NumberOfEventFilters) (data : Bytes), ∃ r1 e, PEFConfigParam_NumberOfEventFilters.Unpack r data = .ret (r1, e)) ∧
    (∀ (r : PEFConfigParam_EventFilter) (data : Bytes), ∃ r1 e, PEFConfigParam_EventFilter.Unpack r data = .ret (r1, e)) ∧
    (∀ (r : PEFConfigParam_EventFilterData1) (data : Bytes), ∃ r1 e, PEFConfigParam_EventFilterData1.Unpack r data = .ret (r1, e)) ∧
    (∀ (r : PEFConfigParam_NumberOfAlertPolicies) (data : Bytes), ∃ r1 e, PEFConfigParam_NumberOfAlertPolicies.Unpack r data = .ret (r1, e)) ∧
    (∀ (r : PEFConfigParam_AlertPolicy) (data : Bytes), ∃ r1 e, PEFConfigParam_AlertPolicy.Unpack r data = .ret (r1, e)) ∧
    (∀ (r : PEFConfigParam_SystemGUID) (data : Bytes), ∃ r1 e, PEFConfigParam_SystemGUID.Unpack r data = .ret (r1, e)) ∧
    (∀ (r : PEFConfigParam_NumberOfAlertStrings) (data : Bytes), ∃ r1 e, PEFConfigParam_NumberOfAlertStrings.Unpack r data = .ret (r1, e)) ∧
    (∀ (r : PEFConfigParam_AlertStringKeys) (data : Bytes), ∃ r1 e, PEFConfigParam_AlertStringKeys.Unpack r data = .ret (r1, e)) ∧
    (∀ (r : PEFConfigParam_AlertStrings) (data : Bytes), ∃ r1 e, PEFConfigParam_AlertStrings.Unpack r data = .ret (r1, e)) ∧
    (∀ (r : PEFConfigParam_NumberOfGroupControlTableEntries) (data : Bytes), ∃ r1 e, PEFConfigParam_NumberOfGroupControlTableEntries.Unpack r data = .ret (r1, e)) ∧
    (∀ (r : PEFConfigParam_GroupControlTable) (data : Bytes), ∃ r1 e, PEFConfigParam_GroupControlTable.Unpack r data = .ret (r1, e)) ∧
    (∀ (r : PEFEventFilter) (data : Bytes), ∃ r1 e, PEFEventFilter.Unpack r data = .ret (r1, e)) ∧
    (∀ (r : PEFAlertPolicy) (data : Bytes), ∃ r1 e, PEFAlertPolicy.Unpack r data = .ret (r1, e)) ∧
    (∀ p : Bytes, 2 ≤ p.length → ¬ p.length < 1 + p.getD 0 0 →
      1 + p.getD 0 0 ≤ p.length ∧ (unpackBytes p 1 (p.getD 0 0)).2.2 = none) ∧
    (∀ data : Bytes, 20 ≤ data.length →
      (unpackUint16L data 4).2.2 = none ∧ (unpackUint16L data 9).2.2 = none) ∧
    (∀ msg : Bytes, 14 ≤ msg.length →
      (unpackUint8 msg 3).2.2 = none ∧ (unpackUint16L msg 4).2.2 = none ∧
      (unpackUint32L msg 6).2.2 = none ∧ (unpackUint16L msg 12).2.2 = none) ∧
    (∀ msg : Bytes, 5 ≤ msg.length →
      (unpackUint8 msg 0).2.2 = none ∧ (unpackUint8 msg 1).2.2 = none ∧
      (unpackUint8 msg 2).2.2 = none ∧ (unpackUint8 msg 3).2.2 = none ∧
      (unpackBytes msg 4 (msg.length - 4)).2.2 = none ∧
      (unpackUint16L msg 3).2.2 = none ∧ (unpackUint16L msg 0).2.2 = none) ∧
    (∀ data : Bytes, 3 ≤ data.length → (unpackBytes data 2 (data.length - 2)).2.2 = none) ∧
    (∀ msg : Bytes, 1 ≤ msg.length →
      (unpackUint8 msg 0).2.2 = none ∧ (unpackBytes msg 1 (msg.length - 1)).2.2 = none) := by
  refine ⟨fun r data => returns_of_outcome (GetDCMICapabilitiesInfoResponse_Unpack_outcome r data),
    fun r data => returns_of_outcome (GetDCMIConfigurationParamsResponse_Unpack_outcome r data),
    fun r data => returns_of_outcome (SetDCMIConfigurationParamsResponse_Unpack_outcome r data),
    fun r data => returns_of_outcome (GetDCMIPowerLimitResponse_Unpack_outcome r data),
    fun r data => returns_of_outcome (SetDCMIPowerLimitResponse_Unpack_outcome r data),
    fun r data => returns_of_outcome (GetDCMIThermalLimitResponse_Unpack_outcome r data),
    fun r data => returns_of_outcome (SetDCMIThermalLimitResponse_Unpack_outcome r data),
    fun r data => returns_of_outcome (DCMICapParam_SupportedDCMICapabilities_Unpack_outcome r data),
    fun r data => returns_of_outcome (DCMICapParam_MandatoryPlatformAttributes_Unpack_outcome r data),
    fun r data => returns_of_outcome (DCMICapParam_OptionalPlatformAttributes_Unpack_outcome r data),
    fun r data => returns_of_outcome (DCMICapParam_ManageabilityAccessAttributes_Unpack_outcome r data),
    fun r data => returns_of_outcome (DCMICapParam_EnhancedSystemPowerStatisticsAttributes_Unpack_outcome r data),
    fun r data => returns_of_outcome (DCMIConfigParam_ActivateDHCP_Unpack_outcome r data),
    fun r data => returns_of_outcome (DCMIConfigParam_DiscoveryConfiguration_Unpack_outcome r data),
    fun r data => returns_of_outcome (DCMIConfigParam_DHCPTiming1_Unpack_outcome r data),
    fun r data => returns_of_outcome (DCMIConfigParam_DHCPTiming2_Unpack_outcome r data),
    fun r data => returns_of_outcome (DCMIConfigParam_DHCPTiming3_Unpack_outcome r data),
    fun r data => returns_of_outcome (GetPEFConfigParametersResponse_Unpack_outcome r data),
    fun r data => returns_of_outcome (PEFConfigParam_SetInProgress_Unpack_outcome r data),
    fun r data => returns_of_outcome (PEFConfigParam_Control_Unpack_outcome r data),
    fun r data => returns_of_outcome (PEFConfigParam_ActionGlobalControl_Unpack_outcome r data),
    fun r data => returns_of_outcome (PEFConfigParam_StartupDelay_Unpack_outcome r data),
    fun r data => returns_of_outcome (PEFConfigParam_AlertStartupDelay_Unpack_outcome r data),
    fun r data => returns_of_outcome (PEFConfigParam_NumberOfEventFilters_Unpack_outcome r data),
    fun r data => returns_of_outcome (PEFConfigParam_EventFilter_Unpack_outcome r data),
    fun r data => returns_of_outcome (PEFConfigParam_EventFilterData1_Unpack_outcome r data),
    fun r data => returns_of_outcome (PEFConfigParam_NumberOfAlertPolicies_Unpack_outcome r data),
    fun r data => returns_of_outcome (PEFConfigParam_AlertPolicy_Unpack_outcome r data),
    fun r data => returns_of_outcome (PEFConfigParam_SystemGUID_Unpack_outcome r data),
    fun r data => returns_of_outcome (PEFConfigParam_NumberOfAlertStrings_Unpack_outcome r data),
    fun r data => returns_of_outcome (PEFConfigParam_AlertStringKeys_Unpack_outcome r data),
    fun r data => returns_of_outcome (PEFConfigParam_AlertStrings_Unpack_outcome r data),
    fun r data => returns_of_outcome (PEFConfigParam_NumberOfGroupControlTableEntries_Unpack_outcome r data),
    fun r data => returns_of_outcome (PEFConfigParam_GroupControlTable_Unpack_outcome r data),
    fun r data => returns_of_outcome (PEFEventFilter_Unpack_outcome r data),
    fun r data => returns_of_outcome (PEFAlertPolicy_Unpack_outcome r data),
    ?_, ?_, ?_, ?_, ?_, ?_⟩
  · intro p _ h2
    exact ⟨by omega, by rw [unpackBytes_in_range p 1 _ (by omega)]⟩
  · intro data h
    exact ⟨by rw [unpackUint16L_in_range data 4 (by omega)],
      by rw [unpackUint16L_in_range data 9 (by omega)]⟩
  · intro msg h
    exact ⟨by rw [unpackUint8_in_range msg 3 (by omega)],
      by rw [unpackUint16L_in_range msg 4 (by omega)],
      by rw [unpackUint32L_in_range msg 6 (by omega)],
      by rw [unpackUint16L_in_range msg 12 (by omega)]⟩
  · intro msg h
    exact ⟨by rw [unpackUint8_in_range msg 0 (by omega)],
      by rw [unpackUint8_in_range msg 1 (by omega)],
      by rw [unpackUint8_in_range msg 2 (by omega)],
      by rw [unpackUint8_in_range msg 3 (by omega)],
      by rw [unpackBytes_in_range msg 4 _ (by omega)],
      by rw [unpackUint16L_in_range msg 3 (by omega)],
      by rw [unpackUint16L_in_range msg 0 (by omega)]⟩
  · intro data h
    rw [unpackBytes_in_range data 2 _ (by omega)]
  · intro msg h
    exact ⟨by rw [unpackUint8_in_range msg 0 (by omega)],
      by rw [unpackBytes_in_range msg 1 _ (by omega)]⟩

/-! ## The capability discovery -/

@[simp] theorem Run.ret_some_andThen {σ : Type} (s : σ) (e : IpmiError)
    (f : σ → Run (σ × Option IpmiError)) :
    (Run.ret (s, some e) : Run (σ × Option IpmiError)).andThen f = Run.ret (s, some e) := rfl

theorem DiscoveryDCMICapabilities_SupportedDCMICapabilities_spec (bmc : Controller)
    (s : Client × DCMICapabilities) :
    (∀ x, capabilityFetched bmc s.1.sent DCMICapParamSelector_SupportedDCMICapabilities
        (DCMICapParam_SupportedDCMICapabilities.Unpack {}) x →
      DiscoveryDCMICapabilities_SupportedDCMICapabilities bmc s
        = .ret (({ sent := s.1.sent ++ [(Command.CommandGetDCMICapabilitiesInfo,
            [GroupExtensionDCMI, DCMICapParamSelector_SupportedDCMICapabilities])] },
          { s.2 with SupportedDCMICapabilities := x }), none)) ∧
    ((¬ ∃ x, capabilityFetched bmc s.1.sent DCMICapParamSelector_SupportedDCMICapabilities
        (DCMICapParam_SupportedDCMICapabilities.Unpack {}) x) →
      ∃ e, DiscoveryDCMICapabilities_SupportedDCMICapabilities bmc s
        = .ret (({ sent := s.1.sent ++ [(Command.CommandGetDCMICapabilitiesInfo,
            [GroupExtensionDCMI, DCMICapParamSelector_SupportedDCMICapabilities])] }, s.2),
          some e)) := by
  unfold DiscoveryDCMICapabilities_SupportedDCMICapabilities Client.Exchange capabilityFetched
  simp only [GetDCMICapabilitiesInfoRequest.Command, GetDCMICapabilitiesInfoRequest.Pack]
  cases hb : bmc s.1.sent (Command.CommandGetDCMICapabilitiesInfo,
      [GroupExtensionDCMI, DCMICapParamSelector_SupportedDCMICapabilities]) with
  | error e0 =>
    refine ⟨?_, fun _ => ⟨_, rfl⟩⟩
    rintro x ⟨payload, res, h1, _⟩
    cases h1
  | ok payload =>
    rcases GetDCMICapabilitiesInfoResponse_Unpack_outcome {} payload with ⟨e1, h1⟩ | ⟨res, h1⟩
    · refine ⟨?_, fun _ => ⟨_, by simp only [h1, Run.ret_bind, Run.pure_eq]; rfl⟩⟩
      rintro x ⟨payload2, res2, h2, h3, _⟩
      cases h2
      rw [h1] at h3
      cases h3
    · rcases DCMICapParam_SupportedDCMICapabilities_Unpack_outcome {} res.ParamData
        with ⟨e2, h2⟩ | ⟨x0, h2⟩
      · refine ⟨?_, fun _ => ⟨_, by simp only [h1, h2, Run.ret_bind, Run.pure_eq]; rfl⟩⟩
        rintro x ⟨payload2, res2, h3, h4, h5⟩
        cases h3
        rw [h1] at h4
        cases h4
        rw [h2] at h5
        cases h5
      · refine ⟨?_, fun hno => absurd ⟨x0, payload, res, rfl, h1, h2⟩ hno⟩
        rintro x ⟨payload2, res2, h3, h4, h5⟩
        cases h3
        rw [h1] at h4
        cases h4
        rw [h2] at h5
        cases h5
        simp only [h1, h2, Run.ret_bind, Run.pure_eq]

theorem DiscoveryDCMICapabilities_MandatoryPlatformAttributes_spec (bmc : Controller)
    (s : Client × DCMICapabilities) :
    (∀ x, capabilityFetched bmc s.1.sent DCMICapParamSelector_MandatoryPlatformAttributes
        (DCMICapParam_MandatoryPlatformAttributes.Unpack {}) x →
      DiscoveryDCMICapabilities_MandatoryPlatformAttributes bmc s
        = .ret (({ sent := s.1.sent ++ [(Command.CommandGetDCMICapabilitiesInfo,
            [GroupExtensionDCMI, DCMICapParamSelector_MandatoryPlatformAttributes])] },
          { s.2 with MandatoryPlatformAttributes := x }), none)) ∧
    ((¬ ∃ x, capabilityFetched bmc s.1.sent DCMICapParamSelector_MandatoryPlatformAttributes
        (DCMICapParam_MandatoryPlatformAttributes.Unpack {}) x) →
      ∃ e, DiscoveryDCMICapabilities_MandatoryPlatformAttributes bmc s
        = .ret (({ sent := s.1.sent ++ [(Command.CommandGetDCMICapabilitiesInfo,
            [GroupExtensionDCMI, DCMICapParamSelector_MandatoryPlatformAttributes])] }, s.2),
          some e)) := by
  unfold DiscoveryDCMICapabilities_MandatoryPlatformAttributes Client.Exchange capabilityFetched
  simp only [GetDCMICapabilitiesInfoRequest.Command, GetDCMICapabilitiesInfoRequest.Pack]
  cases hb : bmc s.1.sent (Command.CommandGetDCMICapabilitiesInfo,
      [GroupExtensionDCMI, DCMICapParamSelector_MandatoryPlatformAttributes]) with
  | error e0 =>
    refine ⟨?_, fun _ => ⟨_, rfl⟩⟩
    rintro x ⟨payload, res, h1, _⟩
    cases h1
  | ok payload =>
    rcases GetDCMICapabilitiesInfoResponse_Unpack_outcome {} payload with ⟨e1, h1⟩ | ⟨res, h1⟩
    · refine ⟨?_, fun _ => ⟨_, by simp only [h1, Run.ret_bind, Run.pure_eq]; rfl⟩⟩
      rintro x ⟨payload2, res2, h2, h3, _⟩
      cases h2
      rw [h1] at h3
      cases h3
    · rcases DCMICapParam_MandatoryPlatformAttributes_Unpack_outcome {} res.ParamData
        with ⟨e2, h2⟩ | ⟨x0, h2⟩
      · refine ⟨?_, fun _ => ⟨_, by simp only [h1, h2, Run.ret_bind, Run.pure_eq]; rfl⟩⟩
        rintro x ⟨payload2, res2, h3, h4, h5⟩
        cases h3
        rw [h1] at h4
        cases h4
        rw [h2] at h5
        cases h5
      · refine ⟨?_, fun hno => absurd ⟨x0, payload, res, rfl, h1, h2⟩ hno⟩
        rintro x ⟨payload2, res2, h3, h4, h5⟩
        cases h3
        rw [h1] at h4
        cases h4
        rw [h2] at h5
        cases h5
        simp only [h1, h2, Run.ret_bind, Run.pure_eq]

theorem DiscoveryDCMICapabilities_OptionalPlatformAttributes_spec (bmc : Controller)
    (s : Client × DCMICapabilities) :
    (∀ x, capabilityFetched bmc s.1.sent DCMICapParamSelector_OptionalPlatformAttributes
        (DCMICapParam_OptionalPlatformAttributes.Unpack {}) x →
      DiscoveryDCMICapabilities_OptionalPlatformAttributes bmc s
        = .ret (({ sent := s.1.sent ++ [(Command.CommandGetDCMICapabilitiesInfo,
            [GroupExtensionDCMI, DCMICapParamSelector_OptionalPlatformAttributes])] },
          { s.2 with OptionalPlatformAttributes := x }), none)) ∧
    ((¬ ∃ x, capabilityFetched bmc s.1.sent DCMICapParamSelector_OptionalPlatformAttributes
        (DCMICapParam_OptionalPlatformAttributes.Unpack {}) x) →
      ∃ e, DiscoveryDCMICapabilities_OptionalPlatformAttributes bmc s
        = .ret (({ sent := s.1.sent ++ [(Command.CommandGetDCMICapabilitiesInfo,
            [GroupExtensionDCMI, DCMICapParamSelector_OptionalPlatformAttributes])] }, s.2),
          some e)) := by
  unfold DiscoveryDCMICapabilities_OptionalPlatformAttributes Client.Exchange capabilityFetched
  simp only [GetDCMICapabilitiesInfoRequest.Command, GetDCMICapabilitiesInfoRequest.Pack]
  cases hb : bmc s.1.sent (Command.CommandGetDCMICapabilitiesInfo,
      [GroupExtensionDCMI, DCMICapParamSelector_OptionalPlatformAttributes]) with
  | error e0 =>
    refine ⟨?_, fun _ => ⟨_, rfl⟩⟩
    rintro x ⟨payload, res, h1, _⟩
    cases h1
  | ok payload =>
    rcases GetDCMICapabilitiesInfoResponse_Unpack_outcome {} payload with ⟨e1, h1⟩ | ⟨res, h1⟩
    · refine ⟨?_, fun _ => ⟨_, by simp only [h1, Run.ret_bind, Run.pure_eq]; rfl⟩⟩
      rintro x ⟨payload2, res2, h2, h3, _⟩
      cases h2
      rw [h1] at h3
      cases h3
    · rcases DCMICapParam_OptionalPlatformAttributes_Unpack_outcome {} res.ParamData
        with ⟨e2, h2⟩ | ⟨x0, h2⟩
      · refine ⟨?_, fun _ => ⟨_, by simp only [h1, h2, Run.ret_bind, Run.pure_eq]; rfl⟩⟩
        rintro x ⟨payload2, res2, h3, h4, h5⟩
        cases h3
        rw [h1] at h4
        cases h4
        rw [h2] at h5
        cases h5
      · refine ⟨?_, fun hno => absurd ⟨x0, payload, res, rfl, h1, h2⟩ hno⟩
        rintro x ⟨payload2, res2, h3, h4, h5⟩
        cases h3
        rw [h1] at h4
        cases h4
        rw [h2] at h5
        cases h5
        simp only [h1, h2, Run.ret_bind, Run.pure_eq]

theorem DiscoveryDCMICapabilities_ManageabilityAccessAttributes_spec (bmc : Controller)
    (s : Client × DCMICapabilities) :
    (∀ x, capabilityFetched bmc s.1.sent DCMICapParamSelector_ManageabilityAccessAttributes
        (DCMICapParam_ManageabilityAccessAttributes.Unpack {}) x →
      DiscoveryDCMICapabilities_ManageabilityAccessAttributes bmc s
        = .ret (({ sent := s.1.sent ++ [(Command.CommandGetDCMICapabilitiesInfo,
            [GroupExtensionDCMI, DCMICapParamSelector_ManageabilityAccessAttributes])] },
          { s.2 with ManageabilityAccessAttributes := x }), none)) ∧
    ((¬ ∃ x, capabilityFetched bmc s.1.sent DCMICapParamSelector_ManageabilityAccessAttributes
        (DCMICapParam_ManageabilityAccessAttributes.Unpack {}) x) →
      ∃ e, DiscoveryDCMICapabilities_ManageabilityAccessAttributes bmc s
        = .ret (({ sent := s.1.sent ++ [(Command.CommandGetDCMICapabilitiesInfo,
            [GroupExtensionDCMI, DCMICapParamSelector_ManageabilityAccessAttributes])] }, s.2),
          some e)) := by
  unfold DiscoveryDCMICapabilities_ManageabilityAccessAttributes Client.Exchange capabilityFetched
  simp only [GetDCMICapabilitiesInfoRequest.Command, GetDCMICapabilitiesInfoRequest.Pack]
  cases hb : bmc s.1.sent (Command.CommandGetDCMICapabilitiesInfo,
      [GroupExtensionDCMI, DCMICapParamSelector_ManageabilityAccessAttributes]) with
  | error e0 =>
    refine ⟨?_, fun _ => ⟨_, rfl⟩⟩
    rintro x ⟨payload, res, h1, _⟩
    cases h1
  | ok payload =>
    rcases GetDCMICapabilitiesInfoResponse_Unpack_outcome {} payload with ⟨e1, h1⟩ | ⟨res, h1⟩
    · refine ⟨?_, fun _ => ⟨_, by simp only [h1, Run.ret_bind, Run.pure_eq]; rfl⟩⟩
      rintro x ⟨payload2, res2, h2, h3, _⟩
      cases h2
      rw [h1] at h3
      cases h3
    · rcases DCMICapParam_ManageabilityAccessAttributes_Unpack_outcome {} res.ParamData
        with ⟨e2, h2⟩ | ⟨x0, h2⟩
      · refine ⟨?_, fun _ => ⟨_, by simp only [h1, h2, Run.ret_bind, Run.pure_eq]; rfl⟩⟩
        rintro x ⟨payload2, res2, h3, h4, h5⟩
        cases h3
        rw [h1] at h4
        cases h4
        rw [h2] at h5
        cases h5
      · refine ⟨?_, fun hno => absurd ⟨x0, payload, res, rfl, h1, h2⟩ hno⟩
        rintro x ⟨payload2, res2, h3, h4, h5⟩
        cases h3
        rw [h1] at h4
        cases h4
        rw [h2] at h5
        cases h5
        simp only [h1, h2, Run.ret_bind, Run.pure_eq]

theorem DiscoveryDCMICapabilities_EnhancedSystemPowerStatisticsAttributes_spec (bmc : Controller)
    (s : Client × DCMICapabilities) :
    (∀ x, capabilityFetched bmc s.1.sent DCMICapParamSelector_EnhancedSystemPowerStatisticsAttributes
        (DCMICapParam_EnhancedSystemPowerStatisticsAttributes.Unpack {}) x →
      DiscoveryDCMICapabilities_EnhancedSystemPowerStatisticsAttributes bmc s
        = .ret (({ sent := s.1.sent ++ [(Command.CommandGetDCMICapabilitiesInfo,
            [GroupExtensionDCMI, DCMICapParamSelector_EnhancedSystemPowerStatisticsAttributes])] },
          { s.2 with EnhancedSystemPowerStatisticsAttributes := x }), none)) ∧
    ((¬ ∃ x, capabilityFetched bmc s.1.sent DCMICapParamSelector_EnhancedSystemPowerStatisticsAttributes
        (DCMICapParam_EnhancedSystemPowerStatisticsAttributes.Unpack {}) x) →
      ∃ e, DiscoveryDCMICapabilities_EnhancedSystemPowerStatisticsAttributes bmc s
        = .ret (({ sent := s.1.sent ++ [(Command.CommandGetDCMICapabilitiesInfo,
            [GroupExtensionDCMI, DCMICapParamSelector_EnhancedSystemPowerStatisticsAttributes])] }, s.2),
          some e)) := by
  unfold DiscoveryDCMICapabilities_EnhancedSystemPowerStatisticsAttributes Client.Exchange capabilityFetched
  simp only [GetDCMICapabilitiesInfoRequest.Command, GetDCMICapabilitiesInfoRequest.Pack]
  cases hb : bmc s.1.sent (Command.CommandGetDCMICapabilitiesInfo,
      [GroupExtensionDCMI, DCMICapParamSelector_EnhancedSystemPowerStatisticsAttributes]) with
  | error e0 =>
    refine ⟨?_, fun _ => ⟨_, rfl⟩⟩
    rintro x ⟨payload, res, h1, _⟩
    cases h1
  | ok payload =>
    rcases GetDCMICapabilitiesInfoResponse_Unpack_outcome {} payload with ⟨e1, h1⟩ | ⟨res, h1⟩
    · refine ⟨?_, fun _ => ⟨_, by simp only [h1, Run.ret_bind, Run.pure_eq]; rfl⟩⟩
      rintro x ⟨payload2, res2, h2, h3, _⟩
      cases h2
      rw [h1] at h3
      cases h3
    · rcases DCMICapParam_EnhancedSystemPowerStatisticsAttributes_Unpack_outcome {} res.ParamData
        with ⟨e2, h2⟩ | ⟨x0, h2⟩
      · refine ⟨?_, fun _ => ⟨_, by simp only [h1, h2, Run.ret_bind, Run.pure_eq]; rfl⟩⟩
        rintro x ⟨payload2, res2, h3, h4, h5⟩
        cases h3
        rw [h1] at h4
        cases h4
        rw [h2] at h5
        cases h5
      · refine ⟨?_, fun hno => absurd ⟨x0, payload, res, rfl, h1, h2⟩ hno⟩
        rintro x ⟨payload2, res2, h3, h4, h5⟩
        cases h3
        rw [h1] at h4
        cases h4
        rw [h2] at h5
        cases h5
        simp only [h1, h2, Run.ret_bind, Run.pure_eq]

/-- Claim C12: the fixed-sequence discovery. `DiscoveryDCMICapabilities` issues the
Get DCMI Capabilities Info requests for the selectors 0x01, 0x02, 0x03, 0x04,
0x05 in that order (`capabilityRequests`). If the exchange for the `k`-th
selector, the unpacking of its reply or the decode of its parameter data fails,
after the first `k - 1` succeeded, it returns an error and a nil result and has
issued exactly the first `k` requests; if all five succeed it returns no error
and the five parameters, each decoded from the `ParamData` of the reply to its
own request. The cases are exhaustive, so the call always returns. -/
theorem Client.DiscoveryDCMICapabilities_fixed_sequence (bmc : Controller) (c : Client) :
    capabilityRequests 5 =
      [(Command.CommandGetDCMICapabilitiesInfo, [0xDC, 0x01]),
       (Command.CommandGetDCMICapabilitiesInfo, [0xDC, 0x02]),
       (Command.CommandGetDCMICapabilitiesInfo, [0xDC, 0x03]),
       (Command.CommandGetDCMICapabilitiesInfo, [0xDC, 0x04]),
       (Command.CommandGetDCMICapabilitiesInfo, [0xDC, 0x05])] ∧
    ((¬ ∃ x, capabilityFetched bmc (c.sent ++ capabilityRequests 0) 0x01
        (DCMICapParam_SupportedDCMICapabilities.Unpack {}) x) →
      ∃ e, Client.DiscoveryDCMICapabilities bmc c
        = .ret ({ sent := c.sent ++ capabilityRequests 1 }, none, some e)) ∧
    (∀ x1,
      capabilityFetched bmc (c.sent ++ capabilityRequests 0) 0x01
        (DCMICapParam_SupportedDCMICapabilities.Unpack {}) x1 →
      (¬ ∃ x, capabilityFetched bmc (c.sent ++ capabilityRequests 1) 0x02
        (DCMICapParam_MandatoryPlatformAttributes.Unpack {}) x) →
      ∃ e, Client.DiscoveryDCMICapabilities bmc c
        = .ret ({ sent := c.sent ++ capabilityRequests 2 }, none, some e)) ∧
    (∀ x1 x2,
      capabilityFetched bmc (c.sent ++ capabilityRequests 0) 0x01
        (DCMICapParam_SupportedDCMICapabilities.Unpack {}) x1 →
      capabilityFetched bmc (c.sent ++ capabilityRequests 1) 0x02
        (DCMICapParam_MandatoryPlatformAttributes.Unpack {}) x2 →
      (¬ ∃ x, capabilityFetched bmc (c.sent ++ capabilityRequests 2) 0x03
        (DCMICapParam_OptionalPlatformAttributes.Unpack {}) x) →
      ∃ e, Client.DiscoveryDCMICapabilities bmc c
        = .ret ({ sent := c.sent ++ capabilityRequests 3 }, none, some e)) ∧
    (∀ x1 x2 x3,
      capabilityFetched bmc (c.sent ++ capabilityRequests 0) 0x01
        (DCMICapParam_SupportedDCMICapabilities.Unpack {}) x1 →
      capabilityFetched bmc (c.sent ++ capabilityRequests 1) 0x02
        (DCMICapParam_MandatoryPlatformAttributes.Unpack {}) x2 →
      capabilityFetched bmc (c.sent ++ capabilityRequests 2) 0x03
        (DCMICapParam_OptionalPlatformAttributes.Unpack {}) x3 →
      (¬ ∃ x, capabilityFetched bmc (c.sent ++ capabilityRequests 3) 0x04
        (DCMICapParam_ManageabilityAccessAttributes.Unpack {}) x) →
      ∃ e, Client.DiscoveryDCMICapabilities bmc c
        = .ret ({ sent := c.sent ++ capabilityRequests 4 }, none, some e)) ∧
    (∀ x1 x2 x3 x4,
      capabilityFetched bmc (c.sent ++ capabilityRequests 0) 0x01
        (DCMICapParam_SupportedDCMICapabilities.Unpack {}) x1 →
      capabilityFetched bmc (c.sent ++ capabilityRequests 1) 0x02
        (DCMICapParam_MandatoryPlatformAttributes.Unpack {}) x2 →
      capabilityFetched bmc (c.sent ++ capabilityRequests 2) 0x03
        (DCMICapParam_OptionalPlatformAttributes.Unpack {}) x3 →
      capabilityFetched bmc (c.sent ++ capabilityRequests 3) 0x04
        (DCMICapParam_ManageabilityAccessAttributes.Unpack {}) x4 →
      (¬ ∃ x, capabilityFetched bmc (c.sent ++ capabilityRequests 4) 0x05
        (DCMICapParam_EnhancedSystemPowerStatisticsAttributes.Unpack {}) x) →
      ∃ e, Client.DiscoveryDCMICapabilities bmc c
        = .ret ({ sent := c.sent ++ capabilityRequests 5 }, none, some e)) ∧
    (∀ x1 x2 x3 x4 x5,
      capabilityFetched bmc (c.sent ++ capabilityRequests 0) 0x01
        (DCMICapParam_SupportedDCMICapabilities.Unpack {}) x1 →
      capabilityFetched bmc (c.sent ++ capabilityRequests 1) 0x02
        (DCMICapParam_MandatoryPlatformAttributes.Unpack {}) x2 →
      capabilityFetched bmc (c.sent ++ capabilityRequests 2) 0x03
        (DCMICapParam_OptionalPlatformAttributes.Unpack {}) x3 →
      capabilityFetched bmc (c.sent ++ capabilityRequests 3) 0x04
        (DCMICapParam_ManageabilityAccessAttributes.Unpack {}) x4 →
      capabilityFetched bmc (c.sent ++ capabilityRequests 4) 0x05
        (DCMICapParam_EnhancedSystemPowerStatisticsAttributes.Unpack {}) x5 →
      Client.DiscoveryDCMICapabilities bmc c
        = .ret ({ sent := c.sent ++ capabilityRequests 5 },
            some { SupportedDCMICapabilities := x1, MandatoryPlatformAttributes := x2,
                   OptionalPlatformAttributes := x3, ManageabilityAccessAttributes := x4,
                   EnhancedSystemPowerStatisticsAttributes := x5 }, none)) := by
  have sel : DCMICapParamSelector_SupportedDCMICapabilities = 0x01 ∧
      DCMICapParamSelector_MandatoryPlatformAttributes = 0x02 ∧
      DCMICapParamSelector_OptionalPlatformAttributes = 0x03 ∧
      DCMICapParamSelector_ManageabilityAccessAttributes = 0x04 ∧
      DCMICapParamSelector_EnhancedSystemPowerStatisticsAttributes = 0x05 ∧
      GroupExtensionDCMI = 0xDC := ⟨rfl, rfl, rfl, rfl, rfl, rfl⟩
  obtain ⟨s1, s2, s3, s4, s5, sg⟩ := sel
  have r0 : capabilityRequests 0 = [] := rfl
  have r1 : capabilityRequests 1 = [(Command.CommandGetDCMICapabilitiesInfo, [0xDC, 0x01])] := rfl
  have r2 : capabilityRequests 2 = [(Command.CommandGetDCMICapabilitiesInfo, [0xDC, 0x01]),
      (Command.CommandGetDCMICapabilitiesInfo, [0xDC, 0x02])] := rfl
  have r3 : capabilityRequests 3 = [(Command.CommandGetDCMICapabilitiesInfo, [0xDC, 0x01]),
      (Command.CommandGetDCMICapabilitiesInfo, [0xDC, 0x02]),
      (Command.CommandGetDCMICapabilitiesInfo, [0xDC, 0x03])] := rfl
  have r4 : capabilityRequests 4 = [(Command.CommandGetDCMICapabilitiesInfo, [0xDC, 0x01]),
      (Command.CommandGetDCMICapabilitiesInfo, [0xDC, 0x02]),
      (Command.CommandGetDCMICapabilitiesInfo, [0xDC, 0x03]),
      (Command.CommandGetDCMICapabilitiesInfo, [0xDC, 0x04])] := rfl
  have r5 : capabilityRequests 5 = [(Command.CommandGetDCMICapabilitiesInfo, [0xDC, 0x01]),
      (Command.CommandGetDCMICapabilitiesInfo, [0xDC, 0x02]),
      (Command.CommandGetDCMICapabilitiesInfo, [0xDC, 0x03]),
      (Command.CommandGetDCMICapabilitiesInfo, [0xDC, 0x04]),
      (Command.CommandGetDCMICapabilitiesInfo, [0xDC, 0x05])] := rfl
  refine ⟨r5, ?_⟩
  simp only [r0, r1, r2, r3, r4, r5, List.append_nil]
  unfold Client.DiscoveryDCMICapabilities
  refine ⟨?_, ?_, ?_, ?_, ?_, ?_⟩
  · intro hno
    obtain ⟨e, he⟩ := (DiscoveryDCMICapabilities_SupportedDCMICapabilities_spec bmc
      (c, {})).2
      (by simpa only [s1, s2, s3, s4, s5, sg, List.append_assoc, List.cons_append, List.nil_append] using hno)
    simp only [s1, s2, s3, s4, s5, sg, List.append_assoc, List.cons_append, List.nil_append] at he
    rw [he]
    exact ⟨e, rfl⟩
  · intro x1 h1 hno
    have e1 := (DiscoveryDCMICapabilities_SupportedDCMICapabilities_spec bmc
      (c, {})).1 x1
      (by simpa only [s1, s2, s3, s4, s5, sg, List.append_assoc, List.cons_append, List.nil_append] using h1)
    simp only [s1, s2, s3, s4, s5, sg, List.append_assoc, List.cons_append, List.nil_append] at e1
    rw [e1, Run.ret_none_andThen]
    obtain ⟨e, he⟩ := (DiscoveryDCMICapabilities_MandatoryPlatformAttributes_spec bmc
      (({ sent := c.sent ++ [(Command.CommandGetDCMICapabilitiesInfo, [0xDC, 0x01])] } : Client),
      ({ SupportedDCMICapabilities := x1 } : DCMICapabilities))).2
      (by simpa only [s1, s2, s3, s4, s5, sg, List.append_assoc, List.cons_append, List.nil_append] using hno)
    simp only [s1, s2, s3, s4, s5, sg, List.append_assoc, List.cons_append, List.nil_append] at he
    rw [he]
    exact ⟨e, rfl⟩
  · intro x1 x2 h1 h2 hno
    have e1 := (DiscoveryDCMICapabilities_SupportedDCMICapabilities_spec bmc
      (c, {})).1 x1
      (by simpa only [s1, s2, s3, s4, s5, sg, List.append_assoc, List.cons_append, List.nil_append] using h1)
    simp only [s1, s2, s3, s4, s5, sg, List.append_assoc, List.cons_append, List.nil_append] at e1
    rw [e1, Run.ret_none_andThen]
    have e2 := (DiscoveryDCMICapabilities_MandatoryPlatformAttributes_spec bmc
      (({ sent := c.sent ++ [(Command.CommandGetDCMICapabilitiesInfo, [0xDC, 0x01])] } : Client),
      ({ SupportedDCMICapabilities := x1 } : DCMICapabilities))).1 x2
      (by simpa only [s1, s2, s3, s4, s5, sg, List.append_assoc, List.cons_append, List.nil_append] using h2)
    simp only [s1, s2, s3, s4, s5, sg, List.append_assoc, List.cons_append, List.nil_append] at e2
    rw [e2, Run.ret_none_andThen]
    obtain ⟨e, he⟩ := (DiscoveryDCMICapabilities_OptionalPlatformAttributes_spec bmc
      (({ sent := c.sent ++ [(Command.CommandGetDCMICapabilitiesInfo, [0xDC, 0x01]), (Command.CommandGetDCMICapabilitiesInfo, [0xDC, 0x02])] } : Client),
      ({ SupportedDCMICapabilities := x1, MandatoryPlatformAttributes := x2 } : DCMICapabilities))).2
      (by simpa only [s1, s2, s3, s4, s5, sg, List.append_assoc, List.cons_append, List.nil_append] using hno)
    simp only [s1, s2, s3, s4, s5, sg, List.append_assoc, List.cons_append, List.nil_append] at he
    rw [he]
    exact ⟨e, rfl⟩
  · intro x1 x2 x3 h1 h2 h3 hno
    have e1 := (DiscoveryDCMICapabilities_SupportedDCMICapabilities_spec bmc
      (c, {})).1 x1
      (by simpa only [s1, s2, s3, s4, s5, sg, List.append_assoc, List.cons_append, List.nil_append] using h1)
    simp only [s1, s2, s3, s4, s5, sg, List.append_assoc, List.cons_append, List.nil_append] at e1
    rw [e1, Run.ret_none_andThen]
    have e2 := (DiscoveryDCMICapabilities_MandatoryPlatformAttributes_spec bmc
      (({ sent := c.sent ++ [(Command.CommandGetDCMICapabilitiesInfo, [0xDC, 0x01])] } : Client),
      ({ SupportedDCMICapabilities := x1 } : DCMICapabilities))).1 x2
      (by simpa only [s1, s2, s3, s4, s5, sg, List.append_assoc, List.cons_append, List.nil_append] using h2)
    simp only [s1, s2, s3, s4, s5, sg, List.append_assoc, List.cons_append, List.nil_append] at e2
    rw [e2, Run.ret_none_andThen]
    have e3 := (DiscoveryDCMICapabilities_OptionalPlatformAttributes_spec bmc
      (({ sent := c.sent ++ [(Command.CommandGetDCMICapabilitiesInfo, [0xDC, 0x01]), (Command.CommandGetDCMICapabilitiesInfo, [0xDC, 0x02])] } : Client),
      ({ SupportedDCMICapabilities := x1, MandatoryPlatformAttributes := x2 } : DCMICapabilities))).1 x3
      (by simpa only [s1, s2, s3, s4, s5, sg, List.append_assoc, List.cons_append, List.nil_append] using h3)
    simp only [s1, s2, s3, s4, s5, sg, List.append_assoc, List.cons_append, List.nil_append] at e3
    rw [e3, Run.ret_none_andThen]
    obtain ⟨e, he⟩ := (DiscoveryDCMICapabilities_ManageabilityAccessAttributes_spec bmc
      (({ sent := c.sent ++ [(Command.CommandGetDCMICapabilitiesInfo, [0xDC, 0x01]), (Command.CommandGetDCMICapabilitiesInfo, [0xDC, 0x02]), (Command.CommandGetDCMICapabilitiesInfo, [0xDC, 0x03])] } : Client),
      ({ SupportedDCMICapabilities := x1, MandatoryPlatformAttributes := x2, OptionalPlatformAttributes := x3 } : DCMICapabilities))).2
      (by simpa only [s1, s2, s3, s4, s5, sg, List.append_assoc, List.cons_append, List.nil_append] using hno)
    simp only [s1, s2, s3, s4, s5, sg, List.append_assoc, List.cons_append, List.nil_append] at he
    rw [he]
    exact ⟨e, rfl⟩
  · intro x1 x2 x3 x4 h1 h2 h3 h4 hno
    have e1 := (DiscoveryDCMICapabilities_SupportedDCMICapabilities_spec bmc
      (c, {})).1 x1
      (by simpa only [s1, s2, s3, s4, s5, sg, List.append_assoc, List.cons_append, List.nil_append] using h1)
    simp only [s1, s2, s3, s4, s5, sg, List.append_assoc, List.cons_append, List.nil_append] at e1
    rw [e1, Run.ret_none_andThen]
    have e2 := (DiscoveryDCMICapabilities_MandatoryPlatformAttributes_spec bmc
      (({ sent := c.sent ++ [(Command.CommandGetDCMICapabilitiesInfo, [0xDC, 0x01])] } : Client),
      ({ SupportedDCMICapabilities := x1 } : DCMICapabilities))).1 x2
      (by simpa only [s1, s2, s3, s4, s5, sg, List.append_assoc, List.cons_append, List.nil_append] using h2)
    simp only [s1, s2, s3, s4, s5, sg, List.append_assoc, List.cons_append, List.nil_append] at e2
    rw [e2, Run.ret_none_andThen]
    have e3 := (DiscoveryDCMICapabilities_OptionalPlatformAttributes_spec bmc
      (({ sent := c.sent ++ [(Command.CommandGetDCMICapabilitiesInfo, [0xDC, 0x01]), (Command.CommandGetDCMICapabilitiesInfo, [0xDC, 0x02])] } : Client),
      ({ SupportedDCMICapabilities := x1, MandatoryPlatformAttributes := x2 } : DCMICapabilities))).1 x3
      (by simpa only [s1, s2, s3, s4, s5, sg, List.append_assoc, List.cons_append, List.nil_append] using h3)
    simp only [s1, s2, s3, s4, s5, sg, List.append_assoc, List.cons_append, List.nil_append] at e3
    rw [e3, Run.ret_none_andThen]
    have e4 := (DiscoveryDCMICapabilities_ManageabilityAccessAttributes_spec bmc
      (({ sent := c.sent ++ [(Command.CommandGetDCMICapabilitiesInfo, [0xDC, 0x01]), (Command.CommandGetDCMICapabilitiesInfo, [0xDC, 0x02]), (Command.CommandGetDCMICapabilitiesInfo, [0xDC, 0x03])] } : Client),
      ({ SupportedDCMICapabilities := x1, MandatoryPlatformAttributes := x2, OptionalPlatformAttributes := x3 } : DCMICapabilities))).1 x4
      (by simpa only [s1, s2, s3, s4, s5, sg, List.append_assoc, List.cons_append, List.nil_append] using h4)
    simp only [s1, s2, s3, s4, s5, sg, List.append_assoc, List.cons_append, List.nil_append] at e4
    rw [e4, Run.ret_none_andThen]
    obtain ⟨e, he⟩ := (DiscoveryDCMICapabilities_EnhancedSystemPowerStatisticsAttributes_spec bmc
      (({ sent := c.sent ++ [(Command.CommandGetDCMICapabilitiesInfo, [0xDC, 0x01]), (Command.CommandGetDCMICapabilitiesInfo, [0xDC, 0x02]), (Command.CommandGetDCMICapabilitiesInfo, [0xDC, 0x03]), (Command.CommandGetDCMICapabilitiesInfo, [0xDC, 0x04])] } : Client),
      ({ SupportedDCMICapabilities := x1, MandatoryPlatformAttributes := x2, OptionalPlatformAttributes := x3, ManageabilityAccessAttributes := x4 } : DCMICapabilities))).2
      (by simpa only [s1, s2, s3, s4, s5, sg, List.append_assoc, List.cons_append, List.nil_append] using hno)
    simp only [s1, s2, s3, s4, s5, sg, List.append_assoc, List.cons_append, List.nil_append] at he
    rw [he]
    exact ⟨e, rfl⟩
  · intro x1 x2 x3 x4 x5 h1 h2 h3 h4 h5
    have e1 := (DiscoveryDCMICapabilities_SupportedDCMICapabilities_spec bmc
      (c, {})).1 x1
      (by simpa only [s1, s2, s3, s4, s5, sg, List.append_assoc, List.cons_append, List.nil_append] using h1)
    simp only [s1, s2, s3, s4, s5, sg, List.append_assoc, List.cons_append, List.nil_append] at e1
    rw [e1, Run.ret_none_andThen]
    have e2 := (DiscoveryDCMICapabilities_MandatoryPlatformAttributes_spec bmc
      (({ sent := c.sent ++ [(Command.CommandGetDCMICapabilitiesInfo, [0xDC, 0x01])] } : Client),
      ({ SupportedDCMICapabilities := x1 } : DCMICapabilities))).1 x2
      (by simpa only [s1, s2, s3, s4, s5, sg, List.append_assoc, List.cons_append, List.nil_append] using h2)
    simp only [s1, s2, s3, s4, s5, sg, List.append_assoc, List.cons_append, List.nil_append] at e2
    rw [e2, Run.ret_none_andThen]
    have e3 := (DiscoveryDCMICapabilities_OptionalPlatformAttributes_spec bmc
      (({ sent := c.sent ++ [(Command.CommandGetDCMICapabilitiesInfo, [0xDC, 0x01]), (Command.CommandGetDCMICapabilitiesInfo, [0xDC, 0x02])] } : Client),
      ({ SupportedDCMICapabilities := x1, MandatoryPlatformAttributes := x2 } : DCMICapabilities))).1 x3
      (by simpa only [s1, s2, s3, s4, s5, sg, List.append_assoc, List.cons_append, List.nil_append] using h3)
    simp only [s1, s2, s3, s4, s5, sg, List.append_assoc, List.cons_append, List.nil_append] at e3
    rw [e3, Run.ret_none_andThen]
    have e4 := (DiscoveryDCMICapabilities_ManageabilityAccessAttributes_spec bmc
      (({ sent := c.sent ++ [(Command.CommandGetDCMICapabilitiesInfo, [0xDC, 0x01]), (Command.CommandGetDCMICapabilitiesInfo, [0xDC, 0x02]), (Command.CommandGetDCMICapabilitiesInfo, [0xDC, 0x03])] } : Client),
      ({ SupportedDCMICapabilities := x1, MandatoryPlatformAttributes := x2, OptionalPlatformAttributes := x3 } : DCMICapabilities))).1 x4
      (by simpa only [s1, s2, s3, s4, s5, sg, List.append_assoc, List.cons_append, List.nil_append] using h4)
    simp only [s1, s2, s3, s4, s5, sg, List.append_assoc, List.cons_append, List.nil_append] at e4
    rw [e4, Run.ret_none_andThen]
    have e5 := (DiscoveryDCMICapabilities_EnhancedSystemPowerStatisticsAttributes_spec bmc
      (({ sent := c.sent ++ [(Command.CommandGetDCMICapabilitiesInfo, [0xDC, 0x01]), (Command.CommandGetDCMICapabilitiesInfo, [0xDC, 0x02]), (Command.CommandGetDCMICapabilitiesInfo, [0xDC, 0x03]), (Command.CommandGetDCMICapabilitiesInfo, [0xDC, 0x04])] } : Client),
      ({ SupportedDCMICapabilities := x1, MandatoryPlatformAttributes := x2, OptionalPlatformAttributes := x3, ManageabilityAccessAttributes := x4 } : DCMICapabilities))).1 x5
      (by simpa only [s1, s2, s3, s4, s5, sg, List.append_assoc, List.cons_append, List.nil_append] using h5)
    simp only [s1, s2, s3, s4, s5, sg, List.append_assoc, List.cons_append, List.nil_append] at e5
    rw [e5]

/-- Claim C12 at two controllers: one that refuses every request (the discovery
returns an error and a nil result after the single request for selector 0x01)
and one that answers all five requests (the discovery returns the five decoded
parameters after the five requests). -/
theorem Client.DiscoveryDCMICapabilities_fixed_sequence_witness :
    (∃ e, Client.DiscoveryDCMICapabilities refusingBmc {}
      = .ret ({ sent := [(Command.CommandGetDCMICapabilitiesInfo, [0xDC, 0x01])] }, none,
          some e)) ∧
    Client.DiscoveryDCMICapabilities capabilityBmc {}
      = .ret ({ sent := capabilityRequests 5 },
          some { SupportedDCMICapabilities :=
                   { SupportPowerManagement := true, SupportInBandKCS := true,
                     SupportOutOfBandSerial := true, SupportOutOfBandLAN := true },
                 MandatoryPlatformAttributes :=
                   { SELEntriesCount := 256, TemperatrureSamplingFrequencySec := 10 },
                 OptionalPlatformAttributes := { DeviceRevision := 1 },
                 ManageabilityAccessAttributes :=
                   { PrimaryLANChannelNumber := 0, SecondaryLANChannelNumber := 1,
                     SerialChannelNumber := 7 },
                 EnhancedSystemPowerStatisticsAttributes :=
                   { RollingAverageTimePeriodsSec := [120, 5] } }, none) := by
  constructor
  · have h := (Client.DiscoveryDCMICapabilities_fixed_sequence refusingBmc {}).2.1
      (by
        rintro ⟨x, payload, res, h1, _⟩
        cases h1)
    simpa [capabilityRequests] using h
  · have h := (Client.DiscoveryDCMICapabilities_fixed_sequence capabilityBmc {}).2.2.2.2.2.2
      _ _ _ _ _
      ⟨_, _, rfl, rfl, rfl⟩ ⟨_, _, rfl, rfl, rfl⟩
      ⟨_, _, rfl, rfl, rfl⟩ ⟨_, _, rfl, rfl, rfl⟩
      ⟨_, _, rfl, rfl, rfl⟩
    simpa using h

/-! ## The PEF aggregation leaves at the first failure -/

theorem GetPEFConfigParametersRequest_Pack_selected (sel set block : Nat) :
    GetPEFConfigParametersRequest.Pack
      { GetRevisionOnly := false, ParamSelector := sel, SetSelector := set,
        BlockSelector := block } = [sel &&& 0x3f, set, block] := rfl

theorem pefExchangesSucceed_append (bmc : Controller) (xs ys : List Sent) :
    ∀ before, pefExchangesSucceed bmc before (xs ++ ys)
      = (pefExchangesSucceed bmc before xs && pefExchangesSucceed bmc (before ++ xs) ys) := by
  induction xs with
  | nil => intro before; simp [pefExchangesSucceed]
  | cons x xs ih =>
    intro before
    simp [pefExchangesSucceed, ih, Bool.and_assoc]

/-- One call of `GetPEFConfigForParameter` issues exactly one request. It returns
no error when that exchange succeeds and the `Format` of the decoded parameter
returns, it returns an error exactly when the exchange fails, and it is stopped
when the exchange succeeds and `Format` is stopped. -/
theorem GetPEFConfigForParameter_outcomes {P : Type} [PEFConfigParameter P] (bmc : Controller)
    (c : Client) (param : P) (set block : Nat)
    (hout : ∀ data, (∃ e, PEFConfigParameter.Unpack param data = .ret (param, some e)) ∨
      (∃ p, PEFConfigParameter.Unpack param data = .ret (p, none)))
    (hsel : ∀ data, pefConfigDataDecodes (PEFConfigParameter.PEFConfigParamSelector P &&& 0x3f) data
      = (PEFConfigParameter.Unpack param data).succeeded)
    (hfmt : ∀ data p, PEFConfigParameter.Unpack param data = .ret (p, none) →
      PEFConfigParameter.Format p = .ret () ∨ PEFConfigParameter.Format p = .panic) :
    ∃ req, req = (Command.CommandGetPEFConfigParameters,
        [PEFConfigParameter.PEFConfigParamSelector P &&& 0x3f, set, block]) ∧
      ((∃ p, Client.GetPEFConfigForParameter bmc c param set block
          = .ret ({ sent := c.sent ++ [req] }, p, none) ∧
        pefExchangeSucceeds bmc c.sent req = true ∧
        ∃ payload res, bmc c.sent req = .ok payload ∧
          GetPEFConfigParametersResponse.Unpack {} payload = .ret (res, none) ∧
          PEFConfigParameter.Unpack param res.ConfigData = .ret (p, none) ∧
          PEFConfigParameter.Format p = .ret ()) ∨
      (∃ p e, Client.GetPEFConfigForParameter bmc c param set block
          = .ret ({ sent := c.sent ++ [req] }, p, some e) ∧
        pefExchangeSucceeds bmc c.sent req = false) ∨
      (Client.GetPEFConfigForParameter bmc c param set block = .panic ∧
        pefExchangeSucceeds bmc c.sent req = true ∧
        ∃ payload res p, bmc c.sent req = .ok payload ∧
          GetPEFConfigParametersResponse.Unpack {} payload = .ret (res, none) ∧
          PEFConfigParameter.Unpack param res.ConfigData = .ret (p, none) ∧
          PEFConfigParameter.Format p = .panic)) := by
  refine ⟨(Command.CommandGetPEFConfigParameters,
    [PEFConfigParameter.PEFConfigParamSelector P &&& 0x3f, set, block]), rfl, ?_⟩
  unfold Client.GetPEFConfigForParameter Client.GetPEFConfigParameters Client.Exchange
    pefExchangeSucceeds
  simp only [GetPEFConfigParametersRequest_Pack_selected, GetPEFConfigParametersRequest.Command]
  cases hb : bmc c.sent (Command.CommandGetPEFConfigParameters,
    [PEFConfigParameter.PEFConfigParamSelector P &&& 0x3f, set, block]) with
  | error e => exact Or.inr (Or.inl ⟨_, _, rfl, rfl⟩)
  | ok payload =>
    dsimp only
    rcases GetPEFConfigParametersResponse_Unpack_outcome {} payload with ⟨e, he⟩ | ⟨res, hres⟩
    · rw [he]
      exact Or.inr (Or.inl ⟨_, _, rfl, rfl⟩)
    · rw [hres]
      rcases hout res.ConfigData with ⟨e, he⟩ | ⟨p, hp⟩
      · refine Or.inr (Or.inl ⟨param, .wrap "unpack failed for param" e, ?_, ?_⟩)
        · show (PEFConfigParameter.Unpack param res.ConfigData >>= _) = _
          rw [he]
          rfl
        · show pefConfigDataDecodes _ res.ConfigData = false
          rw [List.headD_cons, hsel, he]
          rfl
      · have hdec : pefConfigDataDecodes
            ((Command.CommandGetPEFConfigParameters,
              [PEFConfigParameter.PEFConfigParamSelector P &&& 0x3f, set, block]).2.headD 0)
            res.ConfigData = true := by
          show pefConfigDataDecodes _ res.ConfigData = true
          rw [List.headD_cons, hsel, hp]
          rfl
        rcases hfmt res.ConfigData p hp with hf | hf
        · refine Or.inl ⟨p, ?_, hdec, payload, res, rfl, hres, hp, hf⟩
          show (PEFConfigParameter.Unpack param res.ConfigData >>= _) = _
          rw [hp]
          show (PEFConfigParameter.Format p >>= _) = _
          rw [hf]
          rfl
        · refine Or.inr (Or.inr ⟨?_, hdec, payload, res, p, rfl, hres, hp, hf⟩)
          show (PEFConfigParameter.Unpack param res.ConfigData >>= _) = _
          rw [hp]
          show (PEFConfigParameter.Format p >>= _) = _
          rw [hf]
          rfl

/-- One call of `GetPEFConfigForParameter` for a parameter whose `Format` returns
issues exactly one request; it returns no error exactly when that exchange
succeeds. -/
theorem GetPEFConfigForParameter_step {P : Type} [PEFConfigParameter P] (bmc : Controller)
    (c : Client) (param : P) (set block : Nat)
    (hout : ∀ data, (∃ e, PEFConfigParameter.Unpack param data = .ret (param, some e)) ∨
      (∃ p, PEFConfigParameter.Unpack param data = .ret (p, none)))
    (hsel : ∀ data, pefConfigDataDecodes (PEFConfigParameter.PEFConfigParamSelector P &&& 0x3f) data
      = (PEFConfigParameter.Unpack param data).succeeded)
    (hfmt : ∀ data p, PEFConfigParameter.Unpack param data = .ret (p, none) →
      PEFConfigParameter.Format p = .ret ()) :
    ∃ req,
      (∃ p, Client.GetPEFConfigForParameter bmc c param set block
          = .ret ({ sent := c.sent ++ [req] }, p, none) ∧
        pefExchangeSucceeds bmc c.sent req = true) ∨
      (∃ p e, Client.GetPEFConfigForParameter bmc c param set block
          = .ret ({ sent := c.sent ++ [req] }, p, some e) ∧
        pefExchangeSucceeds bmc c.sent req = false) := by
  obtain ⟨req, _, ⟨p, hr, hok, _⟩ | h | ⟨_, _, payload, res, p, _, _, hp, hf⟩⟩ :=
    GetPEFConfigForParameter_outcomes bmc c param set block hout hsel
      (fun data p hp => Or.inl (hfmt data p hp))
  · exact ⟨req, Or.inl ⟨p, hr, hok⟩⟩
  · exact ⟨req, Or.inr h⟩
  · rw [hfmt _ p hp] at hf
    cases hf

theorem PEFConfigParam_AlertPolicy_Unpack_formats (r : PEFConfigParam_AlertPolicy)
    (data : Bytes) (p : PEFConfigParam_AlertPolicy)
    (h : PEFConfigParam_AlertPolicy.Unpack r data = .ret (p, none)) :
    PEFConfigParam_AlertPolicy.Format p = .ret () := by
  unfold PEFConfigParam_AlertPolicy.Unpack at h
  by_cases hl : data.length < 4
  · rw [if_pos hl] at h
    cases h
  · rw [if_neg hl, idx_in_range data 0 (by omega),
      slice_in_range data 1 data.length (by omega)] at h
    obtain ⟨e1, he1⟩ := PEFAlertPolicy_Unpack_succeeds {}
      ((data.drop 1).take (data.length - 1))
      (by simp [List.length_take, List.length_drop]; omega)
    simp only [Run.ret_bind, he1, Run.pure_eq] at h
    injection h with h
    injection h with h1 _
    subst h1
    rfl

theorem pefTraced_of_step {bmc : Controller} {Q : PEFConfig → Prop} {T : Prop}
    {s : Client × PEFConfig} {r : Run ((Client × PEFConfig) × Option IpmiError)}
    (h : pefStep bmc Q s r) : pefTraced bmc s.1.sent Q T r := by
  obtain ⟨req, ⟨cfg, hr, hq, hok⟩ | ⟨cfg, e, hr, hno⟩ | ⟨hr, hok, hfm⟩⟩ := h
  · subst hr
    exact ⟨hq, [req], rfl, by simp [pefExchangesSucceed, hok]⟩
  · subst hr
    exact ⟨[], req, by simp, rfl, by simpa using hno⟩
  · subst hr
    exact ⟨[], req, rfl, by simpa using hok, by simpa using hfm⟩

theorem pefTraced_after {bmc : Controller} {Q : PEFConfig → Prop} {T : Prop}
    {before issued : List Sent} {r : Run ((Client × PEFConfig) × Option IpmiError)}
    (hok : pefExchangesSucceed bmc before issued = true)
    (h : pefTraced bmc (before ++ issued) Q T r) : pefTraced bmc before Q T r := by
  match r, h with
  | .timeout, h => exact h
  | .panic, ⟨done, req, hdone, hreq, hfm⟩ =>
    exact ⟨issued ++ done, req, by rw [pefExchangesSucceed_append, hok, hdone]; rfl,
      by rw [← List.append_assoc]; exact hreq, by rw [← List.append_assoc]; exact hfm⟩
  | .ret (s, none), ⟨hq, more, hs, hmore⟩ =>
    exact ⟨hq, issued ++ more, by rw [hs, List.append_assoc],
      by rw [pefExchangesSucceed_append, hok, hmore]; rfl⟩
  | .ret (s, some e), ⟨done, req, hs, hdone, hreq⟩ =>
    exact ⟨issued ++ done, req, by rw [hs]; simp only [List.append_assoc],
      by rw [pefExchangesSucceed_append, hok, hdone]; rfl,
      by rw [← List.append_assoc]; exact hreq⟩

theorem pefTraced_andThen {bmc : Controller} {Q : PEFConfig → Prop} {T : Prop}
    {before : List Sent} {x : Run ((Client × PEFConfig) × Option IpmiError)}
    (Q1 : PEFConfig → Prop)
    (f : Client × PEFConfig → Run ((Client × PEFConfig) × Option IpmiError))
    (hx : pefTraced bmc before Q T x)
    (hf : ∀ s, Q s.2 → ∀ issued, s.1.sent = before ++ issued →
      pefExchangesSucceed bmc before issued = true → pefTraced bmc s.1.sent Q1 T (f s)) :
    pefTraced bmc before Q1 T (x.andThen f) := by
  match x, hx with
  | .timeout, h => exact h
  | .panic, h => exact h
  | .ret (s, some e), h => exact h
  | .ret (s, none), ⟨hq, issued, hs, hok⟩ =>
    have h := hf s hq issued hs hok
    rw [hs] at h
    exact pefTraced_after hok h

theorem pefFuelSuffices_after {bmc : Controller} {T : Prop} {fuel : Nat}
    {before : List Sent} (h : pefFuelSuffices bmc T fuel before) :
    ∀ issued, pefExchangesSucceed bmc before issued = true →
      pefFuelSuffices bmc T fuel (before ++ issued) := by
  intro issued
  induction issued generalizing before with
  | nil => intro _; simpa using h
  | cons req rest ih =>
    intro hok
    simp only [pefExchangesSucceed, Bool.and_eq_true] at hok
    have h1 : pefFuelSuffices bmc T fuel (before ++ [req]) := by
      rcases h with hT | ⟨L, hfail, hlo, hhi⟩
      · exact Or.inl hT
      · refine Or.inr ⟨L, hfail, ?_, ?_⟩
        · have hne : before.length ≠ L := by
            intro heq
            have := hfail before req heq
            rw [this] at hok
            exact Bool.noConfusion hok.1
          simp only [List.length_append, List.length_singleton]
          omega
        · simp only [List.length_append, List.length_singleton]
          omega
    have h2 := ih h1 hok.2
    simpa only [List.append_assoc, List.singleton_append] using h2

theorem GetPEFConfig_Control_step (bmc : Controller) (s : Client × PEFConfig)
    (Q : PEFConfig → Prop) (hQ : ∀ p, Q { s.2 with Control := some p }) :
    pefStep bmc Q s (GetPEFConfig_Control bmc s) := by
  obtain ⟨req, ⟨p, hr, hok⟩ | ⟨p, e, hr, hno⟩⟩ :=
    GetPEFConfigForParameter_step bmc s.1 ({} : PEFConfigParam_Control) 0 0
      (PEFConfigParam_Control_Unpack_outcome {}) (fun _ => rfl) (fun _ _ _ => rfl)
  · refine ⟨req, Or.inl ⟨_, ?_, hQ p, hok⟩⟩
    unfold GetPEFConfig_Control
    rw [hr]
    rfl
  · refine ⟨req, Or.inr (Or.inl ⟨s.2, e, ?_, hno⟩)⟩
    unfold GetPEFConfig_Control
    rw [hr]
    rfl

theorem GetPEFConfig_ActionGlobalControl_step (bmc : Controller) (s : Client × PEFConfig)
    (Q : PEFConfig → Prop) (hQ : ∀ p, Q { s.2 with ActionGlobalControl := some p }) :
    pefStep bmc Q s (GetPEFConfig_ActionGlobalControl bmc s) := by
  obtain ⟨req, ⟨p, hr, hok⟩ | ⟨p, e, hr, hno⟩⟩ :=
    GetPEFConfigForParameter_step bmc s.1 ({} : PEFConfigParam_ActionGlobalControl) 0 0
      (PEFConfigParam_ActionGlobalControl_Unpack_outcome {}) (fun _ => rfl) (fun _ _ _ => rfl)
  · refine ⟨req, Or.inl ⟨_, ?_, hQ p, hok⟩⟩
    unfold GetPEFConfig_ActionGlobalControl
    rw [hr]
    rfl
  · refine ⟨req, Or.inr (Or.inl ⟨s.2, e, ?_, hno⟩)⟩
    unfold GetPEFConfig_ActionGlobalControl
    rw [hr]
    rfl

theorem GetPEFConfig_StartupDelay_step (bmc : Controller) (s : Client × PEFConfig)
    (Q : PEFConfig → Prop) (hQ : ∀ p, Q { s.2 with StartupDelay := some p }) :
    pefStep bmc Q s (GetPEFConfig_StartupDelay bmc s) := by
  obtain ⟨req, ⟨p, hr, hok⟩ | ⟨p, e, hr, hno⟩⟩ :=
    GetPEFConfigForParameter_step bmc s.1 ({} : PEFConfigParam_StartupDelay) 0 0
      (PEFConfigParam_StartupDelay_Unpack_outcome {}) (fun _ => rfl) (fun _ _ _ => rfl)
  · refine ⟨req, Or.inl ⟨_, ?_, hQ p, hok⟩⟩
    unfold GetPEFConfig_StartupDelay
    rw [hr]
    rfl
  · refine ⟨req, Or.inr (Or.inl ⟨s.2, e, ?_, hno⟩)⟩
    unfold GetPEFConfig_StartupDelay
    rw [hr]
    rfl

theorem GetPEFConfig_AlertStartupDelay_step (bmc : Controller) (s : Client × PEFConfig)
    (Q : PEFConfig → Prop) (hQ : ∀ p, Q { s.2 with AlertStartupDelay := some p }) :
    pefStep bmc Q s (GetPEFConfig_AlertStartupDelay bmc s) := by
  obtain ⟨req, ⟨p, hr, hok⟩ | ⟨p, e, hr, hno⟩⟩ :=
    GetPEFConfigForParameter_step bmc s.1 ({} : PEFConfigParam_AlertStartupDelay) 0 0
      (PEFConfigParam_AlertStartupDelay_Unpack_outcome {}) (fun _ => rfl) (fun _ _ _ => rfl)
  · refine ⟨req, Or.inl ⟨_, ?_, hQ p, hok⟩⟩
    unfold GetPEFConfig_AlertStartupDelay
    rw [hr]
    rfl
  · refine ⟨req, Or.inr (Or.inl ⟨s.2, e, ?_, hno⟩)⟩
    unfold GetPEFConfig_AlertStartupDelay
    rw [hr]
    rfl

theorem GetPEFConfig_NumberOfEventFilters_step (bmc : Controller) (s : Client × PEFConfig)
    (Q : PEFConfig → Prop) (hQ : ∀ p, Q { s.2 with NumberOfEventFilters := some p }) :
    pefStep bmc Q s (GetPEFConfig_NumberOfEventFilters bmc s) := by
  obtain ⟨req, ⟨p, hr, hok⟩ | ⟨p, e, hr, hno⟩⟩ :=
    GetPEFConfigForParameter_step bmc s.1 ({} : PEFConfigParam_NumberOfEventFilters) 0 0
      (PEFConfigParam_NumberOfEventFilters_Unpack_outcome {}) (fun _ => rfl) (fun _ _ _ => rfl)
  · refine ⟨req, Or.inl ⟨_, ?_, hQ p, hok⟩⟩
    unfold GetPEFConfig_NumberOfEventFilters
    rw [hr]
    rfl
  · refine ⟨req, Or.inr (Or.inl ⟨s.2, e, ?_, hno⟩)⟩
    unfold GetPEFConfig_NumberOfEventFilters
    rw [hr]
    rfl

theorem GetPEFConfig_NumberOfAlertPolicies_step (bmc : Controller) (s : Client × PEFConfig)
    (Q : PEFConfig → Prop) (hQ : ∀ p, Q { s.2 with NumberOfAlertPolicies := some p }) :
    pefStep bmc Q s (GetPEFConfig_NumberOfAlertPolicies bmc s) := by
  obtain ⟨req, ⟨p, hr, hok⟩ | ⟨p, e, hr, hno⟩⟩ :=
    GetPEFConfigForParameter_step bmc s.1 ({} : PEFConfigParam_NumberOfAlertPolicies) 0 0
      (PEFConfigParam_NumberOfAlertPolicies_Unpack_outcome {}) (fun _ => rfl) (fun _ _ _ => rfl)
  · refine ⟨req, Or.inl ⟨_, ?_, hQ p, hok⟩⟩
    unfold GetPEFConfig_NumberOfAlertPolicies
    rw [hr]
    rfl
  · refine ⟨req, Or.inr (Or.inl ⟨s.2, e, ?_, hno⟩)⟩
    unfold GetPEFConfig_NumberOfAlertPolicies
    rw [hr]
    rfl

theorem GetPEFConfig_SystemGUID_step (bmc : Controller) (s : Client × PEFConfig)
    (Q : PEFConfig → Prop) (hQ : ∀ p, Q { s.2 with SystemGUID := some p }) :
    pefStep bmc Q s (GetPEFConfig_SystemGUID bmc s) := by
  obtain ⟨req, ⟨p, hr, hok⟩ | ⟨p, e, hr, hno⟩⟩ :=
    GetPEFConfigForParameter_step bmc s.1 ({} : PEFConfigParam_SystemGUID) 0 0
      (PEFConfigParam_SystemGUID_Unpack_outcome {}) (fun _ => rfl) (fun _ _ _ => rfl)
  · refine ⟨req, Or.inl ⟨_, ?_, hQ p, hok⟩⟩
    unfold GetPEFConfig_SystemGUID
    rw [hr]
    rfl
  · refine ⟨req, Or.inr (Or.inl ⟨s.2, e, ?_, hno⟩)⟩
    unfold GetPEFConfig_SystemGUID
    rw [hr]
    rfl

theorem GetPEFConfig_NumberOfAlertStrings_step (bmc : Controller) (s : Client × PEFConfig)
    (Q : PEFConfig → Prop) (hQ : ∀ p, Q { s.2 with NumberOfAlertStrings := some p }) :
    pefStep bmc Q s (GetPEFConfig_NumberOfAlertStrings bmc s) := by
  obtain ⟨req, ⟨p, hr, hok⟩ | ⟨p, e, hr, hno⟩⟩ :=
    GetPEFConfigForParameter_step bmc s.1 ({} : PEFConfigParam_NumberOfAlertStrings) 0 0
      (PEFConfigParam_NumberOfAlertStrings_Unpack_outcome {}) (fun _ => rfl) (fun _ _ _ => rfl)
  · refine ⟨req, Or.inl ⟨_, ?_, hQ p, hok⟩⟩
    unfold GetPEFConfig_NumberOfAlertStrings
    rw [hr]
    rfl
  · refine ⟨req, Or.inr (Or.inl ⟨s.2, e, ?_, hno⟩)⟩
    unfold GetPEFConfig_NumberOfAlertStrings
    rw [hr]
    rfl

theorem pefTraced_forUint8 {bmc : Controller} {Q : PEFConfig → Prop} {T : Prop}
    (cond : Nat → Bool)
    (body : Nat → Client × PEFConfig → Run ((Client × PEFConfig) × Option IpmiError))
    (hbody : ∀ i s, Q s.2 → pefStep bmc Q s (body i s)) :
    ∀ (fuel i : Nat) (s : Client × PEFConfig), Q s.2 → pefFuelSuffices bmc T fuel s.1.sent →
      pefTraced bmc s.1.sent Q T (forUint8 cond body fuel i s) := by
  intro fuel
  induction fuel with
  | zero =>
    intro i s _ hfuel
    rcases hfuel with hT | ⟨L, _, hlo, hhi⟩
    · exact hT
    · omega
  | succ fuel ih =>
    intro i s hq hfuel
    unfold forUint8
    by_cases hc : cond i = true
    · rw [if_pos hc]
      obtain ⟨req, ⟨cfg, hr, hq1, hok⟩ | ⟨cfg, e, hr, hno⟩ | ⟨hr, hok, hfm⟩⟩ := hbody i s hq
      · rw [hr]
        have hok1 : pefExchangesSucceed bmc s.1.sent [req] = true := by
          simp [pefExchangesSucceed, hok]
        have hfuel1 : pefFuelSuffices bmc T fuel (s.1.sent ++ [req]) := by
          rcases hfuel with hT | ⟨L, hfail, hlo, hhi⟩
          · exact Or.inl hT
          · have hne : s.1.sent.length ≠ L := by
              intro heq
              rw [hfail s.1.sent req heq] at hok
              exact Bool.noConfusion hok
            refine Or.inr ⟨L, hfail, ?_, ?_⟩
            · simp only [List.length_append, List.length_singleton]
              omega
            · simp only [List.length_append, List.length_singleton]
              omega
        exact pefTraced_after hok1 (ih ((i + 1) % 256) (({ sent := s.1.sent ++ [req] } : Client), cfg) hq1 hfuel1)
      · rw [hr]
        exact ⟨[], req, by simp, rfl, by simpa using hno⟩
      · rw [hr]
        exact ⟨[], req, rfl, by simpa using hok, by simpa using hfm⟩
    · rw [if_neg hc]
      exact ⟨hq, [], by simp, rfl⟩

theorem GetPEFConfig_EventFilters_body_step (bmc : Controller) (i : Nat) (s : Client × PEFConfig)
    (Q : PEFConfig → Prop) (hQ : ∀ p, Q { s.2 with EventFilters := s.2.EventFilters ++ [p] }) :
    pefStep bmc Q s (GetPEFConfig_EventFilters_body bmc i s) := by
  obtain ⟨req, hreq, ⟨p, hr, hok, _⟩ | ⟨p, e, hr, hno⟩ |
      ⟨hr, hok, payload, res, p, hb, hres, hp, hf⟩⟩ :=
    GetPEFConfigForParameter_outcomes bmc s.1 ({} : PEFConfigParam_EventFilter) i 0
      (PEFConfigParam_EventFilter_Unpack_outcome {}) (fun _ => rfl)
      (fun _ p _ => PEFConfigParam_EventFilter_Format_outcome p)
  · refine ⟨req, Or.inl ⟨_, ?_, hQ p, hok⟩⟩
    unfold GetPEFConfig_EventFilters_body
    rw [hr]
    rfl
  · refine ⟨req, Or.inr (Or.inl ⟨s.2, .wrap "get event filter number failed" e, ?_, hno⟩)⟩
    unfold GetPEFConfig_EventFilters_body
    rw [hr]
    rfl
  · refine ⟨req, Or.inr (Or.inr ⟨?_, hok, ?_⟩)⟩
    · unfold GetPEFConfig_EventFilters_body
      rw [hr]
      rfl
    · have hf1 : PEFConfigParam_EventFilter.Format p = .panic := hf
      have hp1 : PEFConfigParam_EventFilter.Unpack {} res.ConfigData = .ret (p, none) := hp
      unfold pefFormatReturns
      rw [hb]
      subst hreq
      rw [if_pos (by rfl)]
      simp only [hres, hp1, hf1]
      rfl

theorem GetPEFConfig_EventFilters_traced (bmc : Controller) (fuel : Nat) (s : Client × PEFConfig)
    (n : Nat) (T : Prop) (hn : 1 ≤ n) (hs : pefCounted n s.2)
    (hfuel : pefFuelSuffices bmc T fuel s.1.sent) :
    pefTraced bmc s.1.sent (pefCounted n) T (GetPEFConfig_EventFilters bmc fuel s) := by
  unfold GetPEFConfig_EventFilters
  cases hc : s.2.NumberOfEventFilters with
  | none => exact absurd hc (hs.1 hn)
  | some k =>
    exact pefTraced_forUint8 _ _
      (fun i s1 h1 => GetPEFConfig_EventFilters_body_step bmc i s1 _
        (fun p => by simpa [pefCounted] using h1)) fuel 1 s hs hfuel

theorem GetPEFConfig_EventFiltersData1_body_step (bmc : Controller) (i : Nat) (s : Client × PEFConfig)
    (Q : PEFConfig → Prop) (hQ : ∀ p, Q { s.2 with EventFiltersData1 := s.2.EventFiltersData1 ++ [p] }) :
    pefStep bmc Q s (GetPEFConfig_EventFiltersData1_body bmc i s) := by
  obtain ⟨req, ⟨p, hr, hok⟩ | ⟨p, e, hr, hno⟩⟩ :=
    GetPEFConfigForParameter_step bmc s.1 ({} : PEFConfigParam_EventFilterData1) i 0
      (PEFConfigParam_EventFilterData1_Unpack_outcome {}) (fun _ => rfl) (fun _ _ _ => rfl)
  · refine ⟨req, Or.inl ⟨_, ?_, hQ p, hok⟩⟩
    unfold GetPEFConfig_EventFiltersData1_body
    rw [hr]
    rfl
  · refine ⟨req, Or.inr (Or.inl ⟨s.2, .wrap "get event filter number failed" e, ?_, hno⟩)⟩
    unfold GetPEFConfig_EventFiltersData1_body
    rw [hr]
    rfl

theorem GetPEFConfig_EventFiltersData1_traced (bmc : Controller) (fuel : Nat) (s : Client × PEFConfig)
    (n : Nat) (T : Prop) (hn : 1 ≤ n) (hs : pefCounted n s.2)
    (hfuel : pefFuelSuffices bmc T fuel s.1.sent) :
    pefTraced bmc s.1.sent (pefCounted n) T (GetPEFConfig_EventFiltersData1 bmc fuel s) := by
  unfold GetPEFConfig_EventFiltersData1
  cases hc : s.2.NumberOfEventFilters with
  | none => exact absurd hc (hs.1 hn)
  | some k =>
    exact pefTraced_forUint8 _ _
      (fun i s1 h1 => GetPEFConfig_EventFiltersData1_body_step bmc i s1 _
        (fun p => by simpa [pefCounted] using h1)) fuel 1 s hs hfuel

theorem GetPEFConfig_AlertPolicies_body_step (bmc : Controller) (i : Nat) (s : Client × PEFConfig)
    (Q : PEFConfig → Prop) (hQ : ∀ p, Q { s.2 with AlertPolicies := s.2.AlertPolicies ++ [p] }) :
    pefStep bmc Q s (GetPEFConfig_AlertPolicies_body bmc i s) := by
  obtain ⟨req, ⟨p, hr, hok⟩ | ⟨p, e, hr, hno⟩⟩ :=
    GetPEFConfigForParameter_step bmc s.1 ({} : PEFConfigParam_AlertPolicy) i 0
      (PEFConfigParam_AlertPolicy_Unpack_outcome {}) (fun _ => rfl)
      (PEFConfigParam_AlertPolicy_Unpack_formats {})
  · refine ⟨req, Or.inl ⟨_, ?_, hQ p, hok⟩⟩
    unfold GetPEFConfig_AlertPolicies_body
    rw [hr]
    rfl
  · refine ⟨req, Or.inr (Or.inl ⟨s.2, .wrap "get event filter number failed" e, ?_, hno⟩)⟩
    unfold GetPEFConfig_AlertPolicies_body
    rw [hr]
    rfl

theorem GetPEFConfig_AlertPolicies_traced (bmc : Controller) (fuel : Nat) (s : Client × PEFConfig)
    (n : Nat) (T : Prop) (hn : 2 ≤ n) (hs : pefCounted n s.2)
    (hfuel : pefFuelSuffices bmc T fuel s.1.sent) :
    pefTraced bmc s.1.sent (pefCounted n) T (GetPEFConfig_AlertPolicies bmc fuel s) := by
  unfold GetPEFConfig_AlertPolicies
  cases hc : s.2.NumberOfAlertPolicies with
  | none => exact absurd hc (hs.2.1 hn)
  | some k =>
    exact pefTraced_forUint8 _ _
      (fun i s1 h1 => GetPEFConfig_AlertPolicies_body_step bmc i s1 _
        (fun p => by simpa [pefCounted] using h1)) fuel 1 s hs hfuel

theorem GetPEFConfig_AlertStringKeys_body_step (bmc : Controller) (i : Nat) (s : Client × PEFConfig)
    (Q : PEFConfig → Prop) (hQ : ∀ p, Q { s.2 with AlertStringKeys := s.2.AlertStringKeys ++ [p] }) :
    pefStep bmc Q s (GetPEFConfig_AlertStringKeys_body bmc i s) := by
  obtain ⟨req, ⟨p, hr, hok⟩ | ⟨p, e, hr, hno⟩⟩ :=
    GetPEFConfigForParameter_step bmc s.1 ({} : PEFConfigParam_AlertStringKeys) i 0
      (PEFConfigParam_AlertStringKeys_Unpack_outcome {}) (fun _ => rfl) (fun _ _ _ => rfl)
  · refine ⟨req, Or.inl ⟨_, ?_, hQ p, hok⟩⟩
    unfold GetPEFConfig_AlertStringKeys_body
    rw [hr]
    rfl
  · refine ⟨req, Or.inr (Or.inl ⟨s.2, .wrap "get alert strings number failed" e, ?_, hno⟩)⟩
    unfold GetPEFConfig_AlertStringKeys_body
    rw [hr]
    rfl

theorem GetPEFConfig_AlertStringKeys_traced (bmc : Controller) (fuel : Nat) (s : Client × PEFConfig)
    (n : Nat) (T : Prop) (hn : 3 ≤ n) (hs : pefCounted n s.2)
    (hfuel : pefFuelSuffices bmc T fuel s.1.sent) :
    pefTraced bmc s.1.sent (pefCounted n) T (GetPEFConfig_AlertStringKeys bmc fuel s) := by
  unfold GetPEFConfig_AlertStringKeys
  cases hc : s.2.NumberOfAlertStrings with
  | none => exact absurd hc (hs.2.2 hn)
  | some k =>
    exact pefTraced_forUint8 _ _
      (fun i s1 h1 => GetPEFConfig_AlertStringKeys_body_step bmc i s1 _
        (fun p => by simpa [pefCounted] using h1)) fuel 1 s hs hfuel

theorem GetPEFConfig_AlertStrings_body_step (bmc : Controller) (i : Nat) (s : Client × PEFConfig)
    (Q : PEFConfig → Prop) (hQ : ∀ p, Q { s.2 with AlertStrings := s.2.AlertStrings ++ [p] }) :
    pefStep bmc Q s (GetPEFConfig_AlertStrings_body bmc i s) := by
  obtain ⟨req, ⟨p, hr, hok⟩ | ⟨p, e, hr, hno⟩⟩ :=
    GetPEFConfigForParameter_step bmc s.1 ({} : PEFConfigParam_AlertStrings) i 1
      (PEFConfigParam_AlertStrings_Unpack_outcome {}) (fun _ => rfl) (fun _ _ _ => rfl)
  · refine ⟨req, Or.inl ⟨_, ?_, hQ p, hok⟩⟩
    unfold GetPEFConfig_AlertStrings_body
    rw [hr]
    rfl
  · refine ⟨req, Or.inr (Or.inl ⟨s.2, .wrap "get alert strings number failed" e, ?_, hno⟩)⟩
    unfold GetPEFConfig_AlertStrings_body
    rw [hr]
    rfl

theorem GetPEFConfig_AlertStrings_traced (bmc : Controller) (fuel : Nat) (s : Client × PEFConfig)
    (n : Nat) (T : Prop) (hn : 3 ≤ n) (hs : pefCounted n s.2)
    (hfuel : pefFuelSuffices bmc T fuel s.1.sent) :
    pefTraced bmc s.1.sent (pefCounted n) T (GetPEFConfig_AlertStrings bmc fuel s) := by
  unfold GetPEFConfig_AlertStrings
  cases hc : s.2.NumberOfAlertStrings with
  | none => exact absurd hc (hs.2.2 hn)
  | some k =>
    exact pefTraced_forUint8 _ _
      (fun i s1 h1 => GetPEFConfig_AlertStrings_body_step bmc i s1 _
        (fun p => by simpa [pefCounted] using h1)) fuel 1 s hs hfuel

/-- The blocks of `GetPEFConfig`, run in source order from a fresh aggregate. -/
theorem GetPEFConfig_blocks_traced (bmc : Controller) (fuel : Nat) (c : Client) (T : Prop)
    (hfuel : pefFuelSuffices bmc T fuel c.sent) :
    pefTraced bmc c.sent (pefCounted 3) T
      ((GetPEFConfig_Control bmc (c, {}))
        |>.andThen (GetPEFConfig_ActionGlobalControl bmc)
        |>.andThen (GetPEFConfig_StartupDelay bmc)
        |>.andThen (GetPEFConfig_AlertStartupDelay bmc)
        |>.andThen (GetPEFConfig_NumberOfEventFilters bmc)
        |>.andThen (GetPEFConfig_EventFilters bmc fuel)
        |>.andThen (GetPEFConfig_EventFiltersData1 bmc fuel)
        |>.andThen (GetPEFConfig_NumberOfAlertPolicies bmc)
        |>.andThen (GetPEFConfig_AlertPolicies bmc fuel)
        |>.andThen (GetPEFConfig_SystemGUID bmc)
        |>.andThen (GetPEFConfig_NumberOfAlertStrings bmc)
        |>.andThen (GetPEFConfig_AlertStringKeys bmc fuel)
        |>.andThen (GetPEFConfig_AlertStrings bmc fuel)) := by
  have h1 : pefTraced bmc c.sent (pefCounted 0) T (GetPEFConfig_Control bmc (c, {})) :=
    pefTraced_of_step (GetPEFConfig_Control_step bmc (c, {}) _ (fun p => by simp [pefCounted]))
  have h2 := pefTraced_andThen (pefCounted 0) (GetPEFConfig_ActionGlobalControl bmc) h1
    (fun s _ _ _ _ => pefTraced_of_step (GetPEFConfig_ActionGlobalControl_step bmc s _
      (fun p => by simp [pefCounted])))
  have h3 := pefTraced_andThen (pefCounted 0) (GetPEFConfig_StartupDelay bmc) h2
    (fun s _ _ _ _ => pefTraced_of_step (GetPEFConfig_StartupDelay_step bmc s _
      (fun p => by simp [pefCounted])))
  have h4 := pefTraced_andThen (pefCounted 0) (GetPEFConfig_AlertStartupDelay bmc) h3
    (fun s _ _ _ _ => pefTraced_of_step (GetPEFConfig_AlertStartupDelay_step bmc s _
      (fun p => by simp [pefCounted])))
  have h5 := pefTraced_andThen (pefCounted 1) (GetPEFConfig_NumberOfEventFilters bmc) h4
    (fun s _ _ _ _ => pefTraced_of_step (GetPEFConfig_NumberOfEventFilters_step bmc s _
      (fun p => by simp [pefCounted])))
  have h6 := pefTraced_andThen (pefCounted 1) (GetPEFConfig_EventFilters bmc fuel) h5
    (fun s hs issued hsent hok => GetPEFConfig_EventFilters_traced bmc fuel s 1 T (le_refl _) hs
      (hsent ▸ pefFuelSuffices_after hfuel issued hok))
  have h7 := pefTraced_andThen (pefCounted 1) (GetPEFConfig_EventFiltersData1 bmc fuel) h6
    (fun s hs issued hsent hok => GetPEFConfig_EventFiltersData1_traced bmc fuel s 1 T (le_refl _) hs
      (hsent ▸ pefFuelSuffices_after hfuel issued hok))
  have h8 := pefTraced_andThen (pefCounted 2) (GetPEFConfig_NumberOfAlertPolicies bmc) h7
    (fun s hs _ _ _ => pefTraced_of_step (GetPEFConfig_NumberOfAlertPolicies_step bmc s _
      (fun p => by simpa [pefCounted] using hs)))
  have h9 := pefTraced_andThen (pefCounted 2) (GetPEFConfig_AlertPolicies bmc fuel) h8
    (fun s hs issued hsent hok => GetPEFConfig_AlertPolicies_traced bmc fuel s 2 T (le_refl _) hs
      (hsent ▸ pefFuelSuffices_after hfuel issued hok))
  have h10 := pefTraced_andThen (pefCounted 2) (GetPEFConfig_SystemGUID bmc) h9
    (fun s hs _ _ _ => pefTraced_of_step (GetPEFConfig_SystemGUID_step bmc s _
      (fun p => by simpa [pefCounted] using hs)))
  have h11 := pefTraced_andThen (pefCounted 3) (GetPEFConfig_NumberOfAlertStrings bmc) h10
    (fun s hs _ _ _ => pefTraced_of_step (GetPEFConfig_NumberOfAlertStrings_step bmc s _
      (fun p => by simpa [pefCounted] using hs)))
  have h12 := pefTraced_andThen (pefCounted 3) (GetPEFConfig_AlertStringKeys bmc fuel) h11
    (fun s hs issued hsent hok => GetPEFConfig_AlertStringKeys_traced bmc fuel s 3 T (le_refl _) hs
      (hsent ▸ pefFuelSuffices_after hfuel issued hok))
  have h13 := pefTraced_andThen (pefCounted 3) (GetPEFConfig_AlertStrings bmc fuel) h12
    (fun s hs issued hsent hok => GetPEFConfig_AlertStrings_traced bmc fuel s 3 T (le_refl _) hs
      (hsent ▸ pefFuelSuffices_after hfuel issued hok))
  exact h13

theorem pefExchangesSucceed_length_le (bmc : Controller) (L : Nat)
    (hfail : ∀ b req, b.length = L → pefExchangeSucceeds bmc b req = false) :
    ∀ (issued before : List Sent), before.length ≤ L →
      pefExchangesSucceed bmc before issued = true → before.length + issued.length ≤ L := by
  intro issued
  induction issued with
  | nil => intro before h _; simpa using h
  | cons req rest ih =>
    intro before h hok
    simp only [pefExchangesSucceed, Bool.and_eq_true] at hok
    have hne : before.length ≠ L := by
      intro heq
      rw [hfail before req heq] at hok
      exact Bool.noConfusion hok.1
    have h1 := ih (before ++ [req])
      (by simp only [List.length_append, List.length_singleton]; omega) hok.2
    simp only [List.length_append, List.length_singleton, List.length_cons] at h1 ⊢
    omega

/-- The result of `GetPEFConfig` in terms of the run of its blocks. -/
theorem GetPEFConfig_of_blocks (bmc : Controller) (fuel : Nat) (c : Client) :
    ∃ r : Run ((Client × PEFConfig) × Option IpmiError),
      Client.GetPEFConfig bmc fuel c =
        (match r with
          | .ret ((c1, pefConfig), none) => .ret (c1, some pefConfig, none)
          | .ret ((c1, _), some e) => .ret (c1, none, some e)
          | .panic => .panic
          | .timeout => .timeout) ∧
      ∀ T, pefFuelSuffices bmc T fuel c.sent → pefTraced bmc c.sent (pefCounted 3) T r :=
  ⟨_, rfl, fun T h => GetPEFConfig_blocks_traced bmc fuel c T h⟩

theorem refusingAtBmc_formats (k : Nat) : pefFormatsReturn (refusingAtBmc k) := by
  intro before req
  unfold pefFormatReturns refusingAtBmc
  split
  · by_cases h : before.length = k
    · rw [if_pos h]
    · rw [if_neg h]
      have h1 : GetPEFConfigParametersResponse.Unpack {} (0x11 :: List.replicate 21 0)
          = .ret ({ Revision := 0x11, ConfigData := List.replicate 21 0 }, none) := rfl
      have h2 : PEFConfigParam_EventFilter.Unpack {} (List.replicate 21 0)
          = .ret ({ EntryNumber := 0, Entry := some {} }, none) := rfl
      simp only [h1, h2]
      rw [decide_eq_true_eq, PEFConfigParam_EventFilter_Format_returns]
      exact ⟨_, rfl, Or.inl rfl⟩
  · rfl

/-- Claim C13: no partial PEF aggregate. Whenever `GetPEFConfig` returns, the
requests it issued extend the client's history, and either it returns no error
and an aggregate, and every exchange it issued succeeded; or it returns an error
and a nil `PEFConfig`, the last exchange it issued is the one that failed (the
controller or the transport refused it, the reply did not unpack, or its
configuration data did not decode into the selected parameter) and every earlier
exchange succeeded. So an exchange that fails is the last one issued and makes
the result an error with a nil aggregate. The run-time stops `GetPEFConfig` only
in the `Format` call that follows an exchange, after exchanges that all
succeeded: never at a failing exchange. And an exchange that fails does make it
return: when the exchange sent after `k` earlier ones is bound to fail, `Format`
returns after each of the exchanges before it and the fuel exceeds `k`,
`GetPEFConfig` returns after at most `k + 1` exchanges, and with an error and a
nil aggregate if it issued that exchange. -/
theorem Client.GetPEFConfig_no_partial_aggregate (bmc : Controller) (fuel : Nat) (c : Client) :
    (∀ c1 out err, Client.GetPEFConfig bmc fuel c = .ret (c1, out, err) →
      ∃ issued, c1.sent = c.sent ++ issued ∧
        ((err = none ∧ out ≠ none ∧ pefExchangesSucceed bmc c.sent issued = true) ∨
         (err ≠ none ∧ out = none ∧ ∃ done req, issued = done ++ [req] ∧
            pefExchangesSucceed bmc c.sent done = true ∧
            pefExchangeSucceeds bmc (c.sent ++ done) req = false))) ∧
    (Client.GetPEFConfig bmc fuel c = .panic →
      ∃ done req, pefExchangesSucceed bmc c.sent done = true ∧
        pefExchangeSucceeds bmc (c.sent ++ done) req = true ∧
        pefFormatReturns bmc (c.sent ++ done) req = false) ∧
    (∀ k, k < fuel →
      (∀ before req, before.length = c.sent.length + k →
        pefExchangeSucceeds bmc before req = false) →
      (∀ before req, before.length < c.sent.length + k →
        pefFormatReturns bmc before req = true) →
      ∃ c1 out err, Client.GetPEFConfig bmc fuel c = .ret (c1, out, err) ∧
        c1.sent.length ≤ c.sent.length + k + 1 ∧
        (c1.sent.length = c.sent.length + k + 1 → out = none ∧ err ≠ none)) := by
  obtain ⟨r, hr, htr⟩ := GetPEFConfig_of_blocks bmc fuel c
  rw [hr]
  refine ⟨?_, ?_, ?_⟩
  · intro c1 out err hret
    have h := htr True (Or.inl trivial)
    match r, h, hret with
    | .ret ((c2, cfg), none), ⟨_, issued, hs, hok⟩, hret =>
      injection hret with hret
      injection hret with h1 h2
      injection h2 with h2 h3
      subst h1 h2 h3
      exact ⟨issued, hs, Or.inl ⟨rfl, by simp, hok⟩⟩
    | .ret ((c2, cfg), some e), ⟨done, req, hs, hok, hno⟩, hret =>
      injection hret with hret
      injection hret with h1 h2
      injection h2 with h2 h3
      subst h1 h2 h3
      exact ⟨done ++ [req], by rw [hs, List.append_assoc],
        Or.inr ⟨by simp, rfl, done, req, rfl, hok, hno⟩⟩
  · intro hp
    have h := htr True (Or.inl trivial)
    rcases r with ⟨⟨c2, cfg⟩, _ | e⟩ | _ | _
    · cases hp
    · cases hp
    · exact h
    · cases hp
  · intro k hk hfail hfmt
    have h := htr False (Or.inr ⟨c.sent.length + k, hfail, by omega, by omega⟩)
    match r, h with
    | .panic, ⟨done, req, hdone, hreq, hfm⟩ =>
      have hlen := pefExchangesSucceed_length_le bmc _ hfail done c.sent (by omega) hdone
      by_cases hd : done.length = k
      · rw [hfail (c.sent ++ done) req (by rw [List.length_append, hd])] at hreq
        cases hreq
      · rw [hfmt (c.sent ++ done) req (by rw [List.length_append]; omega)] at hfm
        cases hfm
    | .ret ((c2, cfg), none), ⟨_, issued, hs, hok⟩ =>
      have hlen := pefExchangesSucceed_length_le bmc _ hfail issued c.sent (by omega) hok
      have hl : c2.sent.length = c.sent.length + issued.length := by
        rw [hs, List.length_append]
      exact ⟨c2, some cfg, none, rfl, by omega, fun h1 => by omega⟩
    | .ret ((c2, cfg), some e), ⟨done, req, hs, hok, _⟩ =>
      have hlen := pefExchangesSucceed_length_le bmc _ hfail done c.sent (by omega) hok
      have hl : c2.sent.length = c.sent.length + done.length + 1 := by
        rw [hs, List.length_append, List.length_append, List.length_singleton]
      exact ⟨c2, none, some e, rfl, by omega, fun _ => ⟨rfl, by simp⟩⟩

/-- Claim C13 at a controller that refuses the third request: with three units of
fuel `GetPEFConfig` returns after at most three exchanges, and with an error and a
nil aggregate if it issued the third. -/
theorem Client.GetPEFConfig_no_partial_aggregate_witness :
    (2 < 3) ∧
    (∀ before req, before.length = ({} : Client).sent.length + 2 →
      pefExchangeSucceeds (refusingAtBmc 2) before req = false) ∧
    (∀ before req, before.length < ({} : Client).sent.length + 2 →
      pefFormatReturns (refusingAtBmc 2) before req = true) ∧
    ∃ c1 out err, Client.GetPEFConfig (refusingAtBmc 2) 3 {} = .ret (c1, out, err) ∧
      c1.sent.length ≤ ({} : Client).sent.length + 2 + 1 ∧
      (c1.sent.length = ({} : Client).sent.length + 2 + 1 → out = none ∧ err ≠ none) :=
  have hfail : ∀ before req, before.length = ({} : Client).sent.length + 2 →
      pefExchangeSucceeds (refusingAtBmc 2) before req = false := by
    intro before req hb
    have hb2 : before.length = 2 := hb
    simp [pefExchangeSucceeds, refusingAtBmc, hb2]
  have hfmt : ∀ before req, before.length < ({} : Client).sent.length + 2 →
      pefFormatReturns (refusingAtBmc 2) before req = true :=
    fun before req _ => refusingAtBmc_formats 2 before req
  ⟨by decide, hfail, hfmt,
    (Client.GetPEFConfig_no_partial_aggregate (refusingAtBmc 2) 3 {}).2.2 2 (by decide) hfail
      hfmt⟩

/-! ## Round trips of the alert policy and the group control table -/

theorem alertPolicy_octet0_roundtrip : ∀ n < 16, ∀ a < 8, ∀ e : Bool,
    (setOrClearBit3 (a &&& 0x07) e ||| ((n <<< 4) % 256)) >>> 4 = n ∧
    isBit3Set (setOrClearBit3 (a &&& 0x07) e ||| ((n <<< 4) % 256)) = e ∧
    (setOrClearBit3 (a &&& 0x07) e ||| ((n <<< 4) % 256)) &&& 0x07 = a := by
  decide

theorem alertPolicy_octet1_roundtrip : ∀ c < 16, ∀ d < 16,
    ((d &&& 0x0F) ||| ((c <<< 4) % 256)) >>> 4 = c ∧
    ((d &&& 0x0F) ||| ((c <<< 4) % 256)) &&& 0x0F = d := by
  decide

set_option maxRecDepth 100000 in
theorem alertPolicy_octet2_roundtrip : ∀ k < 128, ∀ e : Bool,
    isBit7Set (setOrClearBit7 (k &&& 0x7F) e) = e ∧
    (setOrClearBit7 (k &&& 0x7F) e) &&& 0x7F = k := by
  decide

theorem PEFAlertPolicy_Pack_octets (x : PEFAlertPolicy) :
    x.Pack = [setOrClearBit3 (x.PolicyAction &&& 0x07) x.PolicyEnabled
                ||| ((x.PolicyNumber <<< 4) % 256),
              (x.Destination &&& 0x0F) ||| ((x.Channel <<< 4) % 256),
              setOrClearBit7 (x.AlertStringKey &&& 0x7F) x.IsEventSpecific] := rfl

/-- Claim C21: the alert policy round trip. For every `PEFAlertPolicy` whose
policy number, channel and destination are at most 15, whose policy action is at
most 7 and whose alert string key is at most 127, `Pack` is three octets and
`Unpack` of them gives the record back, whatever the receiver held; and for the
parameter with entry number `n` and such an entry, `Pack` returns the four
octets `n` followed by the packed record, and `Unpack` of them returns the entry
number and the entry. -/
theorem PEFAlertPolicy_roundtrip (x r : PEFAlertPolicy) (hN : x.PolicyNumber ≤ 15)
    (hA : x.PolicyAction ≤ 7) (hC : x.Channel ≤ 15) (hD : x.Destination ≤ 15)
    (hK : x.AlertStringKey ≤ 127) :
    x.Pack.length = 3 ∧ PEFAlertPolicy.Unpack r x.Pack = .ret (x, none) ∧
    ∀ (n : Nat) (q : PEFConfigParam_AlertPolicy),
      PEFConfigParam_AlertPolicy.Pack { EntryNumber := n, Entry := some x }
        = .ret (n :: x.Pack) ∧
      (n :: x.Pack).length = 4 ∧
      PEFConfigParam_AlertPolicy.Unpack q (n :: x.Pack)
        = .ret ({ EntryNumber := n, Entry := some x }, none) := by
  have key : ∀ r : PEFAlertPolicy, PEFAlertPolicy.Unpack r x.Pack = .ret (x, none) := by
    intro r
    obtain ⟨pn, pe, pa, ch, de, es, ak⟩ := x
    simp only at hN hA hC hD hK
    have h0 := alertPolicy_octet0_roundtrip pn (by omega) pa (by omega) pe
    have h1 := alertPolicy_octet1_roundtrip ch (by omega) de (by omega)
    have h2 := alertPolicy_octet2_roundtrip ak (by omega) es
    rw [PEFAlertPolicy_Pack_octets]
    simp [PEFAlertPolicy.Unpack, idx, h0, h1, h2]
  refine ⟨by rw [PEFAlertPolicy_Pack_octets]; rfl, key r, ?_⟩
  intro n q
  refine ⟨by rw [PEFAlertPolicy_Pack_octets]; rfl, by rw [PEFAlertPolicy_Pack_octets]; rfl, ?_⟩
  have hk := key {}
  rw [PEFAlertPolicy_Pack_octets] at hk
  rw [PEFAlertPolicy_Pack_octets]
  simp [PEFConfigParam_AlertPolicy.Unpack, idx, slice, hk]

/-- Claim C21 at the policy 15 with action 7, channel 15, destination 15, key 127
and both flags set, as entry 9. -/
theorem PEFAlertPolicy_roundtrip_witness :
    PEFAlertPolicy.Unpack {}
        (PEFAlertPolicy.Pack
          { PolicyNumber := 15, PolicyEnabled := true, PolicyAction := 7, Channel := 15,
            Destination := 15, IsEventSpecific := true, AlertStringKey := 127 })
      = .ret ({ PolicyNumber := 15, PolicyEnabled := true, PolicyAction := 7, Channel := 15,
                Destination := 15, IsEventSpecific := true, AlertStringKey := 127 }, none) ∧
    PEFConfigParam_AlertPolicy.Pack
        { EntryNumber := 9
          Entry := some { PolicyNumber := 15, PolicyEnabled := true, PolicyAction := 7,
                          Channel := 15, Destination := 15, IsEventSpecific := true,
                          AlertStringKey := 127 } }
      = .ret [9, 0xFF, 0xFF, 0xFF] :=
  have h := PEFAlertPolicy_roundtrip
    { PolicyNumber := 15, PolicyEnabled := true, PolicyAction := 7, Channel := 15,
      Destination := 15, IsEventSpecific := true, AlertStringKey := 127 } {}
    (by decide) (by decide) (by decide) (by decide) (by decide)
  ⟨h.2.1, (h.2.2 9 {}).1⟩

theorem groupControl_control_octet_roundtrip : ∀ c < 16, ∀ f d : Bool,
    isBit5Set (setOrClearBit4 (setOrClearBit5 (c &&& 0x0F) f) d) = f ∧
    isBit4Set (setOrClearBit4 (setOrClearBit5 (c &&& 0x0F) f) d) = d ∧
    (setOrClearBit4 (setOrClearBit5 (c &&& 0x0F) f) d) &&& 0x0F = c := by
  decide

theorem groupControl_member_octet_roundtrip : ∀ m < 16, ∀ d : Bool,
    (setOrClearBit4 (m &&& 0x0F) d) &&& 0x0F = m ∧
    isBit4Set (setOrClearBit4 (m &&& 0x0F) d) = d := by
  decide

theorem groupControl_retry_octet_roundtrip : ∀ t < 8, ∀ o < 16,
    ((((t <<< 4) % 256) ||| o) &&& 0x7F) >>> 4 = t ∧
    (((t <<< 4) % 256) ||| o) &&& 0x0F = o := by
  decide

theorem PEFConfigParam_GroupControlTable_Pack_octets (x : PEFConfigParam_GroupControlTable) :
    x.Pack =
      [x.EntrySelector,
       setOrClearBit4 (setOrClearBit5 (x.ChannelNumber &&& 0x0F) x.ForceControlOperation)
         x.DelayedControl,
       x.GroupID0, setOrClearBit4 (x.MemberID0 &&& 0x0F) x.DisableMemberID0Check,
       x.GroupID1, setOrClearBit4 (x.MemberID1 &&& 0x0F) x.DisableMemberID1Check,
       x.GroupID2, setOrClearBit4 (x.MemberID2 &&& 0x0F) x.DisableMemberID2Check,
       x.GroupID3, setOrClearBit4 (x.MemberID3 &&& 0x0F) x.DisableMemberID3Check,
       ((x.RetryCount <<< 4) % 256) ||| x.Operation] := rfl

/-- Claim C22: the group control table round trip. For every record whose
channel number, member ids and operation are at most 15 and whose retry count is
at most 7, `Pack` is the eleven octets entry selector, control octet, four pairs
(group id, member id with its disable-check bit) and the retry/operation octet,
and `Unpack` of them gives the record back in every field, whatever the receiver
held. -/
theorem PEFConfigParam_GroupControlTable_roundtrip (x r : PEFConfigParam_GroupControlTable)
    (hC : x.ChannelNumber ≤ 15) (h0 : x.MemberID0 ≤ 15) (h1 : x.MemberID1 ≤ 15)
    (h2 : x.MemberID2 ≤ 15) (h3 : x.MemberID3 ≤ 15) (hR : x.RetryCount ≤ 7)
    (hO : x.Operation ≤ 15) :
    x.Pack.length = 11 ∧
    x.Pack =
      [x.EntrySelector,
       setOrClearBit4 (setOrClearBit5 (x.ChannelNumber &&& 0x0F) x.ForceControlOperation)
         x.DelayedControl,
       x.GroupID0, setOrClearBit4 (x.MemberID0 &&& 0x0F) x.DisableMemberID0Check,
       x.GroupID1, setOrClearBit4 (x.MemberID1 &&& 0x0F) x.DisableMemberID1Check,
       x.GroupID2, setOrClearBit4 (x.MemberID2 &&& 0x0F) x.DisableMemberID2Check,
       x.GroupID3, setOrClearBit4 (x.MemberID3 &&& 0x0F) x.DisableMemberID3Check,
       ((x.RetryCount <<< 4) % 256) ||| x.Operation] ∧
    PEFConfigParam_GroupControlTable.Unpack r x.Pack = .ret (x, none) := by
  refine ⟨by rw [PEFConfigParam_GroupControlTable_Pack_octets]; rfl,
    PEFConfigParam_GroupControlTable_Pack_octets x, ?_⟩
  rw [PEFConfigParam_GroupControlTable_Pack_octets]
  obtain ⟨es, fc, dc, cn, g0, m0, c0, g1, m1, c1, g2, m2, c2, g3, m3, c3, rc, op⟩ := x
  simp only at hC h0 h1 h2 h3 hR hO
  have e1 := groupControl_control_octet_roundtrip cn (by omega) fc dc
  have e3 := groupControl_member_octet_roundtrip m0 (by omega) c0
  have e5 := groupControl_member_octet_roundtrip m1 (by omega) c1
  have e7 := groupControl_member_octet_roundtrip m2 (by omega) c2
  have e9 := groupControl_member_octet_roundtrip m3 (by omega) c3
  have e10 := groupControl_retry_octet_roundtrip rc (by omega) op (by omega)
  simp [PEFConfigParam_GroupControlTable.Unpack, idx, e1, e3, e5, e7, e9, e10]

/-- Claim C22 at a record with every sub-byte field at its largest value. -/
theorem PEFConfigParam_GroupControlTable_roundtrip_witness :
    PEFConfigParam_GroupControlTable.Pack
        { EntrySelector := 1, ForceControlOperation := true, DelayedControl := true,
          ChannelNumber := 15, GroupID0 := 0xA0, MemberID0 := 15,
          DisableMemberID0Check := true, GroupID1 := 0xA1, MemberID1 := 1, GroupID2 := 0xA2,
          MemberID2 := 2, GroupID3 := 0xA3, MemberID3 := 3, RetryCount := 7, Operation := 15 }
      = [1, 0x3F, 0xA0, 0x1F, 0xA1, 0x01, 0xA2, 0x02, 0xA3, 0x03, 0x7F] ∧
    PEFConfigParam_GroupControlTable.Unpack {}
        [1, 0x3F, 0xA0, 0x1F, 0xA1, 0x01, 0xA2, 0x02, 0xA3, 0x03, 0x7F]
      = .ret ({ EntrySelector := 1, ForceControlOperation := true, DelayedControl := true,
                ChannelNumber := 15, GroupID0 := 0xA0, MemberID0 := 15,
                DisableMemberID0Check := true, GroupID1 := 0xA1, MemberID1 := 1,
                GroupID2 := 0xA2, MemberID2 := 2, GroupID3 := 0xA3, MemberID3 := 3,
                RetryCount := 7, Operation := 15 }, none) :=
  have h := PEFConfigParam_GroupControlTable_roundtrip
    { EntrySelector := 1, ForceControlOperation := true, DelayedControl := true,
      ChannelNumber := 15, GroupID0 := 0xA0, MemberID0 := 15,
      DisableMemberID0Check := true, GroupID1 := 0xA1, MemberID1 := 1, GroupID2 := 0xA2,
      MemberID2 := 2, GroupID3 := 0xA3, MemberID3 := 3, RetryCount := 7, Operation := 15 } {}
    (by decide) (by decide) (by decide) (by decide) (by decide) (by decide) (by decide)
  ⟨h.2.1, h.2.2⟩

/-! ## The alert string block -/

theorem PEFConfigParam_AlertStrings_Pack_octets (x : PEFConfigParam_AlertStrings) :
    x.Pack = .ret (x.StringSelector :: x.BlockSelector :: x.StringData) := by
  obtain ⟨sel, blk, data⟩ := x
  have hrep : make (2 + data.length) = 0 :: 0 :: List.replicate data.length 0 := by
    rw [make, Nat.add_comm, List.replicate_succ, List.replicate_succ]
  have hd : List.drop (2 + data.length) (sel :: blk :: List.replicate data.length 0) = [] :=
    List.drop_eq_nil_of_le (by simp only [List.length_cons, List.length_replicate]; omega)
  simp only [PEFConfigParam_AlertStrings.Pack, hrep, setIdx, packBytes, overwrite,
    List.length_cons, List.length_replicate, List.set_cons_zero, List.set_cons_succ]
  rw [if_pos (by omega)]
  simp only [Run.ret_bind, List.length_cons, List.length_replicate, List.set_cons_zero,
    List.set_cons_succ]
  rw [if_pos (by omega)]
  simp only [Run.ret_bind, Run.pure_eq, List.length_cons, List.length_replicate]
  rw [if_neg (by omega), hd]
  simp

/-- Claim C23, as stated, fails for the empty string: `Pack` of a record with no
string data is the two header octets, and `Unpack` rejects two octets as too
short (its guard asks for at least three). -/
theorem PEFConfigParam_AlertStrings.Pack_of_empty_string_is_rejected :
    PEFConfigParam_AlertStrings.Pack { StringSelector := 1, BlockSelector := 1, StringData := [] }
      = .ret [1, 1] ∧
    PEFConfigParam_AlertStrings.Unpack {} [1, 1]
      = .ret ({}, some (ErrUnpackedDataTooShortWith 2 3)) := by
  decide

/-- Claim C23, amended: for every alert string block (any string selector, block
selector and string data) `Pack` returns the two header octets followed by the
string data, `2 + len(StringData)` octets; when the string data is not empty,
`Unpack` of these octets succeeds and returns the record, whatever the receiver
held. -/
theorem PEFConfigParam_AlertStrings_roundtrip (x r : PEFConfigParam_AlertStrings)
    (h : x.StringData ≠ []) :
    x.Pack = .ret (x.StringSelector :: x.BlockSelector :: x.StringData) ∧
    (x.StringSelector :: x.BlockSelector :: x.StringData).length = 2 + x.StringData.length ∧
    PEFConfigParam_AlertStrings.Unpack r (x.StringSelector :: x.BlockSelector :: x.StringData)
      = .ret (x, none) := by
  refine ⟨PEFConfigParam_AlertStrings_Pack_octets x, by simp only [List.length_cons]; omega, ?_⟩
  obtain ⟨sel, blk, data⟩ := x
  simp only at h
  cases data with
  | nil => exact absurd rfl h
  | cons d rest =>
    simp only [PEFConfigParam_AlertStrings.Unpack, unpackBytes, List.length_cons]
    rw [if_neg (by omega), if_neg (by omega)]
    simp [idx]

/-- Claim C23, amended, at a three-octet string in block 1 of string 2. -/
theorem PEFConfigParam_AlertStrings_roundtrip_witness :
    PEFConfigParam_AlertStrings.Pack
        { StringSelector := 2, BlockSelector := 1, StringData := [0x61, 0x62, 0x63] }
      = .ret [2, 1, 0x61, 0x62, 0x63] ∧
    PEFConfigParam_AlertStrings.Unpack {} [2, 1, 0x61, 0x62, 0x63]
      = .ret ({ StringSelector := 2, BlockSelector := 1, StringData := [0x61, 0x62, 0x63] },
          none) :=
  have h := PEFConfigParam_AlertStrings_roundtrip
    { StringSelector := 2, BlockSelector := 1, StringData := [0x61, 0x62, 0x63] } {}
    (by decide)
  ⟨h.1, h.2.2⟩

/-! ## Round trips of the DCMI configuration parameters -/

/-- Claim C24: the DCMI configuration parameter round trip. For each of the five
records and every value `x` of it, `Pack x` is one octet and `Unpack` of it
succeeds and returns `x`, whatever the receiver held. -/
theorem DCMIConfigParam_roundtrip :
    (∀ x r : DCMIConfigParam_ActivateDHCP,
      x.Pack.length = 1 ∧ DCMIConfigParam_ActivateDHCP.Unpack r x.Pack = .ret (x, none)) ∧
    (∀ x r : DCMIConfigParam_DiscoveryConfiguration,
      x.Pack.length = 1 ∧
      DCMIConfigParam_DiscoveryConfiguration.Unpack r x.Pack = .ret (x, none)) ∧
    (∀ x r : DCMIConfigParam_DHCPTiming1,
      x.Pack.length = 1 ∧ DCMIConfigParam_DHCPTiming1.Unpack r x.Pack = .ret (x, none)) ∧
    (∀ x r : DCMIConfigParam_DHCPTiming2,
      x.Pack.length = 1 ∧ DCMIConfigParam_DHCPTiming2.Unpack r x.Pack = .ret (x, none)) ∧
    (∀ x r : DCMIConfigParam_DHCPTiming3,
      x.Pack.length = 1 ∧ DCMIConfigParam_DHCPTiming3.Unpack r x.Pack = .ret (x, none)) := by
  refine ⟨?_, ?_, ?_, ?_, ?_⟩
  · rintro ⟨a⟩ r
    cases a <;> exact ⟨rfl, rfl⟩
  · rintro ⟨a, b, c⟩ r
    cases a <;> cases b <;> cases c <;> exact ⟨rfl, rfl⟩
  · rintro ⟨v⟩ r
    exact ⟨rfl, by simp [DCMIConfigParam_DHCPTiming1.Pack, DCMIConfigParam_DHCPTiming1.Unpack, idx]⟩
  · rintro ⟨v⟩ r
    exact ⟨rfl, by simp [DCMIConfigParam_DHCPTiming2.Pack, DCMIConfigParam_DHCPTiming2.Unpack, idx]⟩
  · rintro ⟨v⟩ r
    exact ⟨rfl, by simp [DCMIConfigParam_DHCPTiming3.Pack, DCMIConfigParam_DHCPTiming3.Unpack, idx]⟩

/-! ## The PEF get-parameter response -/

/-- Claim C26: the PEF get-parameter response decode. `Unpack` returns an error
exactly for the empty payload. For a payload of one octet (the revision-only
reply) it sets `Revision` to that octet and leaves `ConfigData` as it was, so a
freshly constructed response has no configuration data; for a longer payload it
sets `Revision` to the first octet and `ConfigData` to the remaining octets. -/
theorem GetPEFConfigParametersResponse.Unpack_revision_and_data :
    (∀ (r : GetPEFConfigParametersResponse) (m : Bytes),
      (∃ r1 e, GetPEFConfigParametersResponse.Unpack r m = .ret (r1, some e)) ↔ m = []) ∧
    (∀ (r : GetPEFConfigParametersResponse) (b : Nat),
      GetPEFConfigParametersResponse.Unpack r [b]
        = .ret ({ Revision := b, ConfigData := r.ConfigData }, none)) ∧
    (∀ b : Nat, GetPEFConfigParametersResponse.Unpack {} [b]
        = .ret ({ Revision := b, ConfigData := [] }, none)) ∧
    (∀ (r : GetPEFConfigParametersResponse) (b c : Nat) (rest : Bytes),
      GetPEFConfigParametersResponse.Unpack r (b :: c :: rest)
        = .ret ({ Revision := b, ConfigData := c :: rest }, none)) := by
  have one : ∀ (r : GetPEFConfigParametersResponse) (b : Nat),
      GetPEFConfigParametersResponse.Unpack r [b]
        = .ret ({ Revision := b, ConfigData := r.ConfigData }, none) := by
    intro r b
    simp [GetPEFConfigParametersResponse.Unpack, idx]
  have more : ∀ (r : GetPEFConfigParametersResponse) (b c : Nat) (rest : Bytes),
      GetPEFConfigParametersResponse.Unpack r (b :: c :: rest)
        = .ret ({ Revision := b, ConfigData := c :: rest }, none) := by
    intro r b c rest
    simp [GetPEFConfigParametersResponse.Unpack, idx, unpackBytes]
    rw [if_neg (by omega)]
  refine ⟨?_, one, fun b => one {} b, more⟩
  intro r m
  constructor
  · rintro ⟨r1, e, h⟩
    match m, h with
    | [], _ => rfl
    | [b], h => rw [one] at h; cases h
    | b :: c :: rest, h => rw [more] at h; cases h
  · rintro rfl
    exact ⟨r, ErrUnpackedDataTooShort, rfl⟩

/-! ## Reserved bits of the PEF control octets -/

set_option maxRecDepth 100000 in
theorem control_flags_ignore_reserved_bits : ∀ b < 256,
    (isBit3Set (b &&& 0x0F) = isBit3Set b ∧ isBit2Set (b &&& 0x0F) = isBit2Set b ∧
     isBit1Set (b &&& 0x0F) = isBit1Set b ∧ isBit0Set (b &&& 0x0F) = isBit0Set b) ∧
    (isBit5Set (b &&& 0x3F) = isBit5Set b ∧ isBit4Set (b &&& 0x3F) = isBit4Set b ∧
     isBit3Set (b &&& 0x3F) = isBit3Set b ∧ isBit2Set (b &&& 0x3F) = isBit2Set b ∧
     isBit1Set (b &&& 0x3F) = isBit1Set b ∧ isBit0Set (b &&& 0x3F) = isBit0Set b) := by
  decide

/-- Claim C27: the reserved bits of the PEF control octets. The single octet of
`PEFConfigParam_Control.Pack` has bits 4..7 zero and that of
`PEFConfigParam_ActionGlobalControl.Pack` has bits 6..7 zero; `Unpack` of one
octet gives the same record as `Unpack` of that octet with the reserved bits
cleared; and `Unpack` of `Pack x` gives `x` back, whatever the receiver held. -/
theorem PEF_control_octets_reserved_bits :
    (∀ x r : PEFConfigParam_Control,
      x.Pack.length = 1 ∧ x.Pack.map (fun b => b &&& 0xF0) = [0] ∧
      PEFConfigParam_Control.Unpack r x.Pack = .ret (x, none)) ∧
    (∀ b < 256, ∀ r : PEFConfigParam_Control,
      PEFConfigParam_Control.Unpack r [b] = PEFConfigParam_Control.Unpack r [b &&& 0x0F]) ∧
    (∀ x r : PEFConfigParam_ActionGlobalControl,
      x.Pack.length = 1 ∧ x.Pack.map (fun b => b &&& 0xC0) = [0] ∧
      PEFConfigParam_ActionGlobalControl.Unpack r x.Pack = .ret (x, none)) ∧
    (∀ b < 256, ∀ r : PEFConfigParam_ActionGlobalControl,
      PEFConfigParam_ActionGlobalControl.Unpack r [b]
        = PEFConfigParam_ActionGlobalControl.Unpack r [b &&& 0x3F]) := by
  refine ⟨?_, ?_, ?_, ?_⟩
  · rintro ⟨a3, a2, a1, a0⟩ r
    cases a3 <;> cases a2 <;> cases a1 <;> cases a0 <;> exact ⟨rfl, rfl, rfl⟩
  · intro b hb r
    obtain ⟨h3, h2, h1, h0⟩ := (control_flags_ignore_reserved_bits b hb).1
    simp [PEFConfigParam_Control.Unpack, idx, h3, h2, h1, h0]
  · rintro ⟨a5, a4, a3, a2, a1, a0⟩ r
    cases a5 <;> cases a4 <;> cases a3 <;> cases a2 <;> cases a1 <;> cases a0 <;>
      exact ⟨rfl, rfl, rfl⟩
  · intro b hb r
    obtain ⟨h5, h4, h3, h2, h1, h0⟩ := (control_flags_ignore_reserved_bits b hb).2
    simp [PEFConfigParam_ActionGlobalControl.Unpack, idx, h5, h4, h3, h2, h1, h0]

/-! ## The length of `Pack` and the least length `Unpack` accepts -/

theorem DCMIConfigParam_ActivateDHCP_Unpack_least : leastAccepted DCMIConfigParam_ActivateDHCP.Unpack 1 := by
  intro r data
  unfold DCMIConfigParam_ActivateDHCP.Unpack
  constructor
  · intro h
    rw [if_pos h]
    exact ⟨_, rfl⟩
  · intro h
    rw [if_neg (by omega)]
    rw [idx_in_range data 0 (by omega)]
    exact ⟨_, rfl⟩

theorem DCMIConfigParam_DiscoveryConfiguration_Unpack_least : leastAccepted DCMIConfigParam_DiscoveryConfiguration.Unpack 1 := by
  intro r data
  unfold DCMIConfigParam_DiscoveryConfiguration.Unpack
  constructor
  · intro h
    rw [if_pos h]
    exact ⟨_, rfl⟩
  · intro h
    rw [if_neg (by omega)]
    rw [idx_in_range data 0 (by omega)]
    exact ⟨_, rfl⟩

theorem DCMIConfigParam_DHCPTiming1_Unpack_least : leastAccepted DCMIConfigParam_DHCPTiming1.Unpack 1 := by
  intro r data
  unfold DCMIConfigParam_DHCPTiming1.Unpack
  constructor
  · intro h
    rw [if_pos h]
    exact ⟨_, rfl⟩
  · intro h
    rw [if_neg (by omega)]
    rw [idx_in_range data 0 (by omega)]
    exact ⟨_, rfl⟩

theorem DCMIConfigParam_DHCPTiming2_Unpack_least : leastAccepted DCMIConfigParam_DHCPTiming2.Unpack 1 := by
  intro r data
  unfold DCMIConfigParam_DHCPTiming2.Unpack
  constructor
  · intro h
    rw [if_pos h]
    exact ⟨_, rfl⟩
  · intro h
    rw [if_neg (by omega)]
    rw [idx_in_range data 0 (by omega)]
    exact ⟨_, rfl⟩

theorem DCMIConfigParam_DHCPTiming3_Unpack_least : leastAccepted DCMIConfigParam_DHCPTiming3.Unpack 1 := by
  intro r data
  unfold DCMIConfigParam_DHCPTiming3.Unpack
  constructor
  · intro h
    rw [if_pos h]
    exact ⟨_, rfl⟩
  · intro h
    rw [if_neg (by omega)]
    rw [idx_in_range data 0 (by omega)]
    exact ⟨_, rfl⟩

theorem PEFConfigParam_SetInProgress_Unpack_least : leastAccepted PEFConfigParam_SetInProgress.Unpack 1 := by
  intro r data
  unfold PEFConfigParam_SetInProgress.Unpack
  constructor
  · intro h
    rw [if_pos h]
    exact ⟨_, rfl⟩
  · intro h
    rw [if_neg (by omega)]
    rw [idx_in_range data 0 (by omega)]
    exact ⟨_, rfl⟩

theorem PEFConfigParam_Control_Unpack_least : leastAccepted PEFConfigParam_Control.Unpack 1 := by
  intro r data
  unfold PEFConfigParam_Control.Unpack
  constructor
  · intro h
    rw [if_pos h]
    exact ⟨_, rfl⟩
  · intro h
    rw [if_neg (by omega)]
    rw [idx_in_range data 0 (by omega)]
    exact ⟨_, rfl⟩

theorem PEFConfigParam_ActionGlobalControl_Unpack_least : leastAccepted PEFConfigParam_ActionGlobalControl.Unpack 1 := by
  intro r data
  unfold PEFConfigParam_ActionGlobalControl.Unpack
  constructor
  · intro h
    rw [if_pos h]
    exact ⟨_, rfl⟩
  · intro h
    rw [if_neg (by omega)]
    rw [idx_in_range data 0 (by omega)]
    exact ⟨_, rfl⟩

theorem PEFConfigParam_StartupDelay_Unpack_least : leastAccepted PEFConfigParam_StartupDelay.Unpack 1 := by
  intro r data
  unfold PEFConfigParam_StartupDelay.Unpack
  constructor
  · intro h
    rw [if_pos h]
    exact ⟨_, rfl⟩
  · intro h
    rw [if_neg (by omega)]
    rw [idx_in_range data 0 (by omega)]
    exact ⟨_, rfl⟩

theorem PEFConfigParam_AlertStartupDelay_Unpack_least : leastAccepted PEFConfigParam_AlertStartupDelay.Unpack 1 := by
  intro r data
  unfold PEFConfigParam_AlertStartupDelay.Unpack
  constructor
  · intro h
    rw [if_pos h]
    exact ⟨_, rfl⟩
  · intro h
    rw [if_neg (by omega)]
    rw [idx_in_range data 0 (by omega)]
    exact ⟨_, rfl⟩

theorem PEFConfigParam_NumberOfEventFilters_Unpack_least : leastAccepted PEFConfigParam_NumberOfEventFilters.Unpack 1 := by
  intro r data
  unfold PEFConfigParam_NumberOfEventFilters.Unpack
  constructor
  · intro h
    rw [if_pos h]
    exact ⟨_, rfl⟩
  · intro h
    rw [if_neg (by omega)]
    rw [idx_in_range data 0 (by omega)]
    exact ⟨_, rfl⟩

theorem PEFConfigParam_NumberOfAlertPolicies_Unpack_least : leastAccepted PEFConfigParam_NumberOfAlertPolicies.Unpack 1 := by
  intro r data
  unfold PEFConfigParam_NumberOfAlertPolicies.Unpack
  constructor
  · intro h
    rw [if_pos h]
    exact ⟨_, rfl⟩
  · intro h
    rw [if_neg (by omega)]
    rw [idx_in_range data 0 (by omega)]
    exact ⟨_, rfl⟩

theorem PEFConfigParam_AlertPolicy_Unpack_least : leastAccepted PEFConfigParam_AlertPolicy.Unpack 4 := by
  intro r data
  unfold PEFConfigParam_AlertPolicy.Unpack
  constructor
  · intro h
    rw [if_pos h]
    exact ⟨_, rfl⟩
  · intro h
    rw [if_neg (by omega)]
    rw [idx_in_range data 0 (by omega), slice_in_range data 1 data.length (by omega)]
    obtain ⟨e1, he1⟩ := PEFAlertPolicy_Unpack_succeeds {}
      ((data.drop 1).take (data.length - 1))
      (by simp [List.length_take, List.length_drop]; omega)
    simp only [Run.ret_bind, he1, Run.pure_eq]
    exact ⟨_, rfl⟩

theorem PEFConfigParam_SystemGUID_Unpack_least : leastAccepted PEFConfigParam_SystemGUID.Unpack 17 := by
  intro r data
  unfold PEFConfigParam_SystemGUID.Unpack
  constructor
  · intro h
    rw [if_pos h]
    exact ⟨_, rfl⟩
  · intro h
    rw [if_neg (by omega)]
    rw [idx_in_range data 0 (by omega), slice_in_range data 1 17 (by omega)]
    exact ⟨_, rfl⟩

theorem PEFConfigParam_NumberOfAlertStrings_Unpack_least : leastAccepted PEFConfigParam_NumberOfAlertStrings.Unpack 1 := by
  intro r data
  unfold PEFConfigParam_NumberOfAlertStrings.Unpack
  constructor
  · intro h
    rw [if_pos h]
    exact ⟨_, rfl⟩
  · intro h
    rw [if_neg (by omega)]
    rw [idx_in_range data 0 (by omega)]
    exact ⟨_, rfl⟩

theorem PEFConfigParam_AlertStringKeys_Unpack_least : leastAccepted PEFConfigParam_AlertStringKeys.Unpack 3 := by
  intro r data
  unfold PEFConfigParam_AlertStringKeys.Unpack
  constructor
  · intro h
    rw [if_pos h]
    exact ⟨_, rfl⟩
  · intro h
    rw [if_neg (by omega)]
    rw [idx_in_range data 0 (by omega), idx_in_range data 1 (by omega), idx_in_range data 2 (by omega)]
    exact ⟨_, rfl⟩

theorem PEFConfigParam_NumberOfGroupControlTableEntries_Unpack_least : leastAccepted PEFConfigParam_NumberOfGroupControlTableEntries.Unpack 1 := by
  intro r data
  unfold PEFConfigParam_NumberOfGroupControlTableEntries.Unpack
  constructor
  · intro h
    rw [if_pos h]
    exact ⟨_, rfl⟩
  · intro h
    rw [if_neg (by omega)]
    rw [idx_in_range data 0 (by omega)]
    exact ⟨_, rfl⟩

theorem PEFConfigParam_GroupControlTable_Unpack_least : leastAccepted PEFConfigParam_GroupControlTable.Unpack 11 := by
  intro r data
  unfold PEFConfigParam_GroupControlTable.Unpack
  constructor
  · intro h
    rw [if_pos h]
    exact ⟨_, rfl⟩
  · intro h
    rw [if_neg (by omega)]
    rw [idx_in_range data 0 (by omega), idx_in_range data 1 (by omega), idx_in_range data 2 (by omega), idx_in_range data 3 (by omega), idx_in_range data 4 (by omega), idx_in_range data 5 (by omega), idx_in_range data 6 (by omega), idx_in_range data 7 (by omega), idx_in_range data 8 (by omega), idx_in_range data 9 (by omega), idx_in_range data 10 (by omega)]
    exact ⟨_, rfl⟩

theorem DCMICapParam_SupportedDCMICapabilities_Unpack_least : leastAccepted DCMICapParam_SupportedDCMICapabilities.Unpack 3 := by
  intro r data
  unfold DCMICapParam_SupportedDCMICapabilities.Unpack
  constructor
  · intro h
    rw [if_pos h]
    exact ⟨_, rfl⟩
  · intro h
    rw [if_neg (by omega)]
    rw [idx_in_range data 1 (by omega), idx_in_range data 2 (by omega)]
    exact ⟨_, rfl⟩

theorem DCMICapParam_MandatoryPlatformAttributes_Unpack_least : leastAccepted DCMICapParam_MandatoryPlatformAttributes.Unpack 5 := by
  intro r data
  unfold DCMICapParam_MandatoryPlatformAttributes.Unpack
  constructor
  · intro h
    rw [if_pos h]
    exact ⟨_, rfl⟩
  · intro h
    rw [if_neg (by omega)]
    rw [idx_in_range data 1 (by omega), idx_in_range data 4 (by omega)]
    exact ⟨_, rfl⟩

theorem DCMICapParam_OptionalPlatformAttributes_Unpack_least : leastAccepted DCMICapParam_OptionalPlatformAttributes.Unpack 2 := by
  intro r data
  unfold DCMICapParam_OptionalPlatformAttributes.Unpack
  constructor
  · intro h
    rw [if_pos h]
    exact ⟨_, rfl⟩
  · intro h
    rw [if_neg (by omega)]
    rw [idx_in_range data 0 (by omega), idx_in_range data 1 (by omega)]
    exact ⟨_, rfl⟩

theorem DCMICapParam_ManageabilityAccessAttributes_Unpack_least : leastAccepted DCMICapParam_ManageabilityAccessAttributes.Unpack 3 := by
  intro r data
  unfold DCMICapParam_ManageabilityAccessAttributes.Unpack
  constructor
  · intro h
    rw [if_pos h]
    exact ⟨_, rfl⟩
  · intro h
    rw [if_neg (by omega)]
    rw [idx_in_range data 0 (by omega), idx_in_range data 1 (by omega), idx_in_range data 2 (by omega)]
    exact ⟨_, rfl⟩

theorem PEFConfigParam_EventFilterData1_Unpack_least : leastAccepted PEFConfigParam_EventFilterData1.Unpack 2 := by
  intro r data
  unfold PEFConfigParam_EventFilterData1.Unpack
  constructor
  · intro h
    rw [if_pos h]
    exact ⟨_, rfl⟩
  · intro h
    rw [if_neg (by omega)]
    rw [idx_in_range data 0 (by omega), idx_in_range data 1 (by omega)]
    exact ⟨_, rfl⟩

theorem PEFConfigParam_SystemGUID_Pack_length (x : PEFConfigParam_SystemGUID) :
    x.Pack.length = 17 := by
  simp only [PEFConfigParam_SystemGUID.Pack, overwrite, make, List.length_append,
    List.length_take, List.length_drop, List.length_set, List.length_replicate]
  omega

/-- Claim C25, as stated, fails for the DCMI capability parameters: their `Pack`
returns no octets, while `Unpack` of the supported-capabilities parameter
accepts exactly the inputs of three or more octets, so the length of `Pack` (0)
is not the least length that `Unpack` accepts (3). -/
theorem DCMICapParam_SupportedDCMICapabilities.Pack_is_empty :
    (DCMICapParam_SupportedDCMICapabilities.Pack {}).length = 0 ∧
    leastAccepted DCMICapParam_SupportedDCMICapabilities.Unpack 3 ∧
    ¬ leastAccepted DCMICapParam_SupportedDCMICapabilities.Unpack
        (DCMICapParam_SupportedDCMICapabilities.Pack {}).length := by
  refine ⟨rfl, DCMICapParam_SupportedDCMICapabilities_Unpack_least, ?_⟩
  intro h
  obtain ⟨r1, hr⟩ := (h {} []).2 (Nat.le_refl _)
  cases hr

/-- Claim C25, amended: for the five DCMI configuration parameters and for the
fixed-length PEF configuration parameters other than the event filter and the
event filter data 1 (set-in-progress, control, action global control, the two
startup delays, the three counts, the alert policy with a non-nil entry, the
system GUID, the alert string keys, the number of group control table entries
and the group control table), the length of `Pack x` is, for every `x`, the
least input length that the record's `Unpack` accepts; the `Pack` of each of the
five DCMI capability parameters returns no octets. -/
theorem Pack_length_is_least_accepted_length :
    (leastAccepted DCMIConfigParam_ActivateDHCP.Unpack 1 ∧
      ∀ x : DCMIConfigParam_ActivateDHCP, (DCMIConfigParam_ActivateDHCP.Pack x).length = 1) ∧
    (leastAccepted DCMIConfigParam_DiscoveryConfiguration.Unpack 1 ∧
      ∀ x : DCMIConfigParam_DiscoveryConfiguration, (DCMIConfigParam_DiscoveryConfiguration.Pack x).length = 1) ∧
    (leastAccepted DCMIConfigParam_DHCPTiming1.Unpack 1 ∧
      ∀ x : DCMIConfigParam_DHCPTiming1, (DCMIConfigParam_DHCPTiming1.Pack x).length = 1) ∧
    (leastAccepted DCMIConfigParam_DHCPTiming2.Unpack 1 ∧
      ∀ x : DCMIConfigParam_DHCPTiming2, (DCMIConfigParam_DHCPTiming2.Pack x).length = 1) ∧
    (leastAccepted DCMIConfigParam_DHCPTiming3.Unpack 1 ∧
      ∀ x : DCMIConfigParam_DHCPTiming3, (DCMIConfigParam_DHCPTiming3.Pack x).length = 1) ∧
    (leastAccepted PEFConfigParam_SetInProgress.Unpack 1 ∧
      ∀ x : PEFConfigParam_SetInProgress, (PEFConfigParam_SetInProgress.Pack x).length = 1) ∧
    (leastAccepted PEFConfigParam_Control.Unpack 1 ∧
      ∀ x : PEFConfigParam_Control, (PEFConfigParam_Control.Pack x).length = 1) ∧
    (leastAccepted PEFConfigParam_ActionGlobalControl.Unpack 1 ∧
      ∀ x : PEFConfigParam_ActionGlobalControl, (PEFConfigParam_ActionGlobalControl.Pack x).length = 1) ∧
    (leastAccepted PEFConfigParam_StartupDelay.Unpack 1 ∧
      ∀ x : PEFConfigParam_StartupDelay, (PEFConfigParam_StartupDelay.Pack x).length = 1) ∧
    (leastAccepted PEFConfigParam_AlertStartupDelay.Unpack 1 ∧
      ∀ x : PEFConfigParam_AlertStartupDelay, (PEFConfigParam_AlertStartupDelay.Pack x).length = 1) ∧
    (leastAccepted PEFConfigParam_NumberOfEventFilters.Unpack 1 ∧
      ∀ x : PEFConfigParam_NumberOfEventFilters, (PEFConfigParam_NumberOfEventFilters.Pack x).length = 1) ∧
    (leastAccepted PEFConfigParam_NumberOfAlertPolicies.Unpack 1 ∧
      ∀ x : PEFConfigParam_NumberOfAlertPolicies, (PEFConfigParam_NumberOfAlertPolicies.Pack x).length = 1) ∧
    (leastAccepted PEFConfigParam_AlertPolicy.Unpack 4 ∧
      ∀ (x : PEFConfigParam_AlertPolicy) (e : PEFAlertPolicy), x.Entry = some e →
        ∃ out, x.Pack = .ret out ∧ out.length = 4) ∧
    (leastAccepted PEFConfigParam_SystemGUID.Unpack 17 ∧
      ∀ x : PEFConfigParam_SystemGUID, (PEFConfigParam_SystemGUID.Pack x).length = 17) ∧
    (leastAccepted PEFConfigParam_NumberOfAlertStrings.Unpack 1 ∧
      ∀ x : PEFConfigParam_NumberOfAlertStrings, (PEFConfigParam_NumberOfAlertStrings.Pack x).length = 1) ∧
    (leastAccepted PEFConfigParam_AlertStringKeys.Unpack 3 ∧
      ∀ x : PEFConfigParam_AlertStringKeys, (PEFConfigParam_AlertStringKeys.Pack x).length = 3) ∧
    (leastAccepted PEFConfigParam_NumberOfGroupControlTableEntries.Unpack 1 ∧
      ∀ x : PEFConfigParam_NumberOfGroupControlTableEntries, (PEFConfigParam_NumberOfGroupControlTableEntries.Pack x).length = 1) ∧
    (leastAccepted PEFConfigParam_GroupControlTable.Unpack 11 ∧
      ∀ x : PEFConfigParam_GroupControlTable, (PEFConfigParam_GroupControlTable.Pack x).length = 11) ∧
    (∀ x : DCMICapParam_SupportedDCMICapabilities, x.Pack = []) ∧
    (∀ x : DCMICapParam_MandatoryPlatformAttributes, x.Pack = []) ∧
    (∀ x : DCMICapParam_OptionalPlatformAttributes, x.Pack = []) ∧
    (∀ x : DCMICapParam_ManageabilityAccessAttributes, x.Pack = []) ∧
    (∀ x : DCMICapParam_EnhancedSystemPowerStatisticsAttributes, x.Pack = []) := by
  refine ⟨?_, ?_, ?_, ?_, ?_, ?_, ?_, ?_, ?_, ?_, ?_, ?_, ?_, ?_, ?_, ?_, ?_, ?_, ?_, ?_, ?_, ?_, ?_⟩
  · exact ⟨DCMIConfigParam_ActivateDHCP_Unpack_least, fun _ => rfl⟩
  · exact ⟨DCMIConfigParam_DiscoveryConfiguration_Unpack_least, fun _ => rfl⟩
  · exact ⟨DCMIConfigParam_DHCPTiming1_Unpack_least, fun _ => rfl⟩
  · exact ⟨DCMIConfigParam_DHCPTiming2_Unpack_least, fun _ => rfl⟩
  · exact ⟨DCMIConfigParam_DHCPTiming3_Unpack_least, fun _ => rfl⟩
  · exact ⟨PEFConfigParam_SetInProgress_Unpack_least, fun _ => rfl⟩
  · exact ⟨PEFConfigParam_Control_Unpack_least, fun _ => rfl⟩
  · exact ⟨PEFConfigParam_ActionGlobalControl_Unpack_least, fun _ => rfl⟩
  · exact ⟨PEFConfigParam_StartupDelay_Unpack_least, fun _ => rfl⟩
  · exact ⟨PEFConfigParam_AlertStartupDelay_Unpack_least, fun _ => rfl⟩
  · exact ⟨PEFConfigParam_NumberOfEventFilters_Unpack_least, fun _ => rfl⟩
  · exact ⟨PEFConfigParam_NumberOfAlertPolicies_Unpack_least, fun _ => rfl⟩
  · refine ⟨PEFConfigParam_AlertPolicy_Unpack_least, ?_⟩
    rintro ⟨n, entry⟩ e he
    simp only at he
    subst he
    exact ⟨n :: e.Pack, by rw [PEFAlertPolicy_Pack_octets]; rfl,
      by rw [PEFAlertPolicy_Pack_octets]; rfl⟩
  · exact ⟨PEFConfigParam_SystemGUID_Unpack_least, PEFConfigParam_SystemGUID_Pack_length⟩
  · exact ⟨PEFConfigParam_NumberOfAlertStrings_Unpack_least, fun _ => rfl⟩
  · exact ⟨PEFConfigParam_AlertStringKeys_Unpack_least, fun _ => rfl⟩
  · exact ⟨PEFConfigParam_NumberOfGroupControlTableEntries_Unpack_least, fun _ => rfl⟩
  · exact ⟨PEFConfigParam_GroupControlTable_Unpack_least, fun _ => rfl⟩
  · exact fun _ => rfl
  · exact fun _ => rfl
  · exact fun _ => rfl
  · exact fun _ => rfl
  · exact fun _ => rfl

/-! ## The mandatory platform attributes -/

set_option maxRecDepth 100000 in
theorem high_bits_of_octet : ∀ b < 256,
    isBit7Set b = decide (b / 128 % 2 = 1) ∧ isBit6Set b = decide (b / 64 % 2 = 1) ∧
    isBit5Set b = decide (b / 32 % 2 = 1) := by
  decide

/-- Claim C28: the mandatory platform attributes decode. For every payload `p` of
at least five octets `Unpack` succeeds, whatever the receiver held:
`SELEntriesCount` is `(p[0] + 256 p[1]) mod 4096`, a 12-bit value that is at most
4095 and, for an octet `p[0]`, equals `p[0] + 256 (p[1] mod 16)`, so bits 4..7 of
`p[1]` do not reach it; the three flags are bits 7, 6 and 5 of `p[1]`; and the
temperature sampling frequency is `p[4]`. -/
theorem DCMICapParam_MandatoryPlatformAttributes.Unpack_fields (p : Bytes)
    (r : DCMICapParam_MandatoryPlatformAttributes) (h5 : 5 ≤ p.length) :
    DCMICapParam_MandatoryPlatformAttributes.Unpack r p
      = .ret ({ SELAutoRolloverEnabled := isBit7Set (p.getD 1 0)
                EntireSELFlushUponRollOver := isBit6Set (p.getD 1 0)
                RecordLevelSELFlushUponRollOver := isBit5Set (p.getD 1 0)
                SELEntriesCount := (p.getD 0 0 + 256 * p.getD 1 0) % 4096
                TemperatrureSamplingFrequencySec := p.getD 4 0 }, none) ∧
    (p.getD 0 0 + 256 * p.getD 1 0) % 4096 ≤ 4095 ∧
    (p.getD 0 0 < 256 →
      (p.getD 0 0 + 256 * p.getD 1 0) % 4096 = p.getD 0 0 + 256 * (p.getD 1 0 % 16)) ∧
    (p.getD 1 0 < 256 →
      isBit7Set (p.getD 1 0) = decide (p.getD 1 0 / 128 % 2 = 1) ∧
      isBit6Set (p.getD 1 0) = decide (p.getD 1 0 / 64 % 2 = 1) ∧
      isBit5Set (p.getD 1 0) = decide (p.getD 1 0 / 32 % 2 = 1)) := by
  refine ⟨?_, by omega, fun h => by omega, fun h => high_bits_of_octet _ h⟩
  unfold DCMICapParam_MandatoryPlatformAttributes.Unpack
  rw [if_neg (by omega), idx_in_range p 1 (by omega), idx_in_range p 4 (by omega),
    unpackUint16L_in_range p 0 (by omega)]
  have hmask : (p.getD 0 0 + 256 * p.getD (0 + 1) 0) &&& 0x0FFF
      = (p.getD 0 0 + 256 * p.getD 1 0) % 4096 :=
    Nat.and_pow_two_sub_one_eq_mod _ 12
  simp only [Run.ret_bind, Run.pure_eq, hmask]

/-- Claim C28 at a payload whose second octet has every high bit set. -/
theorem DCMICapParam_MandatoryPlatformAttributes.Unpack_fields_witness :
    DCMICapParam_MandatoryPlatformAttributes.Unpack {} [0x34, 0xF2, 0, 0, 10]
      = .ret ({ SELAutoRolloverEnabled := true, EntireSELFlushUponRollOver := true,
                RecordLevelSELFlushUponRollOver := true, SELEntriesCount := 0x234,
                TemperatrureSamplingFrequencySec := 10 }, none) :=
  (DCMICapParam_MandatoryPlatformAttributes.Unpack_fields [0x34, 0xF2, 0, 0, 10] {}
    (by decide)).1

/-! ## The event filter type -/

/-- Claim C29 fails at the filter type 10b: `Unpack` of a 20-octet input does set
`FilterEnabled` to bit 7 of the first octet and `FilterType` to its bits [6:5],
and 00b is `PEFEventFilterType_Configurable`, rendered "Configurable"; but the
value 10b gives `FilterType = 2`, which is not the declared constant
`PEFEventFilterType_PreConfigured` (0x10), while "Pre-Configured" is the
rendering of 0x10, a value `Unpack` never produces. The value 2 is not rendered
at all: for every value other than the two constants the fallback of `String`
calls `String` again, on the same value, and the run-time stops the program. -/
theorem PEFEventFilter.Unpack_type_10b_is_not_PreConfigured :
    (∀ (d : Bytes) (r : PEFEventFilter), d.length = 20 →
      ∃ x, PEFEventFilter.Unpack r d = .ret (x, none) ∧
        x.FilterEnabled = isBit7Set (d.getD 0 0) ∧
        x.FilterType = (d.getD 0 0 >>> 5) &&& 0x03 ∧ x.FilterType ≠ 0x10) ∧
    PEFEventFilter.Unpack {} (0x40 :: List.replicate 19 0) = .ret ({ FilterType := 2 }, none) ∧
    (2 : Nat) ≠ PEFEventFilterType_PreConfigured ∧
    PEFEventFilterType.String 2 = .panic ∧
    (∀ filterType, filterType ≠ PEFEventFilterType_Configurable →
      filterType ≠ PEFEventFilterType_PreConfigured →
      PEFEventFilterType.String filterType = .panic) ∧
    PEFEventFilterType.String PEFEventFilterType_PreConfigured = .ret "Pre-Configured" ∧
    PEFEventFilter.Unpack {} (List.replicate 20 0)
      = .ret ({ FilterType := PEFEventFilterType_Configurable }, none) ∧
    PEFEventFilterType.String PEFEventFilterType_Configurable = .ret "Configurable" := by
  refine ⟨?_, by decide, by decide,
    PEFEventFilterType_String_nested_fatal 2 (by decide) (by decide) _,
    fun filterType h0 h1 => PEFEventFilterType_String_nested_fatal filterType h0 h1 _,
    by rw [PEFEventFilterType_String_eq]; rfl, by decide,
    by rw [PEFEventFilterType_String_eq]; rfl⟩
  intro d r h
  unfold PEFEventFilter.Unpack
  rw [if_neg (by omega)]
  rw [idx_in_range d 0 (by omega), idx_in_range d 1 (by omega), idx_in_range d 2 (by omega), idx_in_range d 3 (by omega), idx_in_range d 6 (by omega), idx_in_range d 7 (by omega), idx_in_range d 8 (by omega), idx_in_range d 11 (by omega), idx_in_range d 12 (by omega), idx_in_range d 13 (by omega), idx_in_range d 14 (by omega), idx_in_range d 15 (by omega), idx_in_range d 16 (by omega), idx_in_range d 17 (by omega), idx_in_range d 18 (by omega), idx_in_range d 19 (by omega)]
  refine ⟨_, rfl, rfl, rfl, ?_⟩
  show (d.getD 0 0 >>> 5) &&& 0x03 ≠ 0x10
  intro h16
  have hle : (d.getD 0 0 >>> 5) &&& 0x03 ≤ 0x03 := Nat.and_le_right
  omega

/-! ## The DCMI requests -/

theorem packUint8_at_0 (v a : Nat) (rest : Bytes) : packUint8 v (a :: rest) 0 = v :: rest := by
  simp [packUint8]

theorem packUint8_at_1 (v a b : Nat) (rest : Bytes) :
    packUint8 v (a :: b :: rest) 1 = a :: v :: rest := by
  simp [packUint8]

theorem packUint8_at_2 (v a b c : Nat) (rest : Bytes) :
    packUint8 v (a :: b :: c :: rest) 2 = a :: b :: v :: rest := by
  simp [packUint8]

/-- Claim C30: every DCMI request starts with the group extension marker. For
every assignment of the fields, `Pack` is: the marker and the selector (2
octets) for Get DCMI Capabilities Info; the marker, the selector and the set
selector (3 octets) for Get DCMI Configuration Parameters; these three octets
followed by `ParamData` unchanged (3 + len(ParamData) octets) for Set DCMI
Configuration Parameters; 3 octets for Get Power Limit; 15 octets for Set Power
Limit; 3 octets for Get Thermal Limit; 7 octets for Set Thermal Limit; the first
octet is 0xDC each time. -/
theorem DCMI_requests_start_with_marker :
    GroupExtensionDCMI = 0xDC ∧
    (∀ req : GetDCMICapabilitiesInfoRequest, req.Pack = [0xDC, req.ParamSelector]) ∧
    (∀ req : GetDCMIConfigurationParamsRequest,
      req.Pack = [0xDC, req.ParamSelector, req.SetSelector]) ∧
    (∀ req : SetDCMIConfigurationParamsRequest,
      req.Pack = 0xDC :: req.ParamSelector :: req.SetSelector :: req.ParamData ∧
      req.Pack.length = 3 + req.ParamData.length) ∧
    (∀ req : GetDCMIPowerLimitRequest, req.Pack = [0xDC, 0x00, 0x00]) ∧
    (∀ req : SetDCMIPowerLimitRequest,
      req.Pack = [0xDC, 0, 0, 0, req.ExceptionAction,
        req.PowerLimitRequested % 256, req.PowerLimitRequested / 256 % 256,
        req.CorrectionTimeLimitMilliSec % 256, req.CorrectionTimeLimitMilliSec / 256 % 256,
        req.CorrectionTimeLimitMilliSec / 65536 % 256,
        req.CorrectionTimeLimitMilliSec / 16777216 % 256,
        0, 0,
        req.StatisticsSamplingPeriodSec % 256, req.StatisticsSamplingPeriodSec / 256 % 256] ∧
      req.Pack.length = 15) ∧
    (∀ req : GetDCMIThermalLimitRequest,
      req.Pack = [0xDC, req.EntityID, req.EntityInstance]) ∧
    (∀ req : SetDCMIThermalLimitRequest,
      req.Pack.head? = some 0xDC ∧ req.Pack.length = 7) := by
  refine ⟨rfl, fun _ => rfl, fun _ => rfl, ?_, fun _ => rfl, fun _ => ⟨rfl, rfl⟩, fun _ => rfl,
    ?_⟩
  · rintro ⟨sel, set, data⟩
    have hrep : make (3 + data.length) = 0 :: 0 :: 0 :: List.replicate data.length 0 := by
      rw [make, Nat.add_comm, List.replicate_succ, List.replicate_succ, List.replicate_succ]
    have hd : List.drop (3 + data.length)
        (GroupExtensionDCMI :: sel :: set :: List.replicate data.length 0) = [] :=
      List.drop_eq_nil_of_le (by simp only [List.length_cons, List.length_replicate]; omega)
    have hp : SetDCMIConfigurationParamsRequest.Pack
        { ParamSelector := sel, SetSelector := set, ParamData := data }
        = 0xDC :: sel :: set :: data := by
      simp only [SetDCMIConfigurationParamsRequest.Pack, hrep, packUint8_at_0, packUint8_at_1,
        packUint8_at_2, packBytes, overwrite, List.length_cons, List.length_replicate]
      rw [if_neg (by omega), hd]
      simp [GroupExtensionDCMI]
    refine ⟨hp, ?_⟩
    rw [hp]
    simp only [List.length_cons]
    omega
  · intro req
    cases h1 : req.ExceptionAction_PowerOffAndLogSEL <;>
      cases h2 : req.ExceptionAction_LogSELOnly <;>
      simp [SetDCMIThermalLimitRequest.Pack, make, packUint16L, GroupExtensionDCMI, h1, h2]

/-! ## The exception action -/

theorem GetDCMIPowerLimitResponse_Unpack_marked (m : Bytes) (r : GetDCMIPowerLimitResponse)
    (h14 : 14 ≤ m.length) (h0 : m.getD 0 0 = 0xDC) :
    GetDCMIPowerLimitResponse.Unpack r m
      = .ret ({ ExceptionAction := m.getD 3 0
                PowerLimitRequested := m.getD 4 0 + 256 * m.getD 5 0
                CorrectionTimeLimitMilliSec := m.getD 6 0 + 256 * m.getD 7 0
                  + 65536 * m.getD 8 0 + 16777216 * m.getD 9 0
                StatisticsSamplingPeriodSec := m.getD 12 0 + 256 * m.getD 13 0 }, none) := by
  unfold GetDCMIPowerLimitResponse.Unpack
  rw [if_neg (by omega), idx_in_range m 0 (by omega), unpackUint8_in_range m 3 (by omega),
    unpackUint16L_in_range m 4 (by omega), unpackUint32L_in_range m 6 (by omega),
    unpackUint16L_in_range m 12 (by omega), h0]
  simp [CheckDCMIGroupExenstionMatch, GroupExtensionDCMI]

set_option maxRecDepth 1000000 in
theorem unrecognised_exception_actions :
    ((List.range 256).filter (fun a => a ≠ 0x00 ∧ a ≠ 0x01 ∧ a ≠ 0x11)).length = 253 := by
  decide

/-- Claim C32: the exception action is a closed, non-contiguous enumeration with
a fallback. `String` gives "No Action" for 0x00, "Hard Power Off system and log
events to SEL" for 0x01, "Log event to SEL only" for 0x11 and "unknown" for every
other value, which are 253 of the 256 octet values; and
`GetDCMIPowerLimitResponse.Unpack` keeps the octet `m[3]` as `ExceptionAction`
whatever its value. -/
theorem DCMIExceptionAction.String_closed_enumeration :
    DCMIExceptionAction.String DCMIExceptionAction_NoAction = "No Action" ∧
    DCMIExceptionAction.String DCMIExceptionAction_PowerOffAndLogSEL
      = "Hard Power Off system and log events to SEL" ∧
    DCMIExceptionAction.String DCMIExceptionAction_LogSELOnly = "Log event to SEL only" ∧
    (DCMIExceptionAction_NoAction = 0x00 ∧ DCMIExceptionAction_PowerOffAndLogSEL = 0x01 ∧
      DCMIExceptionAction_LogSELOnly = 0x11) ∧
    (∀ a : Nat, a ≠ 0x00 → a ≠ 0x01 → a ≠ 0x11 → DCMIExceptionAction.String a = "unknown") ∧
    ((List.range 256).filter (fun a => a ≠ 0x00 ∧ a ≠ 0x01 ∧ a ≠ 0x11)).length = 253 ∧
    (∀ (m : Bytes) (r : GetDCMIPowerLimitResponse), 14 ≤ m.length → m.getD 0 0 = 0xDC →
      ∃ x, GetDCMIPowerLimitResponse.Unpack r m = .ret (x, none) ∧
        x.ExceptionAction = m.getD 3 0) := by
  refine ⟨rfl, rfl, rfl, ⟨rfl, rfl, rfl⟩, ?_, unrecognised_exception_actions, ?_⟩
  · intro a h0 h1 h2
    simp [DCMIExceptionAction.String, h0, h1, h2]
  · intro m r h14 h0
    exact ⟨_, GetDCMIPowerLimitResponse_Unpack_marked m r h14 h0, rfl⟩

/-! ## The optional platform attributes -/

set_option maxRecDepth 100000 in
theorem nibbles_of_octet : ∀ b < 256, b &&& 0xF0 = 16 * (b / 16) ∧ b &&& 0x0F = b % 16 := by
  decide

/-- Claim C35 fails for the channel number: `Unpack` succeeds on every payload of
at least two octets, with the slave address `p[0]` and the device revision
`p[1] AND 0x0F`, but the channel number is `p[1] AND 0xF0`, the high nibble left
in place (16 times `p[1] div 16`), not the 4-bit value `p[1] div 16`. On the
payload 0x20, 0x1F it is 0x10 (16), where bits [7:4] hold the channel 1. -/
theorem DCMICapParam_OptionalPlatformAttributes.Unpack_channel_is_not_shifted :
    DCMICapParam_OptionalPlatformAttributes.Unpack {} [0x20, 0x1F]
      = .ret ({ PowerMgmtDeviceSlaveAddr := 0x20, PewerMgmtControllerChannelNumber := 0x10,
                DeviceRevision := 0x0F }, none) ∧
    (0x1F / 16 = 1 ∧ (0x10 : Nat) ≠ 0x1F / 16 ∧ ¬ (0x10 : Nat) ≤ 15) ∧
    (∀ (p : Bytes) (r : DCMICapParam_OptionalPlatformAttributes), 2 ≤ p.length →
      DCMICapParam_OptionalPlatformAttributes.Unpack r p
        = .ret ({ PowerMgmtDeviceSlaveAddr := p.getD 0 0
                  PewerMgmtControllerChannelNumber := p.getD 1 0 &&& 0xF0
                  DeviceRevision := p.getD 1 0 &&& 0x0F }, none)) ∧
    (∀ b < 256, b &&& 0xF0 = 16 * (b / 16) ∧ b &&& 0x0F = b % 16) := by
  refine ⟨by decide, by decide, ?_, nibbles_of_octet⟩
  intro p r h
  unfold DCMICapParam_OptionalPlatformAttributes.Unpack
  rw [if_neg (by omega), idx_in_range p 0 (by omega), idx_in_range p 1 (by omega)]
  rfl

/-! ## The set power limit request and operation -/

theorem SetDCMIPowerLimitRequest_Pack_octets (req : SetDCMIPowerLimitRequest) :
    req.Pack = [0xDC, 0, 0, 0, req.ExceptionAction,
      req.PowerLimitRequested % 256, req.PowerLimitRequested / 256 % 256,
      req.CorrectionTimeLimitMilliSec % 256, req.CorrectionTimeLimitMilliSec / 256 % 256,
      req.CorrectionTimeLimitMilliSec / 65536 % 256,
      req.CorrectionTimeLimitMilliSec / 16777216 % 256,
      0, 0,
      req.StatisticsSamplingPeriodSec % 256, req.StatisticsSamplingPeriodSec / 256 % 256] :=
  rfl

/-- Claim C37: the set and get power limit layouts agree. For every request `r`
(whose power limit and sampling period are 16-bit and whose correction time is
32-bit) `Pack r` is 15 octets: 0xDC, three zero octets, the exception action, the
power limit, the correction time, two zero octets and the sampling period, the
numbers little-endian; and `Pack r` without its octet 1 is a 14-octet payload on
which `GetDCMIPowerLimitResponse.Unpack` succeeds and returns the four field
values of `r`, whatever the receiver held. -/
theorem SetDCMIPowerLimitRequest.Pack_agrees_with_get_layout (r : SetDCMIPowerLimitRequest)
    (res : GetDCMIPowerLimitResponse) (hP : r.PowerLimitRequested < 65536)
    (hC : r.CorrectionTimeLimitMilliSec < 4294967296)
    (hS : r.StatisticsSamplingPeriodSec < 65536) :
    r.Pack.length = 15 ∧
    r.Pack = [0xDC, 0, 0, 0, r.ExceptionAction,
      r.PowerLimitRequested % 256, r.PowerLimitRequested / 256,
      r.CorrectionTimeLimitMilliSec % 256, r.CorrectionTimeLimitMilliSec / 256 % 256,
      r.CorrectionTimeLimitMilliSec / 65536 % 256, r.CorrectionTimeLimitMilliSec / 16777216,
      0, 0,
      r.StatisticsSamplingPeriodSec % 256, r.StatisticsSamplingPeriodSec / 256] ∧
    (r.Pack.eraseIdx 1).length = 14 ∧
    GetDCMIPowerLimitResponse.Unpack res (r.Pack.eraseIdx 1)
      = .ret ({ ExceptionAction := r.ExceptionAction
                PowerLimitRequested := r.PowerLimitRequested
                CorrectionTimeLimitMilliSec := r.CorrectionTimeLimitMilliSec
                StatisticsSamplingPeriodSec := r.StatisticsSamplingPeriodSec }, none) := by
  have e1 : r.PowerLimitRequested / 256 % 256 = r.PowerLimitRequested / 256 := by omega
  have e2 : r.CorrectionTimeLimitMilliSec / 16777216 % 256
      = r.CorrectionTimeLimitMilliSec / 16777216 := by omega
  have e3 : r.StatisticsSamplingPeriodSec / 256 % 256 = r.StatisticsSamplingPeriodSec / 256 := by
    omega
  have hp := SetDCMIPowerLimitRequest_Pack_octets r
  rw [e1, e2, e3] at hp
  refine ⟨by rw [hp]; rfl, hp, by rw [hp]; rfl, ?_⟩
  rw [hp]
  have hu := GetDCMIPowerLimitResponse_Unpack_marked
    ([0xDC, 0, 0, 0, r.ExceptionAction,
      r.PowerLimitRequested % 256, r.PowerLimitRequested / 256,
      r.CorrectionTimeLimitMilliSec % 256, r.CorrectionTimeLimitMilliSec / 256 % 256,
      r.CorrectionTimeLimitMilliSec / 65536 % 256, r.CorrectionTimeLimitMilliSec / 16777216,
      0, 0,
      r.StatisticsSamplingPeriodSec % 256, r.StatisticsSamplingPeriodSec / 256].eraseIdx 1)
    res (by simp) (by simp)
  rw [hu]
  have a1 : r.PowerLimitRequested % 256 + 256 * (r.PowerLimitRequested / 256)
      = r.PowerLimitRequested := by omega
  have a2 : r.CorrectionTimeLimitMilliSec % 256
      + 256 * (r.CorrectionTimeLimitMilliSec / 256 % 256)
      + 65536 * (r.CorrectionTimeLimitMilliSec / 65536 % 256)
      + 16777216 * (r.CorrectionTimeLimitMilliSec / 16777216)
      = r.CorrectionTimeLimitMilliSec := by omega
  have a3 : r.StatisticsSamplingPeriodSec % 256 + 256 * (r.StatisticsSamplingPeriodSec / 256)
      = r.StatisticsSamplingPeriodSec := by omega
  simp [a1, a2, a3]

/-- Claim C37 at the action 0x11, 300 W, 1000 ms and 5 s. -/
theorem SetDCMIPowerLimitRequest.Pack_agrees_with_get_layout_witness :
    SetDCMIPowerLimitRequest.Pack
        { ExceptionAction := 0x11, PowerLimitRequested := 300,
          CorrectionTimeLimitMilliSec := 1000, StatisticsSamplingPeriodSec := 5 }
      = [0xDC, 0, 0, 0, 0x11, 0x2c, 0x01, 0xe8, 0x03, 0, 0, 0, 0, 5, 0] ∧
    GetDCMIPowerLimitResponse.Unpack {}
        [0xDC, 0, 0, 0x11, 0x2c, 0x01, 0xe8, 0x03, 0, 0, 0, 0, 5, 0]
      = .ret ({ ExceptionAction := 0x11, PowerLimitRequested := 300,
                CorrectionTimeLimitMilliSec := 1000, StatisticsSamplingPeriodSec := 5 }, none) :=
  have h := SetDCMIPowerLimitRequest.Pack_agrees_with_get_layout
    { ExceptionAction := 0x11, PowerLimitRequested := 300,
      CorrectionTimeLimitMilliSec := 1000, StatisticsSamplingPeriodSec := 5 } {}
    (by decide) (by decide) (by decide)
  ⟨h.2.1, h.2.2.2⟩

/-- Claim C39: the set power limit operation carries no caller data. Whatever the
controller and the history of the client, `SetDCMIPowerLimit` returns after
exactly one exchange, whose request is the Set Power Limit command with the
octet 0xDC followed by fourteen zero octets: the packing of the zero-valued
request, with exception action 0x00 ("No Action"), power limit 0, correction
time 0 and sampling period 0. -/
theorem Client.SetDCMIPowerLimit_sends_zero_request (bmc : Controller) (c : Client) :
    (∃ res err, Client.SetDCMIPowerLimit bmc c
      = .ret ({ sent := c.sent ++
          [(Command.CommandSetDCMIPowerLimit, 0xDC :: List.replicate 14 0)] }, res, err)) ∧
    SetDCMIPowerLimitRequest.Pack
        { ExceptionAction := 0x00, PowerLimitRequested := 0, CorrectionTimeLimitMilliSec := 0,
          StatisticsSamplingPeriodSec := 0 }
      = 0xDC :: List.replicate 14 0 ∧
    DCMIExceptionAction.String 0x00 = "No Action" := by
  refine ⟨?_, rfl, rfl⟩
  unfold Client.SetDCMIPowerLimit Client.Exchange
  have hp : SetDCMIPowerLimitRequest.Pack {} = 0xDC :: List.replicate 14 0 := rfl
  simp only [hp, SetDCMIPowerLimitRequest.Command]
  cases hb : bmc c.sent (Command.CommandSetDCMIPowerLimit, 0xDC :: List.replicate 14 0) with
  | error e => exact ⟨_, _, rfl⟩
  | ok payload =>
    rcases SetDCMIPowerLimitResponse_Unpack_outcome {} payload with ⟨e, he⟩ | ⟨r1, h1⟩
    · exact ⟨_, _, by simp only [he, Run.ret_bind, Run.pure_eq]; rfl⟩
    · exact ⟨_, _, by simp only [h1, Run.ret_bind, Run.pure_eq]; rfl⟩

/-! ## The thermal policy set subcommand -/

/-- Claim C40 fails for every string other than the six listed ones and
`default`: the last case of both switch statements is the string case
`case "default":`, so the "invalid poweroff parameter" and "invalid sel
parameter" errors are reported for the string `default` only, and any other
string is taken as `false`. With the poweroff parameter `foo` and the sel
parameter `bar` the request is built, with both exception actions false. The
request does have `ExceptionAction_PowerOffAndLogSEL` true exactly for `poweroff`
and `ExceptionAction_LogSELOnly` true exactly for `sel`. -/
theorem newCmdDCMIThermalPolicySet_accepts_unknown_parameters :
    newCmdDCMIThermalPolicySet 0x40 1 "foo" "bar" 45 300
      = .ok { EntityID := 0x40, EntityInstance := 1, ExceptionAction_PowerOffAndLogSEL := false,
              ExceptionAction_LogSELOnly := false, TemperatureLimit := 45,
              ExceptionTimeSec := 300 } ∧
    (∀ s, (∃ e, newCmdDCMIThermalPolicySet_powerOff s = .error e) ↔ s = "default") ∧
    (∀ s, (∃ e, newCmdDCMIThermalPolicySet_sel s = .error e) ↔ s = "default") ∧
    (∀ s, newCmdDCMIThermalPolicySet_powerOff s = .ok true ↔ s = "poweroff") ∧
    (∀ s, newCmdDCMIThermalPolicySet_sel s = .ok true ↔ s = "sel") ∧
    newCmdDCMIThermalPolicySet_powerOff "default"
      = .error (.new "invalid poweroff parameter: default") ∧
    newCmdDCMIThermalPolicySet_sel "default"
      = .error (.new "invalid sel parameter: default") := by
  refine ⟨rfl, ?_, ?_, ?_, ?_, rfl, rfl⟩
  · intro s
    unfold newCmdDCMIThermalPolicySet_powerOff
    constructor
    · rintro ⟨e, h⟩
      split_ifs at h with h1 h2 h3
      exact h3
    · rintro rfl
      exact ⟨_, rfl⟩
  · intro s
    unfold newCmdDCMIThermalPolicySet_sel
    constructor
    · rintro ⟨e, h⟩
      split_ifs at h with h1 h2 h3
      exact h3
    · rintro rfl
      exact ⟨_, rfl⟩
  · intro s
    unfold newCmdDCMIThermalPolicySet_powerOff
    constructor
    · intro h
      split_ifs at h with h1 h2 h3
      · exact h1
      all_goals cases h
    · rintro rfl
      rfl
  · intro s
    unfold newCmdDCMIThermalPolicySet_sel
    constructor
    · intro h
      split_ifs at h with h1 h2 h3
      · exact h1
      all_goals cases h
    · rintro rfl
      rfl

/-! ## The DCMI configuration aggregate -/

theorem GetDCMIConfigurationParamsRequest_Pack_octets (req : GetDCMIConfigurationParamsRequest) :
    req.Pack = [GroupExtensionDCMI, req.ParamSelector, req.SetSelector] := rfl

theorem GetDCMIConfigurations_ActivateDHCP_fetched (bmc : Controller) (s : Client × DCMIConfig)
    (x : DCMIConfigParam_ActivateDHCP)
    (h : configFetched bmc s.1.sent DCMIConfigParamSelector_ActivateDHCP
      (DCMIConfigParam_ActivateDHCP.Unpack {}) x) :
    GetDCMIConfigurations_ActivateDHCP bmc s
      = .ret (({ sent := s.1.sent ++ [(Command.CommandGetDCMIConfigurationParams,
          [GroupExtensionDCMI, DCMIConfigParamSelector_ActivateDHCP, 0])] },
        { s.2 with ActivateDHCP := x }), none) := by
  obtain ⟨payload, res, h1, h2, h3⟩ := h
  unfold GetDCMIConfigurations_ActivateDHCP Client.Exchange
  simp only [GetDCMIConfigurationParamsRequest.Command,
    GetDCMIConfigurationParamsRequest_Pack_octets, h1, h2, h3, Run.ret_bind, Run.pure_eq]

theorem GetDCMIConfigurations_DiscoveryConfiguration_fetched (bmc : Controller) (s : Client × DCMIConfig)
    (x : DCMIConfigParam_DiscoveryConfiguration)
    (h : configFetched bmc s.1.sent DCMIConfigParamSelector_DiscoveryConfiguration
      (DCMIConfigParam_DiscoveryConfiguration.Unpack {}) x) :
    GetDCMIConfigurations_DiscoveryConfiguration bmc s
      = .ret (({ sent := s.1.sent ++ [(Command.CommandGetDCMIConfigurationParams,
          [GroupExtensionDCMI, DCMIConfigParamSelector_DiscoveryConfiguration, 0])] },
        { s.2 with DiscoveryConfiguration := x }), none) := by
  obtain ⟨payload, res, h1, h2, h3⟩ := h
  unfold GetDCMIConfigurations_DiscoveryConfiguration Client.Exchange
  simp only [GetDCMIConfigurationParamsRequest.Command,
    GetDCMIConfigurationParamsRequest_Pack_octets, h1, h2, h3, Run.ret_bind, Run.pure_eq]

theorem GetDCMIConfigurations_DHCPTiming1_fetched (bmc : Controller) (s : Client × DCMIConfig)
    (x : DCMIConfigParam_DHCPTiming1)
    (h : configFetched bmc s.1.sent DCMIConfigParamSelector_DHCPTiming1
      (DCMIConfigParam_DHCPTiming1.Unpack {}) x) :
    GetDCMIConfigurations_DHCPTiming1 bmc s
      = .ret (({ sent := s.1.sent ++ [(Command.CommandGetDCMIConfigurationParams,
          [GroupExtensionDCMI, DCMIConfigParamSelector_DHCPTiming1, 0])] },
        { s.2 with DHCPTiming1 := x }), none) := by
  obtain ⟨payload, res, h1, h2, h3⟩ := h
  unfold GetDCMIConfigurations_DHCPTiming1 Client.Exchange
  simp only [GetDCMIConfigurationParamsRequest.Command,
    GetDCMIConfigurationParamsRequest_Pack_octets, h1, h2, h3, Run.ret_bind, Run.pure_eq]

theorem GetDCMIConfigurations_DHCPTiming2_fetched (bmc : Controller) (s : Client × DCMIConfig)
    (x : DCMIConfigParam_DHCPTiming2)
    (h : configFetched bmc s.1.sent DCMIConfigParamSelector_DHCPTiming2
      (DCMIConfigParam_DHCPTiming2.Unpack {}) x) :
    GetDCMIConfigurations_DHCPTiming2 bmc s
      = .ret (({ sent := s.1.sent ++ [(Command.CommandGetDCMIConfigurationParams,
          [GroupExtensionDCMI, DCMIConfigParamSelector_DHCPTiming2, 0])] },
        { s.2 with DHCPTiming2 := x }), none) := by
  obtain ⟨payload, res, h1, h2, h3⟩ := h
  unfold GetDCMIConfigurations_DHCPTiming2 Client.Exchange
  simp only [GetDCMIConfigurationParamsRequest.Command,
    GetDCMIConfigurationParamsRequest_Pack_octets, h1, h2, h3, Run.ret_bind, Run.pure_eq]

theorem GetDCMIConfigurations_DHCPTiming3_fetched (bmc : Controller) (s : Client × DCMIConfig)
    (x : DCMIConfigParam_DHCPTiming3)
    (h : configFetched bmc s.1.sent DCMIConfigParamSelector_DHCPTiming3
      (DCMIConfigParam_DHCPTiming3.Unpack {}) x) :
    GetDCMIConfigurations_DHCPTiming3 bmc s
      = .ret (({ sent := s.1.sent ++ [(Command.CommandGetDCMIConfigurationParams,
          [GroupExtensionDCMI, DCMIConfigParamSelector_DHCPTiming3, 0])] },
        { s.2 with DHCPTiming3 := x }), none) := by
  obtain ⟨payload, res, h1, h2, h3⟩ := h
  unfold GetDCMIConfigurations_DHCPTiming3 Client.Exchange
  simp only [GetDCMIConfigurationParamsRequest.Command,
    GetDCMIConfigurationParamsRequest_Pack_octets, h1, h2, h3, Run.ret_bind, Run.pure_eq]

/-- Claim C31, as stated, fails: the aggregate has five parameters and
`GetDCMIConfigurations` issues five exchanges. On a controller that answers
every request it returns five parameters after the five requests for the
selectors 0x01..0x05, not after four. -/
theorem Client.GetDCMIConfigurations_issues_five_exchanges :
    Client.GetDCMIConfigurations configBmc {}
      = .ret ({ sent :=
          [(Command.CommandGetDCMIConfigurationParams, [0xDC, 0x01, 0]),
       (Command.CommandGetDCMIConfigurationParams, [0xDC, 0x02, 0]),
       (Command.CommandGetDCMIConfigurationParams, [0xDC, 0x03, 0]),
       (Command.CommandGetDCMIConfigurationParams, [0xDC, 0x04, 0]),
       (Command.CommandGetDCMIConfigurationParams, [0xDC, 0x05, 0])] },
        some { ActivateDHCP := { Activate := false },
               DiscoveryConfiguration := { },
               DHCPTiming1 := { InitialTimeoutIntervalSec := 4 },
               DHCPTiming2 := { ServerContactTimeoutIntervalSec := 4 },
               DHCPTiming3 := { ServerContactRetryIntervalSec := 4 } }, none) ∧
    (configRequests 5).length = 5 ∧ (configRequests 5).length ≠ 4 := by
  decide

/-- Claim C31, amended: the aggregate `DCMIConfig` consists of five independently
fetched configuration parameters, and when every exchange succeeds
`GetDCMIConfigurations` issues exactly five Get DCMI Configuration Parameters
exchanges, for the selectors 0x01, 0x02, 0x03, 0x04, 0x05 in that order, each
with set selector 0, and returns the five parameters, each decoded from the
parameter data of the reply to its own request. -/
theorem Client.GetDCMIConfigurations_five_parameters (bmc : Controller) (c : Client)
    (x1 : DCMIConfigParam_ActivateDHCP) (x2 : DCMIConfigParam_DiscoveryConfiguration)
    (x3 : DCMIConfigParam_DHCPTiming1) (x4 : DCMIConfigParam_DHCPTiming2)
    (x5 : DCMIConfigParam_DHCPTiming3)
    (h1 : configFetched bmc (c.sent ++ configRequests 0) 0x01
        (DCMIConfigParam_ActivateDHCP.Unpack {}) x1)
    (h2 : configFetched bmc (c.sent ++ configRequests 1) 0x02
        (DCMIConfigParam_DiscoveryConfiguration.Unpack {}) x2)
    (h3 : configFetched bmc (c.sent ++ configRequests 2) 0x03
        (DCMIConfigParam_DHCPTiming1.Unpack {}) x3)
    (h4 : configFetched bmc (c.sent ++ configRequests 3) 0x04
        (DCMIConfigParam_DHCPTiming2.Unpack {}) x4)
    (h5 : configFetched bmc (c.sent ++ configRequests 4) 0x05
        (DCMIConfigParam_DHCPTiming3.Unpack {}) x5) :
    Client.GetDCMIConfigurations bmc c
      = .ret ({ sent := c.sent ++ configRequests 5 },
          some { ActivateDHCP := x1, DiscoveryConfiguration := x2, DHCPTiming1 := x3,
                 DHCPTiming2 := x4, DHCPTiming3 := x5 }, none) ∧
    configRequests 5 =
      [(Command.CommandGetDCMIConfigurationParams, [0xDC, 0x01, 0]),
       (Command.CommandGetDCMIConfigurationParams, [0xDC, 0x02, 0]),
       (Command.CommandGetDCMIConfigurationParams, [0xDC, 0x03, 0]),
       (Command.CommandGetDCMIConfigurationParams, [0xDC, 0x04, 0]),
       (Command.CommandGetDCMIConfigurationParams, [0xDC, 0x05, 0])] := by
  have s1 : DCMIConfigParamSelector_ActivateDHCP = 0x01 := rfl
  have s2 : DCMIConfigParamSelector_DiscoveryConfiguration = 0x02 := rfl
  have s3 : DCMIConfigParamSelector_DHCPTiming1 = 0x03 := rfl
  have s4 : DCMIConfigParamSelector_DHCPTiming2 = 0x04 := rfl
  have s5 : DCMIConfigParamSelector_DHCPTiming3 = 0x05 := rfl
  have sg : GroupExtensionDCMI = 0xDC := rfl
  have r0 : configRequests 0 = [] := rfl
  have r1 : configRequests 1 = [(Command.CommandGetDCMIConfigurationParams, [0xDC, 0x01, 0])] := rfl
  have r2 : configRequests 2 = [(Command.CommandGetDCMIConfigurationParams, [0xDC, 0x01, 0]), (Command.CommandGetDCMIConfigurationParams, [0xDC, 0x02, 0])] := rfl
  have r3 : configRequests 3 = [(Command.CommandGetDCMIConfigurationParams, [0xDC, 0x01, 0]), (Command.CommandGetDCMIConfigurationParams, [0xDC, 0x02, 0]), (Command.CommandGetDCMIConfigurationParams, [0xDC, 0x03, 0])] := rfl
  have r4 : configRequests 4 = [(Command.CommandGetDCMIConfigurationParams, [0xDC, 0x01, 0]), (Command.CommandGetDCMIConfigurationParams, [0xDC, 0x02, 0]), (Command.CommandGetDCMIConfigurationParams, [0xDC, 0x03, 0]), (Command.CommandGetDCMIConfigurationParams, [0xDC, 0x04, 0])] := rfl
  have r5 : configRequests 5 = [(Command.CommandGetDCMIConfigurationParams, [0xDC, 0x01, 0]), (Command.CommandGetDCMIConfigurationParams, [0xDC, 0x02, 0]), (Command.CommandGetDCMIConfigurationParams, [0xDC, 0x03, 0]), (Command.CommandGetDCMIConfigurationParams, [0xDC, 0x04, 0]), (Command.CommandGetDCMIConfigurationParams, [0xDC, 0x05, 0])] := rfl
  refine ⟨?_, r5⟩
  simp only [r0, r1, r2, r3, r4, r5, List.append_nil] at h1 h2 h3 h4 h5 ⊢
  unfold Client.GetDCMIConfigurations
  have e1 := GetDCMIConfigurations_ActivateDHCP_fetched bmc
    (c, {}) x1
    (by simpa only [s1, s2, s3, s4, s5, sg, List.append_assoc, List.cons_append, List.nil_append] using h1)
  simp only [s1, s2, s3, s4, s5, sg, List.append_assoc, List.cons_append, List.nil_append] at e1
  rw [e1, Run.ret_none_andThen]
  have e2 := GetDCMIConfigurations_DiscoveryConfiguration_fetched bmc
    (({ sent := c.sent ++ [(Command.CommandGetDCMIConfigurationParams, [0xDC, 0x01, 0])] } : Client),
      ({ ActivateDHCP := x1 } : DCMIConfig)) x2
    (by simpa only [s1, s2, s3, s4, s5, sg, List.append_assoc, List.cons_append, List.nil_append] using h2)
  simp only [s1, s2, s3, s4, s5, sg, List.append_assoc, List.cons_append, List.nil_append] at e2
  rw [e2, Run.ret_none_andThen]
  have e3 := GetDCMIConfigurations_DHCPTiming1_fetched bmc
    (({ sent := c.sent ++ [(Command.CommandGetDCMIConfigurationParams, [0xDC, 0x01, 0]), (Command.CommandGetDCMIConfigurationParams, [0xDC, 0x02, 0])] } : Client),
      ({ ActivateDHCP := x1, DiscoveryConfiguration := x2 } : DCMIConfig)) x3
    (by simpa only [s1, s2, s3, s4, s5, sg, List.append_assoc, List.cons_append, List.nil_append] using h3)
  simp only [s1, s2, s3, s4, s5, sg, List.append_assoc, List.cons_append, List.nil_append] at e3
  rw [e3, Run.ret_none_andThen]
  have e4 := GetDCMIConfigurations_DHCPTiming2_fetched bmc
    (({ sent := c.sent ++ [(Command.CommandGetDCMIConfigurationParams, [0xDC, 0x01, 0]), (Command.CommandGetDCMIConfigurationParams, [0xDC, 0x02, 0]), (Command.CommandGetDCMIConfigurationParams, [0xDC, 0x03, 0])] } : Client),
      ({ ActivateDHCP := x1, DiscoveryConfiguration := x2, DHCPTiming1 := x3 } : DCMIConfig)) x4
    (by simpa only [s1, s2, s3, s4, s5, sg, List.append_assoc, List.cons_append, List.nil_append] using h4)
  simp only [s1, s2, s3, s4, s5, sg, List.append_assoc, List.cons_append, List.nil_append] at e4
  rw [e4, Run.ret_none_andThen]
  have e5 := GetDCMIConfigurations_DHCPTiming3_fetched bmc
    (({ sent := c.sent ++ [(Command.CommandGetDCMIConfigurationParams, [0xDC, 0x01, 0]), (Command.CommandGetDCMIConfigurationParams, [0xDC, 0x02, 0]), (Command.CommandGetDCMIConfigurationParams, [0xDC, 0x03, 0]), (Command.CommandGetDCMIConfigurationParams, [0xDC, 0x04, 0])] } : Client),
      ({ ActivateDHCP := x1, DiscoveryConfiguration := x2, DHCPTiming1 := x3, DHCPTiming2 := x4 } : DCMIConfig)) x5
    (by simpa only [s1, s2, s3, s4, s5, sg, List.append_assoc, List.cons_append, List.nil_append] using h5)
  simp only [s1, s2, s3, s4, s5, sg, List.append_assoc, List.cons_append, List.nil_append] at e5
  rw [e5]

/-- Claim C31, amended, at a controller that answers every request with the
parameter octet 4. -/
theorem Client.GetDCMIConfigurations_five_parameters_witness :
    Client.GetDCMIConfigurations configBmc {}
      = .ret ({ sent := configRequests 5 },
          some { ActivateDHCP := { Activate := false },
                 DiscoveryConfiguration := { },
                 DHCPTiming1 := { InitialTimeoutIntervalSec := 4 },
                 DHCPTiming2 := { ServerContactTimeoutIntervalSec := 4 },
                 DHCPTiming3 := { ServerContactRetryIntervalSec := 4 } }, none) := by
  have h := (Client.GetDCMIConfigurations_five_parameters configBmc {} _ _ _ _ _
    ⟨_, _, rfl, rfl, rfl⟩ ⟨_, _, rfl, rfl, rfl⟩ ⟨_, _, rfl, rfl, rfl⟩ ⟨_, _, rfl, rfl, rfl⟩
    ⟨_, _, rfl, rfl, rfl⟩).1
  simpa using h

/-! ## Re-encoding a decoded event filter -/

theorem bytes_of_length_20 (d : Bytes) (h : d.length = 20) :
    ∃ d0 d1 d2 d3 d4 d5 d6 d7 d8 d9 d10 d11 d12 d13 d14 d15 d16 d17 d18 d19, d = [d0, d1, d2, d3, d4, d5, d6, d7, d8, d9, d10, d11, d12, d13, d14, d15, d16, d17, d18, d19] := by
  rcases d with _ | ⟨d0, d⟩
  · simp at h
  rcases d with _ | ⟨d1, d⟩
  · simp at h
  rcases d with _ | ⟨d2, d⟩
  · simp at h
  rcases d with _ | ⟨d3, d⟩
  · simp at h
  rcases d with _ | ⟨d4, d⟩
  · simp at h
  rcases d with _ | ⟨d5, d⟩
  · simp at h
  rcases d with _ | ⟨d6, d⟩
  · simp at h
  rcases d with _ | ⟨d7, d⟩
  · simp at h
  rcases d with _ | ⟨d8, d⟩
  · simp at h
  rcases d with _ | ⟨d9, d⟩
  · simp at h
  rcases d with _ | ⟨d10, d⟩
  · simp at h
  rcases d with _ | ⟨d11, d⟩
  · simp at h
  rcases d with _ | ⟨d12, d⟩
  · simp at h
  rcases d with _ | ⟨d13, d⟩
  · simp at h
  rcases d with _ | ⟨d14, d⟩
  · simp at h
  rcases d with _ | ⟨d15, d⟩
  · simp at h
  rcases d with _ | ⟨d16, d⟩
  · simp at h
  rcases d with _ | ⟨d17, d⟩
  · simp at h
  rcases d with _ | ⟨d18, d⟩
  · simp at h
  rcases d with _ | ⟨d19, d⟩
  · simp at h
  rcases d with _ | ⟨e, d⟩
  · exact ⟨d0, d1, d2, d3, d4, d5, d6, d7, d8, d9, d10, d11, d12, d13, d14, d15, d16, d17, d18, d19, rfl⟩
  · simp at h

set_option maxRecDepth 100000 in
theorem eventFilter_octets_reencoded : ∀ b < 256,
    setOrClearBit7 ((((b >>> 5) &&& 0x03) <<< 5) % 256) (isBit7Set b) = b &&& 0xE0 ∧
    setOrClearBit0 (setOrClearBit1 (setOrClearBit2 (setOrClearBit3 (setOrClearBit4
      (setOrClearBit5 (setOrClearBit6 0 (isBit6Set b)) (isBit5Set b)) (isBit4Set b))
      (isBit3Set b)) (isBit2Set b)) (isBit1Set b)) (isBit0Set b) = b &&& 0x7F ∧
    ((((b >>> 4) &&& 0x07) <<< 4) % 256) ||| ((b &&& 0x0f) &&& 0x0f) = b &&& 0x7F := by
  decide

set_option maxRecDepth 100000 in
theorem reserved_bit_masks : ∀ b < 256,
    (b &&& 0xE0 < 256 ∧ b &&& 0x7F < 256) ∧
    ((b &&& 0xE0) &&& 0xE0 = b &&& 0xE0 ∧ (b &&& 0x7F) &&& 0x7F = b &&& 0x7F) ∧
    (b &&& 0x1F = 0 → b &&& 0xE0 = b) ∧ (b &&& 0x80 = 0 → b &&& 0x7F = b) := by
  decide

theorem PEFEventFilter_Pack_octets (x : PEFEventFilter) :
    x.Pack =
      [setOrClearBit7 ((x.FilterType <<< 5) % 256) x.FilterEnabled,
       setOrClearBit0 (setOrClearBit1 (setOrClearBit2 (setOrClearBit3 (setOrClearBit4
         (setOrClearBit5 (setOrClearBit6 0 x.ActionGroupControlOperation)
           x.ActionDiagnosticInterrupt) x.ActionOEM) x.ActionPowerCycle) x.ActionReset)
         x.ActionPowerOff) x.ActionAlert,
       ((x.GroupControlSelector <<< 4) % 256) ||| (x.AlertPolicyNumber &&& 0x0f),
       x.EventSeverity, x.GeneratorID % 256, x.GeneratorID / 256 % 256,
       x.SensorType, x.SensorNumber, x.EventReadingType,
       x.EventData1EventOffsetMask % 256, x.EventData1EventOffsetMask / 256 % 256,
       x.EventData1ANDMask, x.EventData1Compare1, x.EventData1Compare2,
       x.EventData2ANDMask, x.EventData2Compare1, x.EventData2Compare2,
       x.EventData3ANDMask, x.EventData3Compare1, x.EventData3Compare2] := by
  simp [PEFEventFilter.Pack, make, packUint16L]

theorem PEFEventFilter_Unpack_octets (d0 d1 d2 d3 d4 d5 d6 d7 d8 d9 d10 d11 d12 d13 d14 d15 d16 d17 d18 d19 : Nat) (r : PEFEventFilter) :
    PEFEventFilter.Unpack r [d0, d1, d2, d3, d4, d5, d6, d7, d8, d9, d10, d11, d12, d13, d14, d15, d16, d17, d18, d19]
      = .ret ({ FilterEnabled := isBit7Set d0
                FilterType := (d0 >>> 5) &&& 0x03
                ActionGroupControlOperation := isBit6Set d1
                ActionDiagnosticInterrupt := isBit5Set d1
                ActionOEM := isBit4Set d1
                ActionPowerCycle := isBit3Set d1
                ActionReset := isBit2Set d1
                ActionPowerOff := isBit1Set d1
                ActionAlert := isBit0Set d1
                GroupControlSelector := (d2 >>> 4) &&& 0x07
                AlertPolicyNumber := d2 &&& 0x0f
                EventSeverity := d3
                GeneratorID := d4 + 256 * d5
                SensorType := d6
                SensorNumber := d7
                EventReadingType := d8
                EventData1EventOffsetMask := d9 + 256 * d10
                EventData1ANDMask := d11
                EventData1Compare1 := d12
                EventData1Compare2 := d13
                EventData2ANDMask := d14
                EventData2Compare1 := d15
                EventData2Compare2 := d16
                EventData3ANDMask := d17
                EventData3Compare1 := d18
                EventData3Compare2 := d19 }, none) := by
  simp [PEFEventFilter.Unpack, idx, unpackUint16L]

theorem PEFEventFilter_reencode (d0 d1 d2 d3 d4 d5 d6 d7 d8 d9 d10 d11 d12 d13 d14 d15 d16 d17 d18 d19 : Nat) (r : PEFEventFilter)
    (h0 : d0 < 256) (h1 : d1 < 256) (h2 : d2 < 256) (h4 : d4 < 256) (h5 : d5 < 256)
    (h9 : d9 < 256) (h10 : d10 < 256) :
    ∃ x, PEFEventFilter.Unpack r [d0, d1, d2, d3, d4, d5, d6, d7, d8, d9, d10, d11, d12, d13, d14, d15, d16, d17, d18, d19] = .ret (x, none) ∧
      x.Pack = [d0 &&& 0xE0, d1 &&& 0x7F, d2 &&& 0x7F, d3, d4, d5, d6, d7, d8, d9, d10, d11, d12, d13, d14, d15, d16, d17, d18, d19] := by
  obtain ⟨e0, _, _⟩ := eventFilter_octets_reencoded d0 h0
  obtain ⟨_, e1, _⟩ := eventFilter_octets_reencoded d1 h1
  obtain ⟨_, _, e2⟩ := eventFilter_octets_reencoded d2 h2
  have g1 : (d4 + 256 * d5) % 256 = d4 := by omega
  have g2 : (d4 + 256 * d5) / 256 % 256 = d5 := by omega
  have g3 : (d9 + 256 * d10) % 256 = d9 := by omega
  have g4 : (d9 + 256 * d10) / 256 % 256 = d10 := by omega
  refine ⟨_, PEFEventFilter_Unpack_octets d0 d1 d2 d3 d4 d5 d6 d7 d8 d9 d10 d11 d12 d13 d14 d15 d16 d17 d18 d19 r, ?_⟩
  rw [PEFEventFilter_Pack_octets]
  simp only [e0, e1, e2, g1, g2, g3, g4]

/-- Claim C38: re-encoding a decoded event filter only clears reserved bits. For
every input `d` of 20 octets, `Unpack` succeeds and `Pack` of the decoded record
is `d` with bits 0..4 of octet 0, bit 7 of octet 1 and bit 7 of octet 2 cleared
(octet 0 masked with 0xE0, octets 1 and 2 with 0x7F); decoding and re-encoding
that result gives it back, and the result is `d` itself when the reserved bits
of `d` are zero. -/
theorem PEFEventFilter.Pack_Unpack_clears_reserved_bits (d : Bytes) (r : PEFEventFilter)
    (hlen : d.length = 20) (hoct : ∀ b ∈ d, b < 256) :
    ∃ x, PEFEventFilter.Unpack r d = .ret (x, none) ∧
      x.Pack = ((d.set 0 (d.getD 0 0 &&& 0xE0)).set 1 (d.getD 1 0 &&& 0x7F)).set 2
        (d.getD 2 0 &&& 0x7F) ∧
      (∃ y, PEFEventFilter.Unpack r x.Pack = .ret (y, none) ∧ y.Pack = x.Pack) ∧
      (d.getD 0 0 &&& 0x1F = 0 → d.getD 1 0 &&& 0x80 = 0 → d.getD 2 0 &&& 0x80 = 0 →
        x.Pack = d) := by
  obtain ⟨d0, d1, d2, d3, d4, d5, d6, d7, d8, d9, d10, d11, d12, d13, d14, d15, d16, d17, d18, d19, rfl⟩ := bytes_of_length_20 d hlen
  have h0 : d0 < 256 := hoct d0 (by simp)
  have h1 : d1 < 256 := hoct d1 (by simp)
  have h2 : d2 < 256 := hoct d2 (by simp)
  have h4 : d4 < 256 := hoct d4 (by simp)
  have h5 : d5 < 256 := hoct d5 (by simp)
  have h9 : d9 < 256 := hoct d9 (by simp)
  have h10 : d10 < 256 := hoct d10 (by simp)
  obtain ⟨x, hx, hp⟩ := PEFEventFilter_reencode d0 d1 d2 d3 d4 d5 d6 d7 d8 d9 d10 d11 d12 d13 d14 d15 d16 d17 d18 d19 r h0 h1 h2 h4 h5 h9 h10
  obtain ⟨⟨m0, _⟩, ⟨i0, _⟩, z0, _⟩ := reserved_bit_masks d0 h0
  obtain ⟨⟨_, m1⟩, ⟨_, i1⟩, _, z1⟩ := reserved_bit_masks d1 h1
  obtain ⟨⟨_, m2⟩, ⟨_, i2⟩, _, z2⟩ := reserved_bit_masks d2 h2
  obtain ⟨y, hy, hq⟩ := PEFEventFilter_reencode (d0 &&& 0xE0) (d1 &&& 0x7F) (d2 &&& 0x7F)
    d3 d4 d5 d6 d7 d8 d9 d10 d11 d12 d13 d14 d15 d16 d17 d18 d19 r m0 m1 m2 h4 h5 h9 h10
  refine ⟨x, hx, ?_, ⟨y, ?_, ?_⟩, ?_⟩
  · rw [hp]
    simp
  · rw [hp]
    exact hy
  · rw [hq, hp, i0, i1, i2]
  · intro a0 a1 a2
    simp only [List.getD_cons_zero, List.getD_cons_succ] at a0 a1 a2
    rw [hp, z0 a0, z1 a1, z2 a2]

/-- Claim C38 at an input with every reserved bit set. -/
theorem PEFEventFilter.Pack_Unpack_clears_reserved_bits_witness :
    ∃ x, PEFEventFilter.Unpack {}
        [0xFF, 0xFF, 0xFF, 3, 4, 5, 6, 7, 8, 9, 10, 11, 12, 13, 14, 15, 16, 17, 18, 19]
        = .ret (x, none) ∧
      x.Pack = [0xE0, 0x7F, 0x7F, 3, 4, 5, 6, 7, 8, 9, 10, 11, 12, 13, 14, 15, 16, 17, 18, 19] :=
  let ⟨x, hx, hp, _⟩ := PEFEventFilter.Pack_Unpack_clears_reserved_bits
    [0xFF, 0xFF, 0xFF, 3, 4, 5, 6, 7, 8, 9, 10, 11, 12, 13, 14, 15, 16, 17, 18, 19] {}
    (by decide) (by decide)
  ⟨x, hx, hp⟩

/-! ## Decoders and the prior state of the receiver -/

theorem DCMICapParam_EnhancedSystemPowerStatisticsAttributes_Unpack_appends
    (r : DCMICapParam_EnhancedSystemPowerStatisticsAttributes) (p : Bytes)
    (h2 : 2 ≤ p.length) (hcount : 1 + p.getD 0 0 ≤ p.length) :
    DCMICapParam_EnhancedSystemPowerStatisticsAttributes.Unpack r p
      = .ret ({ RollingAverageTimePeriodsSec := r.RollingAverageTimePeriodsSec ++
                  ((p.drop 1).take (p.getD 0 0)).map rollingAveragePeriodSec }, none) := by
  unfold DCMICapParam_EnhancedSystemPowerStatisticsAttributes.Unpack
  rw [if_neg (by omega), idx_in_range p 0 (by omega)]
  simp only [Run.ret_bind]
  rw [if_neg (by omega), unpackBytes_in_range p 1 _ (by omega), foldl_append_singleton]
  rfl

theorem PEFAlertPolicy_Unpack_fresh (r1 r2 : PEFAlertPolicy) (data : Bytes)
    (h : 3 ≤ data.length) : PEFAlertPolicy.Unpack r1 data = PEFAlertPolicy.Unpack r2 data := by
  unfold PEFAlertPolicy.Unpack
  rw [if_neg (by omega), if_neg (by omega)]

theorem GetDCMICapabilitiesInfoResponse_Unpack_fresh (r1 r2 : GetDCMICapabilitiesInfoResponse)
    (data : Bytes) (x : GetDCMICapabilitiesInfoResponse)
    (h : GetDCMICapabilitiesInfoResponse.Unpack r1 data = .ret (x, none)) :
    GetDCMICapabilitiesInfoResponse.Unpack r2 data = .ret (x, none) := by
  unfold GetDCMICapabilitiesInfoResponse.Unpack at h ⊢
  by_cases hl : data.length < 5
  · rw [if_pos hl] at h
    cases h
  · rw [if_neg hl] at h ⊢
    by_cases hg : (unpackUint8 data 0).1 ≠ GroupExtensionDCMI
    · simp only [hg, ne_eq, not_false_eq_true, if_true] at h
      cases h
    · simp only [hg, if_false] at h ⊢
      exact h

theorem PEFConfigParam_AlertStrings_Unpack_fresh (r1 r2 : PEFConfigParam_AlertStrings)
    (data : Bytes) (h : 3 ≤ data.length) :
    PEFConfigParam_AlertStrings.Unpack r1 data = PEFConfigParam_AlertStrings.Unpack r2 data := by
  unfold PEFConfigParam_AlertStrings.Unpack
  rw [if_neg (by omega), if_neg (by omega)]

/-- Claim C36 fails for the two decoders it names. The enhanced power statistics
`Unpack` appends the decoded periods to the list the receiver already holds, so
two receivers with different lists end in different states and unpacking the
same octets twice doubles the periods; and `GetPEFConfigParametersResponse.Unpack`
leaves `ConfigData` as it was on a one-octet reply, so a receiver that held
configuration data still holds it after a revision-only reply. Sibling decoders
(`PEFAlertPolicy`, `GetDCMICapabilitiesInfoResponse`, `PEFConfigParam_AlertStrings`)
do end in a state that depends on the input alone. -/
theorem Unpack_result_depends_on_receiver :
    (DCMICapParam_EnhancedSystemPowerStatisticsAttributes.Unpack {} [1, 5]
        = .ret ({ RollingAverageTimePeriodsSec := [5] }, none) ∧
      DCMICapParam_EnhancedSystemPowerStatisticsAttributes.Unpack
          { RollingAverageTimePeriodsSec := [5] } [1, 5]
        = .ret ({ RollingAverageTimePeriodsSec := [5, 5] }, none)) ∧
    (∀ (r : DCMICapParam_EnhancedSystemPowerStatisticsAttributes) (p : Bytes),
      2 ≤ p.length → 1 + p.getD 0 0 ≤ p.length →
      DCMICapParam_EnhancedSystemPowerStatisticsAttributes.Unpack r p
        = .ret ({ RollingAverageTimePeriodsSec := r.RollingAverageTimePeriodsSec ++
                    ((p.drop 1).take (p.getD 0 0)).map rollingAveragePeriodSec }, none)) ∧
    (GetPEFConfigParametersResponse.Unpack {} [0x11]
        = .ret ({ Revision := 0x11, ConfigData := [] }, none) ∧
      GetPEFConfigParametersResponse.Unpack { Revision := 0x11, ConfigData := [1, 2] } [0x11]
        = .ret ({ Revision := 0x11, ConfigData := [1, 2] }, none)) ∧
    (∀ (r : GetPEFConfigParametersResponse) (b : Nat),
      GetPEFConfigParametersResponse.Unpack r [b]
        = .ret ({ Revision := b, ConfigData := r.ConfigData }, none)) ∧
    (∀ (r1 r2 : PEFAlertPolicy) (data : Bytes), 3 ≤ data.length →
      PEFAlertPolicy.Unpack r1 data = PEFAlertPolicy.Unpack r2 data) ∧
    (∀ (r1 r2 x : GetDCMICapabilitiesInfoResponse) (data : Bytes),
      GetDCMICapabilitiesInfoResponse.Unpack r1 data = .ret (x, none) →
      GetDCMICapabilitiesInfoResponse.Unpack r2 data = .ret (x, none)) ∧
    (∀ (r1 r2 : PEFConfigParam_AlertStrings) (data : Bytes), 3 ≤ data.length →
      PEFConfigParam_AlertStrings.Unpack r1 data
        = PEFConfigParam_AlertStrings.Unpack r2 data) := by
  refine ⟨by decide, DCMICapParam_EnhancedSystemPowerStatisticsAttributes_Unpack_appends,
    by decide, ?_, PEFAlertPolicy_Unpack_fresh,
    fun r1 r2 x data h => GetDCMICapabilitiesInfoResponse_Unpack_fresh r1 r2 data x h,
    PEFConfigParam_AlertStrings_Unpack_fresh⟩
  intro r b
  simp [GetPEFConfigParametersResponse.Unpack, idx]

/-! ## The exchanges of the PEF aggregation on a controller that answers them all -/

theorem Run.succeeded_eq_true {α : Type} {r : Run (α × Option IpmiError)}
    (h : r.succeeded = true) : ∃ p, r = .ret (p, none) := by
  match r, h with
  | .ret (p, none), _ => exact ⟨p, rfl⟩

theorem pefFormatReturns_format (bmc : Controller) (before : List Sent) (set block : Nat)
    (payload : Bytes) (res : GetPEFConfigParametersResponse) (p : PEFConfigParam_EventFilter)
    (h : pefFormatReturns bmc before (pefRequest 0x6 set block) = true)
    (hb : bmc before (pefRequest 0x6 set block) = .ok payload)
    (hres : GetPEFConfigParametersResponse.Unpack {} payload = .ret (res, none))
    (hp : PEFConfigParam_EventFilter.Unpack {} res.ConfigData = .ret (p, none)) :
    PEFConfigParam_EventFilter.Format p = .ret () := by
  unfold pefFormatReturns at h
  rw [if_pos (by rfl), hb] at h
  simp only [hres, hp] at h
  exact of_decide_eq_true h

/-- On a succeeding exchange after which `Format` returns,
`GetPEFConfigForParameter` returns the parameter decoded from the configuration
data of the reply, having sent the one request. -/
theorem GetPEFConfigForParameter_succeeds {P : Type} [PEFConfigParameter P] (bmc : Controller)
    (c : Client) (param : P) (sel set block : Nat)
    (hsel0 : PEFConfigParameter.PEFConfigParamSelector P &&& 0x3f = sel)
    (hsel : ∀ data, pefConfigDataDecodes sel data
      = (PEFConfigParameter.Unpack param data).succeeded)
    (hfmt : ∀ payload res p, bmc c.sent (pefRequest sel set block) = .ok payload →
      GetPEFConfigParametersResponse.Unpack {} payload = .ret (res, none) →
      PEFConfigParameter.Unpack param res.ConfigData = .ret (p, none) →
      PEFConfigParameter.Format p = .ret ())
    (hok : pefExchangeSucceeds bmc c.sent (pefRequest sel set block) = true) :
    ∃ payload res p, bmc c.sent (pefRequest sel set block) = .ok payload ∧
      GetPEFConfigParametersResponse.Unpack {} payload = .ret (res, none) ∧
      PEFConfigParameter.Unpack param res.ConfigData = .ret (p, none) ∧
      Client.GetPEFConfigForParameter bmc c param set block
        = .ret ({ sent := c.sent ++ [pefRequest sel set block] }, p, none) := by
  unfold pefExchangeSucceeds at hok
  unfold Client.GetPEFConfigForParameter Client.GetPEFConfigParameters Client.Exchange
  simp only [GetPEFConfigParametersRequest_Pack_selected, GetPEFConfigParametersRequest.Command,
    hsel0]
  unfold pefRequest at hok ⊢
  cases hb : bmc c.sent (Command.CommandGetPEFConfigParameters, [sel, set, block]) with
  | error e =>
    rw [hb] at hok
    cases hok
  | ok payload =>
    rw [hb] at hok
    dsimp only at hok ⊢
    rcases GetPEFConfigParametersResponse_Unpack_outcome {} payload with ⟨e, he⟩ | ⟨res, hres⟩
    · rw [he] at hok
      cases hok
    · rw [hres] at hok
      dsimp only at hok
      rw [List.headD_cons, hsel] at hok
      obtain ⟨p, hp⟩ := Run.succeeded_eq_true hok
      have hf := hfmt payload res p hb hres hp
      refine ⟨payload, res, p, rfl, hres, hp, ?_⟩
      rw [hres]
      show (PEFConfigParameter.Unpack param res.ConfigData >>= _) = _
      rw [hp]
      show (PEFConfigParameter.Format p >>= _) = _
      rw [hf]
      rfl

theorem PEFConfigParam_NumberOfEventFilters_Unpack_value (r p : PEFConfigParam_NumberOfEventFilters) (data : Bytes) (n : Nat)
    (h : PEFConfigParam_NumberOfEventFilters.Unpack r data = .ret (p, none)) (hn : data.head? = some n) :
    p = { Value := n } := by
  cases data with
  | nil => cases hn
  | cons d rest =>
    simp only [List.head?_cons, Option.some.injEq] at hn
    subst hn
    simp [PEFConfigParam_NumberOfEventFilters.Unpack, idx] at h
    exact h.symm

theorem PEFConfigParam_NumberOfAlertPolicies_Unpack_value (r p : PEFConfigParam_NumberOfAlertPolicies) (data : Bytes) (n : Nat)
    (h : PEFConfigParam_NumberOfAlertPolicies.Unpack r data = .ret (p, none)) (hn : data.head? = some n) :
    p = { Value := n } := by
  cases data with
  | nil => cases hn
  | cons d rest =>
    simp only [List.head?_cons, Option.some.injEq] at hn
    subst hn
    simp [PEFConfigParam_NumberOfAlertPolicies.Unpack, idx] at h
    exact h.symm

theorem PEFConfigParam_NumberOfAlertStrings_Unpack_value (r p : PEFConfigParam_NumberOfAlertStrings) (data : Bytes) (n : Nat)
    (h : PEFConfigParam_NumberOfAlertStrings.Unpack r data = .ret (p, none)) (hn : data.head? = some n) :
    p = { Value := n } := by
  cases data with
  | nil => cases hn
  | cons d rest =>
    simp only [List.head?_cons, Option.some.injEq] at hn
    subst hn
    simp [PEFConfigParam_NumberOfAlertStrings.Unpack, idx] at h
    exact h.symm

theorem GetPEFConfig_Control_exact (bmc : Controller) (s : Client × PEFConfig)
    (hall : pefAllSucceed bmc) :
    ∃ p, GetPEFConfig_Control bmc s
      = .ret (({ sent := s.1.sent ++ [pefRequest 0x1 0 0] },
          { s.2 with Control := some p }), none) := by
  obtain ⟨payload, res, p, _, _, _, h4⟩ := GetPEFConfigForParameter_succeeds bmc s.1
    ({} : PEFConfigParam_Control) 0x1 0 0 (by decide) (fun _ => rfl)
    (fun _ _ _ _ _ _ => rfl) (hall s.1.sent 0x1 0 0 (by decide) (by decide))
  refine ⟨p, ?_⟩
  unfold GetPEFConfig_Control
  rw [h4]
  rfl

theorem GetPEFConfig_ActionGlobalControl_exact (bmc : Controller) (s : Client × PEFConfig)
    (hall : pefAllSucceed bmc) :
    ∃ p, GetPEFConfig_ActionGlobalControl bmc s
      = .ret (({ sent := s.1.sent ++ [pefRequest 0x2 0 0] },
          { s.2 with ActionGlobalControl := some p }), none) := by
  obtain ⟨payload, res, p, _, _, _, h4⟩ := GetPEFConfigForParameter_succeeds bmc s.1
    ({} : PEFConfigParam_ActionGlobalControl) 0x2 0 0 (by decide) (fun _ => rfl)
    (fun _ _ _ _ _ _ => rfl) (hall s.1.sent 0x2 0 0 (by decide) (by decide))
  refine ⟨p, ?_⟩
  unfold GetPEFConfig_ActionGlobalControl
  rw [h4]
  rfl

theorem GetPEFConfig_StartupDelay_exact (bmc : Controller) (s : Client × PEFConfig)
    (hall : pefAllSucceed bmc) :
    ∃ p, GetPEFConfig_StartupDelay bmc s
      = .ret (({ sent := s.1.sent ++ [pefRequest 0x3 0 0] },
          { s.2 with StartupDelay := some p }), none) := by
  obtain ⟨payload, res, p, _, _, _, h4⟩ := GetPEFConfigForParameter_succeeds bmc s.1
    ({} : PEFConfigParam_StartupDelay) 0x3 0 0 (by decide) (fun _ => rfl)
    (fun _ _ _ _ _ _ => rfl) (hall s.1.sent 0x3 0 0 (by decide) (by decide))
  refine ⟨p, ?_⟩
  unfold GetPEFConfig_StartupDelay
  rw [h4]
  rfl

theorem GetPEFConfig_AlertStartupDelay_exact (bmc : Controller) (s : Client × PEFConfig)
    (hall : pefAllSucceed bmc) :
    ∃ p, GetPEFConfig_AlertStartupDelay bmc s
      = .ret (({ sent := s.1.sent ++ [pefRequest 0x4 0 0] },
          { s.2 with AlertStartupDelay := some p }), none) := by
  obtain ⟨payload, res, p, _, _, _, h4⟩ := GetPEFConfigForParameter_succeeds bmc s.1
    ({} : PEFConfigParam_AlertStartupDelay) 0x4 0 0 (by decide) (fun _ => rfl)
    (fun _ _ _ _ _ _ => rfl) (hall s.1.sent 0x4 0 0 (by decide) (by decide))
  refine ⟨p, ?_⟩
  unfold GetPEFConfig_AlertStartupDelay
  rw [h4]
  rfl

theorem GetPEFConfig_NumberOfEventFilters_exact (bmc : Controller) (s : Client × PEFConfig) (n : Nat)
    (hall : pefAllSucceed bmc) (hn : pefReportsCount bmc 0x5 n) :
    GetPEFConfig_NumberOfEventFilters bmc s
      = .ret (({ sent := s.1.sent ++ [pefRequest 0x5 0 0] },
          { s.2 with NumberOfEventFilters := some { Value := n } }), none) := by
  obtain ⟨payload, res, p, h1, h2, h3, h4⟩ := GetPEFConfigForParameter_succeeds bmc s.1
    ({} : PEFConfigParam_NumberOfEventFilters) 0x5 0 0 (by decide) (fun _ => rfl)
    (fun _ _ _ _ _ _ => rfl) (hall s.1.sent 0x5 0 0 (by decide) (by decide))
  obtain ⟨payload1, res1, g1, g2, g3⟩ := hn s.1.sent
  rw [g1] at h1
  cases h1
  rw [g2] at h2
  cases h2
  have hv := PEFConfigParam_NumberOfEventFilters_Unpack_value {} p res.ConfigData n h3 g3
  subst hv
  unfold GetPEFConfig_NumberOfEventFilters
  rw [h4]
  rfl

theorem GetPEFConfig_NumberOfAlertPolicies_exact (bmc : Controller) (s : Client × PEFConfig) (n : Nat)
    (hall : pefAllSucceed bmc) (hn : pefReportsCount bmc 0x8 n) :
    GetPEFConfig_NumberOfAlertPolicies bmc s
      = .ret (({ sent := s.1.sent ++ [pefRequest 0x8 0 0] },
          { s.2 with NumberOfAlertPolicies := some { Value := n } }), none) := by
  obtain ⟨payload, res, p, h1, h2, h3, h4⟩ := GetPEFConfigForParameter_succeeds bmc s.1
    ({} : PEFConfigParam_NumberOfAlertPolicies) 0x8 0 0 (by decide) (fun _ => rfl)
    (fun _ _ _ _ _ _ => rfl) (hall s.1.sent 0x8 0 0 (by decide) (by decide))
  obtain ⟨payload1, res1, g1, g2, g3⟩ := hn s.1.sent
  rw [g1] at h1
  cases h1
  rw [g2] at h2
  cases h2
  have hv := PEFConfigParam_NumberOfAlertPolicies_Unpack_value {} p res.ConfigData n h3 g3
  subst hv
  unfold GetPEFConfig_NumberOfAlertPolicies
  rw [h4]
  rfl

theorem GetPEFConfig_SystemGUID_exact (bmc : Controller) (s : Client × PEFConfig)
    (hall : pefAllSucceed bmc) :
    ∃ p, GetPEFConfig_SystemGUID bmc s
      = .ret (({ sent := s.1.sent ++ [pefRequest 0xa 0 0] },
          { s.2 with SystemGUID := some p }), none) := by
  obtain ⟨payload, res, p, _, _, _, h4⟩ := GetPEFConfigForParameter_succeeds bmc s.1
    ({} : PEFConfigParam_SystemGUID) 0xa 0 0 (by decide) (fun _ => rfl)
    (fun _ _ _ _ _ _ => rfl) (hall s.1.sent 0xa 0 0 (by decide) (by decide))
  refine ⟨p, ?_⟩
  unfold GetPEFConfig_SystemGUID
  rw [h4]
  rfl

theorem GetPEFConfig_NumberOfAlertStrings_exact (bmc : Controller) (s : Client × PEFConfig) (n : Nat)
    (hall : pefAllSucceed bmc) (hn : pefReportsCount bmc 0xb n) :
    GetPEFConfig_NumberOfAlertStrings bmc s
      = .ret (({ sent := s.1.sent ++ [pefRequest 0xb 0 0] },
          { s.2 with NumberOfAlertStrings := some { Value := n } }), none) := by
  obtain ⟨payload, res, p, h1, h2, h3, h4⟩ := GetPEFConfigForParameter_succeeds bmc s.1
    ({} : PEFConfigParam_NumberOfAlertStrings) 0xb 0 0 (by decide) (fun _ => rfl)
    (fun _ _ _ _ _ _ => rfl) (hall s.1.sent 0xb 0 0 (by decide) (by decide))
  obtain ⟨payload1, res1, g1, g2, g3⟩ := hn s.1.sent
  rw [g1] at h1
  cases h1
  rw [g2] at h2
  cases h2
  have hv := PEFConfigParam_NumberOfAlertStrings_Unpack_value {} p res.ConfigData n h3 g3
  subst hv
  unfold GetPEFConfig_NumberOfAlertStrings
  rw [h4]
  rfl

theorem GetPEFConfig_EventFilters_body_exact (bmc : Controller) (i : Nat) (s : Client × PEFConfig)
    (hall : pefAllSucceed bmc) (hfm : pefFormatsReturn bmc) :
    ∃ p, GetPEFConfig_EventFilters_body bmc i s
      = .ret (({ sent := s.1.sent ++ [pefRequest 0x6 i 0] },
          { s.2 with EventFilters := s.2.EventFilters ++ [p] }), none) := by
  obtain ⟨payload, res, p, _, _, _, h4⟩ := GetPEFConfigForParameter_succeeds bmc s.1
    ({} : PEFConfigParam_EventFilter) 0x6 i 0 (by decide) (fun _ => rfl)
    (fun payload res p hb hres hp => pefFormatReturns_format bmc s.1.sent i 0 payload res p
      (hfm s.1.sent _) hb hres hp) (hall s.1.sent 0x6 i 0 (by decide) (by decide))
  refine ⟨p, ?_⟩
  unfold GetPEFConfig_EventFilters_body
  rw [h4]
  rfl

theorem GetPEFConfig_EventFiltersData1_body_exact (bmc : Controller) (i : Nat) (s : Client × PEFConfig)
    (hall : pefAllSucceed bmc) :
    ∃ p, GetPEFConfig_EventFiltersData1_body bmc i s
      = .ret (({ sent := s.1.sent ++ [pefRequest 0x7 i 0] },
          { s.2 with EventFiltersData1 := s.2.EventFiltersData1 ++ [p] }), none) := by
  obtain ⟨payload, res, p, _, _, _, h4⟩ := GetPEFConfigForParameter_succeeds bmc s.1
    ({} : PEFConfigParam_EventFilterData1) 0x7 i 0 (by decide) (fun _ => rfl)
    (fun _ _ _ _ _ _ => rfl) (hall s.1.sent 0x7 i 0 (by decide) (by decide))
  refine ⟨p, ?_⟩
  unfold GetPEFConfig_EventFiltersData1_body
  rw [h4]
  rfl

theorem GetPEFConfig_AlertPolicies_body_exact (bmc : Controller) (i : Nat) (s : Client × PEFConfig)
    (hall : pefAllSucceed bmc) :
    ∃ p, GetPEFConfig_AlertPolicies_body bmc i s
      = .ret (({ sent := s.1.sent ++ [pefRequest 0x9 i 0] },
          { s.2 with AlertPolicies := s.2.AlertPolicies ++ [p] }), none) := by
  obtain ⟨payload, res, p, _, _, _, h4⟩ := GetPEFConfigForParameter_succeeds bmc s.1
    ({} : PEFConfigParam_AlertPolicy) 0x9 i 0 (by decide) (fun _ => rfl)
    (fun _ _ p _ _ hp => PEFConfigParam_AlertPolicy_Unpack_formats {} _ p hp) (hall s.1.sent 0x9 i 0 (by decide) (by decide))
  refine ⟨p, ?_⟩
  unfold GetPEFConfig_AlertPolicies_body
  rw [h4]
  rfl

theorem GetPEFConfig_AlertStringKeys_body_exact (bmc : Controller) (i : Nat) (s : Client × PEFConfig)
    (hall : pefAllSucceed bmc) :
    ∃ p, GetPEFConfig_AlertStringKeys_body bmc i s
      = .ret (({ sent := s.1.sent ++ [pefRequest 0xc i 0] },
          { s.2 with AlertStringKeys := s.2.AlertStringKeys ++ [p] }), none) := by
  obtain ⟨payload, res, p, _, _, _, h4⟩ := GetPEFConfigForParameter_succeeds bmc s.1
    ({} : PEFConfigParam_AlertStringKeys) 0xc i 0 (by decide) (fun _ => rfl)
    (fun _ _ _ _ _ _ => rfl) (hall s.1.sent 0xc i 0 (by decide) (by decide))
  refine ⟨p, ?_⟩
  unfold GetPEFConfig_AlertStringKeys_body
  rw [h4]
  rfl

theorem GetPEFConfig_AlertStrings_body_exact (bmc : Controller) (i : Nat) (s : Client × PEFConfig)
    (hall : pefAllSucceed bmc) :
    ∃ p, GetPEFConfig_AlertStrings_body bmc i s
      = .ret (({ sent := s.1.sent ++ [pefRequest 0xd i 1] },
          { s.2 with AlertStrings := s.2.AlertStrings ++ [p] }), none) := by
  obtain ⟨payload, res, p, _, _, _, h4⟩ := GetPEFConfigForParameter_succeeds bmc s.1
    ({} : PEFConfigParam_AlertStrings) 0xd i 1 (by decide) (fun _ => rfl)
    (fun _ _ _ _ _ _ => rfl) (hall s.1.sent 0xd i 1 (by decide) (by decide))
  refine ⟨p, ?_⟩
  unfold GetPEFConfig_AlertStrings_body
  rw [h4]
  rfl

theorem pefExact_andThen {T : Prop} {sent : List Sent} {Q : PEFConfig → Prop}
    {x : Run ((Client × PEFConfig) × Option IpmiError)}
    (sent1 : List Sent) (Q1 : PEFConfig → Prop)
    (f : Client × PEFConfig → Run ((Client × PEFConfig) × Option IpmiError))
    (hx : pefExact T sent Q x)
    (hf : ∀ s, s.1.sent = sent → Q s.2 → pefExact T sent1 Q1 (f s)) :
    pefExact T sent1 Q1 (x.andThen f) := by
  match x, hx with
  | .timeout, h => exact h
  | .ret (s, none), ⟨hs, hq⟩ => exact hf s hs hq

/-- A counting loop with the bound `m` (at most 254), started at `i`, on which no
exchange fails: it sends the requests for `i`, ..., `m`, in order, and runs out
of fuel only when it has less fuel than tests to make. -/
theorem pefExact_forUint8_from {T : Prop} (cond : Nat → Bool)
    (body : Nat → Client × PEFConfig → Run ((Client × PEFConfig) × Option IpmiError))
    (m : Nat) (hm : m ≤ 254) (req : Nat → Sent) (Q : Nat → PEFConfig → Prop)
    (hcond : ∀ j, 1 ≤ j → cond j = decide (j ≤ m))
    (hbody : ∀ j k s, Q k s.2 →
      ∃ cfg, body j s = .ret (({ sent := s.1.sent ++ [req j] }, cfg), none) ∧ Q (k + 1) cfg) :
    ∀ (fuel i : Nat) (s : Client × PEFConfig) (k : Nat), 1 ≤ i → i ≤ m + 1 → Q k s.2 →
      (T ∨ m + 2 ≤ fuel + i) →
      pefExact T (s.1.sent ++ (List.range' i (m + 1 - i)).map req) (Q (k + (m + 1 - i)))
        (forUint8 cond body fuel i s) := by
  intro fuel
  induction fuel with
  | zero =>
    intro i s k _ hi _ hT
    rcases hT with hT | hT
    · exact hT
    · omega
  | succ fuel ih =>
    intro i s k h1 hi hq hT
    unfold forUint8
    rw [hcond i h1]
    by_cases hle : i ≤ m
    · rw [if_pos (by simpa using hle)]
      obtain ⟨cfg, hb, hq1⟩ := hbody i k s hq
      rw [hb]
      have hmod : (i + 1) % 256 = i + 1 := Nat.mod_eq_of_lt (by omega)
      rw [hmod]
      have h := ih (i + 1) (({ sent := s.1.sent ++ [req i] } : Client), cfg) (k + 1)
        (by omega) (by omega) hq1 (by rcases hT with hT | hT; exact Or.inl hT; exact Or.inr (by omega))
      have e1 : m + 1 - i = (m + 1 - (i + 1)) + 1 := by omega
      have e2 : k + 1 + (m + 1 - (i + 1)) = k + (m + 1 - (i + 1) + 1) := by omega
      rw [e2] at h
      rw [e1, List.range'_succ, List.map_cons]
      simpa only [List.append_assoc, List.singleton_append] using h
    · rw [if_neg (by simpa using hle)]
      have e : m + 1 - i = 0 := by omega
      rw [e]
      exact ⟨by simp, hq⟩

theorem pefExact_forUint8 {T : Prop} (cond : Nat → Bool)
    (body : Nat → Client × PEFConfig → Run ((Client × PEFConfig) × Option IpmiError))
    (m : Nat) (hm : m ≤ 254) (req : Nat → Sent) (Q : Nat → PEFConfig → Prop)
    (hcond : ∀ j, 1 ≤ j → cond j = decide (j ≤ m))
    (hbody : ∀ j k s, Q k s.2 →
      ∃ cfg, body j s = .ret (({ sent := s.1.sent ++ [req j] }, cfg), none) ∧ Q (k + 1) cfg)
    (fuel : Nat) (s : Client × PEFConfig) (hq : Q 0 s.2) (hT : T ∨ m + 1 ≤ fuel) :
    pefExact T (s.1.sent ++ (List.range' 1 m).map req) (Q m)
      (forUint8 cond body fuel 1 s) := by
  have h := pefExact_forUint8_from cond body m hm req Q hcond hbody fuel 1 s 0 (Nat.le_refl 1)
    (by omega) hq (by rcases hT with hT | hT; exact Or.inl hT; exact Or.inr (by omega))
  simpa using h

theorem GetPEFConfig_EventFilters_exact (bmc : Controller) (fuel : Nat) (s : Client × PEFConfig)
    (T : Prop) (n : Nat) (Q : Nat → PEFConfig → Prop) (hall : pefAllSucceed bmc)
    (hfm : pefFormatsReturn bmc)
    (hn : s.2.NumberOfEventFilters = some { Value := n }) (hle : n ≤ 254) (hq : Q 0 s.2)
    (hQ : ∀ k cfg p, Q k cfg → Q (k + 1) { cfg with EventFilters := cfg.EventFilters ++ [p] })
    (hT : T ∨ n + 1 ≤ fuel) :
    pefExact T (s.1.sent ++ (List.range' 1 n).map (fun i => pefRequest 0x6 i 0))
      (Q n) (GetPEFConfig_EventFilters bmc fuel s) := by
  unfold GetPEFConfig_EventFilters
  simp only [hn]
  exact pefExact_forUint8 _ (GetPEFConfig_EventFilters_body bmc) n (by omega)
    (fun i => pefRequest 0x6 i 0) Q (fun j _ => rfl)
    (fun j k s1 h1 => by
      obtain ⟨p, hp⟩ := GetPEFConfig_EventFilters_body_exact bmc j s1 hall hfm
      exact ⟨_, hp, hQ k s1.2 p h1⟩)
    fuel s hq hT

theorem GetPEFConfig_EventFiltersData1_exact (bmc : Controller) (fuel : Nat) (s : Client × PEFConfig)
    (T : Prop) (n : Nat) (Q : Nat → PEFConfig → Prop) (hall : pefAllSucceed bmc)
    (hn : s.2.NumberOfEventFilters = some { Value := n }) (hle : n ≤ 254) (hq : Q 0 s.2)
    (hQ : ∀ k cfg p, Q k cfg → Q (k + 1) { cfg with EventFiltersData1 := cfg.EventFiltersData1 ++ [p] })
    (hT : T ∨ n + 1 ≤ fuel) :
    pefExact T (s.1.sent ++ (List.range' 1 n).map (fun i => pefRequest 0x7 i 0))
      (Q n) (GetPEFConfig_EventFiltersData1 bmc fuel s) := by
  unfold GetPEFConfig_EventFiltersData1
  simp only [hn]
  exact pefExact_forUint8 _ (GetPEFConfig_EventFiltersData1_body bmc) n (by omega)
    (fun i => pefRequest 0x7 i 0) Q (fun j _ => rfl)
    (fun j k s1 h1 => by
      obtain ⟨p, hp⟩ := GetPEFConfig_EventFiltersData1_body_exact bmc j s1 hall
      exact ⟨_, hp, hQ k s1.2 p h1⟩)
    fuel s hq hT

theorem GetPEFConfig_AlertPolicies_exact (bmc : Controller) (fuel : Nat) (s : Client × PEFConfig)
    (T : Prop) (n : Nat) (Q : Nat → PEFConfig → Prop) (hall : pefAllSucceed bmc)
    (hn : s.2.NumberOfAlertPolicies = some { Value := n }) (hle : n ≤ 255) (hq : Q 0 s.2)
    (hQ : ∀ k cfg p, Q k cfg → Q (k + 1) { cfg with AlertPolicies := cfg.AlertPolicies ++ [p] })
    (hT : T ∨ (n - 1) + 1 ≤ fuel) :
    pefExact T (s.1.sent ++ (List.range' 1 (n - 1)).map (fun i => pefRequest 0x9 i 0))
      (Q (n - 1)) (GetPEFConfig_AlertPolicies bmc fuel s) := by
  unfold GetPEFConfig_AlertPolicies
  simp only [hn]
  exact pefExact_forUint8 _ (GetPEFConfig_AlertPolicies_body bmc) (n - 1) (by omega)
    (fun i => pefRequest 0x9 i 0) Q (fun j hj => decide_eq_decide.mpr (by omega))
    (fun j k s1 h1 => by
      obtain ⟨p, hp⟩ := GetPEFConfig_AlertPolicies_body_exact bmc j s1 hall
      exact ⟨_, hp, hQ k s1.2 p h1⟩)
    fuel s hq hT

theorem GetPEFConfig_AlertStringKeys_exact (bmc : Controller) (fuel : Nat) (s : Client × PEFConfig)
    (T : Prop) (n : Nat) (Q : Nat → PEFConfig → Prop) (hall : pefAllSucceed bmc)
    (hn : s.2.NumberOfAlertStrings = some { Value := n }) (hle : n ≤ 254) (hq : Q 0 s.2)
    (hQ : ∀ k cfg p, Q k cfg → Q (k + 1) { cfg with AlertStringKeys := cfg.AlertStringKeys ++ [p] })
    (hT : T ∨ n + 1 ≤ fuel) :
    pefExact T (s.1.sent ++ (List.range' 1 n).map (fun i => pefRequest 0xc i 0))
      (Q n) (GetPEFConfig_AlertStringKeys bmc fuel s) := by
  unfold GetPEFConfig_AlertStringKeys
  simp only [hn]
  exact pefExact_forUint8 _ (GetPEFConfig_AlertStringKeys_body bmc) n (by omega)
    (fun i => pefRequest 0xc i 0) Q (fun j _ => rfl)
    (fun j k s1 h1 => by
      obtain ⟨p, hp⟩ := GetPEFConfig_AlertStringKeys_body_exact bmc j s1 hall
      exact ⟨_, hp, hQ k s1.2 p h1⟩)
    fuel s hq hT

theorem GetPEFConfig_AlertStrings_exact (bmc : Controller) (fuel : Nat) (s : Client × PEFConfig)
    (T : Prop) (n : Nat) (Q : Nat → PEFConfig → Prop) (hall : pefAllSucceed bmc)
    (hn : s.2.NumberOfAlertStrings = some { Value := n }) (hle : n ≤ 255) (hq : Q 0 s.2)
    (hQ : ∀ k cfg p, Q k cfg → Q (k + 1) { cfg with AlertStrings := cfg.AlertStrings ++ [p] })
    (hT : T ∨ (n - 1) + 1 ≤ fuel) :
    pefExact T (s.1.sent ++ (List.range' 1 (n - 1)).map (fun i => pefRequest 0xd i 1))
      (Q (n - 1)) (GetPEFConfig_AlertStrings bmc fuel s) := by
  unfold GetPEFConfig_AlertStrings
  simp only [hn]
  exact pefExact_forUint8 _ (GetPEFConfig_AlertStrings_body bmc) (n - 1) (by omega)
    (fun i => pefRequest 0xd i 1) Q (fun j hj => decide_eq_decide.mpr (by omega))
    (fun j k s1 h1 => by
      obtain ⟨p, hp⟩ := GetPEFConfig_AlertStrings_body_exact bmc j s1 hall
      exact ⟨_, hp, hQ k s1.2 p h1⟩)
    fuel s hq hT

theorem pefExact_cases {T : Prop} {sent : List Sent} {Q : PEFConfig → Prop}
    {x : Run ((Client × PEFConfig) × Option IpmiError)} (h : pefExact T sent Q x) :
    (x = .timeout ∧ T) ∨ ∃ s, x = .ret (s, none) ∧ s.1.sent = sent ∧ Q s.2 := by
  match x, h with
  | .timeout, h => exact Or.inl ⟨rfl, h⟩
  | .ret (s, none), ⟨hs, hq⟩ => exact Or.inr ⟨s, rfl, hs, hq⟩

theorem GetPEFConfig_blocks5_exact (bmc : Controller) (c : Client) (T : Prop) (f : Nat)
    (hall : pefAllSucceed bmc) (hf : pefReportsCount bmc 0x05 f) :
    pefExact T (((((c.sent ++ [pefRequest 0x1 0 0]) ++ [pefRequest 0x2 0 0]) ++ [pefRequest 0x3 0 0]) ++ [pefRequest 0x4 0 0]) ++ [pefRequest 0x5 0 0])
      (pefShape (some f) none none 0 0 0 0 0)
      (((((GetPEFConfig_Control bmc (c, {})).andThen
        (GetPEFConfig_ActionGlobalControl bmc)).andThen
        (GetPEFConfig_StartupDelay bmc)).andThen
        (GetPEFConfig_AlertStartupDelay bmc)).andThen
        (GetPEFConfig_NumberOfEventFilters bmc)) := by
  have h1 : pefExact T (c.sent ++ [pefRequest 0x1 0 0]) (pefShape none none none 0 0 0 0 0)
      (GetPEFConfig_Control bmc (c, {})) := by
    obtain ⟨p0, hp0⟩ := GetPEFConfig_Control_exact bmc (c, {}) hall
    rw [hp0]
    exact ⟨rfl, by simp [pefShape]⟩
  have h2 := pefExact_andThen (T := T) ((c.sent ++ [pefRequest 0x1 0 0]) ++ [pefRequest 0x2 0 0])
    (pefShape none none none 0 0 0 0 0) (GetPEFConfig_ActionGlobalControl bmc) h1
    (fun st hst hq => by
      obtain ⟨p0, hp0⟩ := GetPEFConfig_ActionGlobalControl_exact bmc st hall
      rw [hp0]
      exact ⟨by rw [hst], by simp_all [pefShape]⟩)
  have h3 := pefExact_andThen (T := T) (((c.sent ++ [pefRequest 0x1 0 0]) ++ [pefRequest 0x2 0 0]) ++ [pefRequest 0x3 0 0])
    (pefShape none none none 0 0 0 0 0) (GetPEFConfig_StartupDelay bmc) h2
    (fun st hst hq => by
      obtain ⟨p0, hp0⟩ := GetPEFConfig_StartupDelay_exact bmc st hall
      rw [hp0]
      exact ⟨by rw [hst], by simp_all [pefShape]⟩)
  have h4 := pefExact_andThen (T := T) ((((c.sent ++ [pefRequest 0x1 0 0]) ++ [pefRequest 0x2 0 0]) ++ [pefRequest 0x3 0 0]) ++ [pefRequest 0x4 0 0])
    (pefShape none none none 0 0 0 0 0) (GetPEFConfig_AlertStartupDelay bmc) h3
    (fun st hst hq => by
      obtain ⟨p0, hp0⟩ := GetPEFConfig_AlertStartupDelay_exact bmc st hall
      rw [hp0]
      exact ⟨by rw [hst], by simp_all [pefShape]⟩)
  have h5 := pefExact_andThen (T := T) (((((c.sent ++ [pefRequest 0x1 0 0]) ++ [pefRequest 0x2 0 0]) ++ [pefRequest 0x3 0 0]) ++ [pefRequest 0x4 0 0]) ++ [pefRequest 0x5 0 0])
    (pefShape (some f) none none 0 0 0 0 0) (GetPEFConfig_NumberOfEventFilters bmc) h4
    (fun st hst hq => by
      rw [GetPEFConfig_NumberOfEventFilters_exact bmc st f hall hf]
      exact ⟨by rw [hst], by simp_all [pefShape]⟩)
  exact h5

theorem GetPEFConfig_blocks11_exact (bmc : Controller) (fuel : Nat) (c : Client) (T : Prop)
    (f p s : Nat) (hall : pefAllSucceed bmc) (hfm : pefFormatsReturn bmc)
    (hf : pefReportsCount bmc 0x05 f)
    (hp : pefReportsCount bmc 0x08 p) (hs : pefReportsCount bmc 0x0b s)
    (hfle : f ≤ 254) (hple : p ≤ 255) (hT : T ∨ 255 ≤ fuel) :
    pefExact T (((((((((((c.sent ++ [pefRequest 0x1 0 0]) ++ [pefRequest 0x2 0 0]) ++ [pefRequest 0x3 0 0]) ++ [pefRequest 0x4 0 0]) ++ [pefRequest 0x5 0 0]) ++ (List.range' 1 f).map (fun i => pefRequest 0x6 i 0)) ++ (List.range' 1 f).map (fun i => pefRequest 0x7 i 0)) ++ [pefRequest 0x8 0 0]) ++ (List.range' 1 (p - 1)).map (fun i => pefRequest 0x9 i 0)) ++ [pefRequest 0xa 0 0]) ++ [pefRequest 0xb 0 0])
      (pefShape (some f) (some p) (some s) f f (p - 1) 0 0)
      (((((((((((GetPEFConfig_Control bmc (c, {})).andThen
        (GetPEFConfig_ActionGlobalControl bmc)).andThen
        (GetPEFConfig_StartupDelay bmc)).andThen
        (GetPEFConfig_AlertStartupDelay bmc)).andThen
        (GetPEFConfig_NumberOfEventFilters bmc)).andThen
        (GetPEFConfig_EventFilters bmc fuel)).andThen
        (GetPEFConfig_EventFiltersData1 bmc fuel)).andThen
        (GetPEFConfig_NumberOfAlertPolicies bmc)).andThen
        (GetPEFConfig_AlertPolicies bmc fuel)).andThen
        (GetPEFConfig_SystemGUID bmc)).andThen
        (GetPEFConfig_NumberOfAlertStrings bmc)) := by
  have h5 := GetPEFConfig_blocks5_exact bmc c T f hall hf
  have h6 := pefExact_andThen (T := T) ((((((c.sent ++ [pefRequest 0x1 0 0]) ++ [pefRequest 0x2 0 0]) ++ [pefRequest 0x3 0 0]) ++ [pefRequest 0x4 0 0]) ++ [pefRequest 0x5 0 0]) ++ (List.range' 1 f).map (fun i => pefRequest 0x6 i 0))
    (pefShape (some f) none none f 0 0 0 0) (GetPEFConfig_EventFilters bmc fuel) h5
    (fun st hst hq => by
      have h := GetPEFConfig_EventFilters_exact bmc fuel st T f
        (fun k => pefShape (some f) none none k 0 0 0 0) hall hfm
        hq.2.2.2.1 (by omega) hq (fun k cfg p0 hk => by simpa [pefShape] using hk)
        (by rcases hT with hT | hT; exact Or.inl hT; exact Or.inr (by omega))
      rw [hst] at h
      exact h)
  have h7 := pefExact_andThen (T := T) (((((((c.sent ++ [pefRequest 0x1 0 0]) ++ [pefRequest 0x2 0 0]) ++ [pefRequest 0x3 0 0]) ++ [pefRequest 0x4 0 0]) ++ [pefRequest 0x5 0 0]) ++ (List.range' 1 f).map (fun i => pefRequest 0x6 i 0)) ++ (List.range' 1 f).map (fun i => pefRequest 0x7 i 0))
    (pefShape (some f) none none f f 0 0 0) (GetPEFConfig_EventFiltersData1 bmc fuel) h6
    (fun st hst hq => by
      have h := GetPEFConfig_EventFiltersData1_exact bmc fuel st T f
        (fun k => pefShape (some f) none none f k 0 0 0) hall
        hq.2.2.2.1 (by omega) hq (fun k cfg p0 hk => by simpa [pefShape] using hk)
        (by rcases hT with hT | hT; exact Or.inl hT; exact Or.inr (by omega))
      rw [hst] at h
      exact h)
  have h8 := pefExact_andThen (T := T) ((((((((c.sent ++ [pefRequest 0x1 0 0]) ++ [pefRequest 0x2 0 0]) ++ [pefRequest 0x3 0 0]) ++ [pefRequest 0x4 0 0]) ++ [pefRequest 0x5 0 0]) ++ (List.range' 1 f).map (fun i => pefRequest 0x6 i 0)) ++ (List.range' 1 f).map (fun i => pefRequest 0x7 i 0)) ++ [pefRequest 0x8 0 0])
    (pefShape (some f) (some p) none f f 0 0 0) (GetPEFConfig_NumberOfAlertPolicies bmc) h7
    (fun st hst hq => by
      rw [GetPEFConfig_NumberOfAlertPolicies_exact bmc st p hall hp]
      exact ⟨by rw [hst], by simp_all [pefShape]⟩)
  have h9 := pefExact_andThen (T := T) (((((((((c.sent ++ [pefRequest 0x1 0 0]) ++ [pefRequest 0x2 0 0]) ++ [pefRequest 0x3 0 0]) ++ [pefRequest 0x4 0 0]) ++ [pefRequest 0x5 0 0]) ++ (List.range' 1 f).map (fun i => pefRequest 0x6 i 0)) ++ (List.range' 1 f).map (fun i => pefRequest 0x7 i 0)) ++ [pefRequest 0x8 0 0]) ++ (List.range' 1 (p - 1)).map (fun i => pefRequest 0x9 i 0))
    (pefShape (some f) (some p) none f f (p - 1) 0 0) (GetPEFConfig_AlertPolicies bmc fuel) h8
    (fun st hst hq => by
      have h := GetPEFConfig_AlertPolicies_exact bmc fuel st T p
        (fun k => pefShape (some f) (some p) none f f k 0 0) hall
        hq.2.2.2.2.1 (by omega) hq (fun k cfg p0 hk => by simpa [pefShape] using hk)
        (by rcases hT with hT | hT; exact Or.inl hT; exact Or.inr (by omega))
      rw [hst] at h
      exact h)
  have h10 := pefExact_andThen (T := T) ((((((((((c.sent ++ [pefRequest 0x1 0 0]) ++ [pefRequest 0x2 0 0]) ++ [pefRequest 0x3 0 0]) ++ [pefRequest 0x4 0 0]) ++ [pefRequest 0x5 0 0]) ++ (List.range' 1 f).map (fun i => pefRequest 0x6 i 0)) ++ (List.range' 1 f).map (fun i => pefRequest 0x7 i 0)) ++ [pefRequest 0x8 0 0]) ++ (List.range' 1 (p - 1)).map (fun i => pefRequest 0x9 i 0)) ++ [pefRequest 0xa 0 0])
    (pefShape (some f) (some p) none f f (p - 1) 0 0) (GetPEFConfig_SystemGUID bmc) h9
    (fun st hst hq => by
      obtain ⟨p0, hp0⟩ := GetPEFConfig_SystemGUID_exact bmc st hall
      rw [hp0]
      exact ⟨by rw [hst], by simp_all [pefShape]⟩)
  have h11 := pefExact_andThen (T := T) (((((((((((c.sent ++ [pefRequest 0x1 0 0]) ++ [pefRequest 0x2 0 0]) ++ [pefRequest 0x3 0 0]) ++ [pefRequest 0x4 0 0]) ++ [pefRequest 0x5 0 0]) ++ (List.range' 1 f).map (fun i => pefRequest 0x6 i 0)) ++ (List.range' 1 f).map (fun i => pefRequest 0x7 i 0)) ++ [pefRequest 0x8 0 0]) ++ (List.range' 1 (p - 1)).map (fun i => pefRequest 0x9 i 0)) ++ [pefRequest 0xa 0 0]) ++ [pefRequest 0xb 0 0])
    (pefShape (some f) (some p) (some s) f f (p - 1) 0 0) (GetPEFConfig_NumberOfAlertStrings bmc) h10
    (fun st hst hq => by
      rw [GetPEFConfig_NumberOfAlertStrings_exact bmc st s hall hs]
      exact ⟨by rw [hst], by simp_all [pefShape]⟩)
  exact h11

theorem GetPEFConfig_blocks13_exact (bmc : Controller) (fuel : Nat) (c : Client) (T : Prop)
    (f p s : Nat) (hall : pefAllSucceed bmc) (hfm : pefFormatsReturn bmc)
    (hf : pefReportsCount bmc 0x05 f)
    (hp : pefReportsCount bmc 0x08 p) (hs : pefReportsCount bmc 0x0b s)
    (hfle : f ≤ 254) (hple : p ≤ 255) (hsle : s ≤ 254) (hT : T ∨ 255 ≤ fuel) :
    pefExact T (((((((((((((c.sent ++ [pefRequest 0x1 0 0]) ++ [pefRequest 0x2 0 0]) ++ [pefRequest 0x3 0 0]) ++ [pefRequest 0x4 0 0]) ++ [pefRequest 0x5 0 0]) ++ (List.range' 1 f).map (fun i => pefRequest 0x6 i 0)) ++ (List.range' 1 f).map (fun i => pefRequest 0x7 i 0)) ++ [pefRequest 0x8 0 0]) ++ (List.range' 1 (p - 1)).map (fun i => pefRequest 0x9 i 0)) ++ [pefRequest 0xa 0 0]) ++ [pefRequest 0xb 0 0]) ++ (List.range' 1 s).map (fun i => pefRequest 0xc i 0)) ++ (List.range' 1 (s - 1)).map (fun i => pefRequest 0xd i 1))
      (pefShape (some f) (some p) (some s) f f (p - 1) s (s - 1))
      (((((((((((((GetPEFConfig_Control bmc (c, {})).andThen
        (GetPEFConfig_ActionGlobalControl bmc)).andThen
        (GetPEFConfig_StartupDelay bmc)).andThen
        (GetPEFConfig_AlertStartupDelay bmc)).andThen
        (GetPEFConfig_NumberOfEventFilters bmc)).andThen
        (GetPEFConfig_EventFilters bmc fuel)).andThen
        (GetPEFConfig_EventFiltersData1 bmc fuel)).andThen
        (GetPEFConfig_NumberOfAlertPolicies bmc)).andThen
        (GetPEFConfig_AlertPolicies bmc fuel)).andThen
        (GetPEFConfig_SystemGUID bmc)).andThen
        (GetPEFConfig_NumberOfAlertStrings bmc)).andThen
        (GetPEFConfig_AlertStringKeys bmc fuel)).andThen
        (GetPEFConfig_AlertStrings bmc fuel)) := by
  have h11 := GetPEFConfig_blocks11_exact bmc fuel c T f p s hall hfm hf hp hs hfle hple hT
  have h12 := pefExact_andThen (T := T) ((((((((((((c.sent ++ [pefRequest 0x1 0 0]) ++ [pefRequest 0x2 0 0]) ++ [pefRequest 0x3 0 0]) ++ [pefRequest 0x4 0 0]) ++ [pefRequest 0x5 0 0]) ++ (List.range' 1 f).map (fun i => pefRequest 0x6 i 0)) ++ (List.range' 1 f).map (fun i => pefRequest 0x7 i 0)) ++ [pefRequest 0x8 0 0]) ++ (List.range' 1 (p - 1)).map (fun i => pefRequest 0x9 i 0)) ++ [pefRequest 0xa 0 0]) ++ [pefRequest 0xb 0 0]) ++ (List.range' 1 s).map (fun i => pefRequest 0xc i 0))
    (pefShape (some f) (some p) (some s) f f (p - 1) s 0) (GetPEFConfig_AlertStringKeys bmc fuel) h11
    (fun st hst hq => by
      have h := GetPEFConfig_AlertStringKeys_exact bmc fuel st T s
        (fun k => pefShape (some f) (some p) (some s) f f (p - 1) k 0) hall
        hq.2.2.2.2.2.1 (by omega) hq (fun k cfg p0 hk => by simpa [pefShape] using hk)
        (by rcases hT with hT | hT; exact Or.inl hT; exact Or.inr (by omega))
      rw [hst] at h
      exact h)
  have h13 := pefExact_andThen (T := T) (((((((((((((c.sent ++ [pefRequest 0x1 0 0]) ++ [pefRequest 0x2 0 0]) ++ [pefRequest 0x3 0 0]) ++ [pefRequest 0x4 0 0]) ++ [pefRequest 0x5 0 0]) ++ (List.range' 1 f).map (fun i => pefRequest 0x6 i 0)) ++ (List.range' 1 f).map (fun i => pefRequest 0x7 i 0)) ++ [pefRequest 0x8 0 0]) ++ (List.range' 1 (p - 1)).map (fun i => pefRequest 0x9 i 0)) ++ [pefRequest 0xa 0 0]) ++ [pefRequest 0xb 0 0]) ++ (List.range' 1 s).map (fun i => pefRequest 0xc i 0)) ++ (List.range' 1 (s - 1)).map (fun i => pefRequest 0xd i 1))
    (pefShape (some f) (some p) (some s) f f (p - 1) s (s - 1)) (GetPEFConfig_AlertStrings bmc fuel) h12
    (fun st hst hq => by
      have h := GetPEFConfig_AlertStrings_exact bmc fuel st T s
        (fun k => pefShape (some f) (some p) (some s) f f (p - 1) s k) hall
        hq.2.2.2.2.2.1 (by omega) hq (fun k cfg p0 hk => by simpa [pefShape] using hk)
        (by rcases hT with hT | hT; exact Or.inl hT; exact Or.inr (by omega))
      rw [hst] at h
      exact h)
  exact h13

/-! ## The exact exchange trace of the PEF aggregation and its termination -/

theorem countingBmc_allSucceed (f p s : Nat) : pefAllSucceed (countingBmc f p s) := by
  intro before sel set block h1 h2
  interval_cases sel <;> rfl

theorem countingBmc_reports (f p s : Nat) :
    pefReportsCount (countingBmc f p s) 0x05 f ∧
    pefReportsCount (countingBmc f p s) 0x08 p ∧
    pefReportsCount (countingBmc f p s) 0x0b s :=
  ⟨fun _ => ⟨[0x11, f], { Revision := 0x11, ConfigData := [f] }, rfl, rfl, rfl⟩,
   fun _ => ⟨[0x11, p], { Revision := 0x11, ConfigData := [p] }, rfl, rfl, rfl⟩,
   fun _ => ⟨[0x11, s], { Revision := 0x11, ConfigData := [s] }, rfl, rfl, rfl⟩⟩

theorem pefTrace_forall (P : Sent → Prop) (f p s : Nat)
    (h : ∀ sel set block, 1 ≤ sel → sel ≤ 0x0d → P (pefRequest sel set block)) :
    ∀ r ∈ pefTrace f p s, P r := by
  simp only [pefTrace, List.forall_mem_append, List.forall_mem_map, List.forall_mem_cons,
    List.forall_mem_singleton]
  repeat' (first | apply And.intro | intro _)
  all_goals first
    | exact h _ _ _ (by decide) (by decide)
    | simp_all

theorem pefRequest_Pack (sel set block : Nat) (h : sel ≤ 0x0d) :
    pefRequest sel set block
      = (Command.CommandGetPEFConfigParameters,
          GetPEFConfigParametersRequest.Pack
            { GetRevisionOnly := false, ParamSelector := sel, SetSelector := set,
              BlockSelector := block }) := by
  rw [GetPEFConfigParametersRequest_Pack_selected]
  interval_cases sel <;> rfl

theorem pefTrace_sent (c : Client) (f p s : Nat) :
    (((((((((((((c.sent ++ [pefRequest 0x1 0 0]) ++ [pefRequest 0x2 0 0]) ++ [pefRequest 0x3 0 0]) ++ [pefRequest 0x4 0 0]) ++ [pefRequest 0x5 0 0]) ++ (List.range' 1 f).map (fun i => pefRequest 0x6 i 0)) ++ (List.range' 1 f).map (fun i => pefRequest 0x7 i 0)) ++ [pefRequest 0x8 0 0]) ++ (List.range' 1 (p - 1)).map (fun i => pefRequest 0x9 i 0)) ++ [pefRequest 0xa 0 0]) ++ [pefRequest 0xb 0 0]) ++ (List.range' 1 s).map (fun i => pefRequest 0xc i 0)) ++ (List.range' 1 (s - 1)).map (fun i => pefRequest 0xd i 1)) = c.sent ++ pefTrace f p s := by
  simp only [pefTrace, List.append_assoc, List.cons_append, List.nil_append,
    List.singleton_append]

theorem GetPEFConfig_EventFilters_255 (bmc : Controller) (fuel : Nat) (st : Client × PEFConfig)
    (hall : pefAllSucceed bmc) (hfm : pefFormatsReturn bmc)
    (hn : st.2.NumberOfEventFilters = some { Value := 255 }) :
    GetPEFConfig_EventFilters bmc fuel st = .timeout := by
  unfold GetPEFConfig_EventFilters
  simp only [hn]
  exact forUint8_le_255_timeout _
    (fun i s1 => by
      obtain ⟨p0, hp0⟩ := GetPEFConfig_EventFilters_body_exact bmc i s1 hall hfm
      exact ⟨_, hp0⟩) fuel 1 _ (by omega)

theorem GetPEFConfig_AlertStringKeys_255 (bmc : Controller) (fuel : Nat)
    (st : Client × PEFConfig) (hall : pefAllSucceed bmc)
    (hn : st.2.NumberOfAlertStrings = some { Value := 255 }) :
    GetPEFConfig_AlertStringKeys bmc fuel st = .timeout := by
  unfold GetPEFConfig_AlertStringKeys
  simp only [hn]
  exact forUint8_le_255_timeout _
    (fun i s1 => by
      obtain ⟨p0, hp0⟩ := GetPEFConfig_AlertStringKeys_body_exact bmc i s1 hall
      exact ⟨_, hp0⟩) fuel 1 _ (by omega)

theorem GetPEFConfig_returns_aggregate (bmc : Controller) (fuel : Nat) (c : Client)
    (f p s : Nat) (hall : pefAllSucceed bmc) (hfm : pefFormatsReturn bmc)
    (hf : pefReportsCount bmc 0x05 f)
    (hp : pefReportsCount bmc 0x08 p) (hs : pefReportsCount bmc 0x0b s)
    (hfle : f ≤ 254) (hple : p ≤ 255) (hsle : s ≤ 254) (hfuel : 255 ≤ fuel) :
    ∃ cfg, Client.GetPEFConfig bmc fuel c
        = .ret ({ sent := c.sent ++ pefTrace f p s }, some cfg, none) ∧
      pefShape (some f) (some p) (some s) f f (p - 1) s (s - 1) cfg := by
  obtain ⟨⟨c1, cfg⟩, h13, hs13, hq⟩ :=
    (pefExact_cases (GetPEFConfig_blocks13_exact bmc fuel c False f p s hall hfm hf hp hs hfle hple
      hsle (Or.inr hfuel))).resolve_left (fun h => h.2)
  refine ⟨cfg, ?_, hq⟩
  have hc : c1 = { sent := c.sent ++ pefTrace f p s } := by
    cases c1
    simp only at hs13
    rw [hs13, pefTrace_sent]
  subst hc
  unfold Client.GetPEFConfig
  simp only [h13]

theorem countingBmc_formats (f p s : Nat) : pefFormatsReturn (countingBmc f p s) := by
  intro before req
  unfold pefFormatReturns
  split
  · rename_i h6
    obtain ⟨cmd, octets⟩ := req
    cases octets with
    | nil => cases h6
    | cons b rest =>
      have hb : b = 0x06 := h6
      subst hb
      have h0 : countingBmc f p s before (cmd, 0x06 :: rest)
          = .ok (0x11 :: List.replicate 21 0) := rfl
      have h1 : GetPEFConfigParametersResponse.Unpack {} (0x11 :: List.replicate 21 0)
          = .ret ({ Revision := 0x11, ConfigData := List.replicate 21 0 }, none) := rfl
      have h2 : PEFConfigParam_EventFilter.Unpack {} (List.replicate 21 0)
          = .ret ({ EntryNumber := 0, Entry := some {} }, none) := rfl
      rw [h0]
      simp only [h1, h2]
      rw [decide_eq_true_eq, PEFConfigParam_EventFilter_Format_returns]
      exact ⟨_, rfl, Or.inl rfl⟩
  · rfl

theorem preconfBmc_allSucceed : pefAllSucceed preconfBmc := by
  intro before sel set block h1 h2
  interval_cases sel <;> rfl

theorem preconfBmc_reports :
    pefReportsCount preconfBmc 0x05 1 ∧
    pefReportsCount preconfBmc 0x08 0 ∧
    pefReportsCount preconfBmc 0x0b 0 :=
  ⟨fun _ => ⟨[0x11, 1], { Revision := 0x11, ConfigData := [1] }, rfl, rfl, rfl⟩,
   fun _ => ⟨[0x11, 0], { Revision := 0x11, ConfigData := [0] }, rfl, rfl, rfl⟩,
   fun _ => ⟨[0x11, 0], { Revision := 0x11, ConfigData := [0] }, rfl, rfl, rfl⟩⟩

theorem preconfBmc_filter_decodes :
    GetPEFConfigParametersResponse.Unpack {} (0x11 :: 1 :: 0x40 :: List.replicate 19 0)
      = .ret ({ Revision := 0x11, ConfigData := 1 :: 0x40 :: List.replicate 19 0 }, none) ∧
    PEFConfigParam_EventFilter.Unpack {} (1 :: 0x40 :: List.replicate 19 0)
      = .ret ({ EntryNumber := 1, Entry := some { FilterType := 2 } }, none) :=
  ⟨rfl, rfl⟩

theorem preconfBmc_filter_format :
    PEFConfigParam_EventFilter.Format { EntryNumber := 1, Entry := some { FilterType := 2 } }
      = .panic := by
  rcases PEFConfigParam_EventFilter_Format_outcome
    { EntryNumber := 1, Entry := some { FilterType := 2 } } with h | h
  · rw [PEFConfigParam_EventFilter_Format_returns] at h
    obtain ⟨entry, he, ht⟩ := h
    cases he
    rcases ht with ht | ht <;> cases ht
  · exact h

theorem preconfBmc_format_stops (before : List Sent) (set block : Nat) :
    pefFormatReturns preconfBmc before (pefRequest 0x06 set block) = false := by
  unfold pefFormatReturns
  rw [if_pos (by rfl)]
  have h0 : preconfBmc before (pefRequest 0x06 set block)
      = .ok (0x11 :: 1 :: 0x40 :: List.replicate 19 0) := rfl
  rw [h0]
  simp only [preconfBmc_filter_decodes.1, preconfBmc_filter_decodes.2,
    preconfBmc_filter_format]
  rfl

theorem GetPEFConfig_EventFilters_body_preconfBmc (i : Nat) (s : Client × PEFConfig) :
    GetPEFConfig_EventFilters_body preconfBmc i s = .panic := by
  obtain ⟨req, hreq, ⟨p, hr, hok, payload, res, hb, hres, hp, hf⟩ | ⟨p, e, hr, hno⟩ | ⟨hr, _⟩⟩ :=
    GetPEFConfigForParameter_outcomes preconfBmc s.1 ({} : PEFConfigParam_EventFilter) i 0
      (PEFConfigParam_EventFilter_Unpack_outcome {}) (fun _ => rfl)
      (fun _ p _ => PEFConfigParam_EventFilter_Format_outcome p)
  · exfalso
    subst hreq
    have h0 : preconfBmc s.1.sent (Command.CommandGetPEFConfigParameters,
        [PEFConfigParameter.PEFConfigParamSelector PEFConfigParam_EventFilter &&& 0x3f, i, 0])
        = .ok (0x11 :: 1 :: 0x40 :: List.replicate 19 0) := rfl
    rw [h0] at hb
    injection hb with hb
    subst hb
    rw [preconfBmc_filter_decodes.1] at hres
    injection hres with hres
    injection hres with hres _
    subst hres
    have hp1 : PEFConfigParam_EventFilter.Unpack {} (1 :: 0x40 :: List.replicate 19 0)
        = .ret (p, none) := hp
    rw [preconfBmc_filter_decodes.2] at hp1
    injection hp1 with hp1
    injection hp1 with hp1 _
    subst hp1
    have hf1 : PEFConfigParam_EventFilter.Format
        { EntryNumber := 1, Entry := some { FilterType := 2 } } = .ret () := hf
    rw [preconfBmc_filter_format] at hf1
    cases hf1
  · exfalso
    subst hreq
    have h := preconfBmc_allSucceed s.1.sent 0x06 i 0 (by decide) (by decide)
    have hno1 : pefExchangeSucceeds preconfBmc s.1.sent (pefRequest 0x06 i 0) = false := hno
    rw [h] at hno1
    cases hno1
  · unfold GetPEFConfig_EventFilters_body
    rw [hr]
    rfl

theorem GetPEFConfig_stopped_in_filters (bmc : Controller) (fuel : Nat) (c : Client)
    (s5 : Client × PEFConfig)
    (h5 : ((((GetPEFConfig_Control bmc (c, {})).andThen
      (GetPEFConfig_ActionGlobalControl bmc)).andThen
      (GetPEFConfig_StartupDelay bmc)).andThen
      (GetPEFConfig_AlertStartupDelay bmc)).andThen
      (GetPEFConfig_NumberOfEventFilters bmc) = .ret (s5, none))
    (hloop : GetPEFConfig_EventFilters bmc fuel s5 = .panic) :
    Client.GetPEFConfig bmc fuel c = .panic := by
  unfold Client.GetPEFConfig
  simp only [h5, Run.ret_none_andThen, hloop, Run.panic_andThen]

/-- On `preconfBmc` the run is stopped in the `Format` call that follows the
sixth exchange, as soon as there is fuel for one iteration of the event filter
loop. -/
theorem GetPEFConfig_preconfBmc (fuel : Nat) :
    Client.GetPEFConfig preconfBmc (fuel + 1) {} = .panic := by
  have h5 : ∃ c5 cfg5, ((((GetPEFConfig_Control preconfBmc (({} : Client), {})).andThen
      (GetPEFConfig_ActionGlobalControl preconfBmc)).andThen
      (GetPEFConfig_StartupDelay preconfBmc)).andThen
      (GetPEFConfig_AlertStartupDelay preconfBmc)).andThen
      (GetPEFConfig_NumberOfEventFilters preconfBmc) = .ret ((c5, cfg5), none) ∧
      cfg5.NumberOfEventFilters = some { Value := 1 } :=
    ⟨_, _, rfl, rfl⟩
  obtain ⟨c5, cfg5, h5, hn⟩ := h5
  have hloop : GetPEFConfig_EventFilters preconfBmc (fuel + 1) (c5, cfg5) = .panic := by
    unfold GetPEFConfig_EventFilters
    simp only [hn]
    exact forUint8_first_panics _ _ fuel 1 _ (by decide)
      (GetPEFConfig_EventFilters_body_preconfBmc 1 _)
  exact GetPEFConfig_stopped_in_filters preconfBmc (fuel + 1) {} (c5, cfg5) h5 hloop

/-- Claim C34 fails on a controller whose event filter has type bits other than
00b. On `preconfBmc` every exchange succeeds and the reported counts are 1, 0
and 0, so the claim gives the ten requests of `pefTrace 1 0 0` and a returned
aggregate; but the filter decodes with `FilterType = 2`, the `Format` call that
follows the sixth exchange calls `PEFEventFilterType.String`, which calls itself
without end, and the run-time stops `GetPEFConfig`: it returns for no fuel. The
claim does hold for every controller none of whose event filters stops `Format`:
when every exchange succeeds and the controller reports the counts `f`, `p`, `s`
(each at most 254), `GetPEFConfig` with enough fuel returns without an error,
and the requests it has issued are exactly `pefTrace f p s`: the selectors
0x01..0x05 with set and block selector 0, then (0x06, i, 0) and (0x07, i, 0) for
i = 1..f, (0x08, 0, 0), (0x09, i, 0) for i = 1..p-1, (0x0a, 0, 0), (0x0b, 0, 0),
(0x0c, i, 0) for i = 1..s and (0x0d, i, 1) for i = 1..s-1; in the returned
aggregate `SetInProgress`, `NumberOfGroupControlTableEntries` and
`GroupControlTable` are absent, the counts are the reported ones, `EventFilters`
and `EventFiltersData1` have length `f`, `AlertPolicies` has length `p - 1`,
`AlertStringKeys` has length `s` and `AlertStrings` has length `s - 1`. Every
request of a trace is the `Pack` of a request with `GetRevisionOnly` false. The
controller `countingBmc 2 3 2` meets these hypotheses. -/
theorem Client.GetPEFConfig_exact_trace_unless_Format_stops :
    (pefAllSucceed preconfBmc ∧ pefReportsCount preconfBmc 0x05 1 ∧
      pefReportsCount preconfBmc 0x08 0 ∧ pefReportsCount preconfBmc 0x0b 0) ∧
    (pefTrace 1 0 0).length = 10 ∧
    (pefExchangesSucceed preconfBmc [] ((pefTrace 1 0 0).take 6) = true ∧
      pefFormatReturns preconfBmc ((pefTrace 1 0 0).take 5) (pefRequest 0x06 1 0) = false) ∧
    (∀ fuel, Client.GetPEFConfig preconfBmc (fuel + 1) {} = .panic) ∧
    (∀ fuel r, Client.GetPEFConfig preconfBmc fuel {} ≠ .ret r) ∧
    (∀ (bmc : Controller) (c : Client) (f p s fuel : Nat),
      pefAllSucceed bmc → pefFormatsReturn bmc →
      pefReportsCount bmc 0x05 f → pefReportsCount bmc 0x08 p → pefReportsCount bmc 0x0b s →
      f ≤ 254 → p ≤ 254 → s ≤ 254 → 255 ≤ fuel →
      ∃ cfg, Client.GetPEFConfig bmc fuel c
          = .ret ({ sent := c.sent ++ pefTrace f p s }, some cfg, none) ∧
        cfg.SetInProgress = none ∧ cfg.NumberOfGroupControlTableEntries = none ∧
        cfg.GroupControlTable = none ∧
        cfg.NumberOfEventFilters = some { Value := f } ∧
        cfg.NumberOfAlertPolicies = some { Value := p } ∧
        cfg.NumberOfAlertStrings = some { Value := s } ∧
        cfg.EventFilters.length = f ∧ cfg.EventFiltersData1.length = f ∧
        cfg.AlertPolicies.length = p - 1 ∧ cfg.AlertStringKeys.length = s ∧
        cfg.AlertStrings.length = s - 1) ∧
    (∀ f p s, ∀ r ∈ pefTrace f p s, ∃ sel set block,
      r = (Command.CommandGetPEFConfigParameters,
            GetPEFConfigParametersRequest.Pack
              { GetRevisionOnly := false, ParamSelector := sel, SetSelector := set,
                BlockSelector := block })) ∧
    (pefAllSucceed (countingBmc 2 3 2) ∧ pefFormatsReturn (countingBmc 2 3 2) ∧
      pefReportsCount (countingBmc 2 3 2) 0x05 2 ∧ pefReportsCount (countingBmc 2 3 2) 0x08 3 ∧
      pefReportsCount (countingBmc 2 3 2) 0x0b 2 ∧ (pefTrace 2 3 2).length = 17) := by
  refine ⟨⟨preconfBmc_allSucceed, preconfBmc_reports⟩, by rfl,
    ⟨by rfl, preconfBmc_format_stops _ 1 0⟩, GetPEFConfig_preconfBmc, ?_, ?_, ?_,
    ⟨countingBmc_allSucceed 2 3 2, countingBmc_formats 2 3 2, (countingBmc_reports 2 3 2).1,
      (countingBmc_reports 2 3 2).2.1, (countingBmc_reports 2 3 2).2.2, by rfl⟩⟩
  · intro fuel r h
    cases fuel with
    | zero =>
      have h0 : Client.GetPEFConfig preconfBmc 0 {} = .timeout := rfl
      rw [h0] at h
      cases h
    | succ fuel =>
      rw [GetPEFConfig_preconfBmc] at h
      cases h
  · intro bmc c f p s fuel hall hfm hf hp hs hfle hple hsle hfuel
    obtain ⟨cfg, hret, hq⟩ := GetPEFConfig_returns_aggregate bmc fuel c f p s hall hfm hf hp
      hs hfle (by omega) hsle hfuel
    exact ⟨cfg, hret, hq⟩
  · intro f p s
    exact pefTrace_forall _ f p s (fun sel set block _ h2 =>
      ⟨sel, set, block, pefRequest_Pack sel set block h2⟩)

/-- Claim C33 fails at the count 255. On every controller on which each exchange
succeeds and none of whose event filters stops `Format`, `GetPEFConfig` is still
running when its fuel is used up, whatever the fuel, as soon as the controller
reports 255 event filters, or reports 255 alert strings (with at most 254 event
filters): the loops `for i := uint8(1); i <= n; i++` never end for `n = 255`,
because `i++` wraps from 255 to 0. The controllers `countingBmc f p s` meet the
hypotheses for every `f`, `p`, `s`; so `GetPEFConfig` never returns on
`countingBmc 255 3 2` nor on `countingBmc 2 3 255`. It does not return on
`preconfBmc` either, where the counts are 1, 0 and 0 and every exchange returns:
there the run-time stops it in the `Format` call that follows the sixth
exchange. -/
theorem Client.GetPEFConfig_never_returns_at_255 :
    (∀ bmc c fuel, pefAllSucceed bmc → pefFormatsReturn bmc →
      pefReportsCount bmc 0x05 255 →
      Client.GetPEFConfig bmc fuel c = .timeout) ∧
    (∀ bmc c fuel f p, pefAllSucceed bmc → pefFormatsReturn bmc →
      pefReportsCount bmc 0x05 f → f ≤ 254 →
      pefReportsCount bmc 0x08 p → p ≤ 255 → pefReportsCount bmc 0x0b 255 →
      Client.GetPEFConfig bmc fuel c = .timeout) ∧
    (∀ f p s, pefAllSucceed (countingBmc f p s) ∧ pefFormatsReturn (countingBmc f p s) ∧
      pefReportsCount (countingBmc f p s) 0x05 f ∧
      pefReportsCount (countingBmc f p s) 0x08 p ∧
      pefReportsCount (countingBmc f p s) 0x0b s) ∧
    (∀ fuel, Client.GetPEFConfig (countingBmc 255 3 2) fuel {} = .timeout) ∧
    (∀ fuel, Client.GetPEFConfig (countingBmc 2 3 255) fuel {} = .timeout) ∧
    (pefAllSucceed preconfBmc ∧
      ∀ fuel, Client.GetPEFConfig preconfBmc (fuel + 1) {} = .panic) := by
  have h1 : ∀ bmc c fuel, pefAllSucceed bmc → pefFormatsReturn bmc →
      pefReportsCount bmc 0x05 255 →
      Client.GetPEFConfig bmc fuel c = .timeout := by
    intro bmc c fuel hall hfm hf
    obtain ⟨s5, h5, _, hq⟩ :=
      (pefExact_cases (GetPEFConfig_blocks5_exact bmc c False 255 hall hf)).resolve_left
        (fun h => h.2)
    have hloop := GetPEFConfig_EventFilters_255 bmc fuel s5 hall hfm hq.2.2.2.1
    unfold Client.GetPEFConfig
    simp only [h5, Run.ret_none_andThen, hloop, Run.timeout_andThen]
  have h2 : ∀ bmc c fuel f p, pefAllSucceed bmc → pefFormatsReturn bmc →
      pefReportsCount bmc 0x05 f → f ≤ 254 →
      pefReportsCount bmc 0x08 p → p ≤ 255 → pefReportsCount bmc 0x0b 255 →
      Client.GetPEFConfig bmc fuel c = .timeout := by
    intro bmc c fuel f p hall hfm hf hfle hp hple hs
    unfold Client.GetPEFConfig
    rcases pefExact_cases (GetPEFConfig_blocks11_exact bmc fuel c True f p 255 hall hfm hf hp
      hs hfle hple (Or.inl trivial)) with ⟨h11, _⟩ | ⟨s11, h11, _, hq⟩
    · simp only [h11, Run.timeout_andThen]
    · have hloop := GetPEFConfig_AlertStringKeys_255 bmc fuel s11 hall hq.2.2.2.2.2.1
      simp only [h11, Run.ret_none_andThen, hloop, Run.timeout_andThen]
  exact ⟨h1, h2,
    fun f p s => ⟨countingBmc_allSucceed f p s, countingBmc_formats f p s,
      countingBmc_reports f p s⟩,
    fun fuel => h1 _ _ fuel (countingBmc_allSucceed 255 3 2) (countingBmc_formats 255 3 2)
      (countingBmc_reports 255 3 2).1,
    fun fuel => h2 _ _ fuel 2 3 (countingBmc_allSucceed 2 3 255) (countingBmc_formats 2 3 255)
      (countingBmc_reports 2 3 255).1 (by decide) (countingBmc_reports 2 3 255).2.1
      (by decide) (countingBmc_reports 2 3 255).2.2,
    preconfBmc_allSucceed, GetPEFConfig_preconfBmc⟩

end Ipmi
